import Mathlib

/-!
# Subcatchment runoff and quality kernel (`subcatch.c`)

A shallow embedding of the functions of `Source/SWMMOpenMINoGlobals/subcatch.c`.

* C `double` values are rationals (`ℚ`). The definitions of the first part
  compute exactly; the namespace `Rounded` embeds the runoff and parameter
  functions once more with the rounding of every arithmetic operation as a
  parameter, and `roundDouble` is the rounding of IEEE 754 binary64.
* The `Project*` argument is an explicit `Project` value that every function
  takes and returns.
* Arrays are total functions from the index; the loops of the source are folds
  over the index range.
* Functions and constants that live in other files of the program (infiltration,
  LID, land use, ODE solver, unit conversion, `pow`, the named thresholds) are
  the fields of an environment `Env`.
-/

namespace Subcatch

/-! ## Enumerations -/

/-- The three sub-area types of a subcatchment, in index order. -/
inductive SubareaType where
  | IMPERV0
  | IMPERV1
  | PERV
  deriving DecidableEq, Repr

/-- Runoff routing target of a sub-area (`RunoffRoutingWords` order). -/
inductive RouteTo where
  | TO_OUTLET
  | TO_IMPERV
  | TO_PERV
  deriving DecidableEq, Repr

/-- Categories of the pollutant loading ledger. -/
inductive LoadType where
  | BUILDUP_LOAD
  | DEPOSITION_LOAD
  | SWEEPING_LOAD
  | INFIL_LOAD
  | BMP_REMOVAL_LOAD
  | RUNOFF_LOAD
  | FINAL_LOAD
  deriving DecidableEq, Repr

/-- Object classes counted in `Nobjects`. -/
inductive ObjectType where
  | GAGE
  | SUBCATCH
  | NODE
  | POLLUT
  | LANDUSE
  | SNOWMELT
  deriving DecidableEq, Repr

/-- Quantities that `UCF` converts. -/
inductive UnitType where
  | RAINFALL
  | RAINDEPTH
  | EVAPRATE
  | LENGTH
  | LANDAREA
  | FLOW
  deriving DecidableEq, Repr

/-! ## Data model -/

/-- One sub-area of a subcatchment (`TSubarea`). -/
structure TSubarea where
  routeTo : RouteTo
  fOutlet : ℚ
  N : ℚ
  fArea : ℚ
  dStore : ℚ
  alpha : ℚ
  inflow : ℚ
  runoff : ℚ
  depth : ℚ

/-- Land use data of one subcatchment (`TLandFactor`). -/
structure TLandFactor where
  fraction : ℚ
  buildup : Nat → ℚ
  lastSwept : ℚ

/-- The part of a snow pack that this file reads. -/
structure TSnowpack where
  wsnow : SubareaType → ℚ

/-- The part of a groundwater object that this file reads. -/
structure TGroundwater where
  aquifer : Nat
  maxInfilVol : ℚ
  oldFlow : ℚ
  newFlow : ℚ
  lowerDepth : ℚ
  theta : ℚ

/-- A subcatchment (`TSubcatch`). -/
structure TSubcatch where
  gage : Int
  outNode : Int
  outSubcatch : Int
  infil : Int
  area : ℚ
  fracImperv : ℚ
  width : ℚ
  slope : ℚ
  curbLength : ℚ
  lidArea : ℚ
  rainfall : ℚ
  oldRunoff : ℚ
  newRunoff : ℚ
  oldSnowDepth : ℚ
  newSnowDepth : ℚ
  runon : ℚ
  evapLoss : ℚ
  infilLoss : ℚ
  subArea : SubareaType → TSubarea
  landFactor : Nat → TLandFactor
  snowpack : Option TSnowpack
  groundwater : Option TGroundwater
  initBuildup : Nat → ℚ
  oldQual : Nat → ℚ
  newQual : Nat → ℚ
  pondedQual : Nat → ℚ
  totalLoad : Nat → ℚ

/-- The part of a pollutant that this file reads (`TPollut`). -/
structure TPollut where
  snowOnly : Bool
  mcf : ℚ
  pptConcen : ℚ

/-- The part of a washoff function that this file reads. -/
structure TWashoff where
  sweepEffic : ℚ

/-- The part of a land use that this file reads (`TLanduse`). -/
structure TLanduse where
  sweepInterval : ℚ
  sweepRemoval : ℚ
  washoffFunc : Nat → TWashoff

/-- One call of `massbal_updateLoadingTotals(project, type, p, w)`. -/
structure Posting where
  type : LoadType
  p : Nat
  w : ℚ
  deriving DecidableEq

/-- The part of the evaporation state (`project->Evap`) that this file reads. -/
structure TEvap where
  rate : ℚ
  dryOnly : Bool

/-- The part of a rain gage that this file reads. -/
structure TGage where
  reportRainfall : ℚ

/-- The part of an aquifer that this file reads. -/
structure TAquifer where
  bottomElev : ℚ

/-- One call of `massbal_updateRunoffTotals`: the volumes handed to the runoff
totals of the system flow balance. -/
structure RunoffTotals where
  vRainfall : ℚ
  vEvap : ℚ
  vInfil : ℚ
  vRunoff : ℚ
  deriving DecidableEq

/-- One call of `stats_updateSubcatchStats`: the subcatchment and the volumes and
rate handed to the statistics. -/
structure SubcatchStats where
  j : Nat
  rainVol : ℚ
  runonVol : ℚ
  evapVol : ℚ
  infilVol : ℚ
  runoffVol : ℚ
  runoff : ℚ
  deriving DecidableEq

/-- What `snow_getSnowMelt` hands back: its return value, the net precipitation
it writes for each sub-area and the snow pack it leaves. -/
structure SnowMeltResult where
  snowDepth : ℚ
  netPrecip : SubareaType → ℚ
  snowpack : TSnowpack

/-- What `lid_getRunoff` hands back: its return value and the four totals it
updates through its pointer arguments. -/
structure LidRunoffResult where
  runoff : ℚ
  outflow : ℚ
  evapVol : ℚ
  pervEvapVol : ℚ
  infilVol : ℚ

/-- Error messages: the one `subcatch_validate` writes itself and those, told
apart by a number, of the routine it calls. -/
inductive ReportCode where
  | ERR_SUBCATCH_OUTLET
  | ERR_OTHER (code : Nat)
  deriving DecidableEq, Repr

/-- One call of `report_writeErrorMsg`: the message and the subcatchment it is
about. -/
structure ErrorReport where
  code : ReportCode
  j : Nat
  deriving DecidableEq

/-- What `gwater_validate` hands back: the groundwater object it leaves and the
errors it reports. -/
structure GwaterValidation where
  groundwater : Option TGroundwater
  reports : List ErrorReport

/-- The project state that the functions of `subcatch.c` read and write.
`theSubarea` holds the sub-area the pointer of that name refers to and
`ledger` records, oldest first, the calls made to the loading ledger;
`runoffTotals` and `subcatchStats` record the calls made to the runoff totals of
the flow balance and to the subcatchment statistics, `errorReports` the error
messages written. -/
structure Project where
  Nobjects : ObjectType → Nat
  Subcatch : Nat → TSubcatch
  Pollut : Nat → TPollut
  Landuse : Nat → TLanduse
  InfilModel : Int
  IgnoreGwater : Bool
  IgnoreSnowmelt : Bool
  IgnoreQuality : Bool
  Losses : ℚ
  Outflow : ℚ
  Vrain : ℚ
  Vevap : ℚ
  Vinfil : ℚ
  Vrunon : ℚ
  Vponded : ℚ
  Voutflow : ℚ
  theSubarea : TSubarea
  OutflowLoad : Nat → ℚ
  WashoffLoad : Nat → ℚ
  ledger : List Posting
  Evap : TEvap
  Gage : Nat → TGage
  Aquifer : Nat → TAquifer
  runoffTotals : List RunoffTotals
  subcatchStats : List SubcatchStats
  errorReports : List ErrorReport

/-- What `landuse_getWashoff` hands back: the land factors and washoff loads it
was given pointers to, and the ledger calls it made. -/
structure WashoffResult where
  landFactor : Nat → TLandFactor
  washoffLoad : Nat → ℚ
  postings : List Posting

/-- Constants and functions that `subcatch.c` takes from the rest of the program
(`headers.h`, `lid.h`, `odesolve.h`, `math.h`). Their definitions are not in this
file, so every result below holds for any choice of them. -/
structure Env where
  ZERO : ℚ
  MIN_RUNOFF : ℚ
  MIN_RUNOFF_FLOW : ℚ
  MIN_TOTAL_DEPTH : ℚ
  LperFT3 : ℚ
  UCF : Project → UnitType → ℚ
  pow : ℚ → ℚ → ℚ
  infil_getInfil : Project → Nat → Int → ℚ → ℚ → ℚ → ℚ → ℚ
  odesolve_integrate : Project → ℚ → Nat → ℚ → ℚ → ℚ → ℚ → (ℚ → ℚ → ℚ) → ℚ
  lid_getFlowToPerv : Project → Nat → ℚ
  lid_getSurfaceDepth : Project → Nat → ℚ
  landuse_getBuildup : Project → Nat → Nat → ℚ → ℚ → ℚ → ℚ → ℚ
  landuse_getWashoff : Project → Nat → ℚ → (Nat → TLandFactor) → ℚ → ℚ → (Nat → ℚ) →
    WashoffResult
  landuse_getCoPollutLoad : Project → Nat → (Nat → ℚ) → ℚ
  landuse_getAvgBmpEffic : Project → Nat → Nat → ℚ
  gage_getPrecip : Project → Nat → ℚ × ℚ
  containsSubcatchRain : Project → Nat → Option ℚ
  snow_getSnowMelt : Project → Nat → ℚ → ℚ → ℚ → SnowMeltResult
  lid_getRunoff : Project → Nat → ℚ → ℚ → ℚ → ℚ → ℚ → LidRunoffResult
  gwater_getGroundwater : Project → Nat → ℚ → ℚ → ℚ → TGroundwater
  project_findObject : Project → ObjectType → String → Int
  getDouble : String → Option ℚ
  findmatch : String → List String → Int
  w_OUTLET : String
  w_IMPERV : String
  w_PERV : String
  sqrt : ℚ → ℚ
  gwater_validate : Project → Nat → GwaterValidation

/-! ## Constants of `subcatch.c` -/

/-- Constant in Manning Eq. -/
def MCOEFF : ℚ := 149 / 100

/-- Exponent in Manning Eq. -/
def MEXP : ℚ := 16666667 / 10000000

/-- Acceptable error for ODE solver. -/
def ODETOL : ℚ := 1 / 10000

/-- Modelled from the spec: the macro `MIN` of the program's macro header, which
is not among the sources; the smaller of its two arguments. -/
def MIN (x y : ℚ) : ℚ := if x ≤ y then x else y

/-- Modelled from the spec: the macro `MAX` of the program's macro header, which
is not among the sources; the larger of its two arguments. -/
def MAX (x y : ℚ) : ℚ := if x ≥ y then x else y

/-! ## Access to the state -/

/-- The sub-area `project->Subcatch[j].subArea[i]`. -/
def getSubarea (project : Project) (j : Nat) (i : SubareaType) : TSubarea :=
  (project.Subcatch j).subArea i

/-- Store `sa` in `project->Subcatch[j].subArea[i]`. -/
def setSubarea (project : Project) (j : Nat) (i : SubareaType) (sa : TSubarea) : Project :=
  { project with
    Subcatch := Function.update project.Subcatch j
      { project.Subcatch j with
        subArea := Function.update (project.Subcatch j).subArea i sa } }

/-- Store `sc` in `project->Subcatch[j]`. -/
def setSubcatch (project : Project) (j : Nat) (sc : TSubcatch) : Project :=
  { project with Subcatch := Function.update project.Subcatch j sc }

/-- Modelled from the spec: `massbal_updateLoadingTotals` of the global
conservation ledger (`postLoadingMass(category, pollutantId, deltaMass)`), whose
file is not among the sources; the call is appended to the ledger. -/
def massbal_updateLoadingTotals (project : Project) (type : LoadType) (p : Nat) (w : ℚ) :
    Project :=
  { project with ledger := project.ledger ++ [⟨type, p, w⟩] }

/-- The entries of a ledger for one category and one pollutant. -/
def postedTo (l : List Posting) (type : LoadType) (p : Nat) : List ℚ :=
  (l.filter (fun e => decide (e.type = type ∧ e.p = p))).map (fun e => e.w)

/-! ## Sub-area methods -/

/-- Source `getDdDt`: derivative of stored depth with respect to time for the
sub-area whose runoff is being computed. -/
def getDdDt (env : Env) (project : Project) (_t : ℚ) (d : ℚ) : ℚ :=
  let ix := project.theSubarea.inflow - project.Losses
  let rx := d - project.theSubarea.dStore
  let rx := if rx < 0 then 0 else project.theSubarea.alpha * env.pow rx MEXP
  ix - rx

/-- Source `getSubareaInfil`: infiltration rate at the current time step. -/
def getSubareaInfil (env : Env) (project : Project) (j : Nat) (subarea : TSubarea)
    (precip tStep : ℚ) : ℚ :=
  let infil := env.infil_getInfil project j project.InfilModel tStep precip
    subarea.inflow subarea.depth
  match project.IgnoreGwater, (project.Subcatch j).groundwater with
  | false, some gw => MIN infil (gw.maxInfilVol / tStep)
  | _, _ => infil

/-- Source `findSubareaRunoff`: runoff from a sub-area after the current time
step, from its updated ponded depth. -/
def findSubareaRunoff (env : Env) (subarea : TSubarea) (tRunoff : ℚ) : TSubarea :=
  let xDepth := subarea.depth - subarea.dStore
  if xDepth > env.ZERO then
    if subarea.N > 0 then
      { subarea with runoff := subarea.alpha * env.pow xDepth MEXP }
    else
      { subarea with runoff := xDepth / tRunoff, depth := subarea.dStore }
  else
    { subarea with runoff := 0 }

/-- Source `updatePondedDepth`: new ponded depth over a sub-area after the
current time step. Returns the project, the sub-area and the time the ponded
depth is above depression storage. -/
def updatePondedDepth (env : Env) (project : Project) (subarea : TSubarea) (dt : ℚ) :
    Project × TSubarea × ℚ :=
  let tx := dt
  let ix := subarea.inflow - project.Losses
  let stepped : Project × TSubarea × ℚ :=
    if subarea.depth + ix * tx ≤ subarea.dStore then
      (project, { subarea with depth := subarea.depth + ix * tx }, tx)
    else
      let dx := subarea.dStore - subarea.depth
      let filled : TSubarea × ℚ :=
        if dx > 0 ∧ ix > 0 then ({ subarea with depth := subarea.dStore }, tx - dx / ix)
        else (subarea, tx)
      let subarea := filled.1
      let tx := filled.2
      if subarea.alpha > 0 ∧ tx > 0 then
        let project := { project with theSubarea := subarea }
        (project,
         { subarea with
           depth := env.odesolve_integrate project subarea.depth 1 0 tx ODETOL tx
             (getDdDt env project) },
         tx)
      else
        let tx := if tx < 0 then 0 else tx
        (project, { subarea with depth := subarea.depth + ix * tx }, tx)
  let project := stepped.1
  let subarea := stepped.2.1
  let tx := stepped.2.2
  let subarea := if subarea.depth < 0 then { subarea with depth := 0 } else subarea
  (project, subarea, tx)

/-- Source `getSubareaRunoff`: runoff and losses from sub-area `i` of
subcatchment `j` over the current time step. -/
def getSubareaRunoff (env : Env) (project : Project) (j : Nat) (i : SubareaType)
    (precip evap tStep : ℚ) : Project :=
  let tRunoff := tStep
  let oldRunoff := (getSubarea project j i).runoff
  let project := setSubarea project j i { getSubarea project j i with runoff := 0 }
  let project := { project with
    Vevap := 0, Vinfil := 0, Voutflow := 0, Losses := 0, Outflow := 0 }
  if (getSubarea project j i).fArea = 0 then project
  else
    let surfMoisture := (getSubarea project j i).depth / tStep
    let surfEvap := MIN surfMoisture evap
    let infil : ℚ :=
      if i = SubareaType.PERV then
        getSubareaInfil env project j (getSubarea project j i) precip tStep
      else 0
    let project := setSubarea project j i
      { getSubarea project j i with inflow := (getSubarea project j i).inflow + precip }
    let surfMoisture := surfMoisture + (getSubarea project j i).inflow
    let project := { project with Vevap := surfEvap * tStep, Vinfil := infil * tStep }
    let project := { project with Losses := surfEvap + infil }
    let ponded : Project × TSubarea × ℚ :=
      if project.Losses ≥ surfMoisture then
        ({ project with Losses := surfMoisture },
         { getSubarea project j i with depth := 0 }, tRunoff)
      else updatePondedDepth env project (getSubarea project j i) tRunoff
    let project := setSubarea ponded.1 j i ponded.2.1
    let tRunoff := ponded.2.2
    let project := setSubarea project j i
      (findSubareaRunoff env (getSubarea project j i) tRunoff)
    if (getSubarea project j i).fOutlet > 0 then
      { project with
        Voutflow := (1 / 2) * (oldRunoff + (getSubarea project j i).runoff) * tRunoff
          * (getSubarea project j i).fOutlet,
        Outflow := (getSubarea project j i).fOutlet * (getSubarea project j i).runoff }
    else project

/-! ## Subcatchment methods -/

/-- The sub-area types in the order of the loops `for (i = IMPERV0; i <= PERV; i++)`. -/
def subareaTypes : List SubareaType :=
  [SubareaType.IMPERV0, SubareaType.IMPERV1, SubareaType.PERV]

/-- Source `subcatch_setOldState`: replaces old state of subcatchment with new
state. -/
def subcatch_setOldState (project : Project) (j : Nat) : Project :=
  let project := setSubcatch project j
    { project.Subcatch j with oldRunoff := (project.Subcatch j).newRunoff }
  let project := setSubcatch project j
    { project.Subcatch j with oldSnowDepth := (project.Subcatch j).newSnowDepth }
  let project := subareaTypes.foldl
    (fun project i => setSubarea project j i { getSubarea project j i with inflow := 0 })
    project
  (List.range (project.Nobjects ObjectType.POLLUT)).foldl
    (fun project i =>
      let project := setSubcatch project j
        { project.Subcatch j with
          oldQual := Function.update (project.Subcatch j).oldQual i
            ((project.Subcatch j).newQual i) }
      setSubcatch project j
        { project.Subcatch j with
          newQual := Function.update (project.Subcatch j).newQual i 0 })
    project

/-- Source `subcatch_getRunon`: routes runoff from a subcatchment to its outlet
subcatchment or between its sub-areas. The outlet index `k` is an `int`; it
indexes `Subcatch` only after the test `k >= 0`. -/
def subcatch_getRunon (env : Env) (project : Project) (j : Nat) : Project :=
  let k := (project.Subcatch j).outSubcatch
  let project :=
    if k ≥ 0 ∧ k ≠ (j : Int) ∧ (project.Subcatch k.toNat).area > 0 then
      let q := (project.Subcatch j).oldRunoff / (project.Subcatch k.toNat).area
      let project := setSubcatch project k.toNat
        { project.Subcatch k.toNat with runon := (project.Subcatch k.toNat).runon + q }
      let project := subareaTypes.foldl
        (fun project i => setSubarea project k.toNat i
          { getSubarea project k.toNat i with
            inflow := (getSubarea project k.toNat i).inflow + q })
        project
      (List.range (project.Nobjects ObjectType.POLLUT)).foldl
        (fun project i => setSubcatch project k.toNat
          { project.Subcatch k.toNat with
            newQual := Function.update (project.Subcatch k.toNat).newQual i
              ((project.Subcatch k.toNat).newQual i +
                (project.Subcatch j).oldRunoff * (project.Subcatch j).oldQual i *
                  env.LperFT3) })
        project
    else project
  let project :=
    if (project.Subcatch j).fracImperv < 1 ∧
        (getSubarea project j SubareaType.IMPERV0).routeTo = RouteTo.TO_PERV then
      let q1 := (getSubarea project j SubareaType.IMPERV0).runoff *
        (getSubarea project j SubareaType.IMPERV0).fArea
      let q2 := (getSubarea project j SubareaType.IMPERV1).runoff *
        (getSubarea project j SubareaType.IMPERV1).fArea
      let q := q1 + q2
      setSubarea project j SubareaType.PERV
        { getSubarea project j SubareaType.PERV with
          inflow := (getSubarea project j SubareaType.PERV).inflow +
            q * (1 - (getSubarea project j SubareaType.IMPERV0).fOutlet) /
              (getSubarea project j SubareaType.PERV).fArea }
    else project
  let project :=
    if (project.Subcatch j).fracImperv > 0 ∧
        (getSubarea project j SubareaType.PERV).routeTo = RouteTo.TO_IMPERV ∧
        (getSubarea project j SubareaType.IMPERV1).fArea > 0 then
      let q := (getSubarea project j SubareaType.PERV).runoff
      setSubarea project j SubareaType.IMPERV1
        { getSubarea project j SubareaType.IMPERV1 with
          inflow := (getSubarea project j SubareaType.IMPERV1).inflow +
            q * (1 - (getSubarea project j SubareaType.PERV).fOutlet) *
              (getSubarea project j SubareaType.PERV).fArea /
              (getSubarea project j SubareaType.IMPERV1).fArea }
    else project
  if (project.Subcatch j).lidArea > 0 ∧ (project.Subcatch j).fracImperv < 1 then
    let pervArea := (getSubarea project j SubareaType.PERV).fArea *
      ((project.Subcatch j).area - (project.Subcatch j).lidArea)
    if pervArea > 0 then
      setSubarea project j SubareaType.PERV
        { getSubarea project j SubareaType.PERV with
          inflow := (getSubarea project j SubareaType.PERV).inflow +
            env.lid_getFlowToPerv project j / pervArea }
    else project
  else project

/-- Source `subcatch_getDepth`: average depth of water over a subcatchment. -/
def subcatch_getDepth (env : Env) (project : Project) (j : Nat) : ℚ :=
  let depth : ℚ := subareaTypes.foldl
    (fun depth i =>
      let fArea := (getSubarea project j i).fArea
      if fArea > 0 then depth + (getSubarea project j i).depth * fArea else depth)
    0
  if (project.Subcatch j).lidArea > 0 then
    (depth * ((project.Subcatch j).area - (project.Subcatch j).lidArea) +
      env.lid_getSurfaceDepth project j * (project.Subcatch j).lidArea) /
        (project.Subcatch j).area
  else depth

/-- Store `v` in `project->Subcatch[j].landFactor[i].buildup[p]`. -/
def setBuildup (project : Project) (j i p : Nat) (v : ℚ) : Project :=
  setSubcatch project j
    { project.Subcatch j with
      landFactor := Function.update (project.Subcatch j).landFactor i
        { (project.Subcatch j).landFactor i with
          buildup := Function.update ((project.Subcatch j).landFactor i).buildup p v } }

/-- Source `subcatch_getBuildup`: adds to pollutant buildup on subcatchment. -/
def subcatch_getBuildup (env : Env) (project : Project) (j : Nat) (tStep : ℚ) : Project :=
  (List.range (project.Nobjects ObjectType.LANDUSE)).foldl
    (fun project i =>
      let f := ((project.Subcatch j).landFactor i).fraction
      if f = 0 then project
      else
        let area := f * (project.Subcatch j).area * env.UCF project UnitType.LANDAREA
        let curb := f * (project.Subcatch j).curbLength
        (List.range (project.Nobjects ObjectType.POLLUT)).foldl
          (fun project p =>
            if (project.Pollut p).snowOnly = true ∧
                (project.Subcatch j).newSnowDepth < (1 / 1000) / 12 then project
            else
              let oldBuildup := ((project.Subcatch j).landFactor i).buildup p
              let newBuildup := env.landuse_getBuildup project i p area curb oldBuildup tStep
              let newBuildup := MAX newBuildup oldBuildup
              let project := setBuildup project j i p newBuildup
              massbal_updateLoadingTotals project LoadType.BUILDUP_LOAD p
                (newBuildup - oldBuildup))
          project)
    project

/-- Source `subcatch_sweepBuildup`: reduces pollutant buildup over a
subcatchment if sweeping occurs. -/
def subcatch_sweepBuildup (env : Env) (project : Project) (j : Nat) (aDate : ℚ) : Project :=
  let snowed : Bool :=
    match (project.Subcatch j).snowpack with
    | some snowpack => decide (snowpack.wsnow SubareaType.IMPERV0 > env.MIN_TOTAL_DEPTH)
    | none => false
  if snowed = true then project
  else
    (List.range (project.Nobjects ObjectType.LANDUSE)).foldl
      (fun project i =>
        if ((project.Subcatch j).landFactor i).fraction = 0 then project
        else if (project.Landuse i).sweepInterval = 0 then project
        else if aDate - ((project.Subcatch j).landFactor i).lastSwept ≥
            (project.Landuse i).sweepInterval then
          let project := setSubcatch project j
            { project.Subcatch j with
              landFactor := Function.update (project.Subcatch j).landFactor i
                { (project.Subcatch j).landFactor i with lastSwept := aDate } }
          (List.range (project.Nobjects ObjectType.POLLUT)).foldl
            (fun project p =>
              let oldBuildup := ((project.Subcatch j).landFactor i).buildup p
              let newBuildup := oldBuildup * (1 - (project.Landuse i).sweepRemoval *
                ((project.Landuse i).washoffFunc p).sweepEffic)
              let newBuildup := MIN oldBuildup newBuildup
              let newBuildup := MAX 0 newBuildup
              let project := setBuildup project j i p newBuildup
              massbal_updateLoadingTotals project LoadType.SWEEPING_LOAD p
                (oldBuildup - newBuildup))
            project
        else project)
      project

/-- Source `updatePondedQual`: complete-mix mass balance of the pollutants in
the ponded surface water. Its only call passes `Subcatch[j].newQual` as `wRunon`
and `Subcatch[j].pondedQual` as `pondedQual`, so both arrays are those of
subcatchment `j`. -/
def updatePondedQual (env : Env) (project : Project) (j : Nat) (tStep : ℚ) : Project :=
  let vIn := project.Vrain + project.Vrunon
  let isDry : Bool := decide (project.Vponded + vIn = 0)
  (List.range (project.Nobjects ObjectType.POLLUT)).foldl
    (fun project p =>
      let wPpt := (project.Pollut p).pptConcen * env.LperFT3 * project.Vrain
      let project := massbal_updateLoadingTotals project LoadType.DEPOSITION_LOAD p
        (wPpt * (project.Pollut p).mcf)
      if isDry = true then
        let project := massbal_updateLoadingTotals project LoadType.FINAL_LOAD p
          ((project.Subcatch j).pondedQual p * (project.Pollut p).mcf)
        let project := setSubcatch project j
          { project.Subcatch j with
            pondedQual := Function.update (project.Subcatch j).pondedQual p 0 }
        { project with OutflowLoad := Function.update project.OutflowLoad p 0 }
      else
        let w1 := (project.Subcatch j).pondedQual p + wPpt +
          (project.Subcatch j).newQual p * tStep
        let c := w1 / (project.Vponded + vIn)
        let wInfil := c * project.Vinfil
        let wInfil := MIN wInfil w1
        let project := massbal_updateLoadingTotals project LoadType.INFIL_LOAD p
          (wInfil * (project.Pollut p).mcf)
        let w1 := w1 - wInfil
        let project :=
          { project with
            OutflowLoad := Function.update project.OutflowLoad p (MIN w1 (c * project.Voutflow)) }
        let bmpRemoval := env.landuse_getAvgBmpEffic project j p * project.OutflowLoad p
        let project := massbal_updateLoadingTotals project LoadType.BMP_REMOVAL_LOAD p
          (bmpRemoval * (project.Pollut p).mcf)
        let project :=
          { project with
            OutflowLoad := Function.update project.OutflowLoad p
              (project.OutflowLoad p - bmpRemoval) }
        setSubcatch project j
          { project.Subcatch j with
            pondedQual := Function.update (project.Subcatch j).pondedQual p
              (c * subcatch_getDepth env project j * (project.Subcatch j).area) })
    project

/-- Source `subcatch_getWashoff`: computes new runoff quality for subcatchment.
`landuse_getWashoff` receives pointers to the land factors of the subcatchment
and to `WashoffLoad`; what it leaves there and the ledger calls it makes are
taken over from its result. -/
def subcatch_getWashoff (env : Env) (project : Project) (j : Nat) (runoff tStep : ℚ) :
    Project :=
  if project.Nobjects ObjectType.POLLUT = 0 ∨ (project.Subcatch j).area = 0 then project
  else
    let project := (List.range (project.Nobjects ObjectType.POLLUT)).foldl
      (fun project p =>
        { project with
          WashoffLoad := Function.update project.WashoffLoad p 0,
          OutflowLoad := Function.update project.OutflowLoad p 0 })
      project
    let project := updatePondedQual env project j tStep
    let project :=
      if runoff ≥ env.MIN_RUNOFF then
        let project := (List.range (project.Nobjects ObjectType.LANDUSE)).foldl
          (fun project i =>
            if ((project.Subcatch j).landFactor i).fraction > 0 then
              let r := env.landuse_getWashoff project i (project.Subcatch j).area
                (project.Subcatch j).landFactor runoff tStep project.WashoffLoad
              { setSubcatch project j { project.Subcatch j with landFactor := r.landFactor } with
                WashoffLoad := r.washoffLoad,
                ledger := project.ledger ++ r.postings }
            else project)
          project
        (List.range (project.Nobjects ObjectType.POLLUT)).foldl
          (fun project p =>
            let project :=
              { project with
                WashoffLoad := Function.update project.WashoffLoad p
                  (project.WashoffLoad p +
                    env.landuse_getCoPollutLoad project p project.WashoffLoad) }
            { project with
              OutflowLoad := Function.update project.OutflowLoad p
                (project.OutflowLoad p + project.WashoffLoad p) })
          project
      else project
    let runoff := (project.Subcatch j).newRunoff
    (List.range (project.Nobjects ObjectType.POLLUT)).foldl
      (fun project p =>
        let massLoad := project.OutflowLoad p * (project.Pollut p).mcf
        let project := setSubcatch project j
          { project.Subcatch j with
            totalLoad := Function.update (project.Subcatch j).totalLoad p
              ((project.Subcatch j).totalLoad p + massLoad) }
        let project :=
          if (project.Subcatch j).outNode ≥ 0 ∨ (project.Subcatch j).outSubcatch = (j : Int) then
            massbal_updateLoadingTotals project LoadType.RUNOFF_LOAD p massLoad
          else project
        if runoff > env.MIN_RUNOFF then
          setSubcatch project j
            { project.Subcatch j with
              newQual := Function.update (project.Subcatch j).newQual p
                (project.OutflowLoad p / (runoff * tStep * env.LperFT3)) }
        else
          setSubcatch project j
            { project.Subcatch j with
              newQual := Function.update (project.Subcatch j).newQual p 0 })
      project

/-- Source `subcatch_getWtdOutflow`: weighted combination of old and new
subcatchment runoff. -/
def subcatch_getWtdOutflow (project : Project) (j : Nat) (f : ℚ) : ℚ :=
  if (project.Subcatch j).area = 0 then 0
  else (1 - f) * (project.Subcatch j).oldRunoff + f * (project.Subcatch j).newRunoff

/-! ## Sample states -/

/-- A sub-area with every quantity zero, routed to the outlet. -/
def zeroSubarea : TSubarea :=
  { routeTo := RouteTo.TO_OUTLET, fOutlet := 0, N := 0, fArea := 0, dStore := 0, alpha := 0,
    inflow := 0, runoff := 0, depth := 0 }

/-- A subcatchment with no outlet, no gage and every quantity zero. -/
def zeroSubcatch : TSubcatch :=
  { gage := -1, outNode := -1, outSubcatch := -1, infil := -1, area := 0, fracImperv := 0,
    width := 0, slope := 0, curbLength := 0, lidArea := 0, rainfall := 0, oldRunoff := 0,
    newRunoff := 0, oldSnowDepth := 0, newSnowDepth := 0, runon := 0, evapLoss := 0,
    infilLoss := 0, subArea := fun _ => zeroSubarea,
    landFactor := fun _ => { fraction := 0, buildup := fun _ => 0, lastSwept := 0 },
    snowpack := none, groundwater := none, initBuildup := fun _ => 0, oldQual := fun _ => 0,
    newQual := fun _ => 0, pondedQual := fun _ => 0, totalLoad := fun _ => 0 }

/-- A project of `zeroSubcatch` subcatchments with one pollutant and one land use. -/
def zeroProject : Project :=
  { Nobjects := fun t =>
      match t with
      | ObjectType.POLLUT => 1
      | ObjectType.LANDUSE => 1
      | ObjectType.SUBCATCH => 2
      | _ => 0,
    Subcatch := fun _ => zeroSubcatch,
    Pollut := fun _ => { snowOnly := false, mcf := 1, pptConcen := 0 },
    Landuse := fun _ =>
      { sweepInterval := 0, sweepRemoval := 0, washoffFunc := fun _ => { sweepEffic := 0 } },
    InfilModel := 0, IgnoreGwater := true, IgnoreSnowmelt := true, IgnoreQuality := false,
    Losses := 0, Outflow := 0, Vrain := 0, Vevap := 0, Vinfil := 0, Vrunon := 0, Vponded := 0,
    Voutflow := 0, theSubarea := zeroSubarea, OutflowLoad := fun _ => 0,
    WashoffLoad := fun _ => 0, ledger := [],
    Evap := { rate := 0, dryOnly := false }, Gage := fun _ => { reportRainfall := 0 },
    Aquifer := fun _ => { bottomElev := 0 }, runoffTotals := [], subcatchStats := [],
    errorReports := [] }

/-- An environment whose thresholds are `ZERO = 1e-10`, `MIN_RUNOFF = 2.31481e-8`,
`MIN_RUNOFF_FLOW = 0.001`, `MIN_TOTAL_DEPTH = 0.004167`, `LperFT3 = 28.317`, whose
conversion factors are 1 and whose collaborators all answer zero and change
nothing; the ODE solver hands back the depth it was given. -/
def basicEnv : Env :=
  { ZERO := 1 / 10000000000, MIN_RUNOFF := 231481 / 10000000000000,
    MIN_RUNOFF_FLOW := 1 / 1000, MIN_TOTAL_DEPTH := 4167 / 1000000, LperFT3 := 28317 / 1000,
    UCF := fun _ _ => 1, pow := fun _ _ => 0,
    infil_getInfil := fun _ _ _ _ _ _ _ => 0,
    odesolve_integrate := fun _ y _ _ _ _ _ _ => y,
    lid_getFlowToPerv := fun _ _ => 0, lid_getSurfaceDepth := fun _ _ => 0,
    landuse_getBuildup := fun _ _ _ _ _ b _ => b,
    landuse_getWashoff := fun _ _ _ lf _ _ w => { landFactor := lf, washoffLoad := w, postings := [] },
    landuse_getCoPollutLoad := fun _ _ _ => 0,
    landuse_getAvgBmpEffic := fun _ _ _ => 0,
    gage_getPrecip := fun _ _ => (0, 0),
    containsSubcatchRain := fun _ _ => none,
    snow_getSnowMelt := fun _ _ _ _ _ =>
      { snowDepth := 0, netPrecip := fun _ => 0, snowpack := { wsnow := fun _ => 0 } },
    lid_getRunoff := fun _ _ outflow evapVol pervEvapVol infilVol _ =>
      { runoff := 0, outflow := outflow, evapVol := evapVol, pervEvapVol := pervEvapVol,
        infilVol := infilVol },
    gwater_getGroundwater := fun _ _ _ _ _ =>
      { aquifer := 0, maxInfilVol := 0, oldFlow := 0, newFlow := 0, lowerDepth := 0, theta := 0 },
    project_findObject := fun _ _ _ => 0,
    getDouble := fun _ => some 50,
    findmatch := fun _ _ => 0,
    w_OUTLET := "OUTLET", w_IMPERV := "IMPERVIOUS", w_PERV := "PERVIOUS",
    sqrt := Rat.sqrt,
    gwater_validate := fun project j =>
      { groundwater := (project.Subcatch j).groundwater, reports := [] } }

/-- Subcatchment 0 has zero area and an old runoff of 1. -/
def zeroAreaProject : Project :=
  { zeroProject with
    Subcatch := fun _ => { zeroSubcatch with area := 0, oldRunoff := 1, newRunoff := 3 } }

/-- Every subcatchment has area 2, old runoff 1, new runoff 3 and new quality 5. -/
def wetProject : Project :=
  { zeroProject with
    Subcatch := fun _ =>
      { zeroSubcatch with area := 2, oldRunoff := 1, newRunoff := 3, newQual := fun _ => 5 } }


/-! ## The four blocks of `subcatch_getRunon` -/

/-- Add `x` to the inflow of sub-area `i` of subcatchment `m`. -/
def addInflow (project : Project) (m : Nat) (i : SubareaType) (x : ℚ) : Project :=
  setSubarea project m i
    { getSubarea project m i with inflow := (getSubarea project m i).inflow + x }

/-- Add `x` to the runon of subcatchment `m`. -/
def addRunon (project : Project) (m : Nat) (x : ℚ) : Project :=
  setSubcatch project m { project.Subcatch m with runon := (project.Subcatch m).runon + x }

/-- Add `c p` to `newQual[p]` of subcatchment `m` for the pollutants `p < n`. -/
def addQual (project : Project) (m n : Nat) (c : Nat → ℚ) : Project :=
  setSubcatch project m
    { project.Subcatch m with
      newQual := fun p =>
        if p < n then (project.Subcatch m).newQual p + c p else (project.Subcatch m).newQual p }

/-- First block of `subcatch_getRunon`: previous runoff of `j` to the runon,
sub-area inflows and incoming mass of its outlet subcatchment. -/
def runonToOutlet (env : Env) (project : Project) (j : Nat) : Project :=
  let k := (project.Subcatch j).outSubcatch
  if k ≥ 0 ∧ k ≠ (j : Int) ∧ (project.Subcatch k.toNat).area > 0 then
    let q := (project.Subcatch j).oldRunoff / (project.Subcatch k.toNat).area
    let project := setSubcatch project k.toNat
      { project.Subcatch k.toNat with runon := (project.Subcatch k.toNat).runon + q }
    let project := subareaTypes.foldl
      (fun project i => setSubarea project k.toNat i
        { getSubarea project k.toNat i with
          inflow := (getSubarea project k.toNat i).inflow + q })
      project
    (List.range (project.Nobjects ObjectType.POLLUT)).foldl
      (fun project i => setSubcatch project k.toNat
        { project.Subcatch k.toNat with
          newQual := Function.update (project.Subcatch k.toNat).newQual i
            ((project.Subcatch k.toNat).newQual i +
              (project.Subcatch j).oldRunoff * (project.Subcatch j).oldQual i *
                env.LperFT3) })
      project
  else project

/-- Second block of `subcatch_getRunon` (case 1: imperv to perv). -/
def runonImpervToPerv (project : Project) (j : Nat) : Project :=
  if (project.Subcatch j).fracImperv < 1 ∧
      (getSubarea project j SubareaType.IMPERV0).routeTo = RouteTo.TO_PERV then
    let q1 := (getSubarea project j SubareaType.IMPERV0).runoff *
      (getSubarea project j SubareaType.IMPERV0).fArea
    let q2 := (getSubarea project j SubareaType.IMPERV1).runoff *
      (getSubarea project j SubareaType.IMPERV1).fArea
    let q := q1 + q2
    setSubarea project j SubareaType.PERV
      { getSubarea project j SubareaType.PERV with
        inflow := (getSubarea project j SubareaType.PERV).inflow +
          q * (1 - (getSubarea project j SubareaType.IMPERV0).fOutlet) /
            (getSubarea project j SubareaType.PERV).fArea }
  else project

/-- Third block of `subcatch_getRunon` (case 2: perv to imperv). -/
def runonPervToImperv (project : Project) (j : Nat) : Project :=
  if (project.Subcatch j).fracImperv > 0 ∧
      (getSubarea project j SubareaType.PERV).routeTo = RouteTo.TO_IMPERV ∧
      (getSubarea project j SubareaType.IMPERV1).fArea > 0 then
    let q := (getSubarea project j SubareaType.PERV).runoff
    setSubarea project j SubareaType.IMPERV1
      { getSubarea project j SubareaType.IMPERV1 with
        inflow := (getSubarea project j SubareaType.IMPERV1).inflow +
          q * (1 - (getSubarea project j SubareaType.PERV).fOutlet) *
            (getSubarea project j SubareaType.PERV).fArea /
            (getSubarea project j SubareaType.IMPERV1).fArea }
  else project

/-- Fourth block of `subcatch_getRunon`: return flow from LID units to the
pervious sub-area. -/
def runonFromLid (env : Env) (project : Project) (j : Nat) : Project :=
  if (project.Subcatch j).lidArea > 0 ∧ (project.Subcatch j).fracImperv < 1 then
    let pervArea := (getSubarea project j SubareaType.PERV).fArea *
      ((project.Subcatch j).area - (project.Subcatch j).lidArea)
    if pervArea > 0 then
      setSubarea project j SubareaType.PERV
        { getSubarea project j SubareaType.PERV with
          inflow := (getSubarea project j SubareaType.PERV).inflow +
            env.lid_getFlowToPerv project j / pervArea }
    else project
  else project


/-- What the router leaves alone: `s2` agrees with `s` on the object counts and,
for every subcatchment, on everything except runon, incoming mass `newQual` and
the sub-area inflows. -/
def RouterFrame (s s2 : Project) : Prop :=
  s2.Nobjects = s.Nobjects ∧
  ∀ m : Nat,
    (s2.Subcatch m).outSubcatch = (s.Subcatch m).outSubcatch ∧
    (s2.Subcatch m).outNode = (s.Subcatch m).outNode ∧
    (s2.Subcatch m).area = (s.Subcatch m).area ∧
    (s2.Subcatch m).fracImperv = (s.Subcatch m).fracImperv ∧
    (s2.Subcatch m).lidArea = (s.Subcatch m).lidArea ∧
    (s2.Subcatch m).oldRunoff = (s.Subcatch m).oldRunoff ∧
    (s2.Subcatch m).newRunoff = (s.Subcatch m).newRunoff ∧
    (s2.Subcatch m).oldQual = (s.Subcatch m).oldQual ∧
    (s2.Subcatch m).pondedQual = (s.Subcatch m).pondedQual ∧
    ∀ i : SubareaType,
      (getSubarea s2 m i).routeTo = (getSubarea s m i).routeTo ∧
      (getSubarea s2 m i).fOutlet = (getSubarea s m i).fOutlet ∧
      (getSubarea s2 m i).N = (getSubarea s m i).N ∧
      (getSubarea s2 m i).fArea = (getSubarea s m i).fArea ∧
      (getSubarea s2 m i).dStore = (getSubarea s m i).dStore ∧
      (getSubarea s2 m i).alpha = (getSubarea s m i).alpha ∧
      (getSubarea s2 m i).runoff = (getSubarea s m i).runoff ∧
      (getSubarea s2 m i).depth = (getSubarea s m i).depth


/-- Runon that `subcatch_getRunon(j)` adds to subcatchment `m`, and inflow it
adds to each sub-area of `m`, from the previous runoff of `j`. -/
def routedRunon (s : Project) (j m : Nat) : ℚ :=
  if ((s.Subcatch j).outSubcatch ≥ 0 ∧ (s.Subcatch j).outSubcatch ≠ (j : Int) ∧
      (s.Subcatch (s.Subcatch j).outSubcatch.toNat).area > 0) ∧
      m = (s.Subcatch j).outSubcatch.toNat then
    (s.Subcatch j).oldRunoff / (s.Subcatch (s.Subcatch j).outSubcatch.toNat).area
  else 0

/-- Incoming mass that `subcatch_getRunon(j)` adds to `newQual[p]` of
subcatchment `m`. -/
def routedQual (env : Env) (s : Project) (j m p : Nat) : ℚ :=
  if ((s.Subcatch j).outSubcatch ≥ 0 ∧ (s.Subcatch j).outSubcatch ≠ (j : Int) ∧
      (s.Subcatch (s.Subcatch j).outSubcatch.toNat).area > 0) ∧
      m = (s.Subcatch j).outSubcatch.toNat ∧ p < s.Nobjects ObjectType.POLLUT then
    (s.Subcatch j).oldRunoff * (s.Subcatch j).oldQual p * env.LperFT3
  else 0

/-- Inflow that the imperv-to-perv block of `subcatch_getRunon(j)` adds to
sub-area `i` of subcatchment `m`. -/
def impervToPervInflow (s : Project) (j m : Nat) (i : SubareaType) : ℚ :=
  if (m = j ∧ i = SubareaType.PERV) ∧ (s.Subcatch j).fracImperv < 1 ∧
      (getSubarea s j SubareaType.IMPERV0).routeTo = RouteTo.TO_PERV then
    ((getSubarea s j SubareaType.IMPERV0).runoff * (getSubarea s j SubareaType.IMPERV0).fArea +
      (getSubarea s j SubareaType.IMPERV1).runoff * (getSubarea s j SubareaType.IMPERV1).fArea) *
      (1 - (getSubarea s j SubareaType.IMPERV0).fOutlet) /
      (getSubarea s j SubareaType.PERV).fArea
  else 0

/-- Inflow that the perv-to-imperv block of `subcatch_getRunon(j)` adds to
sub-area `i` of subcatchment `m`. -/
def pervToImpervInflow (s : Project) (j m : Nat) (i : SubareaType) : ℚ :=
  if (m = j ∧ i = SubareaType.IMPERV1) ∧ (s.Subcatch j).fracImperv > 0 ∧
      (getSubarea s j SubareaType.PERV).routeTo = RouteTo.TO_IMPERV ∧
      (getSubarea s j SubareaType.IMPERV1).fArea > 0 then
    (getSubarea s j SubareaType.PERV).runoff *
      (1 - (getSubarea s j SubareaType.PERV).fOutlet) *
      (getSubarea s j SubareaType.PERV).fArea /
      (getSubarea s j SubareaType.IMPERV1).fArea
  else 0

/-- Inflow that the LID block of `subcatch_getRunon(j)` adds to sub-area `i` of
subcatchment `m` when the LID units report the return flow `flow`. -/
def lidInflow (s : Project) (j m : Nat) (i : SubareaType) (flow : ℚ) : ℚ :=
  if (m = j ∧ i = SubareaType.PERV) ∧
      ((s.Subcatch j).lidArea > 0 ∧ (s.Subcatch j).fracImperv < 1) ∧
      (getSubarea s j SubareaType.PERV).fArea *
        ((s.Subcatch j).area - (s.Subcatch j).lidArea) > 0 then
    flow / ((getSubarea s j SubareaType.PERV).fArea *
      ((s.Subcatch j).area - (s.Subcatch j).lidArea))
  else 0


/-- Subcatchment 0 (area 1, previous runoff 2, previous concentration 3) drains
to subcatchment 1 (area 4); every other subcatchment is like subcatchment 1. -/
def chainProject : Project :=
  { zeroProject with
    Subcatch := fun m =>
      if m = 0 then
        { zeroSubcatch with area := 1, outSubcatch := 1, oldRunoff := 2, oldQual := fun _ => 3 }
      else { zeroSubcatch with area := 4 } }
/-! ## The loop bodies of `subcatch_getBuildup` and `subcatch_sweepBuildup` -/

/-- Buildup of pollutant `p` on land use `i` of subcatchment `j`. -/
def buildupOf (s : Project) (j i p : Nat) : ℚ :=
  ((s.Subcatch j).landFactor i).buildup p

/-- Body of the pollutant loop of `subcatch_getBuildup`. -/
def buildupPollut (env : Env) (j : Nat) (tStep : ℚ) (i : Nat) (area curb : ℚ)
    (project : Project) (p : Nat) : Project :=
  if (project.Pollut p).snowOnly = true ∧
      (project.Subcatch j).newSnowDepth < (1 / 1000) / 12 then project
  else
    let oldBuildup := ((project.Subcatch j).landFactor i).buildup p
    let newBuildup := env.landuse_getBuildup project i p area curb oldBuildup tStep
    let newBuildup := MAX newBuildup oldBuildup
    let project := setBuildup project j i p newBuildup
    massbal_updateLoadingTotals project LoadType.BUILDUP_LOAD p (newBuildup - oldBuildup)

/-- Body of the land use loop of `subcatch_getBuildup`. -/
def buildupLanduse (env : Env) (j : Nat) (tStep : ℚ) (project : Project) (i : Nat) : Project :=
  let f := ((project.Subcatch j).landFactor i).fraction
  if f = 0 then project
  else
    let area := f * (project.Subcatch j).area * env.UCF project UnitType.LANDAREA
    let curb := f * (project.Subcatch j).curbLength
    (List.range (project.Nobjects ObjectType.POLLUT)).foldl
      (buildupPollut env j tStep i area curb) project

/-- What the buildup and sweeping loops leave alone: object counts, pollutants,
land uses, and the snow depth, snow pack and land use fractions of
subcatchment `j`. -/
def LoadFrame (j : Nat) (s s2 : Project) : Prop :=
  s2.Nobjects = s.Nobjects ∧ s2.Pollut = s.Pollut ∧ s2.Landuse = s.Landuse ∧
  (s2.Subcatch j).newSnowDepth = (s.Subcatch j).newSnowDepth ∧
  (s2.Subcatch j).snowpack = (s.Subcatch j).snowpack ∧
  ∀ i : Nat, ((s2.Subcatch j).landFactor i).fraction = ((s.Subcatch j).landFactor i).fraction

/-- The pollutants the buildup loop passes over (snow-only buildup in effect). -/
def snowOnlySkip (s : Project) (j p : Nat) : Prop :=
  (s.Pollut p).snowOnly = true ∧ (s.Subcatch j).newSnowDepth < (1 / 1000) / 12

instance (s : Project) (j p : Nat) : Decidable (snowOnlySkip s j p) := by
  unfold snowOnlySkip
  infer_instance

/-- Body of the pollutant loop of `subcatch_sweepBuildup`. -/
def sweepPollut (j i : Nat) (project : Project) (p : Nat) : Project :=
  let oldBuildup := ((project.Subcatch j).landFactor i).buildup p
  let newBuildup := oldBuildup * (1 - (project.Landuse i).sweepRemoval *
    ((project.Landuse i).washoffFunc p).sweepEffic)
  let newBuildup := MIN oldBuildup newBuildup
  let newBuildup := MAX 0 newBuildup
  let project := setBuildup project j i p newBuildup
  massbal_updateLoadingTotals project LoadType.SWEEPING_LOAD p (oldBuildup - newBuildup)

/-- Body of the land use loop of `subcatch_sweepBuildup`. -/
def sweepLanduse (j : Nat) (aDate : ℚ) (project : Project) (i : Nat) : Project :=
  if ((project.Subcatch j).landFactor i).fraction = 0 then project
  else if (project.Landuse i).sweepInterval = 0 then project
  else if aDate - ((project.Subcatch j).landFactor i).lastSwept ≥
      (project.Landuse i).sweepInterval then
    let project := setSubcatch project j
      { project.Subcatch j with
        landFactor := Function.update (project.Subcatch j).landFactor i
          { (project.Subcatch j).landFactor i with lastSwept := aDate } }
    (List.range (project.Nobjects ObjectType.POLLUT)).foldl (sweepPollut j i) project
  else project

/-- Snow on the plowable impervious area prevents sweeping. -/
def sweepBlocked (env : Env) (s : Project) (j : Nat) : Bool :=
  match (s.Subcatch j).snowpack with
  | some snowpack => decide (snowpack.wsnow SubareaType.IMPERV0 > env.MIN_TOTAL_DEPTH)
  | none => false

/-- Land use `i` of subcatchment `j` is swept on `aDate`. -/
def sweepDue (s : Project) (j : Nat) (aDate : ℚ) (i : Nat) : Prop :=
  ((s.Subcatch j).landFactor i).fraction ≠ 0 ∧ (s.Landuse i).sweepInterval ≠ 0 ∧
  aDate - ((s.Subcatch j).landFactor i).lastSwept ≥ (s.Landuse i).sweepInterval

instance (s : Project) (j : Nat) (aDate : ℚ) (i : Nat) : Decidable (sweepDue s j aDate i) := by
  unfold sweepDue
  infer_instance

/-- Buildup that sweeping leaves of the buildup `b` of pollutant `p` on land use `i`. -/
def sweptBuildup (s : Project) (i p : Nat) (b : ℚ) : ℚ :=
  MAX 0 (MIN b (b * (1 - (s.Landuse i).sweepRemoval * ((s.Landuse i).washoffFunc p).sweepEffic)))

/-- Land use 0 covers half of every subcatchment (area 1) with a buildup of 2 of
every pollutant; it is swept every day, half of the buildup being available and
half of that removed; subcatchment 0 was last swept on day 0. -/
def landProject : Project :=
  { zeroProject with
    Subcatch := fun _ =>
      { zeroSubcatch with
        area := 1,
        landFactor := fun _ => { fraction := 1 / 2, buildup := fun _ => 2, lastSwept := 0 } },
    Landuse := fun _ =>
      { sweepInterval := 1, sweepRemoval := 1 / 2,
        washoffFunc := fun _ => { sweepEffic := 1 / 2 } } }

/-- The project `landProject` with a buildup of -1 in place of 2. -/
def negativeBuildupProject : Project :=
  { landProject with
    Subcatch := fun _ =>
      { zeroSubcatch with
        area := 1,
        landFactor := fun _ => { fraction := 1 / 2, buildup := fun _ => -1, lastSwept := 0 } } }

/-- The environment `basicEnv` with a land use buildup function that adds 1. -/
def growEnv : Env :=
  { basicEnv with landuse_getBuildup := fun _ _ _ _ _ b _ => b + 1 }

/-! ## The loop bodies of `updatePondedQual` and `subcatch_getWashoff` -/

/-- Body of the pollutant loop of `updatePondedQual`; `vIn` and `isDry` are the
locals set before the loop. -/
def pondedQualPollut (env : Env) (j : Nat) (tStep vIn : ℚ) (isDry : Bool)
    (project : Project) (p : Nat) : Project :=
  let wPpt := (project.Pollut p).pptConcen * env.LperFT3 * project.Vrain
  let project := massbal_updateLoadingTotals project LoadType.DEPOSITION_LOAD p
    (wPpt * (project.Pollut p).mcf)
  if isDry = true then
    let project := massbal_updateLoadingTotals project LoadType.FINAL_LOAD p
      ((project.Subcatch j).pondedQual p * (project.Pollut p).mcf)
    let project := setSubcatch project j
      { project.Subcatch j with
        pondedQual := Function.update (project.Subcatch j).pondedQual p 0 }
    { project with OutflowLoad := Function.update project.OutflowLoad p 0 }
  else
    let w1 := (project.Subcatch j).pondedQual p + wPpt +
      (project.Subcatch j).newQual p * tStep
    let c := w1 / (project.Vponded + vIn)
    let wInfil := c * project.Vinfil
    let wInfil := MIN wInfil w1
    let project := massbal_updateLoadingTotals project LoadType.INFIL_LOAD p
      (wInfil * (project.Pollut p).mcf)
    let w1 := w1 - wInfil
    let project :=
      { project with
        OutflowLoad := Function.update project.OutflowLoad p (MIN w1 (c * project.Voutflow)) }
    let bmpRemoval := env.landuse_getAvgBmpEffic project j p * project.OutflowLoad p
    let project := massbal_updateLoadingTotals project LoadType.BMP_REMOVAL_LOAD p
      (bmpRemoval * (project.Pollut p).mcf)
    let project :=
      { project with
        OutflowLoad := Function.update project.OutflowLoad p
          (project.OutflowLoad p - bmpRemoval) }
    setSubcatch project j
      { project.Subcatch j with
        pondedQual := Function.update (project.Subcatch j).pondedQual p
          (c * subcatch_getDepth env project j * (project.Subcatch j).area) }

/-- First loop of `subcatch_getWashoff`: outflow loads set to zero. -/
def washoffInit (project : Project) : Project :=
  (List.range (project.Nobjects ObjectType.POLLUT)).foldl
    (fun project p =>
      { project with
        WashoffLoad := Function.update project.WashoffLoad p 0,
        OutflowLoad := Function.update project.OutflowLoad p 0 })
    project

/-- Block of `subcatch_getWashoff` that adds the washoff loads from land uses
and co-pollutants to the outflow loads. -/
def washoffLanduses (env : Env) (project : Project) (j : Nat) (runoff tStep : ℚ) : Project :=
  if runoff ≥ env.MIN_RUNOFF then
    let project := (List.range (project.Nobjects ObjectType.LANDUSE)).foldl
      (fun project i =>
        if ((project.Subcatch j).landFactor i).fraction > 0 then
          let r := env.landuse_getWashoff project i (project.Subcatch j).area
            (project.Subcatch j).landFactor runoff tStep project.WashoffLoad
          { setSubcatch project j { project.Subcatch j with landFactor := r.landFactor } with
            WashoffLoad := r.washoffLoad,
            ledger := project.ledger ++ r.postings }
        else project)
      project
    (List.range (project.Nobjects ObjectType.POLLUT)).foldl
      (fun project p =>
        let project :=
          { project with
            WashoffLoad := Function.update project.WashoffLoad p
              (project.WashoffLoad p +
                env.landuse_getCoPollutLoad project p project.WashoffLoad) }
        { project with
          OutflowLoad := Function.update project.OutflowLoad p
            (project.OutflowLoad p + project.WashoffLoad p) })
      project
  else project

/-- Last loop of `subcatch_getWashoff`: total load, runoff-load posting and new
outflow concentration of each pollutant; `runoff` is the runoff that leaves the
subcatchment. -/
def washoffQual (env : Env) (project : Project) (j : Nat) (runoff tStep : ℚ) : Project :=
  (List.range (project.Nobjects ObjectType.POLLUT)).foldl
    (fun project p =>
      let massLoad := project.OutflowLoad p * (project.Pollut p).mcf
      let project := setSubcatch project j
        { project.Subcatch j with
          totalLoad := Function.update (project.Subcatch j).totalLoad p
            ((project.Subcatch j).totalLoad p + massLoad) }
      let project :=
        if (project.Subcatch j).outNode ≥ 0 ∨ (project.Subcatch j).outSubcatch = (j : Int) then
          massbal_updateLoadingTotals project LoadType.RUNOFF_LOAD p massLoad
        else project
      if runoff > env.MIN_RUNOFF then
        setSubcatch project j
          { project.Subcatch j with
            newQual := Function.update (project.Subcatch j).newQual p
              (project.OutflowLoad p / (runoff * tStep * env.LperFT3)) }
      else
        setSubcatch project j
          { project.Subcatch j with
            newQual := Function.update (project.Subcatch j).newQual p 0 })
    project

/-! ## The stages of `getSubareaRunoff` -/

/-- The project once `getSubareaRunoff` has initialised runoff and losses. -/
def subareaInit (project : Project) (j : Nat) (i : SubareaType) : Project :=
  { setSubarea project j i { getSubarea project j i with runoff := 0 } with
    Vevap := 0, Vinfil := 0, Voutflow := 0, Losses := 0, Outflow := 0 }

/-- The local `surfEvap` of `getSubareaRunoff`. -/
def subareaEvap (project : Project) (j : Nat) (i : SubareaType) (evap tStep : ℚ) : ℚ :=
  MIN ((getSubarea project j i).depth / tStep) evap

/-- The local `infil` of `getSubareaRunoff`. -/
def subareaInfil (env : Env) (project : Project) (j : Nat) (i : SubareaType)
    (precip tStep : ℚ) : ℚ :=
  if i = SubareaType.PERV then
    getSubareaInfil env (subareaInit project j i) j (getSubarea (subareaInit project j i) j i)
      precip tStep
  else 0

/-- The local `surfMoisture` of `getSubareaRunoff` once the inflow, net
precipitation included, has been added to it. -/
def subareaMoisture (project : Project) (j : Nat) (i : SubareaType) (precip tStep : ℚ) : ℚ :=
  (getSubarea project j i).depth / tStep + ((getSubarea project j i).inflow + precip)

/-- The sub-area as `getSubareaRunoff` has it before the ponded depth is
updated: runoff zero and net precipitation added to the inflow. -/
def subareaWetted (project : Project) (j : Nat) (i : SubareaType) (precip : ℚ) : TSubarea :=
  { getSubarea project j i with
    runoff := 0, inflow := (getSubarea project j i).inflow + precip }

/-- The project at the point where `getSubareaRunoff` has set
`Losses = surfEvap + infil`. -/
def subareaLosses (env : Env) (project : Project) (j : Nat) (i : SubareaType)
    (precip evap tStep : ℚ) : Project :=
  { setSubarea (subareaInit project j i) j i
      { getSubarea (subareaInit project j i) j i with
        inflow := (getSubarea (subareaInit project j i) j i).inflow + precip } with
    Vevap := subareaEvap project j i evap tStep * tStep,
    Vinfil := subareaInfil env project j i precip tStep * tStep,
    Losses := subareaEvap project j i evap tStep + subareaInfil env project j i precip tStep }

/-- The local `ponded` step of `getSubareaRunoff`: depletion of the ponded water
or `updatePondedDepth`. -/
def subareaPonded (env : Env) (project : Project) (j : Nat) (i : SubareaType)
    (precip evap tStep : ℚ) : Project × TSubarea × ℚ :=
  if (subareaLosses env project j i precip evap tStep).Losses
      ≥ subareaMoisture project j i precip tStep then
    ({ subareaLosses env project j i precip evap tStep with
        Losses := subareaMoisture project j i precip tStep },
     { getSubarea (subareaLosses env project j i precip evap tStep) j i with depth := 0 },
     tStep)
  else updatePondedDepth env (subareaLosses env project j i precip evap tStep)
    (getSubarea (subareaLosses env project j i precip evap tStep) j i) tStep

/-- Every sub-area covers the whole subcatchment (area 1), drains to the outlet
and has `N = 0`, `alpha = 0`, no depression storage and no ponded water. -/
def drainProject : Project :=
  { zeroProject with
    Subcatch := fun _ =>
      { zeroSubcatch with
        area := 1, subArea := fun _ => { zeroSubarea with fArea := 1, fOutlet := 1 } } }

/-- The project `drainProject` with a ponded depth of 1 on every sub-area. -/
def pondProject : Project :=
  { zeroProject with
    Subcatch := fun _ =>
      { zeroSubcatch with
        area := 1,
        subArea := fun _ => { zeroSubarea with fArea := 1, fOutlet := 1, depth := 1 } } }

/-- The project `drainProject` with a depression storage of 1 on every sub-area. -/
def fillProject : Project :=
  { zeroProject with
    Subcatch := fun _ =>
      { zeroSubcatch with
        area := 1,
        subArea := fun _ => { zeroSubarea with fArea := 1, fOutlet := 1, dStore := 1 } } }

/-- Every subcatchment has area 1 and a ponded mass of 7 of every pollutant;
ponded, rain and runon volumes are zero. -/
def pondedMassProject : Project :=
  { zeroProject with
    Subcatch := fun _ => { zeroSubcatch with area := 1, pondedQual := fun _ => 7 } }


/-! ## Routing inside one subcatchment -/

/-- The project `s` with the inflow of every sub-area `i` of subcatchment `j`
replaced by `f i`; nothing else differs from `s`. -/
def setInflows (s : Project) (j : Nat) (f : SubareaType → ℚ) : Project :=
  { s with
    Subcatch := Function.update s.Subcatch j
      { s.Subcatch j with
        subArea := fun i => { (s.Subcatch j).subArea i with inflow := f i } } }

/-- The project `s2` differs from `s` in nothing but the inflows of the
sub-areas of subcatchment `j`. -/
def InflowOnly (j : Nat) (s s2 : Project) : Prop :=
  s2 = setInflows s j (fun i => (getSubarea s2 j i).inflow)

/-- Every subcatchment has no outlet subcatchment, area 1, half of it
impervious, and sub-areas of runoff 1 that route to the pervious sub-area. -/
def innerRouteProject : Project :=
  { zeroProject with
    Subcatch := fun _ =>
      { zeroSubcatch with
        area := 1, fracImperv := 1 / 2,
        subArea := fun _ =>
          { zeroSubarea with routeTo := RouteTo.TO_PERV, fArea := 1 / 2, runoff := 1 } } }

/-! ## The last loop of `subcatch_getWashoff` -/

/-- Body of the last loop of `subcatch_getWashoff` for pollutant `p`. -/
def washoffQualPollut (env : Env) (j : Nat) (runoff tStep : ℚ) (project : Project) (p : Nat) :
    Project :=
  let massLoad := project.OutflowLoad p * (project.Pollut p).mcf
  let project := setSubcatch project j
    { project.Subcatch j with
      totalLoad := Function.update (project.Subcatch j).totalLoad p
        ((project.Subcatch j).totalLoad p + massLoad) }
  let project :=
    if (project.Subcatch j).outNode ≥ 0 ∨ (project.Subcatch j).outSubcatch = (j : Int) then
      massbal_updateLoadingTotals project LoadType.RUNOFF_LOAD p massLoad
    else project
  if runoff > env.MIN_RUNOFF then
    setSubcatch project j
      { project.Subcatch j with
        newQual := Function.update (project.Subcatch j).newQual p
          (project.OutflowLoad p / (runoff * tStep * env.LperFT3)) }
  else
    setSubcatch project j
      { project.Subcatch j with
        newQual := Function.update (project.Subcatch j).newQual p 0 }

/-- What `subcatch_getWashoff` leaves alone before its last loop: `t` agrees with
`s` on the object counts, the pollutants and, for subcatchment `j`, the outlet,
the area, the runoff and the total loads. -/
def WashoffFrame (j : Nat) (s t : Project) : Prop :=
  t.Nobjects = s.Nobjects ∧ t.Pollut = s.Pollut ∧
  (t.Subcatch j).outNode = (s.Subcatch j).outNode ∧
  (t.Subcatch j).outSubcatch = (s.Subcatch j).outSubcatch ∧
  (t.Subcatch j).totalLoad = (s.Subcatch j).totalLoad ∧
  (t.Subcatch j).newRunoff = (s.Subcatch j).newRunoff ∧
  s.ledger <+: t.ledger

/-- The runoff-load postings of the pollutants below `n` with outflow loads `w`
and mass conversion factors `mcf`. -/
def runoffPostings (n : Nat) (w mcf : Nat → ℚ) : List Posting :=
  (List.range n).map (fun p => ⟨LoadType.RUNOFF_LOAD, p, w p * mcf p⟩)

/-- Subcatchment 0 has area 1, an outlet node 0 and a total load of 2; the
outflow load of every pollutant starts at 9. -/
def nodeOutletProject : Project :=
  { zeroProject with
    OutflowLoad := fun _ => 9,
    Subcatch := fun _ => { zeroSubcatch with area := 1, outNode := 0, totalLoad := fun _ => 2 } }

/-! ## Reading sub-area parameters -/

/-- Error codes that `subcatch_readSubareaParams` hands to `error_setInpError`. -/
inductive ErrorCode where
  | ERR_ITEMS
  | ERR_NAME
  | ERR_KEYWORD
  | ERR_NUMBER
  deriving DecidableEq, Repr

/-- An input error: the code and the token given to `error_setInpError`, which
returns the code. -/
structure InpError where
  code : ErrorCode
  token : String
  deriving DecidableEq

/-- The table `RunoffRoutingWords` of `subcatch.c`; the keywords themselves come
from a header that is not among the sources. -/
def RunoffRoutingWords (env : Env) : List String :=
  [env.w_OUTLET, env.w_IMPERV, env.w_PERV]

/-- Modelled from the spec: the integer values of the enumeration constants
`TO_OUTLET`, `TO_IMPERV`, `TO_PERV`, whose header is not among the sources; they
are the positions of the keywords in `RunoffRoutingWords`. -/
def routeToCode : RouteTo → Int
  | RouteTo.TO_OUTLET => 0
  | RouteTo.TO_IMPERV => 1
  | RouteTo.TO_PERV => 2

/-- The assignments of `subcatch_readSubareaParams` once its tokens have been
read: `x` holds Manning's n, depression storages and PctZero (`x[0..4]`), `m` is
the routing keyword (`x[5]`) and `x6` the fraction routed (`x[6]`). -/
def assignSubareaParams (env : Env) (project : Project) (j : Nat) (x : Nat → ℚ) (m : Int)
    (x6 : ℚ) : Project :=
  let project := setSubarea project j SubareaType.IMPERV0
    { getSubarea project j SubareaType.IMPERV0 with N := x 0 }
  let project := setSubarea project j SubareaType.IMPERV1
    { getSubarea project j SubareaType.IMPERV1 with N := x 0 }
  let project := setSubarea project j SubareaType.PERV
    { getSubarea project j SubareaType.PERV with N := x 1 }
  let project := setSubarea project j SubareaType.IMPERV0
    { getSubarea project j SubareaType.IMPERV0 with dStore := 0 }
  let project := setSubarea project j SubareaType.IMPERV1
    { getSubarea project j SubareaType.IMPERV1 with
      dStore := x 2 / env.UCF project UnitType.RAINDEPTH }
  let project := setSubarea project j SubareaType.PERV
    { getSubarea project j SubareaType.PERV with
      dStore := x 3 / env.UCF project UnitType.RAINDEPTH }
  let project := setSubarea project j SubareaType.IMPERV0
    { getSubarea project j SubareaType.IMPERV0 with
      fArea := (project.Subcatch j).fracImperv * x 4 / 100 }
  let project := setSubarea project j SubareaType.IMPERV1
    { getSubarea project j SubareaType.IMPERV1 with
      fArea := (project.Subcatch j).fracImperv * (1 - x 4 / 100) }
  let project := setSubarea project j SubareaType.PERV
    { getSubarea project j SubareaType.PERV with
      fArea := 1 - (project.Subcatch j).fracImperv }
  let project := subareaTypes.foldl
    (fun project i =>
      let project := setSubarea project j i
        { getSubarea project j i with routeTo := RouteTo.TO_OUTLET }
      setSubarea project j i { getSubarea project j i with fOutlet := 1 })
    project
  let k : Int := m
  let k : Int :=
    if (project.Subcatch j).fracImperv = 0 ∨ (project.Subcatch j).fracImperv = 1 then
      routeToCode RouteTo.TO_OUTLET
    else k
  let project :=
    if k = routeToCode RouteTo.TO_IMPERV ∧ (project.Subcatch j).fracImperv ≠ 0 then
      let project := setSubarea project j SubareaType.PERV
        { getSubarea project j SubareaType.PERV with routeTo := RouteTo.TO_IMPERV }
      setSubarea project j SubareaType.PERV
        { getSubarea project j SubareaType.PERV with fOutlet := 1 - x6 }
    else project
  if k = routeToCode RouteTo.TO_PERV then
    let project := setSubarea project j SubareaType.IMPERV0
      { getSubarea project j SubareaType.IMPERV0 with routeTo := RouteTo.TO_PERV }
    let project := setSubarea project j SubareaType.IMPERV1
      { getSubarea project j SubareaType.IMPERV1 with routeTo := RouteTo.TO_PERV }
    let project := setSubarea project j SubareaType.IMPERV0
      { getSubarea project j SubareaType.IMPERV0 with fOutlet := 1 - x6 }
    setSubarea project j SubareaType.IMPERV1
      { getSubarea project j SubareaType.IMPERV1 with fOutlet := 1 - x6 }
  else project

/-- Source `subcatch_readSubareaParams`: reads the sub-area parameters of a
subcatchment from a tokenized line of input. A return of an error code is
`Except.error`, the return of 0 is `Except.ok` with the project as assigned by
`assignSubareaParams`. -/
def subcatch_readSubareaParams (env : Env) (project : Project) (tok : Nat → String)
    (ntoks : Int) : Except InpError Project :=
  if ntoks < 7 then Except.error ⟨ErrorCode.ERR_ITEMS, ""⟩
  else
    let j := env.project_findObject project ObjectType.SUBCATCH (tok 0)
    if j < 0 then Except.error ⟨ErrorCode.ERR_NAME, tok 0⟩
    else
      let read : Except InpError (Nat → ℚ) := (List.range 5).foldl
        (fun (read : Except InpError (Nat → ℚ)) i =>
          match read with
          | Except.error e => Except.error e
          | Except.ok x =>
            match env.getDouble (tok (i + 1)) with
            | none => Except.error ⟨ErrorCode.ERR_NAME, tok (i + 1)⟩
            | some v =>
              if v < 0 then Except.error ⟨ErrorCode.ERR_NAME, tok (i + 1)⟩
              else Except.ok (Function.update x i v))
        (Except.ok (fun _ => 0))
      match read with
      | Except.error e => Except.error e
      | Except.ok x =>
        let m := env.findmatch (tok 6) (RunoffRoutingWords env)
        if m < 0 then Except.error ⟨ErrorCode.ERR_KEYWORD, tok 6⟩
        else
          let routed : Except InpError ℚ :=
            if ntoks ≥ 8 then
              match env.getDouble (tok 7) with
              | none => Except.error ⟨ErrorCode.ERR_NUMBER, tok 7⟩
              | some v =>
                if v < 0 ∨ v > 100 then Except.error ⟨ErrorCode.ERR_NUMBER, tok 7⟩
                else Except.ok (v / 100)
            else Except.ok 1
          match routed with
          | Except.error e => Except.error e
          | Except.ok x6 => Except.ok (assignSubareaParams env project j.toNat x m x6)

/-- Every subcatchment is 40 percent impervious. -/
def imperviousProject : Project :=
  { zeroProject with Subcatch := fun _ => { zeroSubcatch with area := 1, fracImperv := 2 / 5 } }

/-- Assignments of Manning's n and depression storage in
`subcatch_readSubareaParams`. -/
def assignStorage (env : Env) (project : Project) (j : Nat) (x : Nat → ℚ) : Project :=
  let project := setSubarea project j SubareaType.IMPERV0
    { getSubarea project j SubareaType.IMPERV0 with N := x 0 }
  let project := setSubarea project j SubareaType.IMPERV1
    { getSubarea project j SubareaType.IMPERV1 with N := x 0 }
  let project := setSubarea project j SubareaType.PERV
    { getSubarea project j SubareaType.PERV with N := x 1 }
  let project := setSubarea project j SubareaType.IMPERV0
    { getSubarea project j SubareaType.IMPERV0 with dStore := 0 }
  let project := setSubarea project j SubareaType.IMPERV1
    { getSubarea project j SubareaType.IMPERV1 with
      dStore := x 2 / env.UCF project UnitType.RAINDEPTH }
  setSubarea project j SubareaType.PERV
    { getSubarea project j SubareaType.PERV with
      dStore := x 3 / env.UCF project UnitType.RAINDEPTH }

/-- Assignments of the area fractions in `subcatch_readSubareaParams`. -/
def assignAreas (project : Project) (j : Nat) (x : Nat → ℚ) : Project :=
  let project := setSubarea project j SubareaType.IMPERV0
    { getSubarea project j SubareaType.IMPERV0 with
      fArea := (project.Subcatch j).fracImperv * x 4 / 100 }
  let project := setSubarea project j SubareaType.IMPERV1
    { getSubarea project j SubareaType.IMPERV1 with
      fArea := (project.Subcatch j).fracImperv * (1 - x 4 / 100) }
  setSubarea project j SubareaType.PERV
    { getSubarea project j SubareaType.PERV with
      fArea := 1 - (project.Subcatch j).fracImperv }

/-- Assignments of the routing in `subcatch_readSubareaParams`. -/
def assignRouting (project : Project) (j : Nat) (m : Int) (x6 : ℚ) : Project :=
  let project := subareaTypes.foldl
    (fun project i =>
      let project := setSubarea project j i
        { getSubarea project j i with routeTo := RouteTo.TO_OUTLET }
      setSubarea project j i { getSubarea project j i with fOutlet := 1 })
    project
  let k : Int := m
  let k : Int :=
    if (project.Subcatch j).fracImperv = 0 ∨ (project.Subcatch j).fracImperv = 1 then
      routeToCode RouteTo.TO_OUTLET
    else k
  let project :=
    if k = routeToCode RouteTo.TO_IMPERV ∧ (project.Subcatch j).fracImperv ≠ 0 then
      let project := setSubarea project j SubareaType.PERV
        { getSubarea project j SubareaType.PERV with routeTo := RouteTo.TO_IMPERV }
      setSubarea project j SubareaType.PERV
        { getSubarea project j SubareaType.PERV with fOutlet := 1 - x6 }
    else project
  if k = routeToCode RouteTo.TO_PERV then
    let project := setSubarea project j SubareaType.IMPERV0
      { getSubarea project j SubareaType.IMPERV0 with routeTo := RouteTo.TO_PERV }
    let project := setSubarea project j SubareaType.IMPERV1
      { getSubarea project j SubareaType.IMPERV1 with routeTo := RouteTo.TO_PERV }
    let project := setSubarea project j SubareaType.IMPERV0
      { getSubarea project j SubareaType.IMPERV0 with fOutlet := 1 - x6 }
    setSubarea project j SubareaType.IMPERV1
      { getSubarea project j SubareaType.IMPERV1 with fOutlet := 1 - x6 }
  else project

/-- The project `t` has the impervious fraction and the sub-area fractions of
subcatchment `j` in `s`. -/
def AreaFrame (j : Nat) (s t : Project) : Prop :=
  (t.Subcatch j).fracImperv = (s.Subcatch j).fracImperv ∧
  ∀ i, (getSubarea t j i).fArea = (getSubarea s j i).fArea

/-- Store `r` in `project->Subcatch[j].subArea[i].routeTo`. -/
def setRouteTo (project : Project) (j : Nat) (i : SubareaType) (r : RouteTo) : Project :=
  setSubarea project j i { getSubarea project j i with routeTo := r }

/-- Store `v` in `project->Subcatch[j].subArea[i].fOutlet`. -/
def setFOutlet (project : Project) (j : Nat) (i : SubareaType) (v : ℚ) : Project :=
  setSubarea project j i { getSubarea project j i with fOutlet := v }

/-- The loop of `subcatch_readSubareaParams` that sends the runoff of every
sub-area to the outlet. -/
def routeAllToOutlet (project : Project) (j : Nat) : Project :=
  subareaTypes.foldl
    (fun project i => setFOutlet (setRouteTo project j i RouteTo.TO_OUTLET) j i 1) project

/-! ## Reported results -/

/-- Entries of the result vector `x[]` of `subcatch_getResults`; the entry of
pollutant `p` is `SUBCATCH_WASHOFF + p`. -/
inductive SubcatchResultType where
  | SUBCATCH_RAINFALL
  | SUBCATCH_SNOWDEPTH
  | SUBCATCH_EVAP
  | SUBCATCH_INFIL
  | SUBCATCH_RUNOFF
  | SUBCATCH_GW_FLOW
  | SUBCATCH_GW_ELEV
  | SUBCATCH_SOIL_MOIST
  | SUBCATCH_WASHOFF (p : Nat)
  deriving DecidableEq

/-- Source `subcatch_getResults`: weighted combination of old and new
subcatchment results. The vector `x` is passed in and returned; the conversions
to `float` are left out. -/
def subcatch_getResults (env : Env) (project : Project) (j : Nat) (f : ℚ)
    (x : SubcatchResultType → ℚ) : SubcatchResultType → ℚ :=
  let f1 := 1 - f
  let k := (project.Subcatch j).gage
  let x :=
    if k ≥ 0 then
      Function.update x SubcatchResultType.SUBCATCH_RAINFALL (project.Gage k.toNat).reportRainfall
    else Function.update x SubcatchResultType.SUBCATCH_RAINFALL 0
  let z := (f1 * (project.Subcatch j).oldSnowDepth + f * (project.Subcatch j).newSnowDepth) *
    env.UCF project UnitType.RAINDEPTH
  let x := Function.update x SubcatchResultType.SUBCATCH_SNOWDEPTH z
  let x := Function.update x SubcatchResultType.SUBCATCH_EVAP
    ((project.Subcatch j).evapLoss * env.UCF project UnitType.EVAPRATE)
  let x := Function.update x SubcatchResultType.SUBCATCH_INFIL
    ((project.Subcatch j).infilLoss * env.UCF project UnitType.RAINFALL)
  let runoff := f1 * (project.Subcatch j).oldRunoff + f * (project.Subcatch j).newRunoff
  let runoff := if runoff < env.MIN_RUNOFF_FLOW then 0 else runoff
  let x := Function.update x SubcatchResultType.SUBCATCH_RUNOFF
    (runoff * env.UCF project UnitType.FLOW)
  let x :=
    match (project.Subcatch j).groundwater with
    | some gw =>
      let z := (f1 * gw.oldFlow + f * gw.newFlow) * (project.Subcatch j).area *
        env.UCF project UnitType.FLOW
      let x := Function.update x SubcatchResultType.SUBCATCH_GW_FLOW z
      let z := ((project.Aquifer gw.aquifer).bottomElev + gw.lowerDepth) *
        env.UCF project UnitType.LENGTH
      let x := Function.update x SubcatchResultType.SUBCATCH_GW_ELEV z
      let z := gw.theta
      Function.update x SubcatchResultType.SUBCATCH_SOIL_MOIST z
    | none =>
      let x := Function.update x SubcatchResultType.SUBCATCH_GW_FLOW 0
      let x := Function.update x SubcatchResultType.SUBCATCH_GW_ELEV 0
      Function.update x SubcatchResultType.SUBCATCH_SOIL_MOIST 0
  if project.IgnoreQuality = false then
    (List.range (project.Nobjects ObjectType.POLLUT)).foldl
      (fun x p =>
        let z :=
          if runoff < env.MIN_RUNOFF_FLOW then 0
          else f1 * (project.Subcatch j).oldQual p + f * (project.Subcatch j).newQual p
        Function.update x (SubcatchResultType.SUBCATCH_WASHOFF p) z)
      x
  else x

/-- Modelled from the spec: `massbal_updateRunoffTotals` of the global
conservation ledger (`postRunoffVolumes(rain, evap, infil, outflow)`), whose file
is not among the sources; the call is appended to `runoffTotals`. -/
def massbal_updateRunoffTotals (project : Project) (vRainfall vEvap vInfil vRunoff : ℚ) :
    Project :=
  { project with
    runoffTotals := project.runoffTotals ++ [⟨vRainfall, vEvap, vInfil, vRunoff⟩] }

/-- Modelled from the spec: `stats_updateSubcatchStats` of the statistics sink
(`recordSubcatchmentStep(rainVol, runonVol, evapVol, infilVol, outflowVol,
outflowRate)`), whose file is not among the sources; the call is appended to
`subcatchStats`. -/
def stats_updateSubcatchStats (project : Project) (j : Nat)
    (rainVol runonVol evapVol infilVol runoffVol runoff : ℚ) : Project :=
  { project with
    subcatchStats := project.subcatchStats ++
      [⟨j, rainVol, runonVol, evapVol, infilVol, runoffVol, runoff⟩] }

/-- Source `getNetPrecip`: combined rainfall and snowmelt on a subcatchment.
Returns the project and the array `netPrecip`. -/
def getNetPrecip (env : Env) (project : Project) (j : Nat) (tStep : ℚ) :
    Project × (SubareaType → ℚ) :=
  let k := (project.Subcatch j).gage
  let precip : ℚ × ℚ := if k ≥ 0 then env.gage_getPrecip project k.toNat else (0, 0)
  let rainfall := precip.1
  let snowfall := precip.2
  let rainfall :=
    match env.containsSubcatchRain project j with
    | some value => value
    | none => rainfall
  let project := setSubcatch project j
    { project.Subcatch j with rainfall := rainfall + snowfall }
  match (project.Subcatch j).snowpack, project.IgnoreSnowmelt with
  | some _, false =>
    let melt := env.snow_getSnowMelt project j rainfall snowfall tStep
    (setSubcatch project j
      { project.Subcatch j with
        newSnowDepth := melt.snowDepth, snowpack := some melt.snowpack },
     melt.netPrecip)
  | _, _ => (project, fun _ => rainfall + snowfall)

/-- The locals of `subcatch_getRunoff` that its loop over the sub-areas
accumulates, with the project. -/
structure RunoffSums where
  project : Project
  runoff : ℚ
  rainVol : ℚ
  outflow : ℚ
  evapVol : ℚ
  infilVol : ℚ
  pervEvapVol : ℚ

/-- Source `subcatch_getRunoff`: runoff and new storage depth of a
subcatchment. Returns the project and the area-averaged runoff. -/
def subcatch_getRunoff (env : Env) (project : Project) (j : Nat) (tStep : ℚ) : Project × ℚ :=
  let project :=
    { project with Vponded := subcatch_getDepth env project j * (project.Subcatch j).area }
  let net := getNetPrecip env project j tStep
  let project := net.1
  let netPrecip := net.2
  let evapRate : ℚ :=
    if project.Evap.dryOnly = true ∧ (project.Subcatch j).rainfall > 0 then 0
    else project.Evap.rate
  let sums : RunoffSums := subareaTypes.foldl
    (fun sums i =>
      let area := ((sums.project.Subcatch j).area - (sums.project.Subcatch j).lidArea) *
        (getSubarea sums.project j i).fArea
      if area > 0 then
        let project := getSubareaRunoff env sums.project j i (netPrecip i) evapRate tStep
        { project := project,
          runoff := sums.runoff + (getSubarea project j i).runoff * area,
          rainVol := sums.rainVol + netPrecip i * tStep * area,
          outflow := sums.outflow + project.Outflow * area,
          evapVol := sums.evapVol + project.Vevap * area,
          infilVol := sums.infilVol + project.Vinfil * area,
          pervEvapVol :=
            if i = SubareaType.PERV then sums.pervEvapVol + project.Vevap * area
            else sums.pervEvapVol }
      else sums)
    { project := project, runoff := 0, rainVol := 0, outflow := 0, evapVol := 0, infilVol := 0,
      pervEvapVol := 0 }
  let sums : RunoffSums :=
    if (sums.project.Subcatch j).lidArea > 0 then
      let lid := env.lid_getRunoff sums.project j sums.outflow sums.evapVol sums.pervEvapVol
        sums.infilVol tStep
      { sums with
        runoff := sums.runoff + lid.runoff, outflow := lid.outflow, evapVol := lid.evapVol,
        pervEvapVol := lid.pervEvapVol, infilVol := lid.infilVol }
    else sums
  let project := sums.project
  let project :=
    match project.IgnoreGwater, (project.Subcatch j).groundwater with
    | false, some _ =>
      setSubcatch project j
        { project.Subcatch j with
          groundwater :=
            some (env.gwater_getGroundwater project j sums.pervEvapVol sums.infilVol tStep) }
    | _, _ => project
  let area := (project.Subcatch j).area
  let project := setSubcatch project j
    { project.Subcatch j with
      newRunoff := sums.outflow,
      evapLoss := sums.evapVol / tStep / area,
      infilLoss := sums.infilVol / tStep / area }
  let project :=
    { project with
      Vrain := sums.rainVol, Vevap := sums.evapVol, Vinfil := sums.infilVol,
      Voutflow := sums.outflow * tStep,
      Vrunon := (project.Subcatch j).runon * tStep * area }
  let rainVol := (project.Subcatch j).rainfall * tStep * area
  let project := stats_updateSubcatchStats project j rainVol project.Vrunon project.Vevap
    project.Vinfil project.Voutflow sums.outflow
  let outflowVol := project.Voutflow
  let outflowVol :=
    if (project.Subcatch j).outNode = -1 ∧ (project.Subcatch j).outSubcatch ≠ (j : Int) then 0
    else outflowVol
  let project := massbal_updateRunoffTotals project rainVol sums.evapVol sums.infilVol outflowVol
  (project, sums.runoff / area)

/-- The loop body of `subcatch_getRunoff` for sub-area `i`. -/
def runoffSubarea (env : Env) (j : Nat) (tStep : ℚ) (netPrecip : SubareaType → ℚ)
    (evapRate : ℚ) (sums : RunoffSums) (i : SubareaType) : RunoffSums :=
  let area := ((sums.project.Subcatch j).area - (sums.project.Subcatch j).lidArea) *
    (getSubarea sums.project j i).fArea
  if area > 0 then
    let project := getSubareaRunoff env sums.project j i (netPrecip i) evapRate tStep
    { project := project,
      runoff := sums.runoff + (getSubarea project j i).runoff * area,
      rainVol := sums.rainVol + netPrecip i * tStep * area,
      outflow := sums.outflow + project.Outflow * area,
      evapVol := sums.evapVol + project.Vevap * area,
      infilVol := sums.infilVol + project.Vinfil * area,
      pervEvapVol :=
        if i = SubareaType.PERV then sums.pervEvapVol + project.Vevap * area
        else sums.pervEvapVol }
  else sums

/-- The sums of `subcatch_getRunoff` after its loop over the sub-areas. -/
def runoffSubareas (env : Env) (project : Project) (j : Nat) (tStep : ℚ) : RunoffSums :=
  subareaTypes.foldl
    (runoffSubarea env j tStep
      (getNetPrecip env
        { project with Vponded := subcatch_getDepth env project j * (project.Subcatch j).area }
        j tStep).2
      (if (getNetPrecip env
            { project with
              Vponded := subcatch_getDepth env project j * (project.Subcatch j).area }
            j tStep).1.Evap.dryOnly = true ∧
          ((getNetPrecip env
            { project with
              Vponded := subcatch_getDepth env project j * (project.Subcatch j).area }
            j tStep).1.Subcatch j).rainfall > 0 then 0
        else (getNetPrecip env
            { project with
              Vponded := subcatch_getDepth env project j * (project.Subcatch j).area }
            j tStep).1.Evap.rate))
    { project := (getNetPrecip env
        { project with Vponded := subcatch_getDepth env project j * (project.Subcatch j).area }
        j tStep).1,
      runoff := 0, rainVol := 0, outflow := 0, evapVol := 0, infilVol := 0, pervEvapVol := 0 }

/-- The sums of `subcatch_getRunoff` once the LID units have been evaluated. -/
def runoffLid (env : Env) (j : Nat) (tStep : ℚ) (sums : RunoffSums) : RunoffSums :=
  if (sums.project.Subcatch j).lidArea > 0 then
    let lid := env.lid_getRunoff sums.project j sums.outflow sums.evapVol sums.pervEvapVol
      sums.infilVol tStep
    { sums with
      runoff := sums.runoff + lid.runoff, outflow := lid.outflow, evapVol := lid.evapVol,
      pervEvapVol := lid.pervEvapVol, infilVol := lid.infilVol }
  else sums

/-- The project of `subcatch_getRunoff` once groundwater has been updated. -/
def runoffGwater (env : Env) (j : Nat) (tStep : ℚ) (sums : RunoffSums) : Project :=
  match sums.project.IgnoreGwater, (sums.project.Subcatch j).groundwater with
  | false, some _ =>
    setSubcatch sums.project j
      { sums.project.Subcatch j with
        groundwater :=
          some (env.gwater_getGroundwater sums.project j sums.pervEvapVol sums.infilVol tStep) }
  | _, _ => sums.project

/-- The end of `subcatch_getRunoff`: the outflow and loss rates and the volumes
are stored and handed to the statistics and to the flow balance. -/
def runoffFinish (project : Project) (j : Nat) (tStep : ℚ) (sums : RunoffSums) : Project × ℚ :=
  let area := (project.Subcatch j).area
  let project := setSubcatch project j
    { project.Subcatch j with
      newRunoff := sums.outflow,
      evapLoss := sums.evapVol / tStep / area,
      infilLoss := sums.infilVol / tStep / area }
  let project :=
    { project with
      Vrain := sums.rainVol, Vevap := sums.evapVol, Vinfil := sums.infilVol,
      Voutflow := sums.outflow * tStep,
      Vrunon := (project.Subcatch j).runon * tStep * area }
  let rainVol := (project.Subcatch j).rainfall * tStep * area
  let project := stats_updateSubcatchStats project j rainVol project.Vrunon project.Vevap
    project.Vinfil project.Voutflow sums.outflow
  let outflowVol := project.Voutflow
  let outflowVol :=
    if (project.Subcatch j).outNode = -1 ∧ (project.Subcatch j).outSubcatch ≠ (j : Int) then 0
    else outflowVol
  let project := massbal_updateRunoffTotals project rainVol sums.evapVol sums.infilVol outflowVol
  (project, sums.runoff / area)

/-- What `subcatch_getRunoff` leaves alone before its last block: `t` agrees
with `s` on the calls recorded for the flow balance and the statistics and on
the outlet and area of subcatchment `j`. -/
def RunoffFrame (j : Nat) (s t : Project) : Prop :=
  t.runoffTotals = s.runoffTotals ∧ t.subcatchStats = s.subcatchStats ∧
  (t.Subcatch j).outNode = (s.Subcatch j).outNode ∧
  (t.Subcatch j).outSubcatch = (s.Subcatch j).outSubcatch ∧
  (t.Subcatch j).area = (s.Subcatch j).area

/-- Every sub-area of subcatchment `j` in `t` has the outlet fraction 1 or `v`. -/
def OutletRange (j : Nat) (v : ℚ) (t : Project) : Prop :=
  ∀ i, (getSubarea t j i).fOutlet = 1 ∨ (getSubarea t j i).fOutlet = v

/-- Every subcatchment has area 1, leaves a runoff of 1/2 and holds an incoming
mass of 5 in `newQual`; the outflow load of every pollutant starts at 9. -/
def incomingMassProject : Project :=
  { zeroProject with
    OutflowLoad := fun _ => 9,
    Subcatch := fun _ => { zeroSubcatch with area := 1, newRunoff := 1 / 2, newQual := fun _ => 5 } }

/-! ## Validation -/

/-- Modelled from the spec: `report_writeErrorMsg` of the report module, which
is not among the sources; the message is appended to `errorReports`. -/
def report_writeErrorMsg (project : Project) (code : ReportCode) (j : Nat) : Project :=
  { project with errorReports := project.errorReports ++ [⟨code, j⟩] }

/-- Source `subcatch_validate`: checks the input parameters of a subcatchment
and computes `alpha` of its sub-areas. `gwater_validate` hands back the
groundwater object it leaves and the errors it reports. -/
def subcatch_validate (env : Env) (project : Project) (j : Nat) : Project :=
  let nonLidArea := (project.Subcatch j).area
  let project :=
    if (project.Subcatch j).outNode ≥ 0 ∧ (project.Subcatch j).outSubcatch ≥ 0 then
      report_writeErrorMsg project ReportCode.ERR_SUBCATCH_OUTLET j
    else project
  let project :=
    { setSubcatch project j
        { project.Subcatch j with groundwater := (env.gwater_validate project j).groundwater } with
      errorReports := project.errorReports ++ (env.gwater_validate project j).reports }
  let nonLidArea := nonLidArea - (project.Subcatch j).lidArea
  subareaTypes.foldl
    (fun project i =>
      let area :=
        if i = SubareaType.PERV then (1 - (project.Subcatch j).fracImperv) * nonLidArea
        else (project.Subcatch j).fracImperv * nonLidArea
      let project := setSubarea project j i { getSubarea project j i with alpha := 0 }
      if area > 0 ∧ (getSubarea project j i).N > 0 then
        setSubarea project j i
          { getSubarea project j i with
            alpha := MCOEFF * (project.Subcatch j).width / area *
              env.sqrt (project.Subcatch j).slope / (getSubarea project j i).N }
      else project)
    project

/-- The project of `subcatch_validate` when it comes to its loop over the
sub-areas. -/
def validateChecks (env : Env) (project : Project) (j : Nat) : Project :=
  { setSubcatch
      (if (project.Subcatch j).outNode ≥ 0 ∧ (project.Subcatch j).outSubcatch ≥ 0 then
        report_writeErrorMsg project ReportCode.ERR_SUBCATCH_OUTLET j
      else project) j
      { (if (project.Subcatch j).outNode ≥ 0 ∧ (project.Subcatch j).outSubcatch ≥ 0 then
          report_writeErrorMsg project ReportCode.ERR_SUBCATCH_OUTLET j
        else project).Subcatch j with
        groundwater := (env.gwater_validate
          (if (project.Subcatch j).outNode ≥ 0 ∧ (project.Subcatch j).outSubcatch ≥ 0 then
            report_writeErrorMsg project ReportCode.ERR_SUBCATCH_OUTLET j
          else project) j).groundwater } with
    errorReports :=
      (if (project.Subcatch j).outNode ≥ 0 ∧ (project.Subcatch j).outSubcatch ≥ 0 then
        report_writeErrorMsg project ReportCode.ERR_SUBCATCH_OUTLET j
      else project).errorReports ++
      (env.gwater_validate
        (if (project.Subcatch j).outNode ≥ 0 ∧ (project.Subcatch j).outSubcatch ≥ 0 then
          report_writeErrorMsg project ReportCode.ERR_SUBCATCH_OUTLET j
        else project) j).reports }

/-- The area that contributes to `alpha` of sub-area `i`: the total impervious
area for both impervious sub-areas, the pervious area for the pervious one. -/
def contributingArea (project : Project) (j : Nat) (nonLidArea : ℚ) (i : SubareaType) : ℚ :=
  if i = SubareaType.PERV then (1 - (project.Subcatch j).fracImperv) * nonLidArea
  else (project.Subcatch j).fracImperv * nonLidArea

/-- The loop body of `subcatch_validate` for sub-area `i`. -/
def validateAlpha (env : Env) (j : Nat) (nonLidArea : ℚ) (project : Project)
    (i : SubareaType) : Project :=
  let area := contributingArea project j nonLidArea i
  let project := setSubarea project j i { getSubarea project j i with alpha := 0 }
  if area > 0 ∧ (getSubarea project j i).N > 0 then
    setSubarea project j i
      { getSubarea project j i with
        alpha := MCOEFF * (project.Subcatch j).width / area *
          env.sqrt (project.Subcatch j).slope / (getSubarea project j i).N }
  else project

/-- What the loop of `subcatch_validate` reads and leaves alone: `t` agrees with
`s` on the impervious fraction, areas, width and slope of subcatchment `j` and on
Manning's n of its sub-areas. -/
def ValidateFrame (j : Nat) (s t : Project) : Prop :=
  (t.Subcatch j).fracImperv = (s.Subcatch j).fracImperv ∧
  (t.Subcatch j).area = (s.Subcatch j).area ∧
  (t.Subcatch j).lidArea = (s.Subcatch j).lidArea ∧
  (t.Subcatch j).width = (s.Subcatch j).width ∧
  (t.Subcatch j).slope = (s.Subcatch j).slope ∧
  ∀ i, (getSubarea t j i).N = (getSubarea s j i).N

/-- Every subcatchment has area 3, an LID area of 1, width 2, slope 4, is half
impervious and its sub-areas have a Manning roughness of 1/10. -/
def roughProject : Project :=
  { zeroProject with
    Subcatch := fun _ =>
      { zeroSubcatch with
        area := 3, lidArea := 1, width := 2, slope := 4, fracImperv := 1 / 2,
        subArea := fun _ => { zeroSubarea with N := 1 / 10, fArea := 1 / 2 } } }

/-- Store `a` in `project->Subcatch[j].subArea[i].alpha`. -/
def setAlpha (project : Project) (j : Nat) (i : SubareaType) (a : ℚ) : Project :=
  setSubarea project j i { getSubarea project j i with alpha := a }

/-- The loop of `subcatch_readSubareaParams` that reads Manning's n, the
depression storages and PctZero (`x[0..4]`) from the tokens 1 to 5. -/
def readSubareaValues (env : Env) (tok : Nat → String) : Except InpError (Nat → ℚ) :=
  (List.range 5).foldl
    (fun (read : Except InpError (Nat → ℚ)) i =>
      match read with
      | Except.error e => Except.error e
      | Except.ok x =>
        match env.getDouble (tok (i + 1)) with
        | none => Except.error ⟨ErrorCode.ERR_NAME, tok (i + 1)⟩
        | some v =>
          if v < 0 then Except.error ⟨ErrorCode.ERR_NAME, tok (i + 1)⟩
          else Except.ok (Function.update x i v))
    (Except.ok (fun _ => 0))

/-- The environment `basicEnv` with every number token read as 150. -/
def overflowEnv : Env :=
  { basicEnv with getDouble := fun _ => some 150 }

/-! ## Outflow and runoff of a subcatchment -/

/-- The project `t` has the area and LID area of subcatchment `j` in `s` and,
except for sub-area `i`, its sub-areas. -/
def OthersFrame (j : Nat) (i : SubareaType) (s t : Project) : Prop :=
  (t.Subcatch j).area = (s.Subcatch j).area ∧
  (t.Subcatch j).lidArea = (s.Subcatch j).lidArea ∧
  ∀ i2, i2 ≠ i → getSubarea t j i2 = getSubarea s j i2

/-- The project `t` has the area, the LID area and the sub-areas of subcatchment
`j` in `s`. -/
def ShapeFrame (j : Nat) (s t : Project) : Prop :=
  (t.Subcatch j).area = (s.Subcatch j).area ∧
  (t.Subcatch j).lidArea = (s.Subcatch j).lidArea ∧
  ∀ i, getSubarea t j i = getSubarea s j i
/-! ## Double-precision arithmetic

The definitions above compute with exact rationals. The definitions of the
namespace `Rounded` below embed the same source functions with the rounding of
the arithmetic as a parameter `rnd`: every `+`, `-`, `*` and `/` of the source
is the exact result passed through `rnd`; comparisons, `MIN`, `MAX` and
assignments are exact. With `rnd = id` they are the definitions above; with
`rnd = roundDouble` they compute as C `double` does (IEEE 754 binary64, round to
nearest, ties to even), with an unbounded exponent range: no overflow, no
underflow, no infinity and no NaN. -/

/-- The integer nearest to `q`, the even one of the two when `q` lies half-way. -/
def roundHalfEven (q : ℚ) : ℤ :=
  if q - ⌊q⌋ < 1 / 2 then ⌊q⌋
  else if 1 / 2 < q - ⌊q⌋ then ⌊q⌋ + 1
  else if ⌊q⌋ % 2 = 0 then ⌊q⌋ else ⌊q⌋ + 1

/-- The number with a significand of 53 bits nearest to a positive `x`: `x` is
scaled by the power of two that brings it into `[2^52, 2^53)`, rounded to an
integer and scaled back. -/
def roundPos (x : ℚ) : ℚ :=
  (roundHalfEven (x * 2 ^ (52 - Int.log 2 x)) : ℚ) / 2 ^ (52 - Int.log 2 x)

/-- The `double` nearest to `x` (round to nearest, ties to even). -/
def roundDouble (x : ℚ) : ℚ :=
  if 0 < x then roundPos x else if x < 0 then -roundPos (-x) else 0

/-- What the theorems below use of a rounding: it keeps 0, it is monotone and
rounding twice is rounding once. -/
def RoundingLaws (rnd : ℚ → ℚ) : Prop :=
  rnd 0 = 0 ∧ (∀ x y, x ≤ y → rnd x ≤ rnd y) ∧ ∀ x, rnd (rnd x) = rnd x

namespace Rounded

/-! ### Sub-area methods -/

/-- Source `getDdDt`, each operation rounded by `rnd`. -/
def getDdDt (rnd : ℚ → ℚ) (env : Env) (project : Project) (_t : ℚ) (d : ℚ) : ℚ :=
  let ix := rnd (project.theSubarea.inflow - project.Losses)
  let rx := rnd (d - project.theSubarea.dStore)
  let rx := if rx < 0 then 0 else rnd (project.theSubarea.alpha * env.pow rx MEXP)
  rnd (ix - rx)

/-- Source `getSubareaInfil`, each operation rounded by `rnd`. -/
def getSubareaInfil (rnd : ℚ → ℚ) (env : Env) (project : Project) (j : Nat)
    (subarea : TSubarea) (precip tStep : ℚ) : ℚ :=
  let infil := env.infil_getInfil project j project.InfilModel tStep precip
    subarea.inflow subarea.depth
  match project.IgnoreGwater, (project.Subcatch j).groundwater with
  | false, some gw => MIN infil (rnd (gw.maxInfilVol / tStep))
  | _, _ => infil

/-- Source `findSubareaRunoff`, each operation rounded by `rnd`. -/
def findSubareaRunoff (rnd : ℚ → ℚ) (env : Env) (subarea : TSubarea) (tRunoff : ℚ) :
    TSubarea :=
  let xDepth := rnd (subarea.depth - subarea.dStore)
  if xDepth > env.ZERO then
    if subarea.N > 0 then
      { subarea with runoff := rnd (subarea.alpha * env.pow xDepth MEXP) }
    else
      { subarea with runoff := rnd (xDepth / tRunoff), depth := subarea.dStore }
  else
    { subarea with runoff := 0 }

/-- Source `updatePondedDepth`, each operation rounded by `rnd`. Returns the
project, the sub-area and the time the ponded depth is above depression
storage. -/
def updatePondedDepth (rnd : ℚ → ℚ) (env : Env) (project : Project) (subarea : TSubarea)
    (dt : ℚ) : Project × TSubarea × ℚ :=
  let tx := dt
  let ix := rnd (subarea.inflow - project.Losses)
  let stepped : Project × TSubarea × ℚ :=
    if rnd (subarea.depth + rnd (ix * tx)) ≤ subarea.dStore then
      (project, { subarea with depth := rnd (subarea.depth + rnd (ix * tx)) }, tx)
    else
      let dx := rnd (subarea.dStore - subarea.depth)
      let filled : TSubarea × ℚ :=
        if dx > 0 ∧ ix > 0 then
          ({ subarea with depth := subarea.dStore }, rnd (tx - rnd (dx / ix)))
        else (subarea, tx)
      let subarea := filled.1
      let tx := filled.2
      if subarea.alpha > 0 ∧ tx > 0 then
        let project := { project with theSubarea := subarea }
        (project,
         { subarea with
           depth := env.odesolve_integrate project subarea.depth 1 0 tx ODETOL tx
             (getDdDt rnd env project) },
         tx)
      else
        let tx := if tx < 0 then 0 else tx
        (project, { subarea with depth := rnd (subarea.depth + rnd (ix * tx)) }, tx)
  let project := stepped.1
  let subarea := stepped.2.1
  let tx := stepped.2.2
  let subarea := if subarea.depth < 0 then { subarea with depth := 0 } else subarea
  (project, subarea, tx)

/-- Source `getSubareaRunoff`, each operation rounded by `rnd`. -/
def getSubareaRunoff (rnd : ℚ → ℚ) (env : Env) (project : Project) (j : Nat)
    (i : SubareaType) (precip evap tStep : ℚ) : Project :=
  let tRunoff := tStep
  let oldRunoff := (getSubarea project j i).runoff
  let project := setSubarea project j i { getSubarea project j i with runoff := 0 }
  let project := { project with
    Vevap := 0, Vinfil := 0, Voutflow := 0, Losses := 0, Outflow := 0 }
  if (getSubarea project j i).fArea = 0 then project
  else
    let surfMoisture := rnd ((getSubarea project j i).depth / tStep)
    let surfEvap := MIN surfMoisture evap
    let infil : ℚ :=
      if i = SubareaType.PERV then
        getSubareaInfil rnd env project j (getSubarea project j i) precip tStep
      else 0
    let project := setSubarea project j i
      { getSubarea project j i with inflow := rnd ((getSubarea project j i).inflow + precip) }
    let surfMoisture := rnd (surfMoisture + (getSubarea project j i).inflow)
    let project := { project with
      Vevap := rnd (surfEvap * tStep), Vinfil := rnd (infil * tStep) }
    let project := { project with Losses := rnd (surfEvap + infil) }
    let ponded : Project × TSubarea × ℚ :=
      if project.Losses ≥ surfMoisture then
        ({ project with Losses := surfMoisture },
         { getSubarea project j i with depth := 0 }, tRunoff)
      else updatePondedDepth rnd env project (getSubarea project j i) tRunoff
    let project := setSubarea ponded.1 j i ponded.2.1
    let tRunoff := ponded.2.2
    let project := setSubarea project j i
      (findSubareaRunoff rnd env (getSubarea project j i) tRunoff)
    if (getSubarea project j i).fOutlet > 0 then
      { project with
        Voutflow := rnd (rnd (rnd ((1 / 2) * rnd (oldRunoff + (getSubarea project j i).runoff))
            * tRunoff)
          * (getSubarea project j i).fOutlet),
        Outflow := rnd ((getSubarea project j i).fOutlet * (getSubarea project j i).runoff) }
    else project

/-! ### The stages of `getSubareaRunoff` -/

/-- The local `surfEvap` of `getSubareaRunoff`. -/
def subareaEvap (rnd : ℚ → ℚ) (project : Project) (j : Nat) (i : SubareaType)
    (evap tStep : ℚ) : ℚ :=
  MIN (rnd ((getSubarea project j i).depth / tStep)) evap

/-- The local `infil` of `getSubareaRunoff`. -/
def subareaInfil (rnd : ℚ → ℚ) (env : Env) (project : Project) (j : Nat) (i : SubareaType)
    (precip tStep : ℚ) : ℚ :=
  if i = SubareaType.PERV then
    getSubareaInfil rnd env (subareaInit project j i) j
      (getSubarea (subareaInit project j i) j i) precip tStep
  else 0

/-- The local `surfMoisture` of `getSubareaRunoff` once the inflow, net
precipitation included, has been added to it. -/
def subareaMoisture (rnd : ℚ → ℚ) (project : Project) (j : Nat) (i : SubareaType)
    (precip tStep : ℚ) : ℚ :=
  rnd (rnd ((getSubarea project j i).depth / tStep)
    + rnd ((getSubarea project j i).inflow + precip))

/-- The sub-area as `getSubareaRunoff` has it before the ponded depth is
updated: runoff zero and net precipitation added to the inflow. -/
def subareaWetted (rnd : ℚ → ℚ) (project : Project) (j : Nat) (i : SubareaType)
    (precip : ℚ) : TSubarea :=
  { getSubarea project j i with
    runoff := 0, inflow := rnd ((getSubarea project j i).inflow + precip) }

/-- The project at the point where `getSubareaRunoff` has set
`Losses = surfEvap + infil`. -/
def subareaLosses (rnd : ℚ → ℚ) (env : Env) (project : Project) (j : Nat) (i : SubareaType)
    (precip evap tStep : ℚ) : Project :=
  { setSubarea (subareaInit project j i) j i
      { getSubarea (subareaInit project j i) j i with
        inflow := rnd ((getSubarea (subareaInit project j i) j i).inflow + precip) } with
    Vevap := rnd (subareaEvap rnd project j i evap tStep * tStep),
    Vinfil := rnd (subareaInfil rnd env project j i precip tStep * tStep),
    Losses := rnd (subareaEvap rnd project j i evap tStep
      + subareaInfil rnd env project j i precip tStep) }

/-- The local `ponded` step of `getSubareaRunoff`: depletion of the ponded water
or `updatePondedDepth`. -/
def subareaPonded (rnd : ℚ → ℚ) (env : Env) (project : Project) (j : Nat) (i : SubareaType)
    (precip evap tStep : ℚ) : Project × TSubarea × ℚ :=
  if (subareaLosses rnd env project j i precip evap tStep).Losses
      ≥ subareaMoisture rnd project j i precip tStep then
    ({ subareaLosses rnd env project j i precip evap tStep with
        Losses := subareaMoisture rnd project j i precip tStep },
     { getSubarea (subareaLosses rnd env project j i precip evap tStep) j i with depth := 0 },
     tStep)
  else updatePondedDepth rnd env (subareaLosses rnd env project j i precip evap tStep)
    (getSubarea (subareaLosses rnd env project j i precip evap tStep) j i) tStep

/-- The ponded depth `depth + (inflow - Losses) * tStep` that `updatePondedDepth`
computes for a sub-area when no depression storage has to be filled first. -/
def steppedDepth (rnd : ℚ → ℚ) (project : Project) (subarea : TSubarea) (dt : ℚ) : ℚ :=
  rnd (subarea.depth + rnd (rnd (subarea.inflow - project.Losses) * dt))

/-! ### Runoff of a subcatchment -/

/-- Source `subcatch_getDepth`, each operation rounded by `rnd`. -/
def subcatch_getDepth (rnd : ℚ → ℚ) (env : Env) (project : Project) (j : Nat) : ℚ :=
  let depth : ℚ := subareaTypes.foldl
    (fun depth i =>
      let fArea := (getSubarea project j i).fArea
      if fArea > 0 then rnd (depth + rnd ((getSubarea project j i).depth * fArea)) else depth)
    0
  if (project.Subcatch j).lidArea > 0 then
    rnd (rnd (rnd (depth * rnd ((project.Subcatch j).area - (project.Subcatch j).lidArea)) +
      rnd (env.lid_getSurfaceDepth project j * (project.Subcatch j).lidArea)) /
        (project.Subcatch j).area)
  else depth

/-- Source `getNetPrecip`, each operation rounded by `rnd`. Returns the project
and the array `netPrecip`. -/
def getNetPrecip (rnd : ℚ → ℚ) (env : Env) (project : Project) (j : Nat) (tStep : ℚ) :
    Project × (SubareaType → ℚ) :=
  let k := (project.Subcatch j).gage
  let precip : ℚ × ℚ := if k ≥ 0 then env.gage_getPrecip project k.toNat else (0, 0)
  let rainfall := precip.1
  let snowfall := precip.2
  let rainfall :=
    match env.containsSubcatchRain project j with
    | some value => value
    | none => rainfall
  let project := setSubcatch project j
    { project.Subcatch j with rainfall := rnd (rainfall + snowfall) }
  match (project.Subcatch j).snowpack, project.IgnoreSnowmelt with
  | some _, false =>
    let melt := env.snow_getSnowMelt project j rainfall snowfall tStep
    (setSubcatch project j
      { project.Subcatch j with
        newSnowDepth := melt.snowDepth, snowpack := some melt.snowpack },
     melt.netPrecip)
  | _, _ => (project, fun _ => rnd (rainfall + snowfall))

/-- The loop body of `subcatch_getRunoff` for sub-area `i`, each operation
rounded by `rnd`. -/
def runoffSubarea (rnd : ℚ → ℚ) (env : Env) (j : Nat) (tStep : ℚ)
    (netPrecip : SubareaType → ℚ) (evapRate : ℚ) (sums : RunoffSums) (i : SubareaType) :
    RunoffSums :=
  let area := rnd (rnd ((sums.project.Subcatch j).area - (sums.project.Subcatch j).lidArea) *
    (getSubarea sums.project j i).fArea)
  if area > 0 then
    let project := getSubareaRunoff rnd env sums.project j i (netPrecip i) evapRate tStep
    { project := project,
      runoff := rnd (sums.runoff + rnd ((getSubarea project j i).runoff * area)),
      rainVol := rnd (sums.rainVol + rnd (rnd (netPrecip i * tStep) * area)),
      outflow := rnd (sums.outflow + rnd (project.Outflow * area)),
      evapVol := rnd (sums.evapVol + rnd (project.Vevap * area)),
      infilVol := rnd (sums.infilVol + rnd (project.Vinfil * area)),
      pervEvapVol :=
        if i = SubareaType.PERV then rnd (sums.pervEvapVol + rnd (project.Vevap * area))
        else sums.pervEvapVol }
  else sums

/-- The sums of `subcatch_getRunoff` after its loop over the sub-areas. -/
def runoffSubareas (rnd : ℚ → ℚ) (env : Env) (project : Project) (j : Nat) (tStep : ℚ) :
    RunoffSums :=
  let project :=
    { project with
      Vponded := rnd (subcatch_getDepth rnd env project j * (project.Subcatch j).area) }
  let net := getNetPrecip rnd env project j tStep
  let project := net.1
  let evapRate : ℚ :=
    if project.Evap.dryOnly = true ∧ (project.Subcatch j).rainfall > 0 then 0
    else project.Evap.rate
  subareaTypes.foldl (runoffSubarea rnd env j tStep net.2 evapRate)
    { project := project, runoff := 0, rainVol := 0, outflow := 0, evapVol := 0, infilVol := 0,
      pervEvapVol := 0 }

/-- The sums of `subcatch_getRunoff` once the LID units have been evaluated. -/
def runoffLid (rnd : ℚ → ℚ) (env : Env) (j : Nat) (tStep : ℚ) (sums : RunoffSums) :
    RunoffSums :=
  if (sums.project.Subcatch j).lidArea > 0 then
    let lid := env.lid_getRunoff sums.project j sums.outflow sums.evapVol sums.pervEvapVol
      sums.infilVol tStep
    { sums with
      runoff := rnd (sums.runoff + lid.runoff), outflow := lid.outflow, evapVol := lid.evapVol,
      pervEvapVol := lid.pervEvapVol, infilVol := lid.infilVol }
  else sums

/-- The end of `subcatch_getRunoff`: the outflow and loss rates and the volumes
are stored and handed to the statistics and to the flow balance, each operation
rounded by `rnd`. -/
def runoffFinish (rnd : ℚ → ℚ) (project : Project) (j : Nat) (tStep : ℚ) (sums : RunoffSums) :
    Project × ℚ :=
  let area := (project.Subcatch j).area
  let project := setSubcatch project j
    { project.Subcatch j with
      newRunoff := sums.outflow,
      evapLoss := rnd (rnd (sums.evapVol / tStep) / area),
      infilLoss := rnd (rnd (sums.infilVol / tStep) / area) }
  let project :=
    { project with
      Vrain := sums.rainVol, Vevap := sums.evapVol, Vinfil := sums.infilVol,
      Voutflow := rnd (sums.outflow * tStep),
      Vrunon := rnd (rnd ((project.Subcatch j).runon * tStep) * area) }
  let rainVol := rnd (rnd ((project.Subcatch j).rainfall * tStep) * area)
  let project := stats_updateSubcatchStats project j rainVol project.Vrunon project.Vevap
    project.Vinfil project.Voutflow sums.outflow
  let outflowVol := project.Voutflow
  let outflowVol :=
    if (project.Subcatch j).outNode = -1 ∧ (project.Subcatch j).outSubcatch ≠ (j : Int) then 0
    else outflowVol
  let project := massbal_updateRunoffTotals project rainVol sums.evapVol sums.infilVol outflowVol
  (project, rnd (sums.runoff / area))

/-- The local `area` of the loop of `subcatch_getRunoff` for sub-area `i`: the
part of the subcatchment outside the LID units that the sub-area covers. -/
def subareaArea (rnd : ℚ → ℚ) (project : Project) (j : Nat) (i : SubareaType) : ℚ :=
  rnd (rnd ((project.Subcatch j).area - (project.Subcatch j).lidArea) *
    (getSubarea project j i).fArea)

/-- The sum of `t i` over the three sub-areas as the loop of `subcatch_getRunoff`
accumulates it: from 0, `acc += t[i]` for `IMPERV0`, `IMPERV1`, `PERV`, each
addition rounded. -/
def accumulate (rnd : ℚ → ℚ) (t : SubareaType → ℚ) : ℚ :=
  subareaTypes.foldl (fun acc i => rnd (acc + t i)) 0

/-- Source `subcatch_getRunoff`, each operation rounded by `rnd`: the loop over
the sub-areas (`runoffSubareas`), the LID units (`runoffLid`), the groundwater
update, which has no arithmetic of its own (`runoffGwater`), and the end of the
function (`runoffFinish`). Returns the project and the area-averaged runoff. -/
def subcatch_getRunoff (rnd : ℚ → ℚ) (env : Env) (project : Project) (j : Nat) (tStep : ℚ) :
    Project × ℚ :=
  let sums := runoffLid rnd env j tStep (runoffSubareas rnd env project j tStep)
  runoffFinish rnd (runoffGwater env j tStep sums) j tStep sums

/-! ### Sub-area parameters -/

/-- Assignments of Manning's n and depression storage in
`subcatch_readSubareaParams`, each operation rounded by `rnd`. -/
def assignStorage (rnd : ℚ → ℚ) (env : Env) (project : Project) (j : Nat) (x : Nat → ℚ) :
    Project :=
  let project := setSubarea project j SubareaType.IMPERV0
    { getSubarea project j SubareaType.IMPERV0 with N := x 0 }
  let project := setSubarea project j SubareaType.IMPERV1
    { getSubarea project j SubareaType.IMPERV1 with N := x 0 }
  let project := setSubarea project j SubareaType.PERV
    { getSubarea project j SubareaType.PERV with N := x 1 }
  let project := setSubarea project j SubareaType.IMPERV0
    { getSubarea project j SubareaType.IMPERV0 with dStore := 0 }
  let project := setSubarea project j SubareaType.IMPERV1
    { getSubarea project j SubareaType.IMPERV1 with
      dStore := rnd (x 2 / env.UCF project UnitType.RAINDEPTH) }
  setSubarea project j SubareaType.PERV
    { getSubarea project j SubareaType.PERV with
      dStore := rnd (x 3 / env.UCF project UnitType.RAINDEPTH) }

/-- Assignments of the area fractions in `subcatch_readSubareaParams`, each
operation rounded by `rnd`. -/
def assignAreas (rnd : ℚ → ℚ) (project : Project) (j : Nat) (x : Nat → ℚ) : Project :=
  let project := setSubarea project j SubareaType.IMPERV0
    { getSubarea project j SubareaType.IMPERV0 with
      fArea := rnd (rnd ((project.Subcatch j).fracImperv * x 4) / 100) }
  let project := setSubarea project j SubareaType.IMPERV1
    { getSubarea project j SubareaType.IMPERV1 with
      fArea := rnd ((project.Subcatch j).fracImperv * rnd (1 - rnd (x 4 / 100))) }
  setSubarea project j SubareaType.PERV
    { getSubarea project j SubareaType.PERV with
      fArea := rnd (1 - (project.Subcatch j).fracImperv) }

/-- Assignments of the routing in `subcatch_readSubareaParams`, each operation
rounded by `rnd`. -/
def assignRouting (rnd : ℚ → ℚ) (project : Project) (j : Nat) (m : Int) (x6 : ℚ) : Project :=
  let project := routeAllToOutlet project j
  let k : Int := m
  let k : Int :=
    if (project.Subcatch j).fracImperv = 0 ∨ (project.Subcatch j).fracImperv = 1 then
      routeToCode RouteTo.TO_OUTLET
    else k
  let project :=
    if k = routeToCode RouteTo.TO_IMPERV ∧ (project.Subcatch j).fracImperv ≠ 0 then
      setFOutlet (setRouteTo project j SubareaType.PERV RouteTo.TO_IMPERV) j SubareaType.PERV
        (rnd (1 - x6))
    else project
  if k = routeToCode RouteTo.TO_PERV then
    setFOutlet
      (setFOutlet
        (setRouteTo (setRouteTo project j SubareaType.IMPERV0 RouteTo.TO_PERV) j
          SubareaType.IMPERV1 RouteTo.TO_PERV)
        j SubareaType.IMPERV0 (rnd (1 - x6)))
      j SubareaType.IMPERV1 (rnd (1 - x6))
  else project

/-- Source `subcatch_readSubareaParams`, each operation rounded by `rnd`: the
token checks, then the assignments of storage, area fractions and routing. -/
def subcatch_readSubareaParams (rnd : ℚ → ℚ) (env : Env) (project : Project)
    (tok : Nat → String) (ntoks : Int) : Except InpError Project :=
  if ntoks < 7 then Except.error ⟨ErrorCode.ERR_ITEMS, ""⟩
  else
    let j := env.project_findObject project ObjectType.SUBCATCH (tok 0)
    if j < 0 then Except.error ⟨ErrorCode.ERR_NAME, tok 0⟩
    else
      match readSubareaValues env tok with
      | Except.error e => Except.error e
      | Except.ok x =>
        let m := env.findmatch (tok 6) (RunoffRoutingWords env)
        if m < 0 then Except.error ⟨ErrorCode.ERR_KEYWORD, tok 6⟩
        else
          let routed : Except InpError ℚ :=
            if ntoks ≥ 8 then
              match env.getDouble (tok 7) with
              | none => Except.error ⟨ErrorCode.ERR_NUMBER, tok 7⟩
              | some v =>
                if v < 0 ∨ v > 100 then Except.error ⟨ErrorCode.ERR_NUMBER, tok 7⟩
                else Except.ok (rnd (v / 100))
            else Except.ok 1
          match routed with
          | Except.error e => Except.error e
          | Except.ok x6 =>
            Except.ok
              (assignRouting rnd
                (assignAreas rnd (assignStorage rnd env project j.toNat x) j.toNat x)
                j.toNat m x6)

end Rounded

/-! ### Sample states for double arithmetic -/

/-- A dry sub-area without Manning roughness that receives 0.7 ft/s (the double
nearest to 7/10) over a depression storage of 209.99999999999997 ft (the double
just below 210). -/
def fillingSubarea : TSubarea :=
  { zeroSubarea with
    fArea := 1, fOutlet := 1, inflow := 3152519739159347 / 4503599627370496,
    dStore := 7388718138654719 / 35184372088832 }

/-- The environment `basicEnv` with a rain gage that reports 0.4 ft/s of rain
(the double nearest to 0.4) and no snow. -/
def rainEnv : Env :=
  { basicEnv with gage_getPrecip := fun _ _ => (3602879701896397 / 9007199254740992, 0) }

/-- A dry, fully impervious subcatchment of area 3 with a rain gage and without
LID area, as `subcatch_readSubareaParams` leaves it for 75 percent of the
impervious area without depression storage: that sub-area covers 3/4 of the
subcatchment, the impervious sub-area with a depression storage of 10 ft the
remaining quarter; no Manning roughness, all runoff to the outlet. -/
def rainedCatchment : Project :=
  { zeroProject with
    Subcatch := fun _ =>
      { zeroSubcatch with
        gage := 0, area := 3, fracImperv := 1,
        subArea := fun i =>
          match i with
          | SubareaType.IMPERV0 => { zeroSubarea with fArea := 3 / 4, fOutlet := 1 }
          | SubareaType.IMPERV1 => { zeroSubarea with fArea := 1 / 4, fOutlet := 1, dStore := 10 }
          | SubareaType.PERV => { zeroSubarea with fArea := 0, fOutlet := 1 } } }

/-- The environment `basicEnv` with every number token read as 6. -/
def sixPercentEnv : Env :=
  { basicEnv with getDouble := fun _ => some 6 }

/-- Every subcatchment is 6 percent impervious: `fracImperv` is the double
nearest to 0.06. -/
def sixPercentProject : Project :=
  { zeroProject with
    Subcatch := fun _ =>
      { zeroSubcatch with area := 1, fracImperv := 1080863910568919 / 18014398509481984 } }

/-- The rounding `rnd` changes no number by more than the fraction `u` of its
size (for `double`, `u = 2^-53`). -/
def RoundingError (rnd : ℚ → ℚ) (u : ℚ) : Prop :=
  ∀ x, |rnd x - x| ≤ u * |x|

/-! # Theorems -/

theorem update_ite_lt {α : Type} (a b : Nat → α) (n : Nat) :
    Function.update (fun p => if p < n then a p else b p) n (a n)
      = fun p => if p < n + 1 then a p else b p := by
  funext p
  by_cases h : p = n
  · subst h; simp
  · rw [Function.update_noteq h]
    by_cases h2 : p < n
    · have h3 : p < n + 1 := by omega
      simp [h2, h3]
    · have h3 : ¬ p < n + 1 := by omega
      simp [h2, h3]

theorem setSubcatch_setSubcatch (project : Project) (j : Nat) (a b : TSubcatch) :
    setSubcatch (setSubcatch project j a) j b = setSubcatch project j b := by
  simp [setSubcatch]

theorem setSubcatch_self (project : Project) (j : Nat) :
    setSubcatch project j (project.Subcatch j) = project := by
  simp [setSubcatch]

theorem setSubarea_eq (project : Project) (j : Nat) (i : SubareaType) (sa : TSubarea) :
    setSubarea project j i sa =
      setSubcatch project j
        { project.Subcatch j with
          subArea := Function.update (project.Subcatch j).subArea i sa } := rfl

theorem setOldState_qual_loop (project : Project) (j n : Nat) :
    (List.range n).foldl
      (fun project i =>
        let project := setSubcatch project j
          { project.Subcatch j with
            oldQual := Function.update (project.Subcatch j).oldQual i
              ((project.Subcatch j).newQual i) }
        setSubcatch project j
          { project.Subcatch j with
            newQual := Function.update (project.Subcatch j).newQual i 0 })
      project
    = setSubcatch project j
        { project.Subcatch j with
          oldQual := fun p =>
            if p < n then (project.Subcatch j).newQual p else (project.Subcatch j).oldQual p,
          newQual := fun p => if p < n then 0 else (project.Subcatch j).newQual p } := by
  induction n with
  | zero => simp [setSubcatch]
  | succ n ih =>
    rw [List.range_succ, List.foldl_append, ih]
    simp only [List.foldl_cons, List.foldl_nil, setSubcatch_setSubcatch]
    simp only [setSubcatch, Function.update_same]
    have h1 := update_ite_lt (project.Subcatch j).newQual (project.Subcatch j).oldQual n
    have h2 := update_ite_lt (fun _ => (0 : ℚ)) (project.Subcatch j).newQual n
    simp only [lt_self_iff_false, if_false] at h1 h2 ⊢
    rw [h1, h2]

theorem update_ite_lt_add (a c : Nat → ℚ) (n : Nat) :
    Function.update (fun p => if p < n then a p + c p else a p) n (a n + c n)
      = fun p => if p < n + 1 then a p + c p else a p :=
  update_ite_lt (fun p => a p + c p) a n

theorem runon_qual_loop (project : Project) (j k n : Nat) (L : ℚ) (hkj : k ≠ j) :
    (List.range n).foldl
        (fun project i => setSubcatch project k
          { project.Subcatch k with
            newQual := Function.update (project.Subcatch k).newQual i
              ((project.Subcatch k).newQual i +
                (project.Subcatch j).oldRunoff * (project.Subcatch j).oldQual i * L) })
        project
      = addQual project k n
          (fun p => (project.Subcatch j).oldRunoff * (project.Subcatch j).oldQual p * L) := by
  have hjk : j ≠ k := fun h => hkj h.symm
  induction n with
  | zero => simp [addQual, setSubcatch]
  | succ n ih =>
    rw [List.range_succ, List.foldl_append, ih]
    simp only [List.foldl_cons, List.foldl_nil, addQual, setSubcatch_setSubcatch]
    simp only [setSubcatch, Function.update_same, Function.update_noteq hjk]
    have h1 := update_ite_lt_add (project.Subcatch k).newQual
      (fun p => (project.Subcatch j).oldRunoff * (project.Subcatch j).oldQual p * L) n
    simp only [lt_self_iff_false, if_false] at h1 ⊢
    rw [h1]

theorem getRunon_blocks (env : Env) (project : Project) (j : Nat) :
    subcatch_getRunon env project j =
      runonFromLid env
        (runonPervToImperv (runonImpervToPerv (runonToOutlet env project j) j) j) j := rfl

theorem addInflow_Subcatch_ne (s : Project) (m m2 : Nat) (i : SubareaType) (x : ℚ)
    (h : m2 ≠ m) : (addInflow s m i x).Subcatch m2 = s.Subcatch m2 := by
  simp [addInflow, setSubarea, Function.update_noteq h]

theorem addInflow_fields (s : Project) (m m2 : Nat) (i : SubareaType) (x : ℚ) :
    (addInflow s m i x).Nobjects = s.Nobjects ∧
    ((addInflow s m i x).Subcatch m2).outSubcatch = (s.Subcatch m2).outSubcatch ∧
    ((addInflow s m i x).Subcatch m2).outNode = (s.Subcatch m2).outNode ∧
    ((addInflow s m i x).Subcatch m2).area = (s.Subcatch m2).area ∧
    ((addInflow s m i x).Subcatch m2).fracImperv = (s.Subcatch m2).fracImperv ∧
    ((addInflow s m i x).Subcatch m2).lidArea = (s.Subcatch m2).lidArea ∧
    ((addInflow s m i x).Subcatch m2).oldRunoff = (s.Subcatch m2).oldRunoff ∧
    ((addInflow s m i x).Subcatch m2).newRunoff = (s.Subcatch m2).newRunoff ∧
    ((addInflow s m i x).Subcatch m2).runon = (s.Subcatch m2).runon ∧
    ((addInflow s m i x).Subcatch m2).oldQual = (s.Subcatch m2).oldQual ∧
    ((addInflow s m i x).Subcatch m2).newQual = (s.Subcatch m2).newQual ∧
    ((addInflow s m i x).Subcatch m2).pondedQual = (s.Subcatch m2).pondedQual := by
  by_cases h : m2 = m
  · subst h
    simp [addInflow, setSubarea]
  · simp [addInflow_Subcatch_ne s m m2 i x h]
    simp [addInflow, setSubarea]

theorem addInflow_subarea (s : Project) (m m2 : Nat) (i i2 : SubareaType) (x : ℚ) :
    (getSubarea (addInflow s m i x) m2 i2).routeTo = (getSubarea s m2 i2).routeTo ∧
    (getSubarea (addInflow s m i x) m2 i2).fOutlet = (getSubarea s m2 i2).fOutlet ∧
    (getSubarea (addInflow s m i x) m2 i2).N = (getSubarea s m2 i2).N ∧
    (getSubarea (addInflow s m i x) m2 i2).fArea = (getSubarea s m2 i2).fArea ∧
    (getSubarea (addInflow s m i x) m2 i2).dStore = (getSubarea s m2 i2).dStore ∧
    (getSubarea (addInflow s m i x) m2 i2).alpha = (getSubarea s m2 i2).alpha ∧
    (getSubarea (addInflow s m i x) m2 i2).runoff = (getSubarea s m2 i2).runoff ∧
    (getSubarea (addInflow s m i x) m2 i2).depth = (getSubarea s m2 i2).depth ∧
    (getSubarea (addInflow s m i x) m2 i2).inflow
      = (getSubarea s m2 i2).inflow + (if m2 = m ∧ i2 = i then x else 0) := by
  by_cases h : m2 = m
  · subst h
    by_cases h2 : i2 = i
    · subst h2
      simp [addInflow, setSubarea, getSubarea]
    · simp [addInflow, setSubarea, getSubarea, Function.update_noteq h2, h2]
  · simp [getSubarea, addInflow_Subcatch_ne s m m2 i x h, h]
theorem addRunon_Subcatch_ne (s : Project) (m m2 : Nat) (x : ℚ) (h : m2 ≠ m) :
    (addRunon s m x).Subcatch m2 = s.Subcatch m2 := by
  simp [addRunon, setSubcatch, Function.update_noteq h]

theorem addQual_Subcatch_ne (s : Project) (m m2 n : Nat) (c : Nat → ℚ) (h : m2 ≠ m) :
    (addQual s m n c).Subcatch m2 = s.Subcatch m2 := by
  simp [addQual, setSubcatch, Function.update_noteq h]

theorem routerFrame_refl (s : Project) : RouterFrame s s :=
  ⟨rfl, fun _ => ⟨rfl, rfl, rfl, rfl, rfl, rfl, rfl, rfl, rfl,
    fun _ => ⟨rfl, rfl, rfl, rfl, rfl, rfl, rfl, rfl⟩⟩⟩

theorem routerFrame_trans {a b c : Project} (h1 : RouterFrame a b) (h2 : RouterFrame b c) :
    RouterFrame a c := by
  refine ⟨h2.1.trans h1.1, fun m => ?_⟩
  obtain ⟨a1, a2, a3, a4, a5, a6, a7, a8, a9, a10⟩ := h1.2 m
  obtain ⟨b1, b2, b3, b4, b5, b6, b7, b8, b9, b10⟩ := h2.2 m
  refine ⟨b1.trans a1, b2.trans a2, b3.trans a3, b4.trans a4, b5.trans a5, b6.trans a6,
    b7.trans a7, b8.trans a8, b9.trans a9, fun i => ?_⟩
  obtain ⟨c1, c2, c3, c4, c5, c6, c7, c8⟩ := a10 i
  obtain ⟨d1, d2, d3, d4, d5, d6, d7, d8⟩ := b10 i
  exact ⟨d1.trans c1, d2.trans c2, d3.trans c3, d4.trans c4, d5.trans c5, d6.trans c6,
    d7.trans c7, d8.trans c8⟩

theorem routerFrame_addInflow (s : Project) (m : Nat) (i : SubareaType) (x : ℚ) :
    RouterFrame s (addInflow s m i x) := by
  refine ⟨(addInflow_fields s m 0 i x).1, fun m2 => ?_⟩
  obtain ⟨_, a1, a2, a3, a4, a5, a6, a7, _, a8, _, a9⟩ := addInflow_fields s m m2 i x
  refine ⟨a1, a2, a3, a4, a5, a6, a7, a8, a9, fun i2 => ?_⟩
  obtain ⟨c1, c2, c3, c4, c5, c6, c7, c8, _⟩ := addInflow_subarea s m m2 i i2 x
  exact ⟨c1, c2, c3, c4, c5, c6, c7, c8⟩

theorem routerFrame_addRunon (s : Project) (m : Nat) (x : ℚ) :
    RouterFrame s (addRunon s m x) := by
  refine ⟨rfl, fun m2 => ?_⟩
  by_cases h : m2 = m
  · subst h
    simp [addRunon, setSubcatch, getSubarea]
  · simp [getSubarea, addRunon_Subcatch_ne s m m2 x h]

theorem routerFrame_addQual (s : Project) (m n : Nat) (c : Nat → ℚ) :
    RouterFrame s (addQual s m n c) := by
  refine ⟨rfl, fun m2 => ?_⟩
  by_cases h : m2 = m
  · subst h
    simp [addQual, setSubcatch, getSubarea]
  · simp [getSubarea, addQual_Subcatch_ne s m m2 n c h]
/-- An outlet subcatchment that passes the test of the first block of
`subcatch_getRunon` is not `j` itself. -/
theorem outlet_toNat_ne (s : Project) (j : Nat)
    (hc : (s.Subcatch j).outSubcatch ≥ 0 ∧ (s.Subcatch j).outSubcatch ≠ (j : Int) ∧
      (s.Subcatch (s.Subcatch j).outSubcatch.toNat).area > 0) :
    (s.Subcatch j).outSubcatch.toNat ≠ j := by
  intro h
  have h2 := Int.toNat_of_nonneg hc.1
  apply hc.2.1
  rw [← h2, h]

theorem runonToOutlet_pos (env : Env) (s : Project) (j : Nat)
    (hc : (s.Subcatch j).outSubcatch ≥ 0 ∧ (s.Subcatch j).outSubcatch ≠ (j : Int) ∧
      (s.Subcatch (s.Subcatch j).outSubcatch.toNat).area > 0) :
    runonToOutlet env s j =
      addQual
        (addInflow
          (addInflow
            (addInflow
              (addRunon s (s.Subcatch j).outSubcatch.toNat
                ((s.Subcatch j).oldRunoff / (s.Subcatch (s.Subcatch j).outSubcatch.toNat).area))
              (s.Subcatch j).outSubcatch.toNat SubareaType.IMPERV0
              ((s.Subcatch j).oldRunoff / (s.Subcatch (s.Subcatch j).outSubcatch.toNat).area))
            (s.Subcatch j).outSubcatch.toNat SubareaType.IMPERV1
            ((s.Subcatch j).oldRunoff / (s.Subcatch (s.Subcatch j).outSubcatch.toNat).area))
          (s.Subcatch j).outSubcatch.toNat SubareaType.PERV
          ((s.Subcatch j).oldRunoff / (s.Subcatch (s.Subcatch j).outSubcatch.toNat).area))
        (s.Subcatch j).outSubcatch.toNat (s.Nobjects ObjectType.POLLUT)
        (fun p => (s.Subcatch j).oldRunoff * (s.Subcatch j).oldQual p * env.LperFT3) := by
  have hkj := outlet_toNat_ne s j hc
  generalize hk : (s.Subcatch j).outSubcatch.toNat = k at hkj ⊢
  generalize hq : (s.Subcatch j).oldRunoff / (s.Subcatch k).area = q
  have hF : RouterFrame s
      (addInflow (addInflow (addInflow (addRunon s k q) k SubareaType.IMPERV0 q) k
        SubareaType.IMPERV1 q) k SubareaType.PERV q) :=
    routerFrame_trans (routerFrame_trans (routerFrame_trans (routerFrame_addRunon s k q)
      (routerFrame_addInflow _ _ _ _)) (routerFrame_addInflow _ _ _ _))
      (routerFrame_addInflow _ _ _ _)
  have h1 : runonToOutlet env s j =
      (List.range ((addInflow (addInflow (addInflow (addRunon s k q) k SubareaType.IMPERV0 q) k
        SubareaType.IMPERV1 q) k SubareaType.PERV q).Nobjects ObjectType.POLLUT)).foldl
        (fun project i => setSubcatch project k
          { project.Subcatch k with
            newQual := Function.update (project.Subcatch k).newQual i
              ((project.Subcatch k).newQual i +
                (project.Subcatch j).oldRunoff * (project.Subcatch j).oldQual i *
                  env.LperFT3) })
        (addInflow (addInflow (addInflow (addRunon s k q) k SubareaType.IMPERV0 q) k
          SubareaType.IMPERV1 q) k SubareaType.PERV q) := by
    unfold runonToOutlet
    rw [if_pos hc]
    subst hk hq
    rfl
  rw [h1, runon_qual_loop _ j k _ _ hkj, hF.1, (hF.2 j).2.2.2.2.2.1, (hF.2 j).2.2.2.2.2.2.2.1]

theorem runonToOutlet_neg (env : Env) (s : Project) (j : Nat)
    (hc : ¬ ((s.Subcatch j).outSubcatch ≥ 0 ∧ (s.Subcatch j).outSubcatch ≠ (j : Int) ∧
      (s.Subcatch (s.Subcatch j).outSubcatch.toNat).area > 0)) :
    runonToOutlet env s j = s := by
  unfold runonToOutlet
  rw [if_neg hc]
theorem runonImpervToPerv_eq (s : Project) (j : Nat) :
    runonImpervToPerv s j =
      if (s.Subcatch j).fracImperv < 1 ∧
          (getSubarea s j SubareaType.IMPERV0).routeTo = RouteTo.TO_PERV then
        addInflow s j SubareaType.PERV
          (((getSubarea s j SubareaType.IMPERV0).runoff *
              (getSubarea s j SubareaType.IMPERV0).fArea +
            (getSubarea s j SubareaType.IMPERV1).runoff *
              (getSubarea s j SubareaType.IMPERV1).fArea) *
            (1 - (getSubarea s j SubareaType.IMPERV0).fOutlet) /
            (getSubarea s j SubareaType.PERV).fArea)
      else s := rfl

theorem runonPervToImperv_eq (s : Project) (j : Nat) :
    runonPervToImperv s j =
      if (s.Subcatch j).fracImperv > 0 ∧
          (getSubarea s j SubareaType.PERV).routeTo = RouteTo.TO_IMPERV ∧
          (getSubarea s j SubareaType.IMPERV1).fArea > 0 then
        addInflow s j SubareaType.IMPERV1
          ((getSubarea s j SubareaType.PERV).runoff *
            (1 - (getSubarea s j SubareaType.PERV).fOutlet) *
            (getSubarea s j SubareaType.PERV).fArea /
            (getSubarea s j SubareaType.IMPERV1).fArea)
      else s := rfl

theorem runonFromLid_eq (env : Env) (s : Project) (j : Nat) :
    runonFromLid env s j =
      if (s.Subcatch j).lidArea > 0 ∧ (s.Subcatch j).fracImperv < 1 then
        if (getSubarea s j SubareaType.PERV).fArea *
            ((s.Subcatch j).area - (s.Subcatch j).lidArea) > 0 then
          addInflow s j SubareaType.PERV
            (env.lid_getFlowToPerv s j /
              ((getSubarea s j SubareaType.PERV).fArea *
                ((s.Subcatch j).area - (s.Subcatch j).lidArea)))
        else s
      else s := rfl

theorem routerFrame_runonToOutlet (env : Env) (s : Project) (j : Nat) :
    RouterFrame s (runonToOutlet env s j) := by
  by_cases hc : (s.Subcatch j).outSubcatch ≥ 0 ∧ (s.Subcatch j).outSubcatch ≠ (j : Int) ∧
      (s.Subcatch (s.Subcatch j).outSubcatch.toNat).area > 0
  · rw [runonToOutlet_pos env s j hc]
    exact routerFrame_trans (routerFrame_trans (routerFrame_trans (routerFrame_trans
      (routerFrame_addRunon s _ _) (routerFrame_addInflow _ _ _ _))
      (routerFrame_addInflow _ _ _ _)) (routerFrame_addInflow _ _ _ _))
      (routerFrame_addQual _ _ _ _)
  · rw [runonToOutlet_neg env s j hc]
    exact routerFrame_refl s

theorem routerFrame_runonImpervToPerv (s : Project) (j : Nat) :
    RouterFrame s (runonImpervToPerv s j) := by
  rw [runonImpervToPerv_eq]
  split_ifs
  · exact routerFrame_addInflow _ _ _ _
  · exact routerFrame_refl s

theorem routerFrame_runonPervToImperv (s : Project) (j : Nat) :
    RouterFrame s (runonPervToImperv s j) := by
  rw [runonPervToImperv_eq]
  split_ifs
  · exact routerFrame_addInflow _ _ _ _
  · exact routerFrame_refl s

theorem routerFrame_runonFromLid (env : Env) (s : Project) (j : Nat) :
    RouterFrame s (runonFromLid env s j) := by
  rw [runonFromLid_eq]
  split_ifs
  · exact routerFrame_addInflow _ _ _ _
  · exact routerFrame_refl s
  · exact routerFrame_refl s

theorem routerFrame_getRunon (env : Env) (s : Project) (j : Nat) :
    RouterFrame s (subcatch_getRunon env s j) := by
  rw [getRunon_blocks]
  exact routerFrame_trans (routerFrame_trans (routerFrame_trans
    (routerFrame_runonToOutlet env s j) (routerFrame_runonImpervToPerv _ j))
    (routerFrame_runonPervToImperv _ j)) (routerFrame_runonFromLid env _ j)

theorem routed_frame (env : Env) (s s2 : Project) (h : RouterFrame s s2) (j m p : Nat)
    (i : SubareaType) (flow : ℚ) :
    routedRunon s2 j m = routedRunon s j m ∧
    routedQual env s2 j m p = routedQual env s j m p ∧
    impervToPervInflow s2 j m i = impervToPervInflow s j m i ∧
    pervToImpervInflow s2 j m i = pervToImpervInflow s j m i ∧
    lidInflow s2 j m i flow = lidInflow s j m i flow := by
  obtain ⟨hN, hS⟩ := h
  have e1 := (hS j).1
  have e3 := (hS j).2.2.2.1
  have e4 := (hS j).2.2.2.2.1
  have e5 := (hS j).2.2.2.2.2.1
  have e6 := (hS j).2.2.2.2.2.2.2.1
  have e7 := (hS j).2.2.1
  have e0 := (hS j).2.2.2.2.2.2.2.2.2 SubareaType.IMPERV0
  have e8 := (hS j).2.2.2.2.2.2.2.2.2 SubareaType.IMPERV1
  have e9 := (hS j).2.2.2.2.2.2.2.2.2 SubareaType.PERV
  unfold routedRunon routedQual impervToPervInflow pervToImpervInflow lidInflow
  rw [e1, e3, e4, e5, e6, e7, hN, (hS (s.Subcatch j).outSubcatch.toNat).2.2.1,
    e0.1, e0.2.1, e0.2.2.2.1, e0.2.2.2.2.2.2.1,
    e8.2.2.2.1, e8.2.2.2.2.2.2.1,
    e9.1, e9.2.1, e9.2.2.2.1, e9.2.2.2.2.2.2.1]
  exact ⟨rfl, rfl, rfl, rfl, rfl⟩
theorem addRunon_fields (s : Project) (m m2 : Nat) (x : ℚ) (i : SubareaType) :
    ((addRunon s m x).Subcatch m2).runon = (s.Subcatch m2).runon + (if m2 = m then x else 0) ∧
    ((addRunon s m x).Subcatch m2).newQual = (s.Subcatch m2).newQual ∧
    getSubarea (addRunon s m x) m2 i = getSubarea s m2 i := by
  by_cases h : m2 = m
  · subst h
    simp [addRunon, setSubcatch, getSubarea]
  · simp [getSubarea, addRunon_Subcatch_ne s m m2 x h, h]

theorem addQual_fields (s : Project) (m m2 n p : Nat) (c : Nat → ℚ) (i : SubareaType) :
    ((addQual s m n c).Subcatch m2).runon = (s.Subcatch m2).runon ∧
    ((addQual s m n c).Subcatch m2).newQual p
      = (s.Subcatch m2).newQual p + (if m2 = m ∧ p < n then c p else 0) ∧
    getSubarea (addQual s m n c) m2 i = getSubarea s m2 i := by
  by_cases h : m2 = m
  · subst h
    by_cases hp : p < n <;> simp [addQual, setSubcatch, getSubarea, hp]
  · simp [getSubarea, addQual_Subcatch_ne s m m2 n c h, h]

theorem runonToOutlet_adds (env : Env) (s : Project) (j m p : Nat) (i : SubareaType) :
    ((runonToOutlet env s j).Subcatch m).runon = (s.Subcatch m).runon + routedRunon s j m ∧
    ((runonToOutlet env s j).Subcatch m).newQual p
      = (s.Subcatch m).newQual p + routedQual env s j m p ∧
    (getSubarea (runonToOutlet env s j) m i).inflow
      = (getSubarea s m i).inflow + routedRunon s j m := by
  by_cases hc : (s.Subcatch j).outSubcatch ≥ 0 ∧ (s.Subcatch j).outSubcatch ≠ (j : Int) ∧
      (s.Subcatch (s.Subcatch j).outSubcatch.toNat).area > 0
  · rw [runonToOutlet_pos env s j hc]
    unfold routedRunon routedQual
    generalize (s.Subcatch j).outSubcatch.toNat = k at hc ⊢
    generalize (s.Subcatch j).oldRunoff / (s.Subcatch k).area = q
    have hc2 := hc
    simp only [ge_iff_le, gt_iff_lt, ne_eq] at hc2
    refine ⟨?_, ?_, ?_⟩
    · rw [(addQual_fields _ k m _ p _ i).1, (addInflow_fields _ k m _ _).2.2.2.2.2.2.2.2.1,
        (addInflow_fields _ k m _ _).2.2.2.2.2.2.2.2.1,
        (addInflow_fields _ k m _ _).2.2.2.2.2.2.2.2.1, (addRunon_fields _ k m _ i).1]
      by_cases hm : m = k <;> simp [hm, hc2]
    · rw [(addQual_fields _ k m _ p _ i).2.1,
        (addInflow_fields _ k m _ _).2.2.2.2.2.2.2.2.2.2.1,
        (addInflow_fields _ k m _ _).2.2.2.2.2.2.2.2.2.2.1,
        (addInflow_fields _ k m _ _).2.2.2.2.2.2.2.2.2.2.1, (addRunon_fields _ k m _ i).2.1]
      by_cases hm : m = k <;> simp [hm, hc2]
    · rw [(addQual_fields _ k m _ p _ i).2.2,
        (addInflow_subarea _ k m _ i _).2.2.2.2.2.2.2.2,
        (addInflow_subarea _ k m _ i _).2.2.2.2.2.2.2.2,
        (addInflow_subarea _ k m _ i _).2.2.2.2.2.2.2.2, (addRunon_fields _ k m _ i).2.2]
      by_cases hm : m = k <;> cases i <;> simp [hm, hc2]
  · rw [runonToOutlet_neg env s j hc]
    simp [routedRunon, routedQual, hc]

theorem runonImpervToPerv_adds (s : Project) (j m : Nat) (i : SubareaType) :
    ((runonImpervToPerv s j).Subcatch m).runon = (s.Subcatch m).runon ∧
    ((runonImpervToPerv s j).Subcatch m).newQual = (s.Subcatch m).newQual ∧
    (getSubarea (runonImpervToPerv s j) m i).inflow
      = (getSubarea s m i).inflow + impervToPervInflow s j m i := by
  rw [runonImpervToPerv_eq]
  unfold impervToPervInflow
  by_cases hc : (s.Subcatch j).fracImperv < 1 ∧
      (getSubarea s j SubareaType.IMPERV0).routeTo = RouteTo.TO_PERV
  · rw [if_pos hc]
    refine ⟨(addInflow_fields _ _ _ _ _).2.2.2.2.2.2.2.2.1,
      (addInflow_fields _ _ _ _ _).2.2.2.2.2.2.2.2.2.2.1, ?_⟩
    rw [(addInflow_subarea _ _ _ _ _ _).2.2.2.2.2.2.2.2]
    by_cases h : m = j ∧ i = SubareaType.PERV
    · rw [if_pos h, if_pos ⟨h, hc⟩]
    · rw [if_neg h, if_neg (fun h2 => h h2.1)]
  · rw [if_neg hc, if_neg (fun h2 => hc h2.2)]
    simp

theorem runonPervToImperv_adds (s : Project) (j m : Nat) (i : SubareaType) :
    ((runonPervToImperv s j).Subcatch m).runon = (s.Subcatch m).runon ∧
    ((runonPervToImperv s j).Subcatch m).newQual = (s.Subcatch m).newQual ∧
    (getSubarea (runonPervToImperv s j) m i).inflow
      = (getSubarea s m i).inflow + pervToImpervInflow s j m i := by
  rw [runonPervToImperv_eq]
  unfold pervToImpervInflow
  by_cases hc : (s.Subcatch j).fracImperv > 0 ∧
      (getSubarea s j SubareaType.PERV).routeTo = RouteTo.TO_IMPERV ∧
      (getSubarea s j SubareaType.IMPERV1).fArea > 0
  · rw [if_pos hc]
    refine ⟨(addInflow_fields _ _ _ _ _).2.2.2.2.2.2.2.2.1,
      (addInflow_fields _ _ _ _ _).2.2.2.2.2.2.2.2.2.2.1, ?_⟩
    rw [(addInflow_subarea _ _ _ _ _ _).2.2.2.2.2.2.2.2]
    by_cases h : m = j ∧ i = SubareaType.IMPERV1
    · rw [if_pos h, if_pos ⟨h, hc⟩]
    · rw [if_neg h, if_neg (fun h2 => h h2.1)]
  · rw [if_neg hc, if_neg (fun h2 => hc h2.2)]
    simp

theorem runonFromLid_adds (env : Env) (s : Project) (j m : Nat) (i : SubareaType) :
    ((runonFromLid env s j).Subcatch m).runon = (s.Subcatch m).runon ∧
    ((runonFromLid env s j).Subcatch m).newQual = (s.Subcatch m).newQual ∧
    (getSubarea (runonFromLid env s j) m i).inflow
      = (getSubarea s m i).inflow + lidInflow s j m i (env.lid_getFlowToPerv s j) := by
  rw [runonFromLid_eq]
  unfold lidInflow
  by_cases hc : (s.Subcatch j).lidArea > 0 ∧ (s.Subcatch j).fracImperv < 1
  · rw [if_pos hc]
    by_cases hp : (getSubarea s j SubareaType.PERV).fArea *
        ((s.Subcatch j).area - (s.Subcatch j).lidArea) > 0
    · rw [if_pos hp]
      refine ⟨(addInflow_fields _ _ _ _ _).2.2.2.2.2.2.2.2.1,
        (addInflow_fields _ _ _ _ _).2.2.2.2.2.2.2.2.2.2.1, ?_⟩
      rw [(addInflow_subarea _ _ _ _ _ _).2.2.2.2.2.2.2.2]
      by_cases h : m = j ∧ i = SubareaType.PERV
      · rw [if_pos h, if_pos ⟨h, hc, hp⟩]
      · rw [if_neg h, if_neg (fun h2 => h h2.1)]
    · rw [if_neg hp, if_neg (fun h2 => hp h2.2.2)]
      simp
  · rw [if_neg hc, if_neg (fun h2 => hc h2.2.1)]
    simp

/-- What `subcatch_getRunon(j)` adds to the runon, incoming mass and sub-area
inflows of every subcatchment. -/
theorem getRunon_adds (env : Env) (s : Project) (j m p : Nat) (i : SubareaType) :
    ((subcatch_getRunon env s j).Subcatch m).runon = (s.Subcatch m).runon + routedRunon s j m ∧
    ((subcatch_getRunon env s j).Subcatch m).newQual p
      = (s.Subcatch m).newQual p + routedQual env s j m p ∧
    (getSubarea (subcatch_getRunon env s j) m i).inflow
      = (getSubarea s m i).inflow + routedRunon s j m + impervToPervInflow s j m i
        + pervToImpervInflow s j m i
        + lidInflow s j m i
            (env.lid_getFlowToPerv
              (runonPervToImperv (runonImpervToPerv (runonToOutlet env s j) j) j) j) := by
  rw [getRunon_blocks]
  have f1 := routerFrame_runonToOutlet env s j
  have f2 := routerFrame_trans f1 (routerFrame_runonImpervToPerv _ j)
  have f3 := routerFrame_trans f2 (routerFrame_runonPervToImperv _ j)
  obtain ⟨a1, a2, a3⟩ := runonToOutlet_adds env s j m p i
  obtain ⟨b1, b2, b3⟩ := runonImpervToPerv_adds (runonToOutlet env s j) j m i
  obtain ⟨c1, c2, c3⟩ := runonPervToImperv_adds (runonImpervToPerv (runonToOutlet env s j) j) j m i
  obtain ⟨d1, d2, d3⟩ := runonFromLid_adds env
    (runonPervToImperv (runonImpervToPerv (runonToOutlet env s j) j) j) j m i
  refine ⟨?_, ?_, ?_⟩
  · rw [d1, c1, b1, a1]
  · rw [d2, c2, b2, a2]
  · rw [d3, c3, b3, a3, (routed_frame env s _ f1 j m p i 0).2.2.1,
      (routed_frame env s _ f2 j m p i 0).2.2.2.1,
      (routed_frame env s _ f3 j m p i _).2.2.2.2]

theorem getBuildup_eq (env : Env) (s : Project) (j : Nat) (tStep : ℚ) :
    subcatch_getBuildup env s j tStep =
      (List.range (s.Nobjects ObjectType.LANDUSE)).foldl (buildupLanduse env j tStep) s := rfl

theorem foldl_range_inv {σ : Type} (f : σ → Nat → σ) (P : Nat → σ → Prop) (s : σ) (n : Nat)
    (h0 : P 0 s) (hs : ∀ k t, k < n → P k t → P (k + 1) (f t k)) :
    P n ((List.range n).foldl f s) := by
  induction n with
  | zero => simpa using h0
  | succ n ih =>
    rw [List.range_succ, List.foldl_append]
    simp only [List.foldl_cons, List.foldl_nil]
    exact hs n _ (Nat.lt_succ_self n)
      (ih (fun k t hk hP => hs k t (Nat.lt_succ_of_lt hk) hP))

theorem loadFrame_refl (j : Nat) (s : Project) : LoadFrame j s s :=
  ⟨rfl, rfl, rfl, rfl, rfl, fun _ => rfl⟩

theorem loadFrame_trans {j : Nat} {a b c : Project} (h1 : LoadFrame j a b)
    (h2 : LoadFrame j b c) : LoadFrame j a c := by
  unfold LoadFrame at h1 h2 ⊢
  refine ⟨?_, ?_, ?_, ?_, ?_, fun i => ?_⟩
  · rw [h2.1, h1.1]
  · rw [h2.2.1, h1.2.1]
  · rw [h2.2.2.1, h1.2.2.1]
  · rw [h2.2.2.2.1, h1.2.2.2.1]
  · rw [h2.2.2.2.2.1, h1.2.2.2.2.1]
  · rw [h2.2.2.2.2.2 i, h1.2.2.2.2.2 i]

theorem setBuildup_buildupOf (s : Project) (j i p i2 p2 : Nat) (v : ℚ) :
    buildupOf (setBuildup s j i p v) j i2 p2
      = if i2 = i ∧ p2 = p then v else buildupOf s j i2 p2 := by
  unfold buildupOf setBuildup setSubcatch
  by_cases hi : i2 = i
  · subst hi
    by_cases hp : p2 = p
    · subst hp; simp
    · simp [Function.update_noteq hp, hp]
  · simp [Function.update_noteq hi, hi]

theorem loadFrame_setBuildup (s : Project) (j i p : Nat) (v : ℚ) :
    LoadFrame j s (setBuildup s j i p v) := by
  refine ⟨rfl, rfl, rfl, ?_, ?_, fun i2 => ?_⟩
  · simp [setBuildup, setSubcatch]
  · simp [setBuildup, setSubcatch]
  · by_cases hi : i2 = i
    · subst hi; simp [setBuildup, setSubcatch]
    · simp [setBuildup, setSubcatch, Function.update_noteq hi]

theorem MAX_ge_right (x y : ℚ) : y ≤ MAX x y := by
  unfold MAX
  split_ifs with h
  · exact h
  · exact le_refl y

theorem buildupPollut_spec (env : Env) (j : Nat) (tStep : ℚ) (i : Nat) (area curb : ℚ)
    (t : Project) (p : Nat) :
    LoadFrame j t (buildupPollut env j tStep i area curb t p) ∧
    (∀ i2 p2, (i2 ≠ i ∨ p2 ≠ p) →
      buildupOf (buildupPollut env j tStep i area curb t p) j i2 p2 = buildupOf t j i2 p2) ∧
    buildupOf t j i p ≤ buildupOf (buildupPollut env j tStep i area curb t p) j i p ∧
    (buildupPollut env j tStep i area curb t p).ledger
      = t.ledger ++
        (if snowOnlySkip t j p then []
         else [⟨LoadType.BUILDUP_LOAD, p,
            buildupOf (buildupPollut env j tStep i area curb t p) j i p - buildupOf t j i p⟩]) := by
  unfold buildupPollut
  by_cases hs : snowOnlySkip t j p
  · have hs2 := hs
    unfold snowOnlySkip at hs2
    rw [if_pos hs2, if_pos hs]
    exact ⟨loadFrame_refl j t, fun _ _ _ => rfl, le_refl _, by simp⟩
  · have hs2 := hs
    unfold snowOnlySkip at hs2
    rw [if_neg hs2, if_neg hs]
    simp only [massbal_updateLoadingTotals]
    refine ⟨loadFrame_setBuildup t j i p _, fun i2 p2 h => ?_, ?_, ?_⟩
    · show buildupOf (setBuildup t j i p _) j i2 p2 = _
      rw [setBuildup_buildupOf]
      have : ¬ (i2 = i ∧ p2 = p) := by
        rcases h with h | h
        · exact fun h2 => h h2.1
        · exact fun h2 => h h2.2
      rw [if_neg this]
    · show _ ≤ buildupOf (setBuildup t j i p _) j i p
      rw [setBuildup_buildupOf, if_pos ⟨rfl, rfl⟩]
      exact MAX_ge_right _ _
    · show t.ledger ++ _ = t.ledger ++ [⟨_, _, buildupOf (setBuildup t j i p _) j i p - _⟩]
      rw [setBuildup_buildupOf, if_pos ⟨rfl, rfl⟩]
      rfl
theorem snowOnlySkip_frame {j : Nat} {t t2 : Project} (h : LoadFrame j t t2) (p : Nat) :
    snowOnlySkip t2 j p ↔ snowOnlySkip t j p := by
  unfold snowOnlySkip
  rw [h.2.1, h.2.2.2.1]

theorem ite_skip_frame {α : Type} {j : Nat} {t t2 : Project} (h : LoadFrame j t t2) (p : Nat)
    (a b : α) :
    (if snowOnlySkip t2 j p then a else b) = (if snowOnlySkip t j p then a else b) := by
  by_cases hs : snowOnlySkip t j p
  · rw [if_pos hs, if_pos ((snowOnlySkip_frame h p).mpr hs)]
  · rw [if_neg hs, if_neg (fun h2 => hs ((snowOnlySkip_frame h p).mp h2))]

theorem buildupPollut_loop (env : Env) (j : Nat) (tStep : ℚ) (i : Nat) (area curb : ℚ)
    (t : Project) (n : Nat) :
    LoadFrame j t ((List.range n).foldl (buildupPollut env j tStep i area curb) t) ∧
    (∀ i2 p2, (i2 ≠ i ∨ n ≤ p2) →
      buildupOf ((List.range n).foldl (buildupPollut env j tStep i area curb) t) j i2 p2
        = buildupOf t j i2 p2) ∧
    (∀ p2, buildupOf t j i p2
      ≤ buildupOf ((List.range n).foldl (buildupPollut env j tStep i area curb) t) j i p2) ∧
    ((List.range n).foldl (buildupPollut env j tStep i area curb) t).ledger
      = t.ledger ++ (List.range n).flatMap (fun p =>
          if snowOnlySkip t j p then []
          else [⟨LoadType.BUILDUP_LOAD, p,
            buildupOf ((List.range n).foldl (buildupPollut env j tStep i area curb) t) j i p
              - buildupOf t j i p⟩]) := by
  induction n with
  | zero =>
    exact ⟨loadFrame_refl j t, fun _ _ _ => rfl, fun _ => le_refl _, by simp⟩
  | succ k ih =>
    obtain ⟨f1, u1, m1, l1⟩ := ih
    rw [List.range_succ, List.foldl_append]
    simp only [List.foldl_cons, List.foldl_nil]
    generalize (List.range k).foldl (buildupPollut env j tStep i area curb) t = t1 at f1 u1 m1 l1 ⊢
    obtain ⟨f2, u2, m2, l2⟩ := buildupPollut_spec env j tStep i area curb t1 k
    refine ⟨loadFrame_trans f1 f2, fun i2 p2 h => ?_, fun p2 => ?_, ?_⟩
    · have h2 : i2 ≠ i ∨ p2 ≠ k := by
        rcases h with h | h
        · exact Or.inl h
        · exact Or.inr (by omega)
      have h3 : i2 ≠ i ∨ k ≤ p2 := by
        rcases h with h | h
        · exact Or.inl h
        · exact Or.inr (by omega)
      rw [u2 i2 p2 h2, u1 i2 p2 h3]
    · by_cases hp : p2 = k
      · subst hp
        exact le_trans (m1 p2) m2
      · rw [u2 i p2 (Or.inr hp)]
        exact m1 p2
    · rw [l2, l1, List.flatMap_append, List.flatMap_singleton, List.append_assoc,
        ite_skip_frame f1, u1 i k (Or.inr (le_refl k))]
      congr 2
      apply List.flatMap_congr
      intro p hp
      have hp2 : p ≠ k := by
        have := List.mem_range.mp hp
        omega
      rw [u2 i p (Or.inr hp2)]
theorem buildupLanduse_spec (env : Env) (j : Nat) (tStep : ℚ) (t : Project) (i : Nat) :
    LoadFrame j t (buildupLanduse env j tStep t i) ∧
    (∀ i2 p2, i2 ≠ i → buildupOf (buildupLanduse env j tStep t i) j i2 p2 = buildupOf t j i2 p2) ∧
    (∀ p2, buildupOf t j i p2 ≤ buildupOf (buildupLanduse env j tStep t i) j i p2) ∧
    (buildupLanduse env j tStep t i).ledger
      = t.ledger ++
        (if ((t.Subcatch j).landFactor i).fraction = 0 then []
         else (List.range (t.Nobjects ObjectType.POLLUT)).flatMap (fun p =>
          if snowOnlySkip t j p then []
          else [⟨LoadType.BUILDUP_LOAD, p,
            buildupOf (buildupLanduse env j tStep t i) j i p - buildupOf t j i p⟩])) := by
  have hEq : buildupLanduse env j tStep t i =
      if ((t.Subcatch j).landFactor i).fraction = 0 then t
      else (List.range (t.Nobjects ObjectType.POLLUT)).foldl
        (buildupPollut env j tStep i
          (((t.Subcatch j).landFactor i).fraction * (t.Subcatch j).area *
            env.UCF t UnitType.LANDAREA)
          (((t.Subcatch j).landFactor i).fraction * (t.Subcatch j).curbLength)) t := rfl
  rw [hEq]
  by_cases hf : ((t.Subcatch j).landFactor i).fraction = 0
  · rw [if_pos hf, if_pos hf]
    exact ⟨loadFrame_refl j t, fun _ _ _ => rfl, fun _ => le_refl _, by simp⟩
  · rw [if_neg hf, if_neg hf]
    obtain ⟨f1, u1, m1, l1⟩ := buildupPollut_loop env j tStep i
      (((t.Subcatch j).landFactor i).fraction * (t.Subcatch j).area *
        env.UCF t UnitType.LANDAREA)
      (((t.Subcatch j).landFactor i).fraction * (t.Subcatch j).curbLength) t
      (t.Nobjects ObjectType.POLLUT)
    exact ⟨f1, fun i2 p2 h => u1 i2 p2 (Or.inl h), m1, l1⟩

theorem ite_fraction_frame {α : Type} {j : Nat} {t t2 : Project} (h : LoadFrame j t t2)
    (i : Nat) (a b : α) :
    (if ((t2.Subcatch j).landFactor i).fraction = 0 then a else b)
      = (if ((t.Subcatch j).landFactor i).fraction = 0 then a else b) := by
  rw [h.2.2.2.2.2 i]

theorem buildupLanduse_loop (env : Env) (j : Nat) (tStep : ℚ) (t : Project) (n : Nat) :
    LoadFrame j t ((List.range n).foldl (buildupLanduse env j tStep) t) ∧
    (∀ i2 p2, n ≤ i2 →
      buildupOf ((List.range n).foldl (buildupLanduse env j tStep) t) j i2 p2
        = buildupOf t j i2 p2) ∧
    (∀ i2 p2, buildupOf t j i2 p2
      ≤ buildupOf ((List.range n).foldl (buildupLanduse env j tStep) t) j i2 p2) ∧
    ((List.range n).foldl (buildupLanduse env j tStep) t).ledger
      = t.ledger ++ (List.range n).flatMap (fun i =>
          if ((t.Subcatch j).landFactor i).fraction = 0 then []
          else (List.range (t.Nobjects ObjectType.POLLUT)).flatMap (fun p =>
            if snowOnlySkip t j p then []
            else [⟨LoadType.BUILDUP_LOAD, p,
              buildupOf ((List.range n).foldl (buildupLanduse env j tStep) t) j i p
                - buildupOf t j i p⟩])) := by
  induction n with
  | zero =>
    exact ⟨loadFrame_refl j t, fun _ _ _ => rfl, fun _ _ => le_refl _, by simp⟩
  | succ k ih =>
    obtain ⟨f1, u1, m1, l1⟩ := ih
    rw [List.range_succ, List.foldl_append]
    simp only [List.foldl_cons, List.foldl_nil]
    generalize (List.range k).foldl (buildupLanduse env j tStep) t = t1 at f1 u1 m1 l1 ⊢
    obtain ⟨f2, u2, m2, l2⟩ := buildupLanduse_spec env j tStep t1 k
    refine ⟨loadFrame_trans f1 f2, fun i2 p2 h => ?_, fun i2 p2 => ?_, ?_⟩
    · rw [u2 i2 p2 (by omega), u1 i2 p2 (by omega)]
    · by_cases hi : i2 = k
      · subst hi
        exact le_trans (m1 i2 p2) (m2 p2)
      · rw [u2 i2 p2 hi]
        exact m1 i2 p2
    · rw [l2, l1, List.flatMap_append, List.flatMap_singleton, List.append_assoc,
        ite_fraction_frame f1, f1.1]
      congr 2
      · apply List.flatMap_congr
        intro i hi
        have hi2 : i ≠ k := by
          have := List.mem_range.mp hi
          omega
        congr 1
        apply List.flatMap_congr
        intro p _
        rw [u2 i p hi2]
      · congr 1
        apply List.flatMap_congr
        intro p _
        rw [ite_skip_frame f1, u1 k p (le_refl k)]

/-- C4: `subcatch_getBuildup` never lowers the buildup stored for a land use and
pollutant, whatever the land use buildup function returns; for every pair it
processes it posts `new - old` to the buildup-load ledger, and every amount it
posts is non-negative. -/
theorem C4_buildup_monotone (env : Env) (s : Project) (j : Nat) (tStep : ℚ) (i p : Nat) :
    buildupOf s j i p ≤ buildupOf (subcatch_getBuildup env s j tStep) j i p ∧
    (subcatch_getBuildup env s j tStep).ledger
      = s.ledger ++ (List.range (s.Nobjects ObjectType.LANDUSE)).flatMap (fun i =>
          if ((s.Subcatch j).landFactor i).fraction = 0 then []
          else (List.range (s.Nobjects ObjectType.POLLUT)).flatMap (fun p =>
            if snowOnlySkip s j p then []
            else [Posting.mk LoadType.BUILDUP_LOAD p
              (buildupOf (subcatch_getBuildup env s j tStep) j i p - buildupOf s j i p)])) ∧
    ∀ e ∈ (List.range (s.Nobjects ObjectType.LANDUSE)).flatMap (fun i =>
          if ((s.Subcatch j).landFactor i).fraction = 0 then []
          else (List.range (s.Nobjects ObjectType.POLLUT)).flatMap (fun p =>
            if snowOnlySkip s j p then []
            else [Posting.mk LoadType.BUILDUP_LOAD p
              (buildupOf (subcatch_getBuildup env s j tStep) j i p - buildupOf s j i p)])),
      e.type = LoadType.BUILDUP_LOAD ∧ 0 ≤ e.w := by
  rw [getBuildup_eq]
  obtain ⟨_, _, m1, l1⟩ := buildupLanduse_loop env j tStep s (s.Nobjects ObjectType.LANDUSE)
  refine ⟨m1 i p, l1, fun e he => ?_⟩
  rw [List.mem_flatMap] at he
  obtain ⟨i2, _, he⟩ := he
  split_ifs at he with hf
  · simp at he
  · rw [List.mem_flatMap] at he
    obtain ⟨p2, _, he⟩ := he
    split_ifs at he with hs
    · simp at he
    · rw [List.mem_singleton] at he
      subst he
      exact ⟨rfl, sub_nonneg.mpr (m1 i2 p2)⟩

theorem sweepBuildup_eq (env : Env) (s : Project) (j : Nat) (aDate : ℚ) :
    subcatch_sweepBuildup env s j aDate =
      if sweepBlocked env s j = true then s
      else (List.range (s.Nobjects ObjectType.LANDUSE)).foldl (sweepLanduse j aDate) s := rfl

theorem sweepPollut_spec (j i : Nat) (t : Project) (p : Nat) :
    (sweepPollut j i t p).Nobjects = t.Nobjects ∧
    (sweepPollut j i t p).Landuse = t.Landuse ∧
    (∀ i2, (((sweepPollut j i t p).Subcatch j).landFactor i2).fraction
      = ((t.Subcatch j).landFactor i2).fraction) ∧
    (∀ i2, (((sweepPollut j i t p).Subcatch j).landFactor i2).lastSwept
      = ((t.Subcatch j).landFactor i2).lastSwept) ∧
    (∀ i2 p2, buildupOf (sweepPollut j i t p) j i2 p2
      = if i2 = i ∧ p2 = p then sweptBuildup t i p (buildupOf t j i p)
        else buildupOf t j i2 p2) := by
  refine ⟨rfl, rfl, fun i2 => ?_, fun i2 => ?_, fun i2 p2 => ?_⟩
  · by_cases hi : i2 = i
    · subst hi; simp [sweepPollut, massbal_updateLoadingTotals, setBuildup, setSubcatch]
    · simp [sweepPollut, massbal_updateLoadingTotals, setBuildup, setSubcatch,
        Function.update_noteq hi]
  · by_cases hi : i2 = i
    · subst hi; simp [sweepPollut, massbal_updateLoadingTotals, setBuildup, setSubcatch]
    · simp [sweepPollut, massbal_updateLoadingTotals, setBuildup, setSubcatch,
        Function.update_noteq hi]
  · show buildupOf (setBuildup t j i p _) j i2 p2 = _
    rw [setBuildup_buildupOf]
    rfl

theorem sweepPollut_loop (j i : Nat) (t : Project) (n : Nat) :
    ((List.range n).foldl (sweepPollut j i) t).Nobjects = t.Nobjects ∧
    ((List.range n).foldl (sweepPollut j i) t).Landuse = t.Landuse ∧
    (∀ i2, ((((List.range n).foldl (sweepPollut j i) t).Subcatch j).landFactor i2).fraction
      = ((t.Subcatch j).landFactor i2).fraction) ∧
    (∀ i2, ((((List.range n).foldl (sweepPollut j i) t).Subcatch j).landFactor i2).lastSwept
      = ((t.Subcatch j).landFactor i2).lastSwept) ∧
    (∀ i2 p2, buildupOf ((List.range n).foldl (sweepPollut j i) t) j i2 p2
      = if i2 = i ∧ p2 < n then sweptBuildup t i p2 (buildupOf t j i p2)
        else buildupOf t j i2 p2) := by
  induction n with
  | zero => exact ⟨rfl, rfl, fun _ => rfl, fun _ => rfl, fun _ _ => by simp⟩
  | succ k ih =>
    obtain ⟨a1, a2, a3, a4, a5⟩ := ih
    rw [List.range_succ, List.foldl_append]
    simp only [List.foldl_cons, List.foldl_nil]
    generalize (List.range k).foldl (sweepPollut j i) t = t1 at a1 a2 a3 a4 a5 ⊢
    obtain ⟨b1, b2, b3, b4, b5⟩ := sweepPollut_spec j i t1 k
    refine ⟨b1.trans a1, b2.trans a2, fun i2 => (b3 i2).trans (a3 i2),
      fun i2 => (b4 i2).trans (a4 i2), fun i2 p2 => ?_⟩
    rw [b5 i2 p2]
    by_cases h : i2 = i ∧ p2 = k
    · obtain ⟨h1, h2⟩ := h
      subst h1 h2
      have hlt : p2 < p2 + 1 := Nat.lt_succ_self p2
      rw [if_pos ⟨rfl, rfl⟩, if_pos ⟨rfl, hlt⟩, a5 i2 p2]
      simp only [lt_self_iff_false, and_false, if_false]
      unfold sweptBuildup
      rw [a2]
    · rw [if_neg h, a5 i2 p2]
      by_cases h2 : i2 = i ∧ p2 < k
      · rw [if_pos h2, if_pos ⟨h2.1, Nat.lt_succ_of_lt h2.2⟩]
      · rw [if_neg h2, if_neg]
        intro h3
        apply h2
        refine ⟨h3.1, ?_⟩
        have : p2 ≠ k := fun h4 => h ⟨h3.1, h4⟩
        omega
theorem sweepLanduse_spec (j : Nat) (aDate : ℚ) (t : Project) (i : Nat) :
    (sweepLanduse j aDate t i).Nobjects = t.Nobjects ∧
    (sweepLanduse j aDate t i).Landuse = t.Landuse ∧
    (∀ i2, (((sweepLanduse j aDate t i).Subcatch j).landFactor i2).fraction
      = ((t.Subcatch j).landFactor i2).fraction) ∧
    (∀ i2, i2 ≠ i → (((sweepLanduse j aDate t i).Subcatch j).landFactor i2).lastSwept
      = ((t.Subcatch j).landFactor i2).lastSwept) ∧
    (∀ i2 p2, buildupOf (sweepLanduse j aDate t i) j i2 p2
      = if i2 = i ∧ sweepDue t j aDate i ∧ p2 < t.Nobjects ObjectType.POLLUT then
          sweptBuildup t i p2 (buildupOf t j i p2)
        else buildupOf t j i2 p2) := by
  by_cases hd : sweepDue t j aDate i
  · obtain ⟨h1, h2, h3⟩ := hd
    have hEq : sweepLanduse j aDate t i =
        (List.range (t.Nobjects ObjectType.POLLUT)).foldl (sweepPollut j i)
          (setSubcatch t j
            { t.Subcatch j with
              landFactor := Function.update (t.Subcatch j).landFactor i
                { (t.Subcatch j).landFactor i with lastSwept := aDate } }) := by
      unfold sweepLanduse
      rw [if_neg h1, if_neg h2, if_pos h3]
      rfl
    rw [hEq]
    obtain ⟨a1, a2, a3, a4, a5⟩ := sweepPollut_loop j i
      (setSubcatch t j
        { t.Subcatch j with
          landFactor := Function.update (t.Subcatch j).landFactor i
            { (t.Subcatch j).landFactor i with lastSwept := aDate } })
      (t.Nobjects ObjectType.POLLUT)
    have hB : ∀ i2 p2, buildupOf (setSubcatch t j
        { t.Subcatch j with
          landFactor := Function.update (t.Subcatch j).landFactor i
            { (t.Subcatch j).landFactor i with lastSwept := aDate } }) j i2 p2
        = buildupOf t j i2 p2 := by
      intro i2 p2
      by_cases hi : i2 = i
      · subst hi; simp [buildupOf, setSubcatch]
      · simp [buildupOf, setSubcatch, Function.update_noteq hi]
    refine ⟨a1, a2, fun i2 => ?_, fun i2 hi => ?_, fun i2 p2 => ?_⟩
    · rw [a3 i2]
      by_cases hi : i2 = i
      · subst hi; simp [setSubcatch]
      · simp [setSubcatch, Function.update_noteq hi]
    · rw [a4 i2]
      simp [setSubcatch, Function.update_noteq hi]
    · rw [a5 i2 p2, hB, hB]
      have hd : sweepDue t j aDate i := ⟨h1, h2, h3⟩
      simp only [hd, true_and]
      rfl
  · have hEq : sweepLanduse j aDate t i = t := by
      unfold sweepLanduse sweepDue at *
      by_cases h1 : ((t.Subcatch j).landFactor i).fraction = 0
      · rw [if_pos h1]
      · rw [if_neg h1]
        by_cases h2 : (t.Landuse i).sweepInterval = 0
        · rw [if_pos h2]
        · rw [if_neg h2, if_neg (fun h3 => hd ⟨h1, h2, h3⟩)]
    rw [hEq]
    refine ⟨rfl, rfl, fun _ => rfl, fun _ _ => rfl, fun i2 p2 => ?_⟩
    rw [if_neg (fun h => hd h.2.1)]

theorem sweepLanduse_loop (j : Nat) (aDate : ℚ) (t : Project) (n : Nat) :
    ((List.range n).foldl (sweepLanduse j aDate) t).Nobjects = t.Nobjects ∧
    ((List.range n).foldl (sweepLanduse j aDate) t).Landuse = t.Landuse ∧
    (∀ i2, ((((List.range n).foldl (sweepLanduse j aDate) t).Subcatch j).landFactor i2).fraction
      = ((t.Subcatch j).landFactor i2).fraction) ∧
    (∀ i2, n ≤ i2 →
      ((((List.range n).foldl (sweepLanduse j aDate) t).Subcatch j).landFactor i2).lastSwept
        = ((t.Subcatch j).landFactor i2).lastSwept) ∧
    (∀ i2 p2, buildupOf ((List.range n).foldl (sweepLanduse j aDate) t) j i2 p2
      = if i2 < n ∧ sweepDue t j aDate i2 ∧ p2 < t.Nobjects ObjectType.POLLUT then
          sweptBuildup t i2 p2 (buildupOf t j i2 p2)
        else buildupOf t j i2 p2) := by
  induction n with
  | zero => exact ⟨rfl, rfl, fun _ => rfl, fun _ _ => rfl, fun _ _ => by simp⟩
  | succ k ih =>
    obtain ⟨a1, a2, a3, a4, a5⟩ := ih
    rw [List.range_succ, List.foldl_append]
    simp only [List.foldl_cons, List.foldl_nil]
    generalize (List.range k).foldl (sweepLanduse j aDate) t = t1 at a1 a2 a3 a4 a5 ⊢
    obtain ⟨b1, b2, b3, b4, b5⟩ := sweepLanduse_spec j aDate t1 k
    have hdue : sweepDue t1 j aDate k ↔ sweepDue t j aDate k := by
      unfold sweepDue
      rw [a2, a3 k, a4 k (le_refl k)]
    have hsw : ∀ p2 b, sweptBuildup t1 k p2 b = sweptBuildup t k p2 b := by
      intro p2 b
      unfold sweptBuildup
      rw [a2]
    refine ⟨b1.trans a1, b2.trans a2, fun i2 => (b3 i2).trans (a3 i2),
      fun i2 hi => ?_, fun i2 p2 => ?_⟩
    · rw [b4 i2 (by omega), a4 i2 (by omega)]
    · rw [b5 i2 p2, a1, hsw]
      by_cases hi : i2 = k
      · subst hi
        rw [a5 i2 p2]
        simp only [lt_self_iff_false, false_and, if_false, true_and, Nat.lt_succ_self, hdue]
      · rw [a5 i2 p2]
        have e1 : (i2 < k + 1) = (i2 < k) := by
          apply propext
          constructor <;> intro h <;> omega
        simp only [hi, false_and, if_false, e1]

theorem sweepBuildup_buildupOf (env : Env) (s : Project) (j : Nat) (aDate : ℚ) (i p : Nat) :
    buildupOf (subcatch_sweepBuildup env s j aDate) j i p
      = if sweepBlocked env s j = false ∧ i < s.Nobjects ObjectType.LANDUSE ∧
            sweepDue s j aDate i ∧ p < s.Nobjects ObjectType.POLLUT then
          sweptBuildup s i p (buildupOf s j i p)
        else buildupOf s j i p := by
  rw [sweepBuildup_eq]
  by_cases hb : sweepBlocked env s j = true
  · rw [if_pos hb, if_neg]
    intro h
    rw [hb] at h
    exact Bool.noConfusion h.1
  · rw [if_neg hb, (sweepLanduse_loop j aDate s _).2.2.2.2 i p]
    have hb2 : sweepBlocked env s j = false := by
      cases h : sweepBlocked env s j
      · rfl
      · exact absurd h hb
    simp only [hb2, true_and]

theorem sweptBuildup_bounds (s : Project) (i p : Nat) (b : ℚ) :
    0 ≤ sweptBuildup s i p b ∧ (0 ≤ b → sweptBuildup s i p b ≤ b) := by
  unfold sweptBuildup MAX MIN
  constructor
  · split_ifs <;> linarith
  · intro hb
    split_ifs <;> linarith

/-- C5 (as stated, refuted): a buildup of -1 is raised to 0 by sweeping, so the
buildup after the call exceeds the buildup before it. -/
theorem C5_negative_buildup_counterexample :
    buildupOf negativeBuildupProject 0 0 0 = -1 ∧
    buildupOf (subcatch_sweepBuildup basicEnv negativeBuildupProject 0 2) 0 0 0 = 0 ∧
    ¬ (buildupOf (subcatch_sweepBuildup basicEnv negativeBuildupProject 0 2) 0 0 0
        ≤ buildupOf negativeBuildupProject 0 0 0) := by
  have h := sweepBuildup_buildupOf basicEnv negativeBuildupProject 0 2 0 0
  have hc : sweepBlocked basicEnv negativeBuildupProject 0 = false ∧
      0 < negativeBuildupProject.Nobjects ObjectType.LANDUSE ∧
      sweepDue negativeBuildupProject 0 2 0 ∧
      0 < negativeBuildupProject.Nobjects ObjectType.POLLUT := by
    refine ⟨rfl, by decide, ?_, by decide⟩
    simp [sweepDue, negativeBuildupProject, landProject, zeroSubcatch]
  rw [if_pos hc] at h
  have h0 : buildupOf negativeBuildupProject 0 0 0 = -1 := rfl
  have h1 : sweptBuildup negativeBuildupProject 0 0 (-1) = 0 := by
    simp [sweptBuildup, negativeBuildupProject, landProject, MAX, MIN]
  rw [h0, h1] at h
  refine ⟨h0, h, ?_⟩
  rw [h, h0]
  norm_num

/-- C5 (amended): when the buildup stored for a land use and pollutant is
non-negative before `subcatch_sweepBuildup`, the buildup stored after the call
is non-negative and not greater than the buildup before it, for every date,
removal fraction and sweeping efficiency. -/
theorem C5_sweep_bounds (env : Env) (s : Project) (j : Nat) (aDate : ℚ) (i p : Nat)
    (hb : 0 ≤ buildupOf s j i p) :
    0 ≤ buildupOf (subcatch_sweepBuildup env s j aDate) j i p ∧
    buildupOf (subcatch_sweepBuildup env s j aDate) j i p ≤ buildupOf s j i p := by
  rw [sweepBuildup_buildupOf]
  split_ifs
  · exact ⟨(sweptBuildup_bounds s i p _).1, (sweptBuildup_bounds s i p _).2 hb⟩
  · exact ⟨hb, le_refl _⟩

theorem C5_sweep_bounds_witness :
    0 ≤ buildupOf (subcatch_sweepBuildup basicEnv landProject 0 2) 0 0 0 ∧
    buildupOf (subcatch_sweepBuildup basicEnv landProject 0 2) 0 0 0 ≤ buildupOf landProject 0 0 0 :=
  C5_sweep_bounds basicEnv landProject 0 2 0 0
    (by simp [buildupOf, landProject, zeroSubcatch])

theorem C4_buildup_monotone_witness :
    buildupOf landProject 0 0 0 ≤ buildupOf (subcatch_getBuildup growEnv landProject 0 1) 0 0 0 :=
  (C4_buildup_monotone growEnv landProject 0 1 0 0).1

theorem updatePondedQual_eq (env : Env) (s : Project) (j : Nat) (tStep : ℚ) :
    updatePondedQual env s j tStep =
      (List.range (s.Nobjects ObjectType.POLLUT)).foldl
        (pondedQualPollut env j tStep (s.Vrain + s.Vrunon)
          (decide (s.Vponded + (s.Vrain + s.Vrunon) = 0))) s := rfl

theorem getWashoff_eq (env : Env) (s : Project) (j : Nat) (runoff tStep : ℚ) :
    subcatch_getWashoff env s j runoff tStep =
      if s.Nobjects ObjectType.POLLUT = 0 ∨ (s.Subcatch j).area = 0 then s
      else
        washoffQual env
          (washoffLanduses env (updatePondedQual env (washoffInit s) j tStep) j runoff tStep) j
          ((washoffLanduses env (updatePondedQual env (washoffInit s) j tStep) j runoff
            tStep).Subcatch j).newRunoff tStep := rfl
theorem postedTo_append (l1 l2 : List Posting) (type : LoadType) (p : Nat) :
    postedTo (l1 ++ l2) type p = postedTo l1 type p ++ postedTo l2 type p := by
  simp [postedTo]

theorem pondedQualPollut_dry (env : Env) (j : Nat) (tStep vIn : ℚ) (t : Project) (p : Nat) :
    (pondedQualPollut env j tStep vIn true t p).Nobjects = t.Nobjects ∧
    (pondedQualPollut env j tStep vIn true t p).Pollut = t.Pollut ∧
    (pondedQualPollut env j tStep vIn true t p).Vrain = t.Vrain ∧
    (∀ p2, ((pondedQualPollut env j tStep vIn true t p).Subcatch j).pondedQual p2
      = if p2 = p then 0 else (t.Subcatch j).pondedQual p2) ∧
    (∀ p2, (pondedQualPollut env j tStep vIn true t p).OutflowLoad p2
      = if p2 = p then 0 else t.OutflowLoad p2) ∧
    (pondedQualPollut env j tStep vIn true t p).ledger
      = t.ledger ++
        [⟨LoadType.DEPOSITION_LOAD, p,
            (t.Pollut p).pptConcen * env.LperFT3 * t.Vrain * (t.Pollut p).mcf⟩,
         ⟨LoadType.FINAL_LOAD, p, (t.Subcatch j).pondedQual p * (t.Pollut p).mcf⟩] := by
  refine ⟨rfl, rfl, rfl, fun p2 => ?_, fun p2 => ?_, ?_⟩
  · simp [pondedQualPollut, massbal_updateLoadingTotals, setSubcatch, Function.update_apply]
  · simp [pondedQualPollut, massbal_updateLoadingTotals, setSubcatch, Function.update_apply]
  · simp [pondedQualPollut, massbal_updateLoadingTotals, setSubcatch]

theorem pondedQual_dry_loop (env : Env) (j : Nat) (tStep vIn : ℚ) (t : Project) (n : Nat) :
    ((List.range n).foldl (pondedQualPollut env j tStep vIn true) t).Nobjects = t.Nobjects ∧
    ((List.range n).foldl (pondedQualPollut env j tStep vIn true) t).Pollut = t.Pollut ∧
    ((List.range n).foldl (pondedQualPollut env j tStep vIn true) t).Vrain = t.Vrain ∧
    (∀ p2, (((List.range n).foldl (pondedQualPollut env j tStep vIn true) t).Subcatch j).pondedQual p2
      = if p2 < n then 0 else (t.Subcatch j).pondedQual p2) ∧
    (∀ p2, ((List.range n).foldl (pondedQualPollut env j tStep vIn true) t).OutflowLoad p2
      = if p2 < n then 0 else t.OutflowLoad p2) ∧
    ((List.range n).foldl (pondedQualPollut env j tStep vIn true) t).ledger
      = t.ledger ++ (List.range n).flatMap (fun p =>
        [⟨LoadType.DEPOSITION_LOAD, p,
            (t.Pollut p).pptConcen * env.LperFT3 * t.Vrain * (t.Pollut p).mcf⟩,
         ⟨LoadType.FINAL_LOAD, p, (t.Subcatch j).pondedQual p * (t.Pollut p).mcf⟩]) := by
  induction n with
  | zero => exact ⟨rfl, rfl, rfl, fun _ => by simp, fun _ => by simp, by simp⟩
  | succ k ih =>
    obtain ⟨a1, a2, a3, a4, a5, a6⟩ := ih
    rw [List.range_succ, List.foldl_append]
    simp only [List.foldl_cons, List.foldl_nil]
    generalize (List.range k).foldl (pondedQualPollut env j tStep vIn true) t = t1
      at a1 a2 a3 a4 a5 a6 ⊢
    obtain ⟨b1, b2, b3, b4, b5, b6⟩ := pondedQualPollut_dry env j tStep vIn t1 k
    refine ⟨b1.trans a1, b2.trans a2, b3.trans a3, fun p2 => ?_, fun p2 => ?_, ?_⟩
    · rw [b4 p2, a4 p2]
      by_cases h : p2 = k
      · subst h; simp
      · have e1 : (p2 < k + 1) = (p2 < k) := by
          apply propext
          constructor <;> intro h2 <;> omega
        simp only [h, if_false, e1]
    · rw [b5 p2, a5 p2]
      by_cases h : p2 = k
      · subst h; simp
      · have e1 : (p2 < k + 1) = (p2 < k) := by
          apply propext
          constructor <;> intro h2 <;> omega
        simp only [h, if_false, e1]
    · rw [b6, a6, a2, a3, a4 k, List.flatMap_append, List.flatMap_singleton, List.append_assoc]
      simp only [lt_self_iff_false, if_false]

theorem postedTo_dry_postings (f g : Nat → ℚ) (n p : Nat) (hp : p < n) :
    postedTo ((List.range n).flatMap (fun q =>
        [(⟨LoadType.DEPOSITION_LOAD, q, f q⟩ : Posting), ⟨LoadType.FINAL_LOAD, q, g q⟩]))
      LoadType.FINAL_LOAD p = [g p] := by
  induction n with
  | zero => omega
  | succ k ih =>
    rw [List.range_succ, List.flatMap_append, List.flatMap_singleton, postedTo_append]
    by_cases h : p = k
    · subst h
      have h0 : postedTo ((List.range p).flatMap (fun q =>
          [(⟨LoadType.DEPOSITION_LOAD, q, f q⟩ : Posting), ⟨LoadType.FINAL_LOAD, q, g q⟩]))
          LoadType.FINAL_LOAD p = [] := by
        unfold postedTo
        rw [List.map_eq_nil_iff, List.filter_eq_nil_iff]
        intro e he
        rw [List.mem_flatMap] at he
        obtain ⟨q, hq, he⟩ := he
        have hq2 : q ≠ p := by
          have := List.mem_range.mp hq
          omega
        simp only [List.mem_cons, List.mem_singleton, List.not_mem_nil, or_false] at he
        rcases he with he | he <;> subst he <;> simp [hq2]
      rw [h0]
      simp [postedTo]
    · rw [ih (by omega)]
      simp [postedTo, h]
      intro h2
      exact absurd h2.symm h

/-- The dry branch of `updatePondedQual` for one pollutant. -/
theorem updatePondedQual_dry (env : Env) (s : Project) (j : Nat) (tStep : ℚ) (p : Nat)
    (hDry : s.Vponded + s.Vrain + s.Vrunon = 0) (hp : p < s.Nobjects ObjectType.POLLUT) :
    ((updatePondedQual env s j tStep).Subcatch j).pondedQual p = 0 ∧
    (updatePondedQual env s j tStep).OutflowLoad p = 0 ∧
    postedTo (updatePondedQual env s j tStep).ledger LoadType.FINAL_LOAD p
      = postedTo s.ledger LoadType.FINAL_LOAD p ++
          [(s.Subcatch j).pondedQual p * (s.Pollut p).mcf] := by
  have hd : decide (s.Vponded + (s.Vrain + s.Vrunon) = 0) = true := by
    rw [decide_eq_true_iff, ← add_assoc]
    exact hDry
  rw [updatePondedQual_eq, hd]
  obtain ⟨_, _, _, a4, a5, a6⟩ := pondedQual_dry_loop env j tStep (s.Vrain + s.Vrunon) s
    (s.Nobjects ObjectType.POLLUT)
  refine ⟨?_, ?_, ?_⟩
  · rw [a4 p, if_pos hp]
  · rw [a5 p, if_pos hp]
  · rw [a6, postedTo_append, postedTo_dry_postings _ _ _ _ hp]
theorem foldl_range_keeps (f : Project → Nat → Project) (Q : Project → Prop) (s : Project)
    (n : Nat) (h0 : Q s) (hs : ∀ t k, Q t → Q (f t k)) : Q ((List.range n).foldl f s) :=
  foldl_range_inv f (fun _ t => Q t) s n h0 (fun k t _ h => hs t k h)

theorem washoffInit_keeps (s : Project) :
    (washoffInit s).Nobjects = s.Nobjects ∧ (washoffInit s).Pollut = s.Pollut ∧
    (washoffInit s).Subcatch = s.Subcatch ∧ (washoffInit s).ledger = s.ledger ∧
    (washoffInit s).Vponded = s.Vponded ∧ (washoffInit s).Vrain = s.Vrain ∧
    (washoffInit s).Vrunon = s.Vrunon := by
  unfold washoffInit
  exact foldl_range_keeps _
    (fun t : Project => t.Nobjects = s.Nobjects ∧ t.Pollut = s.Pollut ∧
      t.Subcatch = s.Subcatch ∧ t.ledger = s.ledger ∧ t.Vponded = s.Vponded ∧
      t.Vrain = s.Vrain ∧ t.Vrunon = s.Vrunon)
    s _ ⟨rfl, rfl, rfl, rfl, rfl, rfl, rfl⟩ (fun _ _ h => h)

/-- What the blocks of `subcatch_getWashoff` after the ponded-water balance
leave alone. -/
theorem washoffLanduses_keeps (env : Env) (t : Project) (j : Nat) (runoff tStep : ℚ) :
    (washoffLanduses env t j runoff tStep).Nobjects = t.Nobjects ∧
    ((washoffLanduses env t j runoff tStep).Subcatch j).pondedQual = (t.Subcatch j).pondedQual ∧
    t.ledger <+: (washoffLanduses env t j runoff tStep).ledger := by
  unfold washoffLanduses
  split_ifs with h
  · refine foldl_range_keeps _
      (fun t2 : Project => t2.Nobjects = t.Nobjects ∧
        (t2.Subcatch j).pondedQual = (t.Subcatch j).pondedQual ∧ t.ledger <+: t2.ledger)
      _ _ ?_ ?_
    · refine foldl_range_keeps _
        (fun t2 : Project => t2.Nobjects = t.Nobjects ∧
          (t2.Subcatch j).pondedQual = (t.Subcatch j).pondedQual ∧ t.ledger <+: t2.ledger)
        _ _ ⟨rfl, rfl, List.prefix_refl _⟩ ?_
      intro t2 k h
      obtain ⟨h1, h2, h3⟩ := h
      split_ifs
      · refine ⟨h1, ?_, h3.trans (List.prefix_append _ _)⟩
        rw [← h2]
        simp [setSubcatch]
      · exact ⟨h1, h2, h3⟩
    · intro t2 k h
      exact h
  · exact ⟨rfl, rfl, List.prefix_refl _⟩

theorem washoffQual_keeps (env : Env) (t : Project) (j : Nat) (runoff tStep : ℚ) :
    (washoffQual env t j runoff tStep).Nobjects = t.Nobjects ∧
    ((washoffQual env t j runoff tStep).Subcatch j).pondedQual = (t.Subcatch j).pondedQual ∧
    t.ledger <+: (washoffQual env t j runoff tStep).ledger := by
  unfold washoffQual
  refine foldl_range_keeps _
    (fun t2 : Project => t2.Nobjects = t.Nobjects ∧
      (t2.Subcatch j).pondedQual = (t.Subcatch j).pondedQual ∧ t.ledger <+: t2.ledger)
    _ _ ⟨rfl, rfl, List.prefix_refl _⟩ ?_
  intro t2 k h
  obtain ⟨h1, h2, h3⟩ := h
  simp only []
  split_ifs <;> refine ⟨h1, ?_, h3.trans ?_⟩ <;>
    simp [setSubcatch, massbal_updateLoadingTotals, h2]

theorem mem_of_postedTo_eq_append (l : List Posting) (type : LoadType) (p : Nat) (xs : List ℚ)
    (w : ℚ) (h : postedTo l type p = xs ++ [w]) : (⟨type, p, w⟩ : Posting) ∈ l := by
  have hw : w ∈ postedTo l type p := by rw [h]; simp
  unfold postedTo at hw
  rw [List.mem_map] at hw
  obtain ⟨e, he, hew⟩ := hw
  rw [List.mem_filter] at he
  obtain ⟨he1, he2⟩ := he
  rw [decide_eq_true_iff] at he2
  obtain ⟨e1, e2, e3⟩ := e
  simp only at he2 hew
  obtain ⟨h1, h2⟩ := he2
  subst h1 h2 hew
  exact he1

/-- C6: when ponded volume + rain volume + runon volume is zero,
`updatePondedQual` leaves the ponded mass and the ponded-water outflow load of
every pollutant `p` at zero and posts exactly the prior ponded mass of `p` times
its mass conversion factor to the FINAL_LOAD category for `p`; and a call of
`subcatch_getWashoff` that reaches it (non-zero area) ends with the ponded mass
of `p` at zero and that posting in the ledger. -/
theorem C6_dry_ponding_flush (env : Env) (s : Project) (j : Nat) (runoff tStep : ℚ) (p : Nat)
    (hDry : s.Vponded + s.Vrain + s.Vrunon = 0) (hp : p < s.Nobjects ObjectType.POLLUT) :
    (((updatePondedQual env s j tStep).Subcatch j).pondedQual p = 0 ∧
      (updatePondedQual env s j tStep).OutflowLoad p = 0 ∧
      postedTo (updatePondedQual env s j tStep).ledger LoadType.FINAL_LOAD p
        = postedTo s.ledger LoadType.FINAL_LOAD p ++
            [(s.Subcatch j).pondedQual p * (s.Pollut p).mcf]) ∧
    ((s.Subcatch j).area ≠ 0 →
      ((subcatch_getWashoff env s j runoff tStep).Subcatch j).pondedQual p = 0 ∧
      (⟨LoadType.FINAL_LOAD, p, (s.Subcatch j).pondedQual p * (s.Pollut p).mcf⟩ : Posting)
        ∈ (subcatch_getWashoff env s j runoff tStep).ledger) := by
  refine ⟨updatePondedQual_dry env s j tStep p hDry hp, fun hA => ?_⟩
  have hN : ¬ (s.Nobjects ObjectType.POLLUT = 0 ∨ (s.Subcatch j).area = 0) := by
    intro h
    rcases h with h | h
    · omega
    · exact hA h
  rw [getWashoff_eq, if_neg hN]
  obtain ⟨i1, i2, i3, i4, i5, i6, i7⟩ := washoffInit_keeps s
  have hDry2 : (washoffInit s).Vponded + (washoffInit s).Vrain + (washoffInit s).Vrunon = 0 := by
    rw [i5, i6, i7]; exact hDry
  obtain ⟨u1, _, u3⟩ := updatePondedQual_dry env (washoffInit s) j tStep p hDry2 (by rw [i1]; exact hp)
  rw [i2, i3] at u3
  obtain ⟨_, l2, l3⟩ := washoffLanduses_keeps env (updatePondedQual env (washoffInit s) j tStep) j
    runoff tStep
  obtain ⟨_, q2, q3⟩ := washoffQual_keeps env
    (washoffLanduses env (updatePondedQual env (washoffInit s) j tStep) j runoff tStep) j
    ((washoffLanduses env (updatePondedQual env (washoffInit s) j tStep) j runoff
      tStep).Subcatch j).newRunoff tStep
  refine ⟨?_, ?_⟩
  · rw [q2, l2, u1]
  · exact (l3.trans q3).subset (mem_of_postedTo_eq_append _ _ _ _ _ u3)

theorem setSubarea_subArea_same (project : Project) (j : Nat) (i : SubareaType)
    (sa : TSubarea) : ((setSubarea project j i sa).Subcatch j).subArea i = sa := by
  simp [setSubarea]

theorem getSubareaRunoff_eq (env : Env) (project : Project) (j : Nat) (i : SubareaType)
    (precip evap tStep : ℚ) :
    getSubareaRunoff env project j i precip evap tStep =
      if (getSubarea (subareaInit project j i) j i).fArea = 0 then subareaInit project j i
      else
        if (findSubareaRunoff env (subareaPonded env project j i precip evap tStep).2.1
              (subareaPonded env project j i precip evap tStep).2.2).fOutlet > 0 then
          { setSubarea (setSubarea (subareaPonded env project j i precip evap tStep).1 j i
                (subareaPonded env project j i precip evap tStep).2.1) j i
              (findSubareaRunoff env (subareaPonded env project j i precip evap tStep).2.1
                (subareaPonded env project j i precip evap tStep).2.2) with
            Voutflow := (1 / 2) * ((getSubarea project j i).runoff +
                (findSubareaRunoff env (subareaPonded env project j i precip evap tStep).2.1
                  (subareaPonded env project j i precip evap tStep).2.2).runoff)
              * (subareaPonded env project j i precip evap tStep).2.2
              * (findSubareaRunoff env (subareaPonded env project j i precip evap tStep).2.1
                  (subareaPonded env project j i precip evap tStep).2.2).fOutlet,
            Outflow := (findSubareaRunoff env (subareaPonded env project j i precip evap tStep).2.1
                  (subareaPonded env project j i precip evap tStep).2.2).fOutlet *
                (findSubareaRunoff env (subareaPonded env project j i precip evap tStep).2.1
                  (subareaPonded env project j i precip evap tStep).2.2).runoff }
        else
          setSubarea (setSubarea (subareaPonded env project j i precip evap tStep).1 j i
                (subareaPonded env project j i precip evap tStep).2.1) j i
              (findSubareaRunoff env (subareaPonded env project j i precip evap tStep).2.1
                (subareaPonded env project j i precip evap tStep).2.2) := by
  simp only [getSubareaRunoff, subareaPonded, subareaLosses, subareaInit, subareaEvap,
    subareaInfil, subareaMoisture, getSubarea, setSubarea_subArea_same]

theorem subareaInit_getSubarea (project : Project) (j : Nat) (i : SubareaType) :
    getSubarea (subareaInit project j i) j i = { getSubarea project j i with runoff := 0 } := by
  simp only [subareaInit, getSubarea, setSubarea_subArea_same]

theorem subareaLosses_getSubarea (env : Env) (project : Project) (j : Nat) (i : SubareaType)
    (precip evap tStep : ℚ) :
    getSubarea (subareaLosses env project j i precip evap tStep) j i
      = subareaWetted project j i precip := by
  simp only [subareaLosses, subareaInit, subareaWetted, getSubarea, setSubarea_subArea_same]

theorem updatePondedDepth_keeps (env : Env) (project : Project) (sa : TSubarea) (dt : ℚ) :
    (updatePondedDepth env project sa dt).1.Vevap = project.Vevap ∧
    (updatePondedDepth env project sa dt).1.Vinfil = project.Vinfil := by
  unfold updatePondedDepth
  simp only []
  split_ifs <;> exact ⟨rfl, rfl⟩

theorem subareaPonded_volumes (env : Env) (project : Project) (j : Nat) (i : SubareaType)
    (precip evap tStep : ℚ) :
    (subareaPonded env project j i precip evap tStep).1.Vevap
      = subareaEvap project j i evap tStep * tStep ∧
    (subareaPonded env project j i precip evap tStep).1.Vinfil
      = subareaInfil env project j i precip tStep * tStep := by
  unfold subareaPonded
  split_ifs
  · exact ⟨rfl, rfl⟩
  · rw [(updatePondedDepth_keeps _ _ _ _).1, (updatePondedDepth_keeps _ _ _ _).2]
    exact ⟨rfl, rfl⟩

/-- What `getSubareaRunoff` leaves in a sub-area of non-zero area fraction. -/
theorem getSubareaRunoff_result (env : Env) (project : Project) (j : Nat) (i : SubareaType)
    (precip evap tStep : ℚ) (hA : (getSubarea project j i).fArea ≠ 0) :
    (getSubareaRunoff env project j i precip evap tStep).Vevap
      = subareaEvap project j i evap tStep * tStep ∧
    (getSubareaRunoff env project j i precip evap tStep).Vinfil
      = subareaInfil env project j i precip tStep * tStep ∧
    getSubarea (getSubareaRunoff env project j i precip evap tStep) j i
      = findSubareaRunoff env (subareaPonded env project j i precip evap tStep).2.1
          (subareaPonded env project j i precip evap tStep).2.2 := by
  have hA2 : ¬ (getSubarea (subareaInit project j i) j i).fArea = 0 := by
    rw [subareaInit_getSubarea]
    exact hA
  rw [getSubareaRunoff_eq, if_neg hA2]
  obtain ⟨v1, v2⟩ := subareaPonded_volumes env project j i precip evap tStep
  split_ifs
  · refine ⟨v1, v2, ?_⟩
    simp only [getSubarea, setSubarea_subArea_same]
  · refine ⟨v1, v2, ?_⟩
    simp only [getSubarea, setSubarea_subArea_same]
theorem updatePondedDepth_frame (env : Env) (p : Project) (sa : TSubarea) (dt : ℚ) :
    (updatePondedDepth env p sa dt).2.1
      = { sa with depth := (updatePondedDepth env p sa dt).2.1.depth } := by
  unfold updatePondedDepth
  simp only []
  split_ifs <;> rfl

theorem updatePondedDepth_fast (env : Env) (p : Project) (sa : TSubarea) (dt : ℚ)
    (h : sa.depth + (sa.inflow - p.Losses) * dt ≤ sa.dStore)
    (h0 : 0 ≤ sa.depth + (sa.inflow - p.Losses) * dt) :
    (updatePondedDepth env p sa dt).2.1.depth = sa.depth + (sa.inflow - p.Losses) * dt ∧
    (updatePondedDepth env p sa dt).2.2 = dt := by
  unfold updatePondedDepth
  simp only []
  rw [if_pos h]
  simp only []
  rw [if_neg (not_lt.mpr h0)]
  simp

theorem updatePondedDepth_linear (env : Env) (p : Project) (sa : TSubarea) (dt : ℚ)
    (h : ¬ (sa.depth + (sa.inflow - p.Losses) * dt ≤ sa.dStore))
    (hα : sa.alpha = 0) (hd : 0 ≤ sa.dStore) (hdt : 0 < dt) :
    (updatePondedDepth env p sa dt).2.1.depth = sa.depth + (sa.inflow - p.Losses) * dt ∧
    (updatePondedDepth env p sa dt).2.2
      = (if sa.dStore - sa.depth > 0 ∧ sa.inflow - p.Losses > 0 then
          dt - (sa.dStore - sa.depth) / (sa.inflow - p.Losses)
        else dt) ∧
    0 < (updatePondedDepth env p sa dt).2.2 := by
  have hgt : sa.dStore < sa.depth + (sa.inflow - p.Losses) * dt := not_le.mp h
  unfold updatePondedDepth
  simp only []
  rw [if_neg h]
  by_cases hf : sa.dStore - sa.depth > 0 ∧ sa.inflow - p.Losses > 0
  · obtain ⟨hdx, hix⟩ := hf
    have hix0 : sa.inflow - p.Losses ≠ 0 := ne_of_gt hix
    have htx : 0 < dt - (sa.dStore - sa.depth) / (sa.inflow - p.Losses) := by
      rw [sub_pos, div_lt_iff₀ hix]
      linarith
    have hα2 : ¬ (sa.alpha > 0 ∧ dt - (sa.dStore - sa.depth) / (sa.inflow - p.Losses) > 0) := by
      intro h2
      rw [hα] at h2
      exact lt_irrefl _ h2.1
    have hval : sa.dStore + (sa.inflow - p.Losses) *
        (dt - (sa.dStore - sa.depth) / (sa.inflow - p.Losses))
        = sa.depth + (sa.inflow - p.Losses) * dt := by
      field_simp
      ring
    simp only [hdx, hix, and_self, if_true, hα2, if_false, not_lt.mpr (le_of_lt htx), hval]
    have hnn : ¬ (sa.depth + (sa.inflow - p.Losses) * dt < 0) := by
      intro h3
      linarith
    simp only [hnn, if_false]
    exact ⟨trivial, trivial, htx⟩
  · have hα2 : ¬ (sa.alpha > 0 ∧ dt > 0) := by
      intro h2
      rw [hα] at h2
      exact lt_irrefl _ h2.1
    have hnn : ¬ (sa.depth + (sa.inflow - p.Losses) * dt < 0) := by
      intro h3
      linarith
    simp only [hf, if_false, hα2, not_lt.mpr (le_of_lt hdt), hnn]
    exact ⟨trivial, trivial, hdt⟩
theorem updatePondedDepth_Losses (env : Env) (project : Project) (sa : TSubarea) (dt : ℚ) :
    (updatePondedDepth env project sa dt).1.Losses = project.Losses := by
  unfold updatePondedDepth
  simp only []
  split_ifs <;> rfl

theorem getSubareaRunoff_Losses (env : Env) (project : Project) (j : Nat) (i : SubareaType)
    (precip evap tStep : ℚ) (hA : (getSubarea project j i).fArea ≠ 0) :
    (getSubareaRunoff env project j i precip evap tStep).Losses
      = (subareaPonded env project j i precip evap tStep).1.Losses := by
  have hA2 : ¬ (getSubarea (subareaInit project j i) j i).fArea = 0 := by
    rw [subareaInit_getSubarea]
    exact hA
  rw [getSubareaRunoff_eq, if_neg hA2]
  split_ifs <;> rfl

theorem subareaPonded_depleted (env : Env) (project : Project) (j : Nat) (i : SubareaType)
    (precip evap tStep : ℚ)
    (hL : subareaEvap project j i evap tStep + subareaInfil env project j i precip tStep
      ≥ subareaMoisture project j i precip tStep) :
    (subareaPonded env project j i precip evap tStep).1.Losses
      = subareaMoisture project j i precip tStep ∧
    (subareaPonded env project j i precip evap tStep).2.1
      = { subareaWetted project j i precip with depth := 0 } ∧
    (subareaPonded env project j i precip evap tStep).2.2 = tStep := by
  have hL2 : (subareaLosses env project j i precip evap tStep).Losses
      ≥ subareaMoisture project j i precip tStep := hL
  unfold subareaPonded
  rw [if_pos hL2, subareaLosses_getSubarea]
  exact ⟨rfl, rfl, rfl⟩

theorem subareaPonded_ponding (env : Env) (project : Project) (j : Nat) (i : SubareaType)
    (precip evap tStep : ℚ)
    (hL : ¬ (subareaEvap project j i evap tStep + subareaInfil env project j i precip tStep
      ≥ subareaMoisture project j i precip tStep)) :
    (subareaPonded env project j i precip evap tStep).1.Losses
      = subareaEvap project j i evap tStep + subareaInfil env project j i precip tStep ∧
    (subareaPonded env project j i precip evap tStep).2
      = (updatePondedDepth env (subareaLosses env project j i precip evap tStep)
          (subareaWetted project j i precip) tStep).2 := by
  have hL2 : ¬ ((subareaLosses env project j i precip evap tStep).Losses
      ≥ subareaMoisture project j i precip tStep) := hL
  unfold subareaPonded
  rw [if_neg hL2, subareaLosses_getSubarea, updatePondedDepth_Losses]
  exact ⟨rfl, rfl⟩

theorem findSubareaRunoff_dry (env : Env) (sa : TSubarea) (tRunoff : ℚ)
    (h : sa.depth - sa.dStore ≤ env.ZERO) :
    (findSubareaRunoff env sa tRunoff).depth = sa.depth ∧
    (findSubareaRunoff env sa tRunoff).runoff = 0 := by
  unfold findSubareaRunoff
  simp only []
  rw [if_neg (not_lt.mpr h)]
  exact ⟨rfl, rfl⟩

theorem findSubareaRunoff_routed (env : Env) (sa : TSubarea) (tRunoff : ℚ)
    (h : sa.depth - sa.dStore > env.ZERO) (hN : sa.N > 0) :
    (findSubareaRunoff env sa tRunoff).depth = sa.depth ∧
    (findSubareaRunoff env sa tRunoff).runoff
      = sa.alpha * env.pow (sa.depth - sa.dStore) MEXP := by
  unfold findSubareaRunoff
  simp only []
  rw [if_pos h, if_pos hN]
  exact ⟨rfl, rfl⟩

theorem findSubareaRunoff_drained (env : Env) (sa : TSubarea) (tRunoff : ℚ)
    (h : sa.depth - sa.dStore > env.ZERO) (hN : ¬ sa.N > 0) :
    (findSubareaRunoff env sa tRunoff).depth = sa.dStore ∧
    (findSubareaRunoff env sa tRunoff).runoff = (sa.depth - sa.dStore) / tRunoff := by
  unfold findSubareaRunoff
  simp only []
  rw [if_pos h, if_neg hN]
  exact ⟨rfl, rfl⟩

/-- The loss rates `getSubareaRunoff` records as volumes are its locals
`surfEvap` and `infil`. -/
theorem getSubareaRunoff_rates (env : Env) (project : Project) (j : Nat) (i : SubareaType)
    (precip evap tStep : ℚ) (hA : (getSubarea project j i).fArea ≠ 0) (hT : 0 < tStep) :
    (getSubareaRunoff env project j i precip evap tStep).Vevap / tStep
        + (getSubareaRunoff env project j i precip evap tStep).Vinfil / tStep
      = subareaEvap project j i evap tStep + subareaInfil env project j i precip tStep := by
  obtain ⟨hV, hI, _⟩ := getSubareaRunoff_result env project j i precip evap tStep hA
  have hT0 : tStep ≠ 0 := ne_of_gt hT
  rw [hV, hI, mul_div_assoc, mul_div_assoc, div_self hT0, mul_one, mul_one]

/-- Runoff of a free-draining sub-area (N = 0, alpha = 0, no depression
storage) in terms of the locals of `getSubareaRunoff`. -/
theorem getSubareaRunoff_free_drain (env : Env) (project : Project) (j : Nat) (i : SubareaType)
    (precip evap tStep : ℚ) (hZ : 0 ≤ env.ZERO)
    (hN : (getSubarea project j i).N = 0) (hα : (getSubarea project j i).alpha = 0)
    (hD : (getSubarea project j i).dStore = 0)
    (hA : (getSubarea project j i).fArea ≠ 0) (hT : 0 < tStep)
    (hd : 0 ≤ (getSubarea project j i).depth) :
    (getSubarea (getSubareaRunoff env project j i precip evap tStep) j i).runoff
      = if (subareaMoisture project j i precip tStep
            - (subareaEvap project j i evap tStep + subareaInfil env project j i precip tStep))
            * tStep > env.ZERO then
          subareaMoisture project j i precip tStep
            - (subareaEvap project j i evap tStep + subareaInfil env project j i precip tStep)
        else 0 := by
  have hT0 : tStep ≠ 0 := ne_of_gt hT
  obtain ⟨_, _, hS⟩ := getSubareaRunoff_result env project j i precip evap tStep hA
  rw [hS]
  generalize hE : subareaEvap project j i evap tStep = E
  generalize hI : subareaInfil env project j i precip tStep = I
  have hM : subareaMoisture project j i precip tStep * tStep
      = (getSubarea project j i).depth + ((getSubarea project j i).inflow + precip) * tStep := by
    unfold subareaMoisture
    field_simp
  by_cases hL : E + I ≥ subareaMoisture project j i precip tStep
  · have hL2 := hL
    rw [← hE, ← hI] at hL2
    obtain ⟨_, p2, p3⟩ := subareaPonded_depleted env project j i precip evap tStep hL2
    rw [p2, p3]
    have hx : ({ subareaWetted project j i precip with depth := 0 } : TSubarea).depth
        - ({ subareaWetted project j i precip with depth := 0 } : TSubarea).dStore
        ≤ env.ZERO := by
      show (0 : ℚ) - (getSubarea project j i).dStore ≤ env.ZERO
      rw [hD]; linarith
    rw [(findSubareaRunoff_dry env _ tStep hx).2, if_neg]
    have : (subareaMoisture project j i precip tStep - (E + I)) * tStep ≤ 0 :=
      mul_nonpos_of_nonpos_of_nonneg (by linarith) (le_of_lt hT)
    linarith
  · have hL2 := hL
    rw [← hE, ← hI] at hL2
    obtain ⟨_, p2⟩ := subareaPonded_ponding env project j i precip evap tStep hL2
    rw [p2]
    have hLoss : (subareaLosses env project j i precip evap tStep).Losses = E + I := by
      rw [← hE, ← hI]; rfl
    have hpos : 0 < (subareaMoisture project j i precip tStep - (E + I)) * tStep :=
      mul_pos (by linarith [not_le.mp hL]) hT
    have hval : (subareaWetted project j i precip).depth
        + ((subareaWetted project j i precip).inflow
          - (subareaLosses env project j i precip evap tStep).Losses) * tStep
        = (subareaMoisture project j i precip tStep - (E + I)) * tStep := by
      rw [hLoss]
      have h3 : (subareaMoisture project j i precip tStep - (E + I)) * tStep
          = subareaMoisture project j i precip tStep * tStep - (E + I) * tStep := sub_mul _ _ _
      rw [h3, hM]
      show (getSubarea project j i).depth
        + ((getSubarea project j i).inflow + precip - (E + I)) * tStep = _
      ring
    have hslow : ¬ ((subareaWetted project j i precip).depth
        + ((subareaWetted project j i precip).inflow
          - (subareaLosses env project j i precip evap tStep).Losses) * tStep
        ≤ (subareaWetted project j i precip).dStore) := by
      rw [hval]
      show ¬ (_ ≤ (getSubarea project j i).dStore)
      rw [hD]
      exact not_le.mpr hpos
    obtain ⟨u1, u2, _⟩ := updatePondedDepth_linear env
      (subareaLosses env project j i precip evap tStep) (subareaWetted project j i precip) tStep
      hslow hα (le_of_eq hD.symm) hT
    have hfill : ¬ ((subareaWetted project j i precip).dStore
        - (subareaWetted project j i precip).depth > 0 ∧
        (subareaWetted project j i precip).inflow
          - (subareaLosses env project j i precip evap tStep).Losses > 0) := by
      intro h
      have h1 : (getSubarea project j i).dStore - (getSubarea project j i).depth > 0 := h.1
      rw [hD] at h1
      linarith
    rw [if_neg hfill] at u2
    rw [hval] at u1
    rw [updatePondedDepth_frame, u1, u2]
    by_cases hx : (subareaMoisture project j i precip tStep - (E + I)) * tStep > env.ZERO
    · rw [if_pos hx]
      have hx2 : ({ subareaWetted project j i precip with
          depth := (subareaMoisture project j i precip tStep - (E + I)) * tStep } : TSubarea).depth
          - ({ subareaWetted project j i precip with
          depth := (subareaMoisture project j i precip tStep - (E + I)) * tStep } : TSubarea).dStore
          > env.ZERO := by
        show (subareaMoisture project j i precip tStep - (E + I)) * tStep
          - (getSubarea project j i).dStore > env.ZERO
        rw [hD, sub_zero]
        exact hx
      have hN2 : ¬ ({ subareaWetted project j i precip with
          depth := (subareaMoisture project j i precip tStep - (E + I)) * tStep } : TSubarea).N
          > 0 := by
        show ¬ ((getSubarea project j i).N > 0)
        rw [hN]
        exact lt_irrefl 0
      rw [(findSubareaRunoff_drained env _ tStep hx2 hN2).2]
      show ((subareaMoisture project j i precip tStep - (E + I)) * tStep
        - (getSubarea project j i).dStore) / tStep = _
      rw [hD, sub_zero, mul_div_assoc, div_self hT0, mul_one]
    · rw [if_neg hx]
      have hx2 : ({ subareaWetted project j i precip with
          depth := (subareaMoisture project j i precip tStep - (E + I)) * tStep } : TSubarea).depth
          - ({ subareaWetted project j i precip with
          depth := (subareaMoisture project j i precip tStep - (E + I)) * tStep } : TSubarea).dStore
          ≤ env.ZERO := by
        show (subareaMoisture project j i precip tStep - (E + I)) * tStep
          - (getSubarea project j i).dStore ≤ env.ZERO
        rw [hD, sub_zero]
        exact not_lt.mp hx
      exact (findSubareaRunoff_dry env _ tStep hx2).2
/-- Water balance of a sub-area over one step on the paths of `getSubareaRunoff`
that do not call the ODE solver, with the loss rate the step leaves in `Losses`. -/
theorem getSubareaRunoff_balance (env : Env) (project : Project) (j : Nat) (i : SubareaType)
    (precip evap tStep : ℚ) (hZ : 0 ≤ env.ZERO)
    (hA : (getSubarea project j i).fArea ≠ 0) (hT : 0 < tStep)
    (hD : 0 ≤ (getSubarea project j i).dStore)
    (hPath :
      subareaEvap project j i evap tStep + subareaInfil env project j i precip tStep
          ≥ subareaMoisture project j i precip tStep ∨
        (getSubarea project j i).depth
            + ((getSubarea project j i).inflow + precip
              - (subareaEvap project j i evap tStep + subareaInfil env project j i precip tStep))
              * tStep
          ≤ (getSubarea project j i).dStore ∨
        (getSubarea project j i).alpha = 0)
    (hDrain : 0 < (getSubarea project j i).N ∨
      (getSubarea project j i).dStore ≤ (getSubarea project j i).depth ∨
      (getSubarea (getSubareaRunoff env project j i precip evap tStep) j i).runoff = 0) :
    (getSubarea (getSubareaRunoff env project j i precip evap tStep) j i).depth
      = (getSubarea project j i).depth
        + ((getSubarea project j i).inflow + precip
          - (getSubareaRunoff env project j i precip evap tStep).Losses
          - (getSubarea (getSubareaRunoff env project j i precip evap tStep) j i).runoff)
          * tStep := by
  have hT0 : tStep ≠ 0 := ne_of_gt hT
  obtain ⟨_, _, hS⟩ := getSubareaRunoff_result env project j i precip evap tStep hA
  rw [getSubareaRunoff_Losses env project j i precip evap tStep hA]
  rw [hS] at hDrain ⊢
  generalize hE : subareaEvap project j i evap tStep = E at hPath
  generalize hI : subareaInfil env project j i precip tStep = I at hPath
  have hM : subareaMoisture project j i precip tStep * tStep
      = (getSubarea project j i).depth + ((getSubarea project j i).inflow + precip) * tStep := by
    unfold subareaMoisture
    field_simp
  by_cases hL : E + I ≥ subareaMoisture project j i precip tStep
  · have hL2 := hL
    rw [← hE, ← hI] at hL2
    obtain ⟨p1, p2, p3⟩ := subareaPonded_depleted env project j i precip evap tStep hL2
    rw [p1, p2, p3]
    have hx : ({ subareaWetted project j i precip with depth := 0 } : TSubarea).depth
        - ({ subareaWetted project j i precip with depth := 0 } : TSubarea).dStore
        ≤ env.ZERO := by
      show (0 : ℚ) - (getSubarea project j i).dStore ≤ env.ZERO
      linarith
    rw [(findSubareaRunoff_dry env _ tStep hx).1, (findSubareaRunoff_dry env _ tStep hx).2]
    show (0 : ℚ) = _
    have h3 : ((getSubarea project j i).inflow + precip
        - subareaMoisture project j i precip tStep - 0) * tStep
        = ((getSubarea project j i).inflow + precip) * tStep
          - subareaMoisture project j i precip tStep * tStep := by ring
    rw [h3, hM]
    ring
  · have hL2 := hL
    rw [← hE, ← hI] at hL2
    obtain ⟨p1, p2⟩ := subareaPonded_ponding env project j i precip evap tStep hL2
    rw [p2] at hDrain ⊢
    rw [p1, hE, hI]
    have hLoss : (subareaLosses env project j i precip evap tStep).Losses = E + I := by
      rw [← hE, ← hI]; rfl
    have hpos : 0 < (subareaMoisture project j i precip tStep - (E + I)) * tStep :=
      mul_pos (by linarith [not_le.mp hL]) hT
    have hval : (subareaWetted project j i precip).depth
        + ((subareaWetted project j i precip).inflow
          - (subareaLosses env project j i precip evap tStep).Losses) * tStep
        = (getSubarea project j i).depth
          + ((getSubarea project j i).inflow + precip - (E + I)) * tStep := by
      rw [hLoss]
      rfl
    have hnn : 0 ≤ (getSubarea project j i).depth
          + ((getSubarea project j i).inflow + precip - (E + I)) * tStep := by
      have h3 : (subareaMoisture project j i precip tStep - (E + I)) * tStep
          = subareaMoisture project j i precip tStep * tStep - (E + I) * tStep := sub_mul _ _ _
      rw [h3, hM] at hpos
      linarith
    generalize hU : (getSubarea project j i).depth
          + ((getSubarea project j i).inflow + precip - (E + I)) * tStep = U at hval hnn hPath
    by_cases hfast : U ≤ (getSubarea project j i).dStore
    · have hfast2 : (subareaWetted project j i precip).depth
          + ((subareaWetted project j i precip).inflow
            - (subareaLosses env project j i precip evap tStep).Losses) * tStep
          ≤ (subareaWetted project j i precip).dStore := by
        rw [hval]; exact hfast
      have hnn2 : 0 ≤ (subareaWetted project j i precip).depth
          + ((subareaWetted project j i precip).inflow
            - (subareaLosses env project j i precip evap tStep).Losses) * tStep := by
        rw [hval]; exact hnn
      obtain ⟨u1, u2⟩ := updatePondedDepth_fast env _ _ tStep hfast2 hnn2
      rw [hval] at u1
      rw [updatePondedDepth_frame, u1, u2]
      have hx : ({ subareaWetted project j i precip with depth := U } : TSubarea).depth
          - ({ subareaWetted project j i precip with depth := U } : TSubarea).dStore
          ≤ env.ZERO := by
        show U - (getSubarea project j i).dStore ≤ env.ZERO
        linarith
      rw [(findSubareaRunoff_dry env _ tStep hx).1, (findSubareaRunoff_dry env _ tStep hx).2]
      show U = _
      rw [← hU]
      ring
    · have hα : (getSubarea project j i).alpha = 0 := by
        rcases hPath with h | h | h
        · exact absurd h hL
        · exact absurd h hfast
        · exact h
      have hslow : ¬ ((subareaWetted project j i precip).depth
          + ((subareaWetted project j i precip).inflow
            - (subareaLosses env project j i precip evap tStep).Losses) * tStep
          ≤ (subareaWetted project j i precip).dStore) := by
        rw [hval]; exact hfast
      obtain ⟨u1, u2, u3⟩ := updatePondedDepth_linear env
        (subareaLosses env project j i precip evap tStep) (subareaWetted project j i precip)
        tStep hslow hα hD hT
      rw [hval] at u1
      rw [updatePondedDepth_frame, u1] at hDrain ⊢
      generalize (updatePondedDepth env (subareaLosses env project j i precip evap tStep)
        (subareaWetted project j i precip) tStep).2.2 = tx at u2 u3 hDrain ⊢
      by_cases hx : U - (getSubarea project j i).dStore > env.ZERO
      · have hx2 : ({ subareaWetted project j i precip with depth := U } : TSubarea).depth
            - ({ subareaWetted project j i precip with depth := U } : TSubarea).dStore
            > env.ZERO := hx
        by_cases hN : (getSubarea project j i).N > 0
        · have hN2 : ({ subareaWetted project j i precip with depth := U } : TSubarea).N > 0 := hN
          rw [(findSubareaRunoff_routed env _ tx hx2 hN2).1,
            (findSubareaRunoff_routed env _ tx hx2 hN2).2]
          show U = (getSubarea project j i).depth
            + ((getSubarea project j i).inflow + precip - (E + I)
              - (getSubarea project j i).alpha * _) * tStep
          rw [hα, ← hU]
          ring
        · have hN2 : ¬ ({ subareaWetted project j i precip with depth := U } : TSubarea).N > 0 :=
            hN
          rw [(findSubareaRunoff_drained env _ tx hx2 hN2).2] at hDrain
          rw [(findSubareaRunoff_drained env _ tx hx2 hN2).1,
            (findSubareaRunoff_drained env _ tx hx2 hN2).2]
          have hrun : 0 < (U - (getSubarea project j i).dStore) / tx :=
            div_pos (by linarith) u3
          have hstart : (getSubarea project j i).dStore ≤ (getSubarea project j i).depth := by
            rcases hDrain with h | h | h
            · exact absurd h hN
            · exact h
            · have h2 : (U - (getSubarea project j i).dStore) / tx = 0 := h
              linarith
          have htx : tx = tStep := by
            rw [u2, if_neg]
            intro h
            have h1 : (getSubarea project j i).dStore - (getSubarea project j i).depth > 0 := h.1
            linarith
          show (getSubarea project j i).dStore = (getSubarea project j i).depth
            + ((getSubarea project j i).inflow + precip - (E + I)
              - (U - (getSubarea project j i).dStore) / tx) * tStep
          rw [htx, ← hU]
          field_simp
          ring
      · have hx2 : ({ subareaWetted project j i precip with depth := U } : TSubarea).depth
            - ({ subareaWetted project j i precip with depth := U } : TSubarea).dStore
            ≤ env.ZERO := not_lt.mp hx
        rw [(findSubareaRunoff_dry env _ tx hx2).1, (findSubareaRunoff_dry env _ tx hx2).2]
        show U = _
        rw [← hU]
        ring

/-- C2 (as stated, refuted): on a dry free-draining sub-area a net
precipitation of `ZERO / tStep` with no losses leaves runoff 0, not
`inflow - losses`. -/
theorem C2_threshold_counterexample :
    (getSubarea drainProject 0 SubareaType.IMPERV0).N = 0 ∧
    (getSubarea drainProject 0 SubareaType.IMPERV0).alpha = 0 ∧
    (getSubarea drainProject 0 SubareaType.IMPERV0).dStore = 0 ∧
    (getSubarea drainProject 0 SubareaType.IMPERV0).fArea ≠ 0 ∧
    (getSubarea (getSubareaRunoff basicEnv drainProject 0 SubareaType.IMPERV0
      (1 / 10000000000) 0 1) 0 SubareaType.IMPERV0).runoff = 0 ∧
    (getSubarea (getSubareaRunoff basicEnv drainProject 0 SubareaType.IMPERV0
      (1 / 10000000000) 0 1) 0 SubareaType.IMPERV0).inflow
      - ((getSubareaRunoff basicEnv drainProject 0 SubareaType.IMPERV0
          (1 / 10000000000) 0 1).Vevap / 1
        + (getSubareaRunoff basicEnv drainProject 0 SubareaType.IMPERV0
          (1 / 10000000000) 0 1).Vinfil / 1) = 1 / 10000000000 := by
  simp [getSubareaRunoff, getSubarea, setSubarea, updatePondedDepth, findSubareaRunoff,
    drainProject, basicEnv, zeroProject, zeroSubcatch, zeroSubarea, MIN]
  norm_num

/-- C3 (as stated, refuted): a free-draining sub-area (`alpha = 0`, `N = 0`)
that starts dry below a depression storage of 1 and receives a net
precipitation of 2 over a step of 1 ends at depth 1 with runoff 2, while
`depth_start + (inflow - evap - infil - runoff) * tStep` is 0. -/
theorem C3_partial_step_counterexample :
    (getSubarea fillProject 0 SubareaType.IMPERV0).alpha = 0 ∧
    (getSubarea fillProject 0 SubareaType.IMPERV0).fArea ≠ 0 ∧
    (getSubarea (getSubareaRunoff basicEnv fillProject 0 SubareaType.IMPERV0 2 0 1) 0
      SubareaType.IMPERV0).depth = 1 ∧
    (getSubarea fillProject 0 SubareaType.IMPERV0).depth
      + ((getSubarea fillProject 0 SubareaType.IMPERV0).inflow + 2
        - (getSubareaRunoff basicEnv fillProject 0 SubareaType.IMPERV0 2 0 1).Vevap / 1
        - (getSubareaRunoff basicEnv fillProject 0 SubareaType.IMPERV0 2 0 1).Vinfil / 1
        - (getSubarea (getSubareaRunoff basicEnv fillProject 0 SubareaType.IMPERV0 2 0 1) 0
            SubareaType.IMPERV0).runoff) * 1 = 0 := by
  simp [getSubareaRunoff, getSubarea, setSubarea, updatePondedDepth, findSubareaRunoff,
    fillProject, basicEnv, zeroProject, zeroSubcatch, zeroSubarea, MIN]
  norm_num

/-- Water balance of a sub-area in exact arithmetic on the paths of
`getSubareaRunoff` that do not call the ODE solver:
`depth_end = depth_start + (inflow - Losses - runoff) * tStep`. -/
theorem getSubareaRunoff_exact_balance (env : Env) (project : Project) (j : Nat) (i : SubareaType)
    (precip evap tStep : ℚ) (hZ : 0 ≤ env.ZERO)
    (hA : (getSubarea project j i).fArea ≠ 0) (hT : 0 < tStep)
    (hD : 0 ≤ (getSubarea project j i).dStore)
    (hPath :
      (getSubareaRunoff env project j i precip evap tStep).Vevap / tStep
          + (getSubareaRunoff env project j i precip evap tStep).Vinfil / tStep
          ≥ (getSubarea project j i).depth / tStep + ((getSubarea project j i).inflow + precip) ∨
        (getSubarea project j i).depth
            + ((getSubarea project j i).inflow + precip
              - ((getSubareaRunoff env project j i precip evap tStep).Vevap / tStep
                + (getSubareaRunoff env project j i precip evap tStep).Vinfil / tStep))
              * tStep
          ≤ (getSubarea project j i).dStore ∨
        (getSubarea project j i).alpha = 0)
    (hDrain : 0 < (getSubarea project j i).N ∨
      (getSubarea project j i).dStore ≤ (getSubarea project j i).depth ∨
      (getSubarea (getSubareaRunoff env project j i precip evap tStep) j i).runoff = 0) :
    (getSubarea (getSubareaRunoff env project j i precip evap tStep) j i).depth
      = (getSubarea project j i).depth
        + ((getSubarea project j i).inflow + precip
          - (getSubareaRunoff env project j i precip evap tStep).Losses
          - (getSubarea (getSubareaRunoff env project j i precip evap tStep) j i).runoff)
          * tStep ∧
    ((getSubareaRunoff env project j i precip evap tStep).Vevap / tStep
          + (getSubareaRunoff env project j i precip evap tStep).Vinfil / tStep
        ≤ (getSubarea project j i).depth / tStep + ((getSubarea project j i).inflow + precip) →
      (getSubarea (getSubareaRunoff env project j i precip evap tStep) j i).depth
        = (getSubarea project j i).depth
          + ((getSubarea project j i).inflow + precip
            - (getSubareaRunoff env project j i precip evap tStep).Vevap / tStep
            - (getSubareaRunoff env project j i precip evap tStep).Vinfil / tStep
            - (getSubarea (getSubareaRunoff env project j i precip evap tStep) j i).runoff)
            * tStep) := by
  have hR := getSubareaRunoff_rates env project j i precip evap tStep hA hT
  rw [hR] at hPath
  have hB := getSubareaRunoff_balance env project j i precip evap tStep hZ hA hT hD hPath hDrain
  refine ⟨hB, fun hle => ?_⟩
  rw [hR] at hle
  have hLoss : (getSubareaRunoff env project j i precip evap tStep).Losses
      = (getSubareaRunoff env project j i precip evap tStep).Vevap / tStep
        + (getSubareaRunoff env project j i precip evap tStep).Vinfil / tStep := by
    rw [hR, getSubareaRunoff_Losses env project j i precip evap tStep hA]
    by_cases hL : subareaEvap project j i evap tStep + subareaInfil env project j i precip tStep
        ≥ subareaMoisture project j i precip tStep
    · rw [(subareaPonded_depleted env project j i precip evap tStep hL).1]
      exact le_antisymm hL hle
    · exact (subareaPonded_ponding env project j i precip evap tStep hL).1
  rw [hB, hLoss]
  ring

theorem C6_dry_ponding_flush_witness :
    ((updatePondedQual basicEnv pondedMassProject 0 1).Subcatch 0).pondedQual 0 = 0 ∧
    ((subcatch_getWashoff basicEnv pondedMassProject 0 0 1).Subcatch 0).pondedQual 0 = 0 ∧
    (⟨LoadType.FINAL_LOAD, 0, 7⟩ : Posting)
      ∈ (subcatch_getWashoff basicEnv pondedMassProject 0 0 1).ledger := by
  have h := C6_dry_ponding_flush basicEnv pondedMassProject 0 0 1 0
    (by norm_num [pondedMassProject, zeroProject]) (by decide)
  obtain ⟨h1, h2⟩ := h
  have h3 := h2 (by norm_num [pondedMassProject, zeroSubcatch])
  have h4 : (pondedMassProject.Subcatch 0).pondedQual 0 * (pondedMassProject.Pollut 0).mcf = 7 := by
    norm_num [pondedMassProject, zeroProject, zeroSubcatch]
  rw [h4] at h3
  exact ⟨h1.1, h3.1, h3.2⟩

theorem getSubareaRunoff_zero_area (env : Env) (project : Project) (j : Nat) (i : SubareaType)
    (precip evap tStep : ℚ) (hA : (getSubarea project j i).fArea = 0) :
    getSubareaRunoff env project j i precip evap tStep = subareaInit project j i := by
  have hA2 : (getSubarea (subareaInit project j i) j i).fArea = 0 := by
    rw [subareaInit_getSubarea]
    exact hA
  rw [getSubareaRunoff_eq, if_pos hA2]

/-- C11: for a sub-area whose area fraction is 0, `getSubareaRunoff` sets its
runoff to 0, leaves the evaporation, infiltration and outflow volumes and the
loss and outflow rates at 0 and the depth and inflow of the sub-area as they
were, and its result is the same whatever the infiltration model, the ODE
solver and the other collaborators are (none of them is called). -/
theorem C11_zero_area_skip (env env2 : Env) (project : Project) (j : Nat) (i : SubareaType)
    (precip evap tStep : ℚ) (hA : (getSubarea project j i).fArea = 0) :
    (getSubarea (getSubareaRunoff env project j i precip evap tStep) j i).runoff = 0 ∧
    (getSubareaRunoff env project j i precip evap tStep).Vevap = 0 ∧
    (getSubareaRunoff env project j i precip evap tStep).Vinfil = 0 ∧
    (getSubareaRunoff env project j i precip evap tStep).Voutflow = 0 ∧
    (getSubareaRunoff env project j i precip evap tStep).Losses = 0 ∧
    (getSubareaRunoff env project j i precip evap tStep).Outflow = 0 ∧
    (getSubarea (getSubareaRunoff env project j i precip evap tStep) j i).depth
      = (getSubarea project j i).depth ∧
    (getSubarea (getSubareaRunoff env project j i precip evap tStep) j i).inflow
      = (getSubarea project j i).inflow ∧
    getSubareaRunoff env2 project j i precip evap tStep
      = getSubareaRunoff env project j i precip evap tStep := by
  rw [getSubareaRunoff_zero_area env project j i precip evap tStep hA,
    getSubareaRunoff_zero_area env2 project j i precip evap tStep hA, subareaInit_getSubarea]
  exact ⟨rfl, rfl, rfl, rfl, rfl, rfl, rfl, rfl, rfl⟩

theorem C11_zero_area_skip_witness :
    (getSubarea (getSubareaRunoff growEnv zeroProject 0 SubareaType.PERV 1 1 1) 0
      SubareaType.PERV).runoff = 0 ∧
    getSubareaRunoff basicEnv zeroProject 0 SubareaType.PERV 1 1 1
      = getSubareaRunoff growEnv zeroProject 0 SubareaType.PERV 1 1 1 := by
  have h := C11_zero_area_skip growEnv basicEnv zeroProject 0 SubareaType.PERV 1 1 1
    (by simp [getSubarea, zeroProject, zeroSubcatch, zeroSubarea])
  exact ⟨h.1, h.2.2.2.2.2.2.2.2⟩

/-- C13: when the project has no pollutants or the area of the subcatchment is
0, `subcatch_getWashoff` returns the project as it was given: no ponded mass,
concentration, buildup, total load or ledger entry is changed. -/
theorem C13_washoff_skip (env : Env) (s : Project) (j : Nat) (runoff tStep : ℚ)
    (h : s.Nobjects ObjectType.POLLUT = 0 ∨ (s.Subcatch j).area = 0) :
    subcatch_getWashoff env s j runoff tStep = s := by
  rw [getWashoff_eq]
  exact if_pos h

theorem C13_washoff_skip_witness :
    subcatch_getWashoff growEnv zeroAreaProject 0 1 1 = zeroAreaProject :=
  C13_washoff_skip growEnv zeroAreaProject 0 1 1
    (Or.inr (by simp [zeroAreaProject, zeroSubcatch]))

theorem findSubareaRunoff_fOutlet (env : Env) (sa : TSubarea) (tRunoff : ℚ) :
    (findSubareaRunoff env sa tRunoff).fOutlet = sa.fOutlet := by
  unfold findSubareaRunoff
  simp only []
  split_ifs <;> rfl

theorem subareaPonded_fOutlet (env : Env) (project : Project) (j : Nat) (i : SubareaType)
    (precip evap tStep : ℚ) :
    (subareaPonded env project j i precip evap tStep).2.1.fOutlet
      = (getSubarea project j i).fOutlet := by
  unfold subareaPonded
  split_ifs
  · rw [subareaLosses_getSubarea]
    rfl
  · rw [updatePondedDepth_frame, subareaLosses_getSubarea]
    rfl

theorem updatePondedDepth_outflows (env : Env) (project : Project) (sa : TSubarea) (dt : ℚ) :
    (updatePondedDepth env project sa dt).1.Voutflow = project.Voutflow ∧
    (updatePondedDepth env project sa dt).1.Outflow = project.Outflow := by
  unfold updatePondedDepth
  simp only []
  split_ifs <;> exact ⟨rfl, rfl⟩

theorem subareaPonded_outflows (env : Env) (project : Project) (j : Nat) (i : SubareaType)
    (precip evap tStep : ℚ) :
    (subareaPonded env project j i precip evap tStep).1.Voutflow = 0 ∧
    (subareaPonded env project j i precip evap tStep).1.Outflow = 0 := by
  unfold subareaPonded
  split_ifs
  · exact ⟨rfl, rfl⟩
  · rw [(updatePondedDepth_outflows _ _ _ _).1, (updatePondedDepth_outflows _ _ _ _).2]
    exact ⟨rfl, rfl⟩

/-- Outflow volume and rate `getSubareaRunoff` reports for a sub-area of
non-zero area fraction. -/
theorem getSubareaRunoff_outflows (env : Env) (project : Project) (j : Nat) (i : SubareaType)
    (precip evap tStep : ℚ) (hA : (getSubarea project j i).fArea ≠ 0) :
    (getSubareaRunoff env project j i precip evap tStep).Voutflow
      = (if (getSubarea project j i).fOutlet > 0 then
          (1 / 2) * ((getSubarea project j i).runoff
            + (getSubarea (getSubareaRunoff env project j i precip evap tStep) j i).runoff)
            * (subareaPonded env project j i precip evap tStep).2.2
            * (getSubarea project j i).fOutlet
        else 0) ∧
    (getSubareaRunoff env project j i precip evap tStep).Outflow
      = (if (getSubarea project j i).fOutlet > 0 then
          (getSubarea project j i).fOutlet
            * (getSubarea (getSubareaRunoff env project j i precip evap tStep) j i).runoff
        else 0) := by
  have hS := (getSubareaRunoff_result env project j i precip evap tStep hA).2.2
  rw [hS]
  have hA2 : ¬ (getSubarea (subareaInit project j i) j i).fArea = 0 := by
    rw [subareaInit_getSubarea]
    exact hA
  have hF : (findSubareaRunoff env (subareaPonded env project j i precip evap tStep).2.1
      (subareaPonded env project j i precip evap tStep).2.2).fOutlet
      = (getSubarea project j i).fOutlet := by
    rw [findSubareaRunoff_fOutlet, subareaPonded_fOutlet]
  rw [getSubareaRunoff_eq, if_neg hA2, hF]
  by_cases hO : (getSubarea project j i).fOutlet > 0
  · rw [if_pos hO, if_pos hO, if_pos hO]
    exact ⟨rfl, rfl⟩
  · rw [if_neg hO, if_neg hO, if_neg hO]
    exact subareaPonded_outflows env project j i precip evap tStep

/-- C20: for a sub-area of non-zero area fraction, with the outlet fraction in
its range (`fOutlet ≥ 0`), the outflow volume `getSubareaRunoff` reports is
`0.5 * (previous runoff + new runoff) * tRunoff * fOutlet` and the outflow rate
is `fOutlet * new runoff`, both 0 when `fOutlet = 0`; `tRunoff` is `tStep` in the
depletion branch and the duration `updatePondedDepth` returns otherwise. -/
theorem C20_outflow_volume (env : Env) (project : Project) (j : Nat) (i : SubareaType)
    (precip evap tStep : ℚ) (hA : (getSubarea project j i).fArea ≠ 0)
    (hO : 0 ≤ (getSubarea project j i).fOutlet) :
    (getSubareaRunoff env project j i precip evap tStep).Voutflow
      = (1 / 2) * ((getSubarea project j i).runoff
          + (getSubarea (getSubareaRunoff env project j i precip evap tStep) j i).runoff)
          * (subareaPonded env project j i precip evap tStep).2.2
          * (getSubarea project j i).fOutlet ∧
    (getSubareaRunoff env project j i precip evap tStep).Outflow
      = (getSubarea project j i).fOutlet
          * (getSubarea (getSubareaRunoff env project j i precip evap tStep) j i).runoff ∧
    ((getSubarea project j i).fOutlet = 0 →
      (getSubareaRunoff env project j i precip evap tStep).Voutflow = 0 ∧
      (getSubareaRunoff env project j i precip evap tStep).Outflow = 0) ∧
    (subareaEvap project j i evap tStep + subareaInfil env project j i precip tStep
        ≥ subareaMoisture project j i precip tStep →
      (subareaPonded env project j i precip evap tStep).2.2 = tStep) ∧
    (¬ (subareaEvap project j i evap tStep + subareaInfil env project j i precip tStep
        ≥ subareaMoisture project j i precip tStep) →
      (subareaPonded env project j i precip evap tStep).2.2
        = (updatePondedDepth env (subareaLosses env project j i precip evap tStep)
            (subareaWetted project j i precip) tStep).2.2) := by
  obtain ⟨hV, hQ⟩ := getSubareaRunoff_outflows env project j i precip evap tStep hA
  refine ⟨?_, ?_, fun h0 => ?_, fun hL => ?_, fun hL => ?_⟩
  · rw [hV]
    by_cases h : (getSubarea project j i).fOutlet > 0
    · rw [if_pos h]
    · rw [if_neg h, le_antisymm (not_lt.mp h) hO, mul_zero]
  · rw [hQ]
    by_cases h : (getSubarea project j i).fOutlet > 0
    · rw [if_pos h]
    · rw [if_neg h, le_antisymm (not_lt.mp h) hO, zero_mul]
  · rw [hV, hQ, h0]
    simp
  · exact (subareaPonded_depleted env project j i precip evap tStep hL).2.2
  · rw [(subareaPonded_ponding env project j i precip evap tStep hL).2]

theorem C20_outflow_volume_witness :
    (getSubareaRunoff basicEnv drainProject 0 SubareaType.IMPERV0 3 0 2).Outflow
      = (getSubarea drainProject 0 SubareaType.IMPERV0).fOutlet
          * (getSubarea (getSubareaRunoff basicEnv drainProject 0 SubareaType.IMPERV0 3 0 2) 0
              SubareaType.IMPERV0).runoff :=
  (C20_outflow_volume basicEnv drainProject 0 SubareaType.IMPERV0 3 0 2
    (by norm_num [getSubarea, drainProject, zeroSubcatch, zeroSubarea])
    (by norm_num [getSubarea, drainProject, zeroSubcatch, zeroSubarea])).2.1

theorem setInflows_self (s : Project) (j : Nat) :
    setInflows s j (fun i => (getSubarea s j i).inflow) = s := by
  have h : Function.update s.Subcatch j
      { s.Subcatch j with
        subArea := fun i =>
          { (s.Subcatch j).subArea i with inflow := (getSubarea s j i).inflow } }
      = s.Subcatch := by
    apply Function.update_eq_self_iff.mpr
    rfl
  unfold setInflows
  rw [h]

theorem setInflows_setInflows (s : Project) (j : Nat) (f g : SubareaType → ℚ) :
    setInflows (setInflows s j f) j g = setInflows s j g := by
  simp [setInflows]

theorem update_inflow_eq (f : SubareaType → TSubarea) (i : SubareaType) (x : ℚ) :
    Function.update f i { f i with inflow := (f i).inflow + x }
      = fun i2 =>
          { f i2 with
            inflow := (Function.update f i { f i with inflow := (f i).inflow + x } i2).inflow } := by
  funext i2
  by_cases h : i2 = i
  · subst h
    simp
  · simp [Function.update_noteq h]

theorem addInflow_setInflows (s : Project) (j : Nat) (i : SubareaType) (x : ℚ) :
    addInflow s j i x = setInflows s j (fun i2 => (getSubarea (addInflow s j i x) j i2).inflow) := by
  have h := update_inflow_eq (s.Subcatch j).subArea i x
  unfold addInflow setSubarea setInflows getSubarea
  simp only [Function.update_same]
  rw [← h]

theorem inflowOnly_refl (j : Nat) (s : Project) : InflowOnly j s s :=
  (setInflows_self s j).symm

theorem inflowOnly_trans {j : Nat} {a b c : Project} (h1 : InflowOnly j a b)
    (h2 : InflowOnly j b c) : InflowOnly j a c := by
  unfold InflowOnly at h1 h2 ⊢
  calc c = setInflows b j (fun i => (getSubarea c j i).inflow) := h2
    _ = setInflows (setInflows a j (fun i => (getSubarea b j i).inflow)) j
          (fun i => (getSubarea c j i).inflow) := by rw [← h1]
    _ = setInflows a j (fun i => (getSubarea c j i).inflow) := setInflows_setInflows _ _ _ _

theorem inflowOnly_addInflow (s : Project) (j : Nat) (i : SubareaType) (x : ℚ) :
    InflowOnly j s (addInflow s j i x) :=
  addInflow_setInflows s j i x

theorem inflowOnly_runonImpervToPerv (s : Project) (j : Nat) :
    InflowOnly j s (runonImpervToPerv s j) := by
  rw [runonImpervToPerv_eq]
  split_ifs
  · exact inflowOnly_addInflow _ _ _ _
  · exact inflowOnly_refl j s

theorem inflowOnly_runonPervToImperv (s : Project) (j : Nat) :
    InflowOnly j s (runonPervToImperv s j) := by
  rw [runonPervToImperv_eq]
  split_ifs
  · exact inflowOnly_addInflow _ _ _ _
  · exact inflowOnly_refl j s

theorem inflowOnly_runonFromLid (env : Env) (s : Project) (j : Nat) :
    InflowOnly j s (runonFromLid env s j) := by
  rw [runonFromLid_eq]
  split_ifs
  · exact inflowOnly_addInflow _ _ _ _
  · exact inflowOnly_refl j s
  · exact inflowOnly_refl j s

/-- Without a transfer to an outlet subcatchment, `subcatch_getRunon(j)` changes
nothing but the inflows of the sub-areas of `j`. -/
theorem inflowOnly_getRunon (env : Env) (s : Project) (j : Nat)
    (hc : ¬ ((s.Subcatch j).outSubcatch ≥ 0 ∧ (s.Subcatch j).outSubcatch ≠ (j : Int) ∧
      (s.Subcatch (s.Subcatch j).outSubcatch.toNat).area > 0)) :
    InflowOnly j s (subcatch_getRunon env s j) := by
  rw [getRunon_blocks, runonToOutlet_neg env s j hc]
  exact inflowOnly_trans (inflowOnly_trans (inflowOnly_runonImpervToPerv s j)
    (inflowOnly_runonPervToImperv _ j)) (inflowOnly_runonFromLid env _ j)

/-- What `InflowOnly` says field by field. -/
theorem inflowOnly_fields {j : Nat} {s s2 : Project} (h : InflowOnly j s s2) :
    (∀ m, m ≠ j → s2.Subcatch m = s.Subcatch m) ∧
    (∀ m, (s2.Subcatch m).newQual = (s.Subcatch m).newQual ∧
      (s2.Subcatch m).oldQual = (s.Subcatch m).oldQual ∧
      (s2.Subcatch m).pondedQual = (s.Subcatch m).pondedQual ∧
      (s2.Subcatch m).totalLoad = (s.Subcatch m).totalLoad ∧
      (s2.Subcatch m).initBuildup = (s.Subcatch m).initBuildup ∧
      (s2.Subcatch m).landFactor = (s.Subcatch m).landFactor) ∧
    s2.OutflowLoad = s.OutflowLoad ∧ s2.WashoffLoad = s.WashoffLoad ∧ s2.ledger = s.ledger ∧
    s2.Subcatch j = { s.Subcatch j with subArea := (s2.Subcatch j).subArea } ∧
    (∀ i, getSubarea s2 j i = { getSubarea s j i with inflow := (getSubarea s2 j i).inflow }) := by
  unfold InflowOnly at h
  generalize (fun i => (getSubarea s2 j i).inflow) = g at h
  subst h
  refine ⟨fun m hm => ?_, fun m => ?_, rfl, rfl, rfl, ?_, fun i => ?_⟩
  · simp [setInflows, Function.update_noteq hm]
  · by_cases hm : m = j
    · subst hm
      simp [setInflows]
    · simp [setInflows, Function.update_noteq hm]
  · simp [setInflows]
  · simp [setInflows, getSubarea]

/-- C12: `subcatch_getRunon(j)` leaves oldRunoff, newRunoff, oldQual, pondedQual
and every sub-area depth and runoff of every subcatchment as they were; and when
the outlet subcatchment of `j` is absent (negative index), is `j` itself or has
zero area, every other subcatchment is unchanged, no pollutant quantity of any
subcatchment or of the project changes, and subcatchment `j` changes only in the
inflows of its sub-areas. -/
theorem C12_router_frame (env : Env) (s : Project) (j : Nat) :
    (∀ m,
      ((subcatch_getRunon env s j).Subcatch m).oldRunoff = (s.Subcatch m).oldRunoff ∧
      ((subcatch_getRunon env s j).Subcatch m).newRunoff = (s.Subcatch m).newRunoff ∧
      ((subcatch_getRunon env s j).Subcatch m).oldQual = (s.Subcatch m).oldQual ∧
      ((subcatch_getRunon env s j).Subcatch m).pondedQual = (s.Subcatch m).pondedQual ∧
      ∀ i, (getSubarea (subcatch_getRunon env s j) m i).depth = (getSubarea s m i).depth ∧
        (getSubarea (subcatch_getRunon env s j) m i).runoff = (getSubarea s m i).runoff) ∧
    (((s.Subcatch j).outSubcatch < 0 ∨ (s.Subcatch j).outSubcatch = (j : Int) ∨
        (s.Subcatch (s.Subcatch j).outSubcatch.toNat).area = 0) →
      (∀ m, m ≠ j → (subcatch_getRunon env s j).Subcatch m = s.Subcatch m) ∧
      (∀ m,
        ((subcatch_getRunon env s j).Subcatch m).newQual = (s.Subcatch m).newQual ∧
        ((subcatch_getRunon env s j).Subcatch m).oldQual = (s.Subcatch m).oldQual ∧
        ((subcatch_getRunon env s j).Subcatch m).pondedQual = (s.Subcatch m).pondedQual ∧
        ((subcatch_getRunon env s j).Subcatch m).totalLoad = (s.Subcatch m).totalLoad ∧
        ((subcatch_getRunon env s j).Subcatch m).initBuildup = (s.Subcatch m).initBuildup ∧
        ((subcatch_getRunon env s j).Subcatch m).landFactor = (s.Subcatch m).landFactor) ∧
      (subcatch_getRunon env s j).OutflowLoad = s.OutflowLoad ∧
      (subcatch_getRunon env s j).WashoffLoad = s.WashoffLoad ∧
      (subcatch_getRunon env s j).ledger = s.ledger ∧
      (subcatch_getRunon env s j).Subcatch j
        = { s.Subcatch j with subArea := ((subcatch_getRunon env s j).Subcatch j).subArea } ∧
      (∀ i, getSubarea (subcatch_getRunon env s j) j i
        = { getSubarea s j i with
            inflow := (getSubarea (subcatch_getRunon env s j) j i).inflow })) := by
  refine ⟨fun m => ?_, fun hOut => ?_⟩
  · have h := (routerFrame_getRunon env s j).2 m
    refine ⟨h.2.2.2.2.2.1, h.2.2.2.2.2.2.1, h.2.2.2.2.2.2.2.1, h.2.2.2.2.2.2.2.2.1, fun i => ?_⟩
    have hi := h.2.2.2.2.2.2.2.2.2 i
    exact ⟨hi.2.2.2.2.2.2.2, hi.2.2.2.2.2.2.1⟩
  · apply inflowOnly_fields
    apply inflowOnly_getRunon
    rintro ⟨h1, h2, h3⟩
    rcases hOut with h | h | h
    · exact absurd h1 (not_le.mpr h)
    · exact h2 h
    · rw [h] at h3
      exact lt_irrefl _ h3

theorem C12_router_frame_witness :
    (subcatch_getRunon basicEnv innerRouteProject 0).Subcatch 1 = innerRouteProject.Subcatch 1 ∧
    ((subcatch_getRunon basicEnv innerRouteProject 0).Subcatch 0).newQual
      = (innerRouteProject.Subcatch 0).newQual :=
  ⟨((C12_router_frame basicEnv innerRouteProject 0).2
      (Or.inl (by simp [innerRouteProject, zeroSubcatch]))).1 1 (by decide),
   (((C12_router_frame basicEnv innerRouteProject 0).2
      (Or.inl (by simp [innerRouteProject, zeroSubcatch]))).2.1 0).1⟩

/-- C8: when the outlet of subcatchment `j` is another subcatchment `k` of
positive area, `subcatch_getRunon(j)` adds `oldRunoff(j) / area(k)` to the inflow
of each of the three sub-areas of `k` and to the runon of `k`, and adds
`oldRunoff(j) * oldQual(j)[p] * LperFT3` to `newQual[p]` of `k` for every
pollutant `p` of the project. -/
theorem C8_runon_to_outlet (env : Env) (s : Project) (j k : Nat)
    (hk : (s.Subcatch j).outSubcatch = (k : Int)) (hkj : k ≠ j)
    (hA : (s.Subcatch k).area > 0) :
    (∀ i : SubareaType,
      (getSubarea (subcatch_getRunon env s j) k i).inflow
        = (getSubarea s k i).inflow + (s.Subcatch j).oldRunoff / (s.Subcatch k).area) ∧
    ((subcatch_getRunon env s j).Subcatch k).runon
      = (s.Subcatch k).runon + (s.Subcatch j).oldRunoff / (s.Subcatch k).area ∧
    (∀ p : Nat, p < s.Nobjects ObjectType.POLLUT →
      ((subcatch_getRunon env s j).Subcatch k).newQual p
        = (s.Subcatch k).newQual p +
            (s.Subcatch j).oldRunoff * (s.Subcatch j).oldQual p * env.LperFT3) := by
  have hkj2 : ¬ ((k : Int) = (j : Int)) := fun h => hkj (Int.ofNat_inj.mp h)
  have hR : routedRunon s j k = (s.Subcatch j).oldRunoff / (s.Subcatch k).area := by
    simp [routedRunon, hk, hkj2, hA]
  refine ⟨fun i => ?_, ?_, fun p hp => ?_⟩
  · have hI1 : impervToPervInflow s j k i = 0 := by simp [impervToPervInflow, hkj]
    have hI2 : pervToImpervInflow s j k i = 0 := by simp [pervToImpervInflow, hkj]
    have hI3 : ∀ x, lidInflow s j k i x = 0 := by intro x; simp [lidInflow, hkj]
    rw [(getRunon_adds env s j k 0 i).2.2, hR, hI1, hI2, hI3]
    simp
  · rw [(getRunon_adds env s j k 0 SubareaType.PERV).1, hR]
  · have hQ : routedQual env s j k p
        = (s.Subcatch j).oldRunoff * (s.Subcatch j).oldQual p * env.LperFT3 := by
      simp [routedQual, hk, hkj2, hA, hp]
    rw [(getRunon_adds env s j k p SubareaType.PERV).2.1, hQ]

theorem C8_runon_to_outlet_witness :
    (getSubarea (subcatch_getRunon basicEnv chainProject 0) 1 SubareaType.PERV).inflow = 1 / 2 ∧
    ((subcatch_getRunon basicEnv chainProject 0).Subcatch 1).runon = 1 / 2 ∧
    ((subcatch_getRunon basicEnv chainProject 0).Subcatch 1).newQual 0 = 84951 / 500 := by
  have h := C8_runon_to_outlet basicEnv chainProject 0 1
    (by simp [chainProject, zeroSubcatch]) (by decide)
    (by simp [chainProject, zeroSubcatch])
  obtain ⟨h1, h2, h3⟩ := h
  refine ⟨?_, ?_, ?_⟩
  · rw [h1]; simp [getSubarea, chainProject, zeroSubcatch, zeroSubarea]; norm_num
  · rw [h2]; simp [chainProject, zeroSubcatch]; norm_num
  · rw [h3 0 (by decide)]; simp [chainProject, zeroSubcatch, basicEnv]; norm_num

theorem washoffQual_eq (env : Env) (t : Project) (j : Nat) (runoff tStep : ℚ) :
    washoffQual env t j runoff tStep
      = (List.range (t.Nobjects ObjectType.POLLUT)).foldl (washoffQualPollut env j runoff tStep) t :=
  rfl

theorem washoffFrame_refl (j : Nat) (s : Project) : WashoffFrame j s s :=
  ⟨rfl, rfl, rfl, rfl, rfl, rfl, List.prefix_refl _⟩

theorem washoffFrame_trans {j : Nat} {a b c : Project} (h1 : WashoffFrame j a b)
    (h2 : WashoffFrame j b c) : WashoffFrame j a c := by
  unfold WashoffFrame at h1 h2 ⊢
  refine ⟨?_, ?_, ?_, ?_, ?_, ?_, h1.2.2.2.2.2.2.trans h2.2.2.2.2.2.2⟩
  · rw [h2.1, h1.1]
  · rw [h2.2.1, h1.2.1]
  · rw [h2.2.2.1, h1.2.2.1]
  · rw [h2.2.2.2.1, h1.2.2.2.1]
  · rw [h2.2.2.2.2.1, h1.2.2.2.2.1]
  · rw [h2.2.2.2.2.2.1, h1.2.2.2.2.2.1]

theorem washoffFrame_loop (j : Nat) (f : Project → Nat → Project) (s : Project) (n : Nat)
    (hf : ∀ t k, WashoffFrame j t (f t k)) : WashoffFrame j s ((List.range n).foldl f s) :=
  foldl_range_keeps f (fun t : Project => WashoffFrame j s t) s n (washoffFrame_refl j s)
    (fun t k h => washoffFrame_trans h (hf t k))

theorem washoffFrame_init (j : Nat) (s : Project) : WashoffFrame j s (washoffInit s) := by
  obtain ⟨h1, h2, h3, h4, _⟩ := washoffInit_keeps s
  unfold WashoffFrame
  rw [h1, h2, h3, h4]
  exact ⟨rfl, rfl, rfl, rfl, rfl, rfl, List.prefix_refl _⟩

theorem washoffFrame_pondedQualPollut (env : Env) (j : Nat) (tStep vIn : ℚ) (isDry : Bool)
    (t : Project) (p : Nat) : WashoffFrame j t (pondedQualPollut env j tStep vIn isDry t p) := by
  unfold WashoffFrame pondedQualPollut
  cases isDry <;>
    simp [massbal_updateLoadingTotals, setSubcatch]

theorem washoffFrame_updatePondedQual (env : Env) (j : Nat) (tStep : ℚ) (s : Project) :
    WashoffFrame j s (updatePondedQual env s j tStep) := by
  rw [updatePondedQual_eq]
  exact washoffFrame_loop j _ s _ (fun t k => washoffFrame_pondedQualPollut env j tStep _ _ t k)

theorem washoffFrame_landuses (env : Env) (j : Nat) (runoff tStep : ℚ) (s : Project) :
    WashoffFrame j s (washoffLanduses env s j runoff tStep) := by
  unfold washoffLanduses
  split_ifs with h
  · refine washoffFrame_trans (washoffFrame_loop j _ s _ (fun t k => ?_))
      (washoffFrame_loop j _ _ _ (fun t k => ?_))
    · split_ifs
      · unfold WashoffFrame
        simp [setSubcatch]
      · exact washoffFrame_refl j t
    · exact washoffFrame_refl j t
  · exact washoffFrame_refl j s

/-- The project before the last loop of `subcatch_getWashoff` agrees with the
project at entry on what that loop reads besides the outflow loads. -/
theorem washoffFrame_before_qual (env : Env) (j : Nat) (runoff tStep : ℚ) (s : Project) :
    WashoffFrame j s
      (washoffLanduses env (updatePondedQual env (washoffInit s) j tStep) j runoff tStep) :=
  washoffFrame_trans (washoffFrame_trans (washoffFrame_init j s)
    (washoffFrame_updatePondedQual env j tStep _)) (washoffFrame_landuses env j runoff tStep _)

theorem washoffQualPollut_fields (env : Env) (j : Nat) (runoff tStep : ℚ) (t : Project)
    (p : Nat) :
    (washoffQualPollut env j runoff tStep t p).Nobjects = t.Nobjects ∧
    (washoffQualPollut env j runoff tStep t p).Pollut = t.Pollut ∧
    (washoffQualPollut env j runoff tStep t p).OutflowLoad = t.OutflowLoad ∧
    ((washoffQualPollut env j runoff tStep t p).Subcatch j).outNode = (t.Subcatch j).outNode ∧
    ((washoffQualPollut env j runoff tStep t p).Subcatch j).outSubcatch
      = (t.Subcatch j).outSubcatch ∧
    ((washoffQualPollut env j runoff tStep t p).Subcatch j).totalLoad
      = Function.update (t.Subcatch j).totalLoad p
          ((t.Subcatch j).totalLoad p + t.OutflowLoad p * (t.Pollut p).mcf) ∧
    (washoffQualPollut env j runoff tStep t p).ledger
      = t.ledger ++
        (if (t.Subcatch j).outNode ≥ 0 ∨ (t.Subcatch j).outSubcatch = (j : Int) then
          [⟨LoadType.RUNOFF_LOAD, p, t.OutflowLoad p * (t.Pollut p).mcf⟩]
        else []) := by
  unfold washoffQualPollut
  by_cases hc : (t.Subcatch j).outNode ≥ 0 ∨ (t.Subcatch j).outSubcatch = (j : Int) <;>
    by_cases hr : runoff > env.MIN_RUNOFF <;>
    simp [setSubcatch, massbal_updateLoadingTotals, hc, hr]
theorem runoffPostings_succ (n : Nat) (w mcf : Nat → ℚ) :
    runoffPostings (n + 1) w mcf
      = runoffPostings n w mcf ++ [⟨LoadType.RUNOFF_LOAD, n, w n * mcf n⟩] := by
  simp [runoffPostings, List.range_succ]

/-- The last loop of `subcatch_getWashoff` after `n` pollutants. -/
theorem washoffQual_loop (env : Env) (j : Nat) (runoff tStep : ℚ) (t : Project) (n : Nat) :
    ((List.range n).foldl (washoffQualPollut env j runoff tStep) t).Nobjects = t.Nobjects ∧
    ((List.range n).foldl (washoffQualPollut env j runoff tStep) t).Pollut = t.Pollut ∧
    ((List.range n).foldl (washoffQualPollut env j runoff tStep) t).OutflowLoad
      = t.OutflowLoad ∧
    (((List.range n).foldl (washoffQualPollut env j runoff tStep) t).Subcatch j).outNode
      = (t.Subcatch j).outNode ∧
    (((List.range n).foldl (washoffQualPollut env j runoff tStep) t).Subcatch j).outSubcatch
      = (t.Subcatch j).outSubcatch ∧
    (((List.range n).foldl (washoffQualPollut env j runoff tStep) t).Subcatch j).totalLoad
      = (fun p => if p < n then (t.Subcatch j).totalLoad p + t.OutflowLoad p * (t.Pollut p).mcf
          else (t.Subcatch j).totalLoad p) ∧
    ((List.range n).foldl (washoffQualPollut env j runoff tStep) t).ledger
      = t.ledger ++
        (if (t.Subcatch j).outNode ≥ 0 ∨ (t.Subcatch j).outSubcatch = (j : Int) then
          runoffPostings n t.OutflowLoad (fun p => (t.Pollut p).mcf)
        else []) := by
  induction n with
  | zero => simp [runoffPostings]
  | succ n ih =>
    rw [List.range_succ, List.foldl_append]
    simp only [List.foldl_cons, List.foldl_nil]
    obtain ⟨a1, a2, a3, a4, a5, a6, a7⟩ := ih
    obtain ⟨b1, b2, b3, b4, b5, b6, b7⟩ := washoffQualPollut_fields env j runoff tStep
      ((List.range n).foldl (washoffQualPollut env j runoff tStep) t) n
    refine ⟨b1.trans a1, b2.trans a2, b3.trans a3, b4.trans a4, b5.trans a5, ?_, ?_⟩
    · rw [b6, a6, a3, a2]
      have h := update_ite_lt
        (fun p => (t.Subcatch j).totalLoad p + t.OutflowLoad p * (t.Pollut p).mcf)
        (t.Subcatch j).totalLoad n
      simp only [lt_self_iff_false, if_false] at h ⊢
      exact h
    · rw [b7, a7, a4, a5, a3, a2, runoffPostings_succ]
      split_ifs
      · rw [List.append_assoc]
      · simp

/-- C14: in `subcatch_getWashoff` with at least one pollutant and non-zero area,
the last loop appends to the ledger one RUNOFF_LOAD posting of
`OutflowLoad[p] * mcf[p]` for every pollutant `p` when `outNode >= 0` or
`outSubcatch = j`, and appends nothing otherwise; in both cases `totalLoad[p]`
of the subcatchment grows by that mass. -/
theorem C14_runoff_load_posting (env : Env) (s : Project) (j : Nat) (runoff tStep : ℚ)
    (hP : s.Nobjects ObjectType.POLLUT ≠ 0) (hA : (s.Subcatch j).area ≠ 0) :
    (subcatch_getWashoff env s j runoff tStep).ledger
      = (washoffLanduses env (updatePondedQual env (washoffInit s) j tStep) j runoff
          tStep).ledger ++
        (if (s.Subcatch j).outNode ≥ 0 ∨ (s.Subcatch j).outSubcatch = (j : Int) then
          runoffPostings (s.Nobjects ObjectType.POLLUT)
            (subcatch_getWashoff env s j runoff tStep).OutflowLoad (fun p => (s.Pollut p).mcf)
        else []) ∧
    (∀ p, p < s.Nobjects ObjectType.POLLUT →
      ((subcatch_getWashoff env s j runoff tStep).Subcatch j).totalLoad p
        = (s.Subcatch j).totalLoad p
          + (subcatch_getWashoff env s j runoff tStep).OutflowLoad p * (s.Pollut p).mcf) ∧
    (∀ p, s.Nobjects ObjectType.POLLUT ≤ p →
      ((subcatch_getWashoff env s j runoff tStep).Subcatch j).totalLoad p
        = (s.Subcatch j).totalLoad p) := by
  have hc : ¬ (s.Nobjects ObjectType.POLLUT = 0 ∨ (s.Subcatch j).area = 0) := by
    rintro (h | h)
    · exact hP h
    · exact hA h
  obtain ⟨f1, f2, f3, f4, f5, _, _⟩ := washoffFrame_before_qual env j runoff tStep s
  rw [getWashoff_eq, if_neg hc, washoffQual_eq]
  obtain ⟨_, _, a3, _, _, a6, a7⟩ := washoffQual_loop env j
    ((washoffLanduses env (updatePondedQual env (washoffInit s) j tStep) j runoff
      tStep).Subcatch j).newRunoff tStep
    (washoffLanduses env (updatePondedQual env (washoffInit s) j tStep) j runoff tStep)
    ((washoffLanduses env (updatePondedQual env (washoffInit s) j tStep) j runoff
      tStep).Nobjects ObjectType.POLLUT)
  rw [a3, a6, a7, f1, f2, f3, f4, f5]
  refine ⟨rfl, fun p hp => ?_, fun p hp => ?_⟩
  · simp only [hp, if_true]
  · simp only [not_lt.mpr hp, if_false]

theorem C14_runoff_load_posting_witness :
    ((subcatch_getWashoff basicEnv nodeOutletProject 0 0 1).Subcatch 0).totalLoad 0
      = (nodeOutletProject.Subcatch 0).totalLoad 0
        + (subcatch_getWashoff basicEnv nodeOutletProject 0 0 1).OutflowLoad 0
          * (nodeOutletProject.Pollut 0).mcf :=
  (C14_runoff_load_posting basicEnv nodeOutletProject 0 0 1
    (by simp [nodeOutletProject, zeroProject])
    (by simp [nodeOutletProject, zeroSubcatch])).2.1 0
    (by simp [nodeOutletProject, zeroProject])

theorem getSubarea_setSubarea (p : Project) (j : Nat) (i i2 : SubareaType) (sa : TSubarea) :
    getSubarea (setSubarea p j i sa) j i2 = if i2 = i then sa else getSubarea p j i2 := by
  unfold getSubarea setSubarea
  by_cases h : i2 = i
  · subst h
    simp
  · simp [Function.update_noteq h, h]

theorem setSubarea_fracImperv (p : Project) (j : Nat) (i : SubareaType) (sa : TSubarea) :
    ((setSubarea p j i sa).Subcatch j).fracImperv = (p.Subcatch j).fracImperv := by
  simp [setSubarea]

theorem assignSubareaParams_stages (env : Env) (project : Project) (j : Nat) (x : Nat → ℚ)
    (m : Int) (x6 : ℚ) :
    assignSubareaParams env project j x m x6
      = assignRouting (assignAreas (assignStorage env project j x) j x) j m x6 := rfl

theorem areaFrame_trans {j : Nat} {a b c : Project} (h1 : AreaFrame j a b)
    (h2 : AreaFrame j b c) : AreaFrame j a c :=
  ⟨h2.1.trans h1.1, fun i => (h2.2 i).trans (h1.2 i)⟩

theorem areaFrame_set (j : Nat) (p : Project) (i : SubareaType) (sa : TSubarea)
    (h : sa.fArea = (getSubarea p j i).fArea) : AreaFrame j p (setSubarea p j i sa) := by
  refine ⟨setSubarea_fracImperv p j i sa, fun i2 => ?_⟩
  rw [getSubarea_setSubarea]
  split_ifs with h2
  · rw [h, h2]
  · rfl

theorem areaFrame_setRouteTo (j : Nat) (p : Project) (i : SubareaType) (r : RouteTo) :
    AreaFrame j p (setRouteTo p j i r) :=
  areaFrame_set j p i _ rfl

theorem areaFrame_setFOutlet (j : Nat) (p : Project) (i : SubareaType) (v : ℚ) :
    AreaFrame j p (setFOutlet p j i v) :=
  areaFrame_set j p i _ rfl

theorem areaFrame_routeAllToOutlet (j : Nat) (p : Project) :
    AreaFrame j p (routeAllToOutlet p j) := by
  unfold routeAllToOutlet
  simp only [subareaTypes, List.foldl_cons, List.foldl_nil]
  have hstep : ∀ (q : Project) (i : SubareaType),
      AreaFrame j q (setFOutlet (setRouteTo q j i RouteTo.TO_OUTLET) j i 1) :=
    fun q i => areaFrame_trans (areaFrame_setRouteTo j q i _) (areaFrame_setFOutlet j _ i _)
  exact areaFrame_trans (areaFrame_trans (hstep _ _) (hstep _ _)) (hstep _ _)

theorem assignRouting_eq (project : Project) (j : Nat) (m : Int) (x6 : ℚ) :
    assignRouting project j m x6 =
      if (if ((routeAllToOutlet project j).Subcatch j).fracImperv = 0 ∨
            ((routeAllToOutlet project j).Subcatch j).fracImperv = 1 then
            routeToCode RouteTo.TO_OUTLET else m) = routeToCode RouteTo.TO_PERV then
        setFOutlet (setFOutlet (setRouteTo (setRouteTo
          (if (if ((routeAllToOutlet project j).Subcatch j).fracImperv = 0 ∨
                ((routeAllToOutlet project j).Subcatch j).fracImperv = 1 then
                routeToCode RouteTo.TO_OUTLET else m) = routeToCode RouteTo.TO_IMPERV ∧
              ((routeAllToOutlet project j).Subcatch j).fracImperv ≠ 0 then
            setFOutlet (setRouteTo (routeAllToOutlet project j) j SubareaType.PERV
              RouteTo.TO_IMPERV) j SubareaType.PERV (1 - x6)
          else routeAllToOutlet project j)
          j SubareaType.IMPERV0 RouteTo.TO_PERV) j SubareaType.IMPERV1 RouteTo.TO_PERV)
          j SubareaType.IMPERV0 (1 - x6)) j SubareaType.IMPERV1 (1 - x6)
      else
        if (if ((routeAllToOutlet project j).Subcatch j).fracImperv = 0 ∨
              ((routeAllToOutlet project j).Subcatch j).fracImperv = 1 then
              routeToCode RouteTo.TO_OUTLET else m) = routeToCode RouteTo.TO_IMPERV ∧
            ((routeAllToOutlet project j).Subcatch j).fracImperv ≠ 0 then
          setFOutlet (setRouteTo (routeAllToOutlet project j) j SubareaType.PERV
            RouteTo.TO_IMPERV) j SubareaType.PERV (1 - x6)
        else routeAllToOutlet project j := rfl

theorem areaFrame_assignRouting (project : Project) (j : Nat) (m : Int) (x6 : ℚ) :
    AreaFrame j project (assignRouting project j m x6) := by
  have h0 := areaFrame_routeAllToOutlet j project
  have h1 : AreaFrame j project
      (setFOutlet (setRouteTo (routeAllToOutlet project j) j SubareaType.PERV
        RouteTo.TO_IMPERV) j SubareaType.PERV (1 - x6)) :=
    areaFrame_trans h0 (areaFrame_trans (areaFrame_setRouteTo j _ _ _)
      (areaFrame_setFOutlet j _ _ _))
  have h2 : ∀ q : Project, AreaFrame j project q →
      AreaFrame j project
        (setFOutlet (setFOutlet (setRouteTo (setRouteTo q
          j SubareaType.IMPERV0 RouteTo.TO_PERV) j SubareaType.IMPERV1 RouteTo.TO_PERV)
          j SubareaType.IMPERV0 (1 - x6)) j SubareaType.IMPERV1 (1 - x6)) :=
    fun q hq => areaFrame_trans hq (areaFrame_trans (areaFrame_trans (areaFrame_trans
      (areaFrame_setRouteTo j _ _ _) (areaFrame_setRouteTo j _ _ _))
      (areaFrame_setFOutlet j _ _ _)) (areaFrame_setFOutlet j _ _ _))
  rw [assignRouting_eq]
  generalize (if ((routeAllToOutlet project j).Subcatch j).fracImperv = 0 ∨
      ((routeAllToOutlet project j).Subcatch j).fracImperv = 1 then
      routeToCode RouteTo.TO_OUTLET else m) = k
  by_cases c1 : k = routeToCode RouteTo.TO_PERV
  · rw [if_pos c1]
    by_cases c2 : k = routeToCode RouteTo.TO_IMPERV ∧
        ((routeAllToOutlet project j).Subcatch j).fracImperv ≠ 0
    · rw [if_pos c2]
      exact h2 _ h1
    · rw [if_neg c2]
      exact h2 _ h0
  · rw [if_neg c1]
    by_cases c2 : k = routeToCode RouteTo.TO_IMPERV ∧
        ((routeAllToOutlet project j).Subcatch j).fracImperv ≠ 0
    · rw [if_pos c2]
      exact h1
    · rw [if_neg c2]
      exact h0

theorem assignStorage_fracImperv (env : Env) (project : Project) (j : Nat) (x : Nat → ℚ) :
    ((assignStorage env project j x).Subcatch j).fracImperv = (project.Subcatch j).fracImperv := by
  unfold assignStorage
  simp only [setSubarea_fracImperv]

theorem assignAreas_fArea (p : Project) (j : Nat) (x : Nat → ℚ) :
    ((assignAreas p j x).Subcatch j).fracImperv = (p.Subcatch j).fracImperv ∧
    (getSubarea (assignAreas p j x) j SubareaType.IMPERV0).fArea
      = (p.Subcatch j).fracImperv * x 4 / 100 ∧
    (getSubarea (assignAreas p j x) j SubareaType.IMPERV1).fArea
      = (p.Subcatch j).fracImperv * (1 - x 4 / 100) ∧
    (getSubarea (assignAreas p j x) j SubareaType.PERV).fArea
      = 1 - (p.Subcatch j).fracImperv := by
  unfold assignAreas
  simp [getSubarea_setSubarea, setSubarea_fracImperv]

theorem outletRange_setRouteTo (j : Nat) (v : ℚ) (p : Project) (i : SubareaType) (r : RouteTo)
    (h : OutletRange j v p) : OutletRange j v (setRouteTo p j i r) := by
  intro i2
  unfold setRouteTo
  rw [getSubarea_setSubarea]
  split_ifs with h2
  · exact h i
  · exact h i2

theorem outletRange_setFOutlet (j : Nat) (v w : ℚ) (p : Project) (i : SubareaType)
    (hw : w = 1 ∨ w = v) (h : OutletRange j v p) : OutletRange j v (setFOutlet p j i w) := by
  intro i2
  unfold setFOutlet
  rw [getSubarea_setSubarea]
  split_ifs with h2
  · exact hw
  · exact h i2

theorem outletRange_routeAllToOutlet (j : Nat) (v : ℚ) (p : Project) :
    OutletRange j v (routeAllToOutlet p j) := by
  intro i
  unfold routeAllToOutlet setFOutlet setRouteTo
  simp only [subareaTypes, List.foldl_cons, List.foldl_nil]
  cases i <;> simp [getSubarea_setSubarea]

theorem outletRange_assignRouting (project : Project) (j : Nat) (m : Int) (x6 : ℚ) :
    OutletRange j (1 - x6) (assignRouting project j m x6) := by
  have h0 := outletRange_routeAllToOutlet j (1 - x6) project
  have h1 : OutletRange j (1 - x6)
      (setFOutlet (setRouteTo (routeAllToOutlet project j) j SubareaType.PERV
        RouteTo.TO_IMPERV) j SubareaType.PERV (1 - x6)) :=
    outletRange_setFOutlet j _ _ _ _ (Or.inr rfl) (outletRange_setRouteTo j _ _ _ _ h0)
  have h2 : ∀ q : Project, OutletRange j (1 - x6) q →
      OutletRange j (1 - x6)
        (setFOutlet (setFOutlet (setRouteTo (setRouteTo q
          j SubareaType.IMPERV0 RouteTo.TO_PERV) j SubareaType.IMPERV1 RouteTo.TO_PERV)
          j SubareaType.IMPERV0 (1 - x6)) j SubareaType.IMPERV1 (1 - x6)) :=
    fun q hq => outletRange_setFOutlet j _ _ _ _ (Or.inr rfl)
      (outletRange_setFOutlet j _ _ _ _ (Or.inr rfl)
        (outletRange_setRouteTo j _ _ _ _ (outletRange_setRouteTo j _ _ _ _ hq)))
  rw [assignRouting_eq]
  generalize (if ((routeAllToOutlet project j).Subcatch j).fracImperv = 0 ∨
      ((routeAllToOutlet project j).Subcatch j).fracImperv = 1 then
      routeToCode RouteTo.TO_OUTLET else m) = k
  by_cases c1 : k = routeToCode RouteTo.TO_PERV
  · rw [if_pos c1]
    by_cases c2 : k = routeToCode RouteTo.TO_IMPERV ∧
        ((routeAllToOutlet project j).Subcatch j).fracImperv ≠ 0
    · rw [if_pos c2]
      exact h2 _ h1
    · rw [if_neg c2]
      exact h2 _ h0
  · rw [if_neg c1]
    by_cases c2 : k = routeToCode RouteTo.TO_IMPERV ∧
        ((routeAllToOutlet project j).Subcatch j).fracImperv ≠ 0
    · rw [if_pos c2]
      exact h1
    · rw [if_neg c2]
      exact h0

/-- A successful `subcatch_readSubareaParams` routes a fraction between 0 and 1. -/
theorem readSubareaParams_routed (env : Env) (project project2 : Project) (tok : Nat → String)
    (ntoks : Int)
    (h : subcatch_readSubareaParams env project tok ntoks = Except.ok project2) :
    ∃ x m x6, (0 ≤ x6 ∧ x6 ≤ 1) ∧ project2 = assignSubareaParams env project
      (env.project_findObject project ObjectType.SUBCATCH (tok 0)).toNat x m x6 := by
  unfold subcatch_readSubareaParams at h
  simp only [] at h
  by_cases h1 : ntoks < 7
  · rw [if_pos h1] at h
    cases h
  rw [if_neg h1] at h
  by_cases h2 : env.project_findObject project ObjectType.SUBCATCH (tok 0) < 0
  · rw [if_pos h2] at h
    cases h
  rw [if_neg h2] at h
  generalize List.foldl _ _ (List.range 5) = read at h
  cases read with
  | error e => cases h
  | ok x =>
    simp only [] at h
    by_cases h3 : env.findmatch (tok 6) (RunoffRoutingWords env) < 0
    · rw [if_pos h3] at h
      cases h
    rw [if_neg h3] at h
    by_cases h4 : ntoks ≥ 8
    · rw [if_pos h4] at h
      cases hd : env.getDouble (tok 7) with
      | none =>
        rw [hd] at h
        cases h
      | some v =>
        rw [hd] at h
        simp only [] at h
        by_cases h5 : v < 0 ∨ v > 100
        · rw [if_pos h5] at h
          cases h
        · rw [if_neg h5] at h
          simp only [] at h
          injection h with h
          have h6 : 0 ≤ v := not_lt.mp (fun c => h5 (Or.inl c))
          have h7 : v ≤ 100 := not_lt.mp (fun c => h5 (Or.inr c))
          refine ⟨x, _, v / 100, ⟨by positivity, ?_⟩, h.symm⟩
          rw [div_le_one (by norm_num)]
          exact h7
    · rw [if_neg h4] at h
      simp only [] at h
      injection h with h
      exact ⟨x, _, 1, ⟨by norm_num, le_refl 1⟩, h.symm⟩

/-- After a successful `subcatch_readSubareaParams` the outlet fraction of every
sub-area of the subcatchment lies between 0 and 1. -/
theorem readSubareaParams_fOutlet (env : Env) (project project2 : Project)
    (tok : Nat → String) (ntoks : Int)
    (h : subcatch_readSubareaParams env project tok ntoks = Except.ok project2)
    (i : SubareaType) :
    0 ≤ (getSubarea project2
        (env.project_findObject project ObjectType.SUBCATCH (tok 0)).toNat i).fOutlet ∧
    (getSubarea project2
        (env.project_findObject project ObjectType.SUBCATCH (tok 0)).toNat i).fOutlet ≤ 1 := by
  obtain ⟨x, m, x6, ⟨h0, h1⟩, hp⟩ := readSubareaParams_routed env project project2 tok ntoks h
  rw [hp, assignSubareaParams_stages]
  rcases outletRange_assignRouting (assignAreas (assignStorage env project
    (env.project_findObject project ObjectType.SUBCATCH (tok 0)).toNat x)
    (env.project_findObject project ObjectType.SUBCATCH (tok 0)).toNat x)
    (env.project_findObject project ObjectType.SUBCATCH (tok 0)).toNat m x6 i with e | e
  · rw [e]
    norm_num
  · rw [e]
    constructor <;> linarith

/-- A loop that writes only washoff entries leaves the other entries of the
result vector alone. -/
theorem washoff_entries_loop (g : Nat → ℚ) (x : SubcatchResultType → ℚ) (n : Nat)
    (r : SubcatchResultType) (hr : ∀ p, r ≠ SubcatchResultType.SUBCATCH_WASHOFF p) :
    (List.range n).foldl
        (fun x p => Function.update x (SubcatchResultType.SUBCATCH_WASHOFF p) (g p)) x r
      = x r := by
  induction n with
  | zero => rfl
  | succ n ih =>
    rw [List.range_succ, List.foldl_append]
    simp only [List.foldl_cons, List.foldl_nil]
    rw [Function.update_noteq (hr n), ih]

theorem getRunoff_stages (env : Env) (project : Project) (j : Nat) (tStep : ℚ) :
    subcatch_getRunoff env project j tStep
      = runoffFinish
          (runoffGwater env j tStep (runoffLid env j tStep (runoffSubareas env project j tStep)))
          j tStep (runoffLid env j tStep (runoffSubareas env project j tStep)) := rfl

theorem runoffFrame_refl (j : Nat) (s : Project) : RunoffFrame j s s :=
  ⟨rfl, rfl, rfl, rfl, rfl⟩

theorem runoffFrame_trans {j : Nat} {a b c : Project} (h1 : RunoffFrame j a b)
    (h2 : RunoffFrame j b c) : RunoffFrame j a c := by
  unfold RunoffFrame at h1 h2 ⊢
  refine ⟨?_, ?_, ?_, ?_, ?_⟩
  · rw [h2.1, h1.1]
  · rw [h2.2.1, h1.2.1]
  · rw [h2.2.2.1, h1.2.2.1]
  · rw [h2.2.2.2.1, h1.2.2.2.1]
  · rw [h2.2.2.2.2, h1.2.2.2.2]

theorem runoffFrame_setSubarea (j : Nat) (p : Project) (m : Nat) (i : SubareaType)
    (sa : TSubarea) : RunoffFrame j p (setSubarea p m i sa) := by
  unfold RunoffFrame
  by_cases h : j = m
  · subst h
    simp [setSubarea]
  · simp [setSubarea, Function.update_noteq h]

theorem runoffFrame_subareaInit (j : Nat) (p : Project) (m : Nat) (i : SubareaType) :
    RunoffFrame j p (subareaInit p m i) :=
  runoffFrame_trans (runoffFrame_setSubarea j p m i _) ⟨rfl, rfl, rfl, rfl, rfl⟩

theorem runoffFrame_subareaLosses (env : Env) (j : Nat) (p : Project) (m : Nat)
    (i : SubareaType) (precip evap tStep : ℚ) :
    RunoffFrame j p (subareaLosses env p m i precip evap tStep) :=
  runoffFrame_trans (runoffFrame_trans (runoffFrame_subareaInit j p m i)
    (runoffFrame_setSubarea j _ m i _)) ⟨rfl, rfl, rfl, rfl, rfl⟩

theorem runoffFrame_updatePondedDepth (env : Env) (j : Nat) (p : Project) (sa : TSubarea)
    (dt : ℚ) : RunoffFrame j p (updatePondedDepth env p sa dt).1 := by
  unfold updatePondedDepth
  simp only []
  split_ifs <;> exact ⟨rfl, rfl, rfl, rfl, rfl⟩

theorem runoffFrame_subareaPonded (env : Env) (j : Nat) (p : Project) (m : Nat)
    (i : SubareaType) (precip evap tStep : ℚ) :
    RunoffFrame j p (subareaPonded env p m i precip evap tStep).1 := by
  unfold subareaPonded
  split_ifs
  · exact runoffFrame_trans (runoffFrame_subareaLosses env j p m i precip evap tStep)
      ⟨rfl, rfl, rfl, rfl, rfl⟩
  · exact runoffFrame_trans (runoffFrame_subareaLosses env j p m i precip evap tStep)
      (runoffFrame_updatePondedDepth env j _ _ _)

/-- The routine `getSubareaRunoff` leaves the recorded calls and the outlet and
area of every subcatchment alone. -/
theorem runoffFrame_getSubareaRunoff (env : Env) (j : Nat) (p : Project) (m : Nat)
    (i : SubareaType) (precip evap tStep : ℚ) :
    RunoffFrame j p (getSubareaRunoff env p m i precip evap tStep) := by
  have hP := runoffFrame_subareaPonded env j p m i precip evap tStep
  rw [getSubareaRunoff_eq]
  generalize subareaPonded env p m i precip evap tStep = P at hP ⊢
  split_ifs
  · exact runoffFrame_subareaInit j p m i
  · exact runoffFrame_trans (runoffFrame_trans (runoffFrame_trans hP
      (runoffFrame_setSubarea j _ m i _)) (runoffFrame_setSubarea j _ m i _))
      ⟨rfl, rfl, rfl, rfl, rfl⟩
  · exact runoffFrame_trans (runoffFrame_trans hP
      (runoffFrame_setSubarea j _ m i _)) (runoffFrame_setSubarea j _ m i _)

theorem runoffFrame_getNetPrecip (env : Env) (j : Nat) (p : Project) (tStep : ℚ) :
    RunoffFrame j p (getNetPrecip env p j tStep).1 := by
  unfold getNetPrecip
  simp only []
  split <;> simp [RunoffFrame, setSubcatch]

theorem runoffFrame_runoffSubarea (env : Env) (j : Nat) (tStep : ℚ)
    (netPrecip : SubareaType → ℚ) (evapRate : ℚ) (sums : RunoffSums) (i : SubareaType) :
    RunoffFrame j sums.project (runoffSubarea env j tStep netPrecip evapRate sums i).project := by
  unfold runoffSubarea
  simp only []
  by_cases h : ((sums.project.Subcatch j).area - (sums.project.Subcatch j).lidArea) *
      (getSubarea sums.project j i).fArea > 0
  · rw [if_pos h]
    exact runoffFrame_getSubareaRunoff env j _ j i _ _ _
  · rw [if_neg h]
    exact runoffFrame_refl j _

theorem runoffFrame_runoffSubareas (env : Env) (j : Nat) (p : Project) (tStep : ℚ) :
    RunoffFrame j p (runoffSubareas env p j tStep).project := by
  unfold runoffSubareas
  simp only [subareaTypes, List.foldl_cons, List.foldl_nil]
  refine runoffFrame_trans (runoffFrame_trans (runoffFrame_trans (runoffFrame_trans ?_
    (runoffFrame_runoffSubarea env j tStep _ _ _ _))
    (runoffFrame_runoffSubarea env j tStep _ _ _ _))
    (runoffFrame_runoffSubarea env j tStep _ _ _ _)) (runoffFrame_refl j _)
  have h0 : RunoffFrame j p
      { p with Vponded := subcatch_getDepth env p j * (p.Subcatch j).area } :=
    ⟨rfl, rfl, rfl, rfl, rfl⟩
  exact runoffFrame_trans h0 (runoffFrame_getNetPrecip env j _ tStep)

theorem runoffLid_project (env : Env) (j : Nat) (tStep : ℚ) (sums : RunoffSums) :
    (runoffLid env j tStep sums).project = sums.project := by
  unfold runoffLid
  split_ifs <;> rfl

theorem runoffFrame_runoffGwater (env : Env) (j : Nat) (tStep : ℚ) (sums : RunoffSums) :
    RunoffFrame j sums.project (runoffGwater env j tStep sums) := by
  unfold runoffGwater
  split <;> simp [RunoffFrame, setSubcatch]

/-- What the last block of `subcatch_getRunoff` hands to the statistics and to
the flow balance, in terms of what it stores. -/
theorem runoffFinish_result (p : Project) (j : Nat) (tStep : ℚ) (sums : RunoffSums) :
    (runoffFinish p j tStep sums).1.subcatchStats
      = p.subcatchStats ++
          [⟨j,
            ((runoffFinish p j tStep sums).1.Subcatch j).rainfall * tStep *
              ((runoffFinish p j tStep sums).1.Subcatch j).area,
            (runoffFinish p j tStep sums).1.Vrunon,
            (runoffFinish p j tStep sums).1.Vevap,
            (runoffFinish p j tStep sums).1.Vinfil,
            ((runoffFinish p j tStep sums).1.Subcatch j).newRunoff * tStep,
            ((runoffFinish p j tStep sums).1.Subcatch j).newRunoff⟩] ∧
    (runoffFinish p j tStep sums).1.runoffTotals
      = p.runoffTotals ++
          [⟨((runoffFinish p j tStep sums).1.Subcatch j).rainfall * tStep *
              ((runoffFinish p j tStep sums).1.Subcatch j).area,
            (runoffFinish p j tStep sums).1.Vevap,
            (runoffFinish p j tStep sums).1.Vinfil,
            if (p.Subcatch j).outNode = -1 ∧ (p.Subcatch j).outSubcatch ≠ (j : Int) then 0
            else ((runoffFinish p j tStep sums).1.Subcatch j).newRunoff * tStep⟩] := by
  unfold runoffFinish
  simp [setSubcatch, stats_updateSubcatchStats, massbal_updateRunoffTotals]

/-- C15: `subcatch_getRunoff` hands to the runoff totals of the flow balance the
outflow volume 0 when subcatchment `j` has no outlet node (`outNode = -1`) and
its outlet subcatchment is not `j`, and `newRunoff * tStep` otherwise (outlet
node, or `j` its own outlet); the statistics receive `newRunoff * tStep` and
`newRunoff` in every case. Each is one call, made after all earlier ones. -/
theorem C15_outflow_volume_reported (env : Env) (s : Project) (j : Nat) (tStep : ℚ) :
    (subcatch_getRunoff env s j tStep).1.runoffTotals
      = s.runoffTotals ++
          [⟨((subcatch_getRunoff env s j tStep).1.Subcatch j).rainfall * tStep *
              ((subcatch_getRunoff env s j tStep).1.Subcatch j).area,
            (subcatch_getRunoff env s j tStep).1.Vevap,
            (subcatch_getRunoff env s j tStep).1.Vinfil,
            if (s.Subcatch j).outNode = -1 ∧ (s.Subcatch j).outSubcatch ≠ (j : Int) then 0
            else ((subcatch_getRunoff env s j tStep).1.Subcatch j).newRunoff * tStep⟩] ∧
    (subcatch_getRunoff env s j tStep).1.subcatchStats
      = s.subcatchStats ++
          [⟨j,
            ((subcatch_getRunoff env s j tStep).1.Subcatch j).rainfall * tStep *
              ((subcatch_getRunoff env s j tStep).1.Subcatch j).area,
            (subcatch_getRunoff env s j tStep).1.Vrunon,
            (subcatch_getRunoff env s j tStep).1.Vevap,
            (subcatch_getRunoff env s j tStep).1.Vinfil,
            ((subcatch_getRunoff env s j tStep).1.Subcatch j).newRunoff * tStep,
            ((subcatch_getRunoff env s j tStep).1.Subcatch j).newRunoff⟩] ∧
    (subcatch_getRunoff env s j tStep).1.Voutflow
      = ((subcatch_getRunoff env s j tStep).1.Subcatch j).newRunoff * tStep := by
  have hF : RunoffFrame j s
      (runoffGwater env j tStep (runoffLid env j tStep (runoffSubareas env s j tStep))) := by
    have h1 := runoffFrame_runoffSubareas env j s tStep
    have h2 := runoffFrame_runoffGwater env j tStep
      (runoffLid env j tStep (runoffSubareas env s j tStep))
    rw [runoffLid_project] at h2
    exact runoffFrame_trans h1 h2
  obtain ⟨f1, f2, f3, f4, _⟩ := hF
  obtain ⟨r1, r2⟩ := runoffFinish_result
    (runoffGwater env j tStep (runoffLid env j tStep (runoffSubareas env s j tStep))) j tStep
    (runoffLid env j tStep (runoffSubareas env s j tStep))
  rw [getRunoff_stages]
  refine ⟨?_, ?_, ?_⟩
  · rw [r2, f1, f3, f4]
  · rw [r1, f2]
  · unfold runoffFinish
    simp [setSubcatch, stats_updateSubcatchStats, massbal_updateRunoffTotals]

theorem updatePondedDepth_nonneg (env : Env) (p : Project) (sa : TSubarea) (dt : ℚ) :
    0 ≤ (updatePondedDepth env p sa dt).2.1.depth := by
  unfold updatePondedDepth
  simp only []
  split_ifs <;> first | exact le_refl 0 | exact not_lt.mp (by assumption)

theorem updatePondedDepth_dStore (env : Env) (p : Project) (sa : TSubarea) (dt : ℚ) :
    (updatePondedDepth env p sa dt).2.1.dStore = sa.dStore := by
  rw [updatePondedDepth_frame]

theorem findSubareaRunoff_nonneg (env : Env) (sa : TSubarea) (tRunoff : ℚ)
    (h : 0 ≤ sa.depth) (hD : 0 ≤ sa.dStore) : 0 ≤ (findSubareaRunoff env sa tRunoff).depth := by
  unfold findSubareaRunoff
  simp only []
  split_ifs
  · exact h
  · exact hD
  · exact h

theorem subareaPonded_nonneg (env : Env) (project : Project) (j : Nat) (i : SubareaType)
    (precip evap tStep : ℚ) :
    0 ≤ (subareaPonded env project j i precip evap tStep).2.1.depth ∧
    (subareaPonded env project j i precip evap tStep).2.1.dStore
      = (getSubarea project j i).dStore := by
  unfold subareaPonded
  split_ifs
  · rw [subareaLosses_getSubarea]
    exact ⟨le_refl 0, rfl⟩
  · rw [subareaLosses_getSubarea]
    exact ⟨updatePondedDepth_nonneg _ _ _ _, updatePondedDepth_dStore _ _ _ _⟩

/-- C22: for a sub-area of non-zero area fraction and non-negative depression
storage the ponded depth that `getSubareaRunoff` leaves is not negative, whatever
the ODE solver and the other collaborators return. -/
theorem C22_depth_nonneg (env : Env) (project : Project) (j : Nat) (i : SubareaType)
    (precip evap tStep : ℚ) (hA : (getSubarea project j i).fArea ≠ 0)
    (hD : 0 ≤ (getSubarea project j i).dStore) :
    0 ≤ (getSubarea (getSubareaRunoff env project j i precip evap tStep) j i).depth := by
  obtain ⟨_, _, hS⟩ := getSubareaRunoff_result env project j i precip evap tStep hA
  obtain ⟨h1, h2⟩ := subareaPonded_nonneg env project j i precip evap tStep
  rw [hS]
  apply findSubareaRunoff_nonneg env _ _ h1
  rw [h2]
  exact hD

theorem C22_depth_nonneg_witness :
    0 ≤ (getSubarea (getSubareaRunoff basicEnv fillProject 0 SubareaType.IMPERV0 (1 / 4) 5 2) 0
      SubareaType.IMPERV0).depth :=
  C22_depth_nonneg basicEnv fillProject 0 SubareaType.IMPERV0 (1 / 4) 5 2
    (by norm_num [getSubarea, fillProject, zeroSubcatch, zeroSubarea])
    (by norm_num [getSubarea, fillProject, zeroSubcatch, zeroSubarea])

theorem washoffQualPollut_newQual (env : Env) (j : Nat) (runoff tStep : ℚ) (t : Project)
    (p : Nat) :
    ((washoffQualPollut env j runoff tStep t p).Subcatch j).newQual
      = Function.update (t.Subcatch j).newQual p
          (if runoff > env.MIN_RUNOFF then t.OutflowLoad p / (runoff * tStep * env.LperFT3)
           else 0) := by
  unfold washoffQualPollut
  by_cases hc : (t.Subcatch j).outNode ≥ 0 ∨ (t.Subcatch j).outSubcatch = (j : Int) <;>
    by_cases hr : runoff > env.MIN_RUNOFF <;>
    simp [setSubcatch, massbal_updateLoadingTotals, hc, hr]

/-- The concentrations that the last loop of `subcatch_getWashoff` leaves after
`n` pollutants. -/
theorem washoffQual_newQual_loop (env : Env) (j : Nat) (runoff tStep : ℚ) (t : Project)
    (n : Nat) :
    (((List.range n).foldl (washoffQualPollut env j runoff tStep) t).Subcatch j).newQual
      = fun p =>
          if p < n then
            (if runoff > env.MIN_RUNOFF then t.OutflowLoad p / (runoff * tStep * env.LperFT3)
             else 0)
          else (t.Subcatch j).newQual p := by
  induction n with
  | zero => simp
  | succ n ih =>
    have a3 := (washoffQual_loop env j runoff tStep t n).2.2.1
    rw [List.range_succ, List.foldl_append]
    simp only [List.foldl_cons, List.foldl_nil]
    rw [washoffQualPollut_newQual, ih, a3]
    have h := update_ite_lt
      (fun p => if runoff > env.MIN_RUNOFF then t.OutflowLoad p / (runoff * tStep * env.LperFT3)
        else 0)
      (t.Subcatch j).newQual n
    exact h

theorem washoffQualPollut_newRunoff (env : Env) (j : Nat) (runoff tStep : ℚ) (t : Project)
    (p : Nat) :
    ((washoffQualPollut env j runoff tStep t p).Subcatch j).newRunoff
      = (t.Subcatch j).newRunoff := by
  unfold washoffQualPollut
  by_cases hc : (t.Subcatch j).outNode ≥ 0 ∨ (t.Subcatch j).outSubcatch = (j : Int) <;>
    by_cases hr : runoff > env.MIN_RUNOFF <;>
    simp [setSubcatch, massbal_updateLoadingTotals, hc, hr]

theorem washoffQual_newRunoff_loop (env : Env) (j : Nat) (runoff tStep : ℚ) (t : Project)
    (n : Nat) :
    (((List.range n).foldl (washoffQualPollut env j runoff tStep) t).Subcatch j).newRunoff
      = (t.Subcatch j).newRunoff :=
  foldl_range_keeps (washoffQualPollut env j runoff tStep)
    (fun t2 : Project => (t2.Subcatch j).newRunoff = (t.Subcatch j).newRunoff) t n rfl
    (fun t2 k h => (washoffQualPollut_newRunoff env j runoff tStep t2 k).trans h)

/-- C27: after `subcatch_getWashoff` with at least one pollutant and non-zero
area, for every pollutant `p`, `newQual[p]` is
`OutflowLoad[p] / (newRunoff * tStep * LperFT3)` when the stored `newRunoff` of
the subcatchment exceeds `MIN_RUNOFF`, and 0 otherwise; the runoff argument and
the mass held in `newQual` before the call enter only through `OutflowLoad`. -/
theorem C27_new_outflow_concentration (env : Env) (s : Project) (j : Nat) (runoff tStep : ℚ)
    (p : Nat) (hP : s.Nobjects ObjectType.POLLUT ≠ 0) (hA : (s.Subcatch j).area ≠ 0)
    (hp : p < s.Nobjects ObjectType.POLLUT) :
    ((subcatch_getWashoff env s j runoff tStep).Subcatch j).newQual p
      = (if (s.Subcatch j).newRunoff > env.MIN_RUNOFF then
          (subcatch_getWashoff env s j runoff tStep).OutflowLoad p
            / ((s.Subcatch j).newRunoff * tStep * env.LperFT3)
        else 0) ∧
    ((subcatch_getWashoff env s j runoff tStep).Subcatch j).newRunoff
      = (s.Subcatch j).newRunoff := by
  have hc : ¬ (s.Nobjects ObjectType.POLLUT = 0 ∨ (s.Subcatch j).area = 0) := by
    rintro (h | h)
    · exact hP h
    · exact hA h
  obtain ⟨f1, _, _, _, _, f6, _⟩ := washoffFrame_before_qual env j runoff tStep s
  rw [getWashoff_eq, if_neg hc, washoffQual_eq]
  have a3 := (washoffQual_loop env j
    ((washoffLanduses env (updatePondedQual env (washoffInit s) j tStep) j runoff
      tStep).Subcatch j).newRunoff tStep
    (washoffLanduses env (updatePondedQual env (washoffInit s) j tStep) j runoff tStep)
    ((washoffLanduses env (updatePondedQual env (washoffInit s) j tStep) j runoff
      tStep).Nobjects ObjectType.POLLUT)).2.2.1
  refine ⟨?_, ?_⟩
  · rw [washoffQual_newQual_loop, a3, f1, f6]
    simp only [hp, if_true]
  · rw [washoffQual_newRunoff_loop, f6]

theorem C27_new_outflow_concentration_witness :
    ((subcatch_getWashoff basicEnv incomingMassProject 0 4 1).Subcatch 0).newQual 0
      = (if (incomingMassProject.Subcatch 0).newRunoff > basicEnv.MIN_RUNOFF then
          (subcatch_getWashoff basicEnv incomingMassProject 0 4 1).OutflowLoad 0
            / ((incomingMassProject.Subcatch 0).newRunoff * 1 * basicEnv.LperFT3)
        else 0) :=
  (C27_new_outflow_concentration basicEnv incomingMassProject 0 4 1 0
    (by simp [incomingMassProject, zeroProject])
    (by simp [incomingMassProject, zeroSubcatch])
    (by simp [incomingMassProject, zeroProject])).1

/-- A loop that writes the washoff entries of the pollutants below `n` leaves
`g p` in the entry of each of them and the other washoff entries alone. -/
theorem washoff_written_loop (g : Nat → ℚ) (x : SubcatchResultType → ℚ) (n p : Nat) :
    (List.range n).foldl
        (fun x p => Function.update x (SubcatchResultType.SUBCATCH_WASHOFF p) (g p)) x
        (SubcatchResultType.SUBCATCH_WASHOFF p)
      = if p < n then g p else x (SubcatchResultType.SUBCATCH_WASHOFF p) := by
  induction n with
  | zero => simp
  | succ n ih =>
    rw [List.range_succ, List.foldl_append]
    simp only [List.foldl_cons, List.foldl_nil]
    by_cases h : p = n
    · subst h
      simp
    · have hne : SubcatchResultType.SUBCATCH_WASHOFF p ≠ SubcatchResultType.SUBCATCH_WASHOFF n := by
        intro h2
        injection h2 with h3
        exact h h3
      rw [Function.update_noteq hne, ih]
      have hiff : p < n + 1 ↔ p < n := by omega
      simp only [hiff]

/-- The runoff and washoff entries that `subcatch_getResults` reports. -/
theorem getResults_runoff (env : Env) (project : Project) (j : Nat) (f : ℚ)
    (x : SubcatchResultType → ℚ) :
    subcatch_getResults env project j f x SubcatchResultType.SUBCATCH_RUNOFF
      = (if (1 - f) * (project.Subcatch j).oldRunoff + f * (project.Subcatch j).newRunoff
            < env.MIN_RUNOFF_FLOW then 0
          else (1 - f) * (project.Subcatch j).oldRunoff + f * (project.Subcatch j).newRunoff)
        * env.UCF project UnitType.FLOW ∧
    (∀ p, project.IgnoreQuality = false → p < project.Nobjects ObjectType.POLLUT →
      subcatch_getResults env project j f x (SubcatchResultType.SUBCATCH_WASHOFF p)
        = if (if (1 - f) * (project.Subcatch j).oldRunoff + f * (project.Subcatch j).newRunoff
                < env.MIN_RUNOFF_FLOW then 0
              else (1 - f) * (project.Subcatch j).oldRunoff
                + f * (project.Subcatch j).newRunoff) < env.MIN_RUNOFF_FLOW then 0
          else (1 - f) * (project.Subcatch j).oldQual p + f * (project.Subcatch j).newQual p) ∧
    (∀ p, (project.IgnoreQuality = true ∨ project.Nobjects ObjectType.POLLUT ≤ p) →
      subcatch_getResults env project j f x (SubcatchResultType.SUBCATCH_WASHOFF p)
        = x (SubcatchResultType.SUBCATCH_WASHOFF p)) := by
  refine ⟨?_, fun p hQ hp => ?_, fun p h => ?_⟩
  · unfold subcatch_getResults
    cases (project.Subcatch j).groundwater <;>
      simp only [] <;> split_ifs <;> simp [washoff_entries_loop]
  · unfold subcatch_getResults
    simp only [hQ, if_true]
    rw [washoff_written_loop, if_pos hp]
  · unfold subcatch_getResults
    rcases h with h | h
    · rw [h]
      cases (project.Subcatch j).groundwater <;>
        simp only [Bool.true_eq_false, if_false] <;> split_ifs <;> simp
    · by_cases hQ : project.IgnoreQuality = false
      · simp only [hQ, if_true]
        rw [washoff_written_loop, if_neg (not_lt.mpr h)]
        cases (project.Subcatch j).groundwater <;>
          simp only [] <;> split_ifs <;> simp
      · rw [if_neg hQ]
        cases (project.Subcatch j).groundwater <;>
          simp only [] <;> split_ifs <;> simp
/-- C28: in `subcatch_getResults`, with a positive threshold `MIN_RUNOFF_FLOW`,
when the blend `(1 - f) * oldRunoff + f * newRunoff` is below the threshold the
reported runoff is 0 and every reported concentration is 0; otherwise the
reported runoff is the blend times `UCF(FLOW)` and every reported concentration
is `(1 - f) * oldQual[p] + f * newQual[p]`. The concentrations reported are
those of the pollutants `p < Nobjects[POLLUT]` when quality is not ignored; the
other washoff entries are left as they were. -/
theorem C28_reporting_threshold (env : Env) (project : Project) (j : Nat) (f : ℚ)
    (x : SubcatchResultType → ℚ) (hM : 0 < env.MIN_RUNOFF_FLOW) :
    ((1 - f) * (project.Subcatch j).oldRunoff + f * (project.Subcatch j).newRunoff
        < env.MIN_RUNOFF_FLOW →
      subcatch_getResults env project j f x SubcatchResultType.SUBCATCH_RUNOFF = 0 ∧
      ∀ p, project.IgnoreQuality = false → p < project.Nobjects ObjectType.POLLUT →
        subcatch_getResults env project j f x (SubcatchResultType.SUBCATCH_WASHOFF p) = 0) ∧
    (¬ ((1 - f) * (project.Subcatch j).oldRunoff + f * (project.Subcatch j).newRunoff
        < env.MIN_RUNOFF_FLOW) →
      subcatch_getResults env project j f x SubcatchResultType.SUBCATCH_RUNOFF
        = ((1 - f) * (project.Subcatch j).oldRunoff + f * (project.Subcatch j).newRunoff)
          * env.UCF project UnitType.FLOW ∧
      ∀ p, project.IgnoreQuality = false → p < project.Nobjects ObjectType.POLLUT →
        subcatch_getResults env project j f x (SubcatchResultType.SUBCATCH_WASHOFF p)
          = (1 - f) * (project.Subcatch j).oldQual p + f * (project.Subcatch j).newQual p) ∧
    (∀ p, (project.IgnoreQuality = true ∨ project.Nobjects ObjectType.POLLUT ≤ p) →
      subcatch_getResults env project j f x (SubcatchResultType.SUBCATCH_WASHOFF p)
        = x (SubcatchResultType.SUBCATCH_WASHOFF p)) := by
  obtain ⟨h1, h2, h3⟩ := getResults_runoff env project j f x
  refine ⟨fun hlt => ⟨?_, fun p hQ hp => ?_⟩, fun hge => ⟨?_, fun p hQ hp => ?_⟩, h3⟩
  · rw [h1, if_pos hlt, zero_mul]
  · rw [h2 p hQ hp, if_pos hlt, if_pos hM]
  · rw [h1, if_neg hge]
  · rw [h2 p hQ hp, if_neg hge, if_neg hge]

theorem C28_reporting_threshold_witness :
    subcatch_getResults basicEnv wetProject 0 (1 / 2) (fun _ => 0)
        SubcatchResultType.SUBCATCH_RUNOFF
      = ((1 - 1 / 2) * (wetProject.Subcatch 0).oldRunoff
          + 1 / 2 * (wetProject.Subcatch 0).newRunoff) * basicEnv.UCF wetProject UnitType.FLOW :=
  ((C28_reporting_threshold basicEnv wetProject 0 (1 / 2) (fun _ => 0)
    (by norm_num [basicEnv])).2.1
    (by norm_num [wetProject, zeroSubcatch, basicEnv])).1
/-- C29: for a subcatchment without a snow pack, or with snowmelt ignored,
`getNetPrecip` sets the net precipitation of the three sub-area types and the
rainfall of the subcatchment to rain + snow, where rain is the direct-rainfall
override when there is one and the gage rainfall otherwise, snow is the gage
snowfall, and both gage rates are 0 when no gage is linked (`gage < 0`). -/
theorem C29_net_precip_without_snowmelt (env : Env) (project : Project) (j : Nat) (tStep : ℚ)
    (h : (project.Subcatch j).snowpack = none ∨ project.IgnoreSnowmelt = true) :
    (∀ i, (getNetPrecip env project j tStep).2 i
      = (env.containsSubcatchRain project j).getD
            (if (project.Subcatch j).gage ≥ 0 then
              (env.gage_getPrecip project (project.Subcatch j).gage.toNat).1 else 0)
        + (if (project.Subcatch j).gage ≥ 0 then
            (env.gage_getPrecip project (project.Subcatch j).gage.toNat).2 else 0)) ∧
    ((getNetPrecip env project j tStep).1.Subcatch j).rainfall
      = (env.containsSubcatchRain project j).getD
            (if (project.Subcatch j).gage ≥ 0 then
              (env.gage_getPrecip project (project.Subcatch j).gage.toNat).1 else 0)
        + (if (project.Subcatch j).gage ≥ 0 then
            (env.gage_getPrecip project (project.Subcatch j).gage.toNat).2 else 0) := by
  unfold getNetPrecip
  simp only []
  have hs : ((setSubcatch project j
      { project.Subcatch j with
        rainfall :=
          (match env.containsSubcatchRain project j with
            | some value => value
            | none =>
              (if (project.Subcatch j).gage ≥ 0 then
                env.gage_getPrecip project (project.Subcatch j).gage.toNat else (0, 0)).1)
          + (if (project.Subcatch j).gage ≥ 0 then
              env.gage_getPrecip project (project.Subcatch j).gage.toNat
            else (0, 0)).2 }).Subcatch j).snowpack = (project.Subcatch j).snowpack := by
    simp [setSubcatch]
  have hi : (setSubcatch project j
      { project.Subcatch j with
        rainfall :=
          (match env.containsSubcatchRain project j with
            | some value => value
            | none =>
              (if (project.Subcatch j).gage ≥ 0 then
                env.gage_getPrecip project (project.Subcatch j).gage.toNat else (0, 0)).1)
          + (if (project.Subcatch j).gage ≥ 0 then
              env.gage_getPrecip project (project.Subcatch j).gage.toNat
            else (0, 0)).2 }).IgnoreSnowmelt = project.IgnoreSnowmelt := rfl
  rw [hs, hi]
  rcases h with h | h
  · rw [h]
    simp only []
    constructor
    · intro i
      cases env.containsSubcatchRain project j <;> split_ifs <;> simp [Option.getD]
    · cases env.containsSubcatchRain project j <;> split_ifs <;> simp [setSubcatch, Option.getD]
  · rw [h]
    cases (project.Subcatch j).snowpack <;> simp only [] <;> constructor
    · intro i
      cases env.containsSubcatchRain project j <;> split_ifs <;> simp [Option.getD]
    · cases env.containsSubcatchRain project j <;> split_ifs <;> simp [setSubcatch, Option.getD]
    · intro i
      cases env.containsSubcatchRain project j <;> split_ifs <;> simp [Option.getD]
    · cases env.containsSubcatchRain project j <;> split_ifs <;> simp [setSubcatch, Option.getD]

theorem C29_net_precip_without_snowmelt_witness :
    ((getNetPrecip growEnv zeroProject 0 1).1.Subcatch 0).rainfall
      = (growEnv.containsSubcatchRain zeroProject 0).getD
            (if (zeroProject.Subcatch 0).gage ≥ 0 then
              (growEnv.gage_getPrecip zeroProject (zeroProject.Subcatch 0).gage.toNat).1 else 0)
        + (if (zeroProject.Subcatch 0).gage ≥ 0 then
            (growEnv.gage_getPrecip zeroProject (zeroProject.Subcatch 0).gage.toNat).2 else 0) :=
  (C29_net_precip_without_snowmelt growEnv zeroProject 0 1
    (Or.inl (by simp [zeroProject, zeroSubcatch]))).2

/-- `subcatch_setOldState` keeps a zero-area subcatchment without runoff: when
the new runoff is 0 whenever the area is 0, afterwards both runoffs are. -/
theorem setOldState_zero_area_runoff (project : Project) (j : Nat)
    (h : (project.Subcatch j).area = 0 → (project.Subcatch j).newRunoff = 0) :
    ((subcatch_setOldState project j).Subcatch j).area = 0 →
      ((subcatch_setOldState project j).Subcatch j).oldRunoff = 0 ∧
      ((subcatch_setOldState project j).Subcatch j).newRunoff = 0 := by
  unfold subcatch_setOldState
  simp only [setOldState_qual_loop]
  simp only [subareaTypes, List.foldl_cons, List.foldl_nil, setSubarea_eq, getSubarea,
    setSubcatch_setSubcatch]
  simp only [setSubcatch, Function.update_same]
  intro hA
  exact ⟨h hA, h hA⟩

/-- C9: for every subcatchment `j` in a state the program can be in (old and new
runoff are 0 when the area is 0, as `subcatch_initState`, `subcatch_setOldState`
and `subcatch_getRunoff` leave them), `subcatch_getWtdOutflow(j, 0)` is the old
runoff, `subcatch_getWtdOutflow(j, 1)` is the new runoff and for every `f` the
result is the linear blend `(1 - f) * oldRunoff + f * newRunoff`. -/
theorem C9_wtdOutflow_blend (project : Project) (j : Nat) (f : ℚ)
    (hInv : (project.Subcatch j).area = 0 →
      (project.Subcatch j).oldRunoff = 0 ∧ (project.Subcatch j).newRunoff = 0) :
    subcatch_getWtdOutflow project j 0 = (project.Subcatch j).oldRunoff ∧
    subcatch_getWtdOutflow project j 1 = (project.Subcatch j).newRunoff ∧
    subcatch_getWtdOutflow project j f =
      (1 - f) * (project.Subcatch j).oldRunoff + f * (project.Subcatch j).newRunoff := by
  unfold subcatch_getWtdOutflow
  by_cases hA : (project.Subcatch j).area = 0
  · obtain ⟨h1, h2⟩ := hInv hA
    refine ⟨?_, ?_, ?_⟩ <;> rw [if_pos hA] <;> simp [h1, h2]
  · refine ⟨?_, ?_, ?_⟩ <;> rw [if_neg hA]
    · ring
    · ring

theorem C9_wtdOutflow_blend_witness :
    (subcatch_getWtdOutflow wetProject 0 0 = 1 ∧
      subcatch_getWtdOutflow wetProject 0 1 = 3 ∧
      subcatch_getWtdOutflow wetProject 0 (1 / 2) = 2) ∧
    subcatch_getWtdOutflow zeroProject 0 (1 / 2)
      = (1 - 1 / 2) * (zeroProject.Subcatch 0).oldRunoff
        + 1 / 2 * (zeroProject.Subcatch 0).newRunoff := by
  have h := C9_wtdOutflow_blend wetProject 0 (1 / 2) (by simp [wetProject, zeroSubcatch])
  simp only [wetProject, zeroSubcatch] at h
  norm_num at h
  exact ⟨h, (C9_wtdOutflow_blend zeroProject 0 (1 / 2)
    (by simp [zeroProject, zeroSubcatch])).2.2⟩

/-- C10: `subcatch_setOldState(j)` copies new runoff and snow depth of `j` to the
old ones and, for every pollutant of the project, the new quality to the old one
and zeroes the new quality; it zeroes the inflow of the three sub-areas and
leaves new runoff, new snow depth, every sub-area depth and runoff, ponded
quality and every other subcatchment as they were. -/
theorem C10_setOldState_commit (project : Project) (j : Nat) :
    ((subcatch_setOldState project j).Subcatch j).oldRunoff = (project.Subcatch j).newRunoff ∧
    ((subcatch_setOldState project j).Subcatch j).oldSnowDepth
      = (project.Subcatch j).newSnowDepth ∧
    (∀ p : Nat, p < project.Nobjects ObjectType.POLLUT →
      ((subcatch_setOldState project j).Subcatch j).oldQual p = (project.Subcatch j).newQual p ∧
      ((subcatch_setOldState project j).Subcatch j).newQual p = 0) ∧
    (∀ i : SubareaType,
      (getSubarea (subcatch_setOldState project j) j i).inflow = 0 ∧
      (getSubarea (subcatch_setOldState project j) j i).depth = (getSubarea project j i).depth ∧
      (getSubarea (subcatch_setOldState project j) j i).runoff
        = (getSubarea project j i).runoff) ∧
    ((subcatch_setOldState project j).Subcatch j).newRunoff = (project.Subcatch j).newRunoff ∧
    ((subcatch_setOldState project j).Subcatch j).newSnowDepth
      = (project.Subcatch j).newSnowDepth ∧
    ((subcatch_setOldState project j).Subcatch j).pondedQual = (project.Subcatch j).pondedQual ∧
    (∀ k : Nat, k ≠ j → (subcatch_setOldState project j).Subcatch k = project.Subcatch k) := by
  unfold subcatch_setOldState
  simp only [setOldState_qual_loop]
  simp only [subareaTypes, List.foldl_cons, List.foldl_nil, setSubarea_eq, getSubarea,
    setSubcatch_setSubcatch]
  refine ⟨?_, ?_, fun p hp => ?_, fun i => ?_, ?_, ?_, ?_, fun k hk => ?_⟩
  · simp only [setSubcatch, Function.update_same]
  · simp only [setSubcatch, Function.update_same]
  · simp only [setSubcatch, Function.update_same, hp, if_true]
    exact ⟨trivial, trivial⟩
  · simp only [setSubcatch, Function.update_same]
    cases i <;> simp [Function.update]
  · simp only [setSubcatch, Function.update_same]
  · simp only [setSubcatch, Function.update_same]
  · simp only [setSubcatch, Function.update_same]
  · simp only [setSubcatch, Function.update_noteq hk]

theorem C10_setOldState_commit_witness :
    ((subcatch_setOldState wetProject 0).Subcatch 0).oldRunoff = 3 ∧
    ((subcatch_setOldState wetProject 0).Subcatch 0).oldQual 0 = 5 ∧
    ((subcatch_setOldState wetProject 0).Subcatch 0).newQual 0 = 0 ∧
    (getSubarea (subcatch_setOldState wetProject 0) 0 SubareaType.PERV).inflow = 0 ∧
    (subcatch_setOldState wetProject 0).Subcatch 1 = wetProject.Subcatch 1 := by
  have h := C10_setOldState_commit wetProject 0
  refine ⟨?_, ?_, (h.2.2.1 0 (by decide)).2, (h.2.2.2.1 SubareaType.PERV).1,
    h.2.2.2.2.2.2.2 1 (by decide)⟩
  · rw [h.1]; rfl
  · rw [(h.2.2.1 0 (by decide)).1]; rfl

theorem validate_stages (env : Env) (project : Project) (j : Nat) :
    subcatch_validate env project j
      = subareaTypes.foldl
          (validateAlpha env j
            ((project.Subcatch j).area - ((validateChecks env project j).Subcatch j).lidArea))
          (validateChecks env project j) := rfl
theorem validateFrame_refl (j : Nat) (s : Project) : ValidateFrame j s s :=
  ⟨rfl, rfl, rfl, rfl, rfl, fun _ => rfl⟩

theorem validateFrame_trans {j : Nat} {a b c : Project} (h1 : ValidateFrame j a b)
    (h2 : ValidateFrame j b c) : ValidateFrame j a c := by
  unfold ValidateFrame at h1 h2 ⊢
  refine ⟨?_, ?_, ?_, ?_, ?_, fun i => ?_⟩
  · rw [h2.1, h1.1]
  · rw [h2.2.1, h1.2.1]
  · rw [h2.2.2.1, h1.2.2.1]
  · rw [h2.2.2.2.1, h1.2.2.2.1]
  · rw [h2.2.2.2.2.1, h1.2.2.2.2.1]
  · rw [h2.2.2.2.2.2 i, h1.2.2.2.2.2 i]

theorem validateFrame_checks (env : Env) (s : Project) (j : Nat) :
    ValidateFrame j s (validateChecks env s j) ∧
    ∀ i, (getSubarea (validateChecks env s j) j i).alpha = (getSubarea s j i).alpha := by
  unfold ValidateFrame validateChecks
  split_ifs <;> simp [setSubcatch, report_writeErrorMsg, getSubarea]

theorem validateFrame_setAlpha (j : Nat) (p : Project) (i : SubareaType) (a : ℚ) :
    ValidateFrame j p (setAlpha p j i a) ∧
    ∀ i2, (getSubarea (setAlpha p j i a) j i2).alpha
      = if i2 = i then a else (getSubarea p j i2).alpha := by
  unfold setAlpha
  refine ⟨⟨?_, ?_, ?_, ?_, ?_, fun i2 => ?_⟩, fun i2 => ?_⟩
  · simp [setSubarea]
  · simp [setSubarea]
  · simp [setSubarea]
  · simp [setSubarea]
  · simp [setSubarea]
  · rw [getSubarea_setSubarea]
    split_ifs with h2
    · rw [h2]
    · rfl
  · rw [getSubarea_setSubarea]
    split_ifs <;> rfl

theorem validateAlpha_eq (env : Env) (j : Nat) (nl : ℚ) (p : Project) (i : SubareaType) :
    validateAlpha env j nl p i
      = if contributingArea p j nl i > 0 ∧ (getSubarea (setAlpha p j i 0) j i).N > 0 then
          setAlpha (setAlpha p j i 0) j i
            (MCOEFF * ((setAlpha p j i 0).Subcatch j).width / contributingArea p j nl i *
              env.sqrt ((setAlpha p j i 0).Subcatch j).slope /
              (getSubarea (setAlpha p j i 0) j i).N)
        else setAlpha p j i 0 := rfl

/-- The loop body of `subcatch_validate` for sub-area `i`: what it leaves alone
and the `alpha` it stores. -/
theorem validateAlpha_fields (env : Env) (j : Nat) (nl : ℚ) (p : Project) (i : SubareaType) :
    ValidateFrame j p (validateAlpha env j nl p i) ∧
    ∀ i2, (getSubarea (validateAlpha env j nl p i) j i2).alpha
      = if i2 = i then
          (if contributingArea p j nl i > 0 ∧ (getSubarea p j i).N > 0 then
            MCOEFF * (p.Subcatch j).width / contributingArea p j nl i *
              env.sqrt (p.Subcatch j).slope / (getSubarea p j i).N
          else 0)
        else (getSubarea p j i2).alpha := by
  obtain ⟨h1, a1⟩ := validateFrame_setAlpha j p i 0
  rw [validateAlpha_eq, h1.2.2.2.2.2 i, h1.2.2.2.1, h1.2.2.2.2.1]
  by_cases hc : contributingArea p j nl i > 0 ∧ (getSubarea p j i).N > 0
  · rw [if_pos hc, if_pos hc]
    obtain ⟨h2, a2⟩ := validateFrame_setAlpha j (setAlpha p j i 0) i
      (MCOEFF * (p.Subcatch j).width / contributingArea p j nl i *
        env.sqrt (p.Subcatch j).slope / (getSubarea p j i).N)
    refine ⟨validateFrame_trans h1 h2, fun i2 => ?_⟩
    rw [a2 i2, a1 i2]
    split_ifs <;> rfl
  · rw [if_neg hc, if_neg hc]
    exact ⟨h1, a1⟩

theorem contributingArea_congr (j : Nat) (nl : ℚ) (s t : Project) (i : SubareaType)
    (h : ValidateFrame j s t) : contributingArea t j nl i = contributingArea s j nl i := by
  unfold contributingArea
  rw [h.1]

/-- The `alpha` that `subcatch_validate` stores for each sub-area, in terms of
the project it is given. -/
theorem validate_alpha (env : Env) (s : Project) (j : Nat) (i : SubareaType) :
    (getSubarea (subcatch_validate env s j) j i).alpha
      = if contributingArea s j ((s.Subcatch j).area - (s.Subcatch j).lidArea) i > 0 ∧
            (getSubarea s j i).N > 0 then
          MCOEFF * (s.Subcatch j).width /
              contributingArea s j ((s.Subcatch j).area - (s.Subcatch j).lidArea) i *
            env.sqrt (s.Subcatch j).slope / (getSubarea s j i).N
        else 0 := by
  obtain ⟨f0, _⟩ := validateFrame_checks env s j
  rw [validate_stages, f0.2.2.1]
  generalize validateChecks env s j = t0 at f0
  generalize (s.Subcatch j).area - (s.Subcatch j).lidArea = nl
  simp only [subareaTypes, List.foldl_cons, List.foldl_nil]
  obtain ⟨g1, a1⟩ := validateAlpha_fields env j nl t0 SubareaType.IMPERV0
  obtain ⟨g2, a2⟩ := validateAlpha_fields env j nl
    (validateAlpha env j nl t0 SubareaType.IMPERV0) SubareaType.IMPERV1
  obtain ⟨g3, a3⟩ := validateAlpha_fields env j nl
    (validateAlpha env j nl (validateAlpha env j nl t0 SubareaType.IMPERV0) SubareaType.IMPERV1)
    SubareaType.PERV
  have f1 := validateFrame_trans f0 g1
  have f2 := validateFrame_trans f1 g2
  rw [a3 i]
  cases i
  · rw [if_neg (by decide), a2, if_neg (by decide), a1, if_pos rfl,
      contributingArea_congr j nl s t0 _ f0, f0.2.2.2.1, f0.2.2.2.2.1, f0.2.2.2.2.2]
  · rw [if_neg (by decide), a2, if_pos rfl,
      contributingArea_congr j nl s _ _ f1, f1.2.2.2.1, f1.2.2.2.2.1, f1.2.2.2.2.2]
  · rw [if_pos rfl, contributingArea_congr j nl s _ _ f2, f2.2.2.2.1, f2.2.2.2.2.1,
      f2.2.2.2.2.2]
/-- C30: after `subcatch_validate(j)` the `alpha` of a sub-area is 0 when its
`N` is 0 or its contributing area is not positive, and
`MCOEFF * width / contributingArea * sqrt(slope) / N` when `N` and the
contributing area are positive; the contributing area of both impervious
sub-areas is `fracImperv * (area - lidArea)`, that of the pervious sub-area
`(1 - fracImperv) * (area - lidArea)`; the two impervious sub-areas have equal
`alpha` when their `N` is equal, and `alpha` is not negative for non-negative
width (`sqrt` returning no negative value). -/
theorem C30_routing_coefficient (env : Env) (s : Project) (j : Nat) :
    (∀ i, ((getSubarea s j i).N = 0 ∨
        ¬ contributingArea s j ((s.Subcatch j).area - (s.Subcatch j).lidArea) i > 0) →
      (getSubarea (subcatch_validate env s j) j i).alpha = 0) ∧
    (∀ i, (getSubarea s j i).N > 0 →
      contributingArea s j ((s.Subcatch j).area - (s.Subcatch j).lidArea) i > 0 →
      (getSubarea (subcatch_validate env s j) j i).alpha
        = MCOEFF * (s.Subcatch j).width /
            contributingArea s j ((s.Subcatch j).area - (s.Subcatch j).lidArea) i *
          env.sqrt (s.Subcatch j).slope / (getSubarea s j i).N) ∧
    (contributingArea s j ((s.Subcatch j).area - (s.Subcatch j).lidArea) SubareaType.IMPERV0
        = (s.Subcatch j).fracImperv * ((s.Subcatch j).area - (s.Subcatch j).lidArea) ∧
      contributingArea s j ((s.Subcatch j).area - (s.Subcatch j).lidArea) SubareaType.IMPERV1
        = (s.Subcatch j).fracImperv * ((s.Subcatch j).area - (s.Subcatch j).lidArea) ∧
      contributingArea s j ((s.Subcatch j).area - (s.Subcatch j).lidArea) SubareaType.PERV
        = (1 - (s.Subcatch j).fracImperv) * ((s.Subcatch j).area - (s.Subcatch j).lidArea)) ∧
    ((getSubarea s j SubareaType.IMPERV0).N = (getSubarea s j SubareaType.IMPERV1).N →
      (getSubarea (subcatch_validate env s j) j SubareaType.IMPERV0).alpha
        = (getSubarea (subcatch_validate env s j) j SubareaType.IMPERV1).alpha) ∧
    ((∀ x, 0 ≤ env.sqrt x) → 0 ≤ (s.Subcatch j).width →
      ∀ i, 0 ≤ (getSubarea (subcatch_validate env s j) j i).alpha) := by
  refine ⟨fun i h => ?_, fun i hN hA => ?_, ⟨rfl, rfl, rfl⟩, fun hN => ?_, fun hs hw i => ?_⟩
  · rw [validate_alpha, if_neg]
    rintro ⟨hA, hN⟩
    rcases h with h | h
    · rw [h] at hN
      exact lt_irrefl 0 hN
    · exact h hA
  · rw [validate_alpha, if_pos ⟨hA, hN⟩]
  · rw [validate_alpha, validate_alpha, hN]
    rfl
  · rw [validate_alpha]
    split_ifs with hc
    · have hM : (0 : ℚ) ≤ MCOEFF := by norm_num [MCOEFF]
      exact div_nonneg (mul_nonneg (div_nonneg (mul_nonneg hM hw) (le_of_lt hc.1)) (hs _))
        (le_of_lt hc.2)
    · exact le_refl 0

theorem C30_routing_coefficient_witness :
    (getSubarea (subcatch_validate basicEnv roughProject 0) 0 SubareaType.PERV).alpha
      = MCOEFF * (roughProject.Subcatch 0).width /
          contributingArea roughProject 0
            ((roughProject.Subcatch 0).area - (roughProject.Subcatch 0).lidArea)
            SubareaType.PERV *
        basicEnv.sqrt (roughProject.Subcatch 0).slope
          / (getSubarea roughProject 0 SubareaType.PERV).N :=
  (C30_routing_coefficient basicEnv roughProject 0).2.1 SubareaType.PERV
    (by norm_num [getSubarea, roughProject, zeroSubcatch, zeroSubarea])
    (by norm_num [contributingArea, roughProject, zeroSubcatch])

/-- The duration `updatePondedDepth` returns for a positive time step: the whole
step, or the part of it left once the depression storage has filled. -/
theorem updatePondedDepth_duration (env : Env) (p : Project) (sa : TSubarea) (dt : ℚ)
    (hdt : 0 < dt) :
    (updatePondedDepth env p sa dt).2.2
      = (if sa.depth + (sa.inflow - p.Losses) * dt ≤ sa.dStore then dt
         else if sa.dStore - sa.depth > 0 ∧ sa.inflow - p.Losses > 0 then
           dt - (sa.dStore - sa.depth) / (sa.inflow - p.Losses)
         else dt) := by
  unfold updatePondedDepth
  simp only []
  by_cases h : sa.depth + (sa.inflow - p.Losses) * dt ≤ sa.dStore
  · simp only [h, if_true]
  · have hgt : sa.dStore < sa.depth + (sa.inflow - p.Losses) * dt := not_le.mp h
    by_cases hf : sa.dStore - sa.depth > 0 ∧ sa.inflow - p.Losses > 0
    · obtain ⟨hdx, hix⟩ := hf
      have htx : 0 < dt - (sa.dStore - sa.depth) / (sa.inflow - p.Losses) := by
        rw [sub_pos, div_lt_iff₀ hix]
        linarith
      by_cases hα : sa.alpha > 0
      · simp only [h, hdx, hix, hα, htx, and_self, if_true, if_false, gt_iff_lt]
      · simp only [h, hdx, hix, hα, and_self, if_true, if_false, false_and,
          not_lt.mpr (le_of_lt htx)]
    · by_cases hα : sa.alpha > 0
      · simp only [h, hf, hα, hdt, and_self, if_true, if_false, gt_iff_lt]
      · simp only [h, hf, hα, if_false, false_and, not_lt.mpr (le_of_lt hdt)]

theorem updatePondedDepth_duration_bounds (env : Env) (p : Project) (sa : TSubarea) (dt : ℚ)
    (hdt : 0 < dt) :
    0 < (updatePondedDepth env p sa dt).2.2 ∧ (updatePondedDepth env p sa dt).2.2 ≤ dt := by
  rw [updatePondedDepth_duration env p sa dt hdt]
  by_cases h : sa.depth + (sa.inflow - p.Losses) * dt ≤ sa.dStore
  · rw [if_pos h]
    exact ⟨hdt, le_refl dt⟩
  · rw [if_neg h]
    have hgt : sa.dStore < sa.depth + (sa.inflow - p.Losses) * dt := not_le.mp h
    by_cases hf : sa.dStore - sa.depth > 0 ∧ sa.inflow - p.Losses > 0
    · rw [if_pos hf]
      obtain ⟨hdx, hix⟩ := hf
      refine ⟨?_, ?_⟩
      · rw [sub_pos, div_lt_iff₀ hix]
        linarith
      · have := div_pos hdx hix
        linarith
    · rw [if_neg hf]
      exact ⟨hdt, le_refl dt⟩

theorem getSubarea_setRouteTo (p : Project) (j : Nat) (i i2 : SubareaType) (r : RouteTo) :
    (getSubarea (setRouteTo p j i r) j i2).routeTo
      = (if i2 = i then r else (getSubarea p j i2).routeTo) ∧
    (getSubarea (setRouteTo p j i r) j i2).fOutlet = (getSubarea p j i2).fOutlet := by
  unfold setRouteTo
  rw [getSubarea_setSubarea]
  by_cases h : i2 = i
  · subst h
    simp
  · simp [h]

theorem getSubarea_setFOutlet (p : Project) (j : Nat) (i i2 : SubareaType) (v : ℚ) :
    (getSubarea (setFOutlet p j i v) j i2).routeTo = (getSubarea p j i2).routeTo ∧
    (getSubarea (setFOutlet p j i v) j i2).fOutlet
      = (if i2 = i then v else (getSubarea p j i2).fOutlet) := by
  unfold setFOutlet
  rw [getSubarea_setSubarea]
  by_cases h : i2 = i
  · subst h
    simp
  · simp [h]

theorem getSubarea_routeAllToOutlet (p : Project) (j : Nat) (i : SubareaType) :
    (getSubarea (routeAllToOutlet p j) j i).routeTo = RouteTo.TO_OUTLET ∧
    (getSubarea (routeAllToOutlet p j) j i).fOutlet = 1 := by
  unfold routeAllToOutlet
  simp only [subareaTypes, List.foldl_cons, List.foldl_nil]
  cases i <;>
    simp [(getSubarea_setRouteTo _ _ _ _ _).1, (getSubarea_setRouteTo _ _ _ _ _).2,
      (getSubarea_setFOutlet _ _ _ _ _).1, (getSubarea_setFOutlet _ _ _ _ _).2]

/-- The routing that `assignRouting` leaves on the sub-areas of subcatchment
`j`, in terms of the keyword `m`, the fraction routed `x6` and the impervious
fraction. -/
theorem assignRouting_result (project : Project) (j : Nat) (m : Int) (x6 : ℚ) :
    (getSubarea (assignRouting project j m x6) j SubareaType.PERV).routeTo
      = (if (if (project.Subcatch j).fracImperv = 0 ∨ (project.Subcatch j).fracImperv = 1 then
              routeToCode RouteTo.TO_OUTLET else m) = routeToCode RouteTo.TO_IMPERV ∧
            (project.Subcatch j).fracImperv ≠ 0 then RouteTo.TO_IMPERV
         else RouteTo.TO_OUTLET) ∧
    (getSubarea (assignRouting project j m x6) j SubareaType.PERV).fOutlet
      = (if (if (project.Subcatch j).fracImperv = 0 ∨ (project.Subcatch j).fracImperv = 1 then
              routeToCode RouteTo.TO_OUTLET else m) = routeToCode RouteTo.TO_IMPERV ∧
            (project.Subcatch j).fracImperv ≠ 0 then 1 - x6
         else 1) ∧
    (∀ i, i ≠ SubareaType.PERV →
      (getSubarea (assignRouting project j m x6) j i).routeTo
        = (if (if (project.Subcatch j).fracImperv = 0 ∨ (project.Subcatch j).fracImperv = 1 then
                routeToCode RouteTo.TO_OUTLET else m) = routeToCode RouteTo.TO_PERV then
            RouteTo.TO_PERV
           else RouteTo.TO_OUTLET) ∧
      (getSubarea (assignRouting project j m x6) j i).fOutlet
        = (if (if (project.Subcatch j).fracImperv = 0 ∨ (project.Subcatch j).fracImperv = 1 then
                routeToCode RouteTo.TO_OUTLET else m) = routeToCode RouteTo.TO_PERV then
            1 - x6
           else 1)) := by
  rw [assignRouting_eq, (areaFrame_routeAllToOutlet j project).1]
  generalize (if (project.Subcatch j).fracImperv = 0 ∨ (project.Subcatch j).fracImperv = 1 then
      routeToCode RouteTo.TO_OUTLET else m) = k
  by_cases c1 : k = routeToCode RouteTo.TO_PERV <;>
    by_cases c2 : k = routeToCode RouteTo.TO_IMPERV ∧ (project.Subcatch j).fracImperv ≠ 0
  · rw [if_pos c1, if_pos c2, if_pos c2, if_pos c2, if_pos c1, if_pos c1]
    refine ⟨?_, ?_, fun i hi => ?_⟩
    · simp [(getSubarea_setRouteTo _ _ _ _ _).1, (getSubarea_setFOutlet _ _ _ _ _).1]
    · simp [(getSubarea_setRouteTo _ _ _ _ _).2, (getSubarea_setFOutlet _ _ _ _ _).2]
    · cases i <;>
        simp [(getSubarea_setRouteTo _ _ _ _ _).1, (getSubarea_setFOutlet _ _ _ _ _).1,
          (getSubarea_setRouteTo _ _ _ _ _).2, (getSubarea_setFOutlet _ _ _ _ _).2] at hi ⊢
  · rw [if_pos c1, if_neg c2, if_neg c2, if_neg c2, if_pos c1, if_pos c1]
    refine ⟨?_, ?_, fun i hi => ?_⟩
    · simp [(getSubarea_setRouteTo _ _ _ _ _).1, (getSubarea_setFOutlet _ _ _ _ _).1,
        (getSubarea_routeAllToOutlet _ _ _).1]
    · simp [(getSubarea_setRouteTo _ _ _ _ _).2, (getSubarea_setFOutlet _ _ _ _ _).2,
        (getSubarea_routeAllToOutlet _ _ _).2]
    · cases i <;>
        simp [(getSubarea_setRouteTo _ _ _ _ _).1, (getSubarea_setFOutlet _ _ _ _ _).1,
          (getSubarea_setRouteTo _ _ _ _ _).2, (getSubarea_setFOutlet _ _ _ _ _).2] at hi ⊢
  · rw [if_neg c1, if_pos c2, if_pos c2, if_pos c2, if_neg c1, if_neg c1]
    refine ⟨?_, ?_, fun i hi => ?_⟩
    · simp [(getSubarea_setRouteTo _ _ _ _ _).1, (getSubarea_setFOutlet _ _ _ _ _).1]
    · simp [(getSubarea_setRouteTo _ _ _ _ _).2, (getSubarea_setFOutlet _ _ _ _ _).2]
    · cases i <;>
        simp [(getSubarea_setRouteTo _ _ _ _ _).1, (getSubarea_setFOutlet _ _ _ _ _).1,
          (getSubarea_setRouteTo _ _ _ _ _).2, (getSubarea_setFOutlet _ _ _ _ _).2,
          (getSubarea_routeAllToOutlet _ _ _).1, (getSubarea_routeAllToOutlet _ _ _).2] at hi ⊢
  · rw [if_neg c1, if_neg c2, if_neg c2, if_neg c2, if_neg c1, if_neg c1]
    exact ⟨(getSubarea_routeAllToOutlet _ _ _).1, (getSubarea_routeAllToOutlet _ _ _).2,
      fun i _ => getSubarea_routeAllToOutlet _ _ _⟩
theorem readSubareaParams_eq (env : Env) (project : Project) (tok : Nat → String)
    (ntoks : Int) :
    subcatch_readSubareaParams env project tok ntoks
      = if ntoks < 7 then Except.error ⟨ErrorCode.ERR_ITEMS, ""⟩
        else
          if env.project_findObject project ObjectType.SUBCATCH (tok 0) < 0 then
            Except.error ⟨ErrorCode.ERR_NAME, tok 0⟩
          else
            match readSubareaValues env tok with
            | Except.error e => Except.error e
            | Except.ok x =>
              if env.findmatch (tok 6) (RunoffRoutingWords env) < 0 then
                Except.error ⟨ErrorCode.ERR_KEYWORD, tok 6⟩
              else
                match (if ntoks ≥ 8 then
                    match env.getDouble (tok 7) with
                    | none => Except.error ⟨ErrorCode.ERR_NUMBER, tok 7⟩
                    | some v =>
                      if v < 0 ∨ v > 100 then Except.error ⟨ErrorCode.ERR_NUMBER, tok 7⟩
                      else Except.ok (v / 100)
                  else Except.ok 1 : Except InpError ℚ) with
                | Except.error e => Except.error e
                | Except.ok x6 =>
                  Except.ok (assignSubareaParams env project
                    (env.project_findObject project ObjectType.SUBCATCH (tok 0)).toNat x
                    (env.findmatch (tok 6) (RunoffRoutingWords env)) x6) := rfl

/-- A percent-routed token outside [0, 100] makes `subcatch_readSubareaParams`
fail, with a number error once the earlier tokens have been accepted. -/
theorem readSubareaParams_rejects (env : Env) (project : Project) (tok : Nat → String)
    (ntoks : Int) (v : ℚ) (hn : ntoks ≥ 8) (hv : env.getDouble (tok 7) = some v)
    (hr : v < 0 ∨ v > 100) :
    (∀ p2, subcatch_readSubareaParams env project tok ntoks ≠ Except.ok p2) ∧
    (∀ x, 0 ≤ env.project_findObject project ObjectType.SUBCATCH (tok 0) →
      readSubareaValues env tok = Except.ok x →
      0 ≤ env.findmatch (tok 6) (RunoffRoutingWords env) →
      subcatch_readSubareaParams env project tok ntoks
        = Except.error ⟨ErrorCode.ERR_NUMBER, tok 7⟩) := by
  have h7 : ¬ ntoks < 7 := by omega
  rw [readSubareaParams_eq, if_neg h7, if_pos hn, hv]
  simp only [if_pos hr]
  refine ⟨fun p2 => ?_, fun x hj hx hm => ?_⟩
  · by_cases h2 : env.project_findObject project ObjectType.SUBCATCH (tok 0) < 0
    · rw [if_pos h2]
      exact fun h => by cases h
    · rw [if_neg h2]
      cases readSubareaValues env tok with
      | error e => exact fun h => by cases h
      | ok x =>
        simp only []
        by_cases h3 : env.findmatch (tok 6) (RunoffRoutingWords env) < 0
        · rw [if_pos h3]
          exact fun h => by cases h
        · rw [if_neg h3]
          exact fun h => by cases h
  · rw [if_neg (not_lt.mpr hj), hx]
    simp only []
    rw [if_neg (not_lt.mpr hm)]
/-- The routing that a successful `subcatch_readSubareaParams` leaves on the
sub-areas of the subcatchment: one keyword code `k` decides it. -/
theorem readSubareaParams_routing (env : Env) (project project2 : Project)
    (tok : Nat → String) (ntoks : Int)
    (h : subcatch_readSubareaParams env project tok ntoks = Except.ok project2) :
    ∃ (k : Int) (x6 : ℚ),
      (((project.Subcatch (env.project_findObject project ObjectType.SUBCATCH
          (tok 0)).toNat).fracImperv = 0 ∨
        (project.Subcatch (env.project_findObject project ObjectType.SUBCATCH
          (tok 0)).toNat).fracImperv = 1) → k = routeToCode RouteTo.TO_OUTLET) ∧
      (getSubarea project2 (env.project_findObject project ObjectType.SUBCATCH (tok 0)).toNat
          SubareaType.PERV).routeTo
        = (if k = routeToCode RouteTo.TO_IMPERV ∧
              (project.Subcatch (env.project_findObject project ObjectType.SUBCATCH
                (tok 0)).toNat).fracImperv ≠ 0 then RouteTo.TO_IMPERV
           else RouteTo.TO_OUTLET) ∧
      (getSubarea project2 (env.project_findObject project ObjectType.SUBCATCH (tok 0)).toNat
          SubareaType.PERV).fOutlet
        = (if k = routeToCode RouteTo.TO_IMPERV ∧
              (project.Subcatch (env.project_findObject project ObjectType.SUBCATCH
                (tok 0)).toNat).fracImperv ≠ 0 then 1 - x6
           else 1) ∧
      (∀ i, i ≠ SubareaType.PERV →
        (getSubarea project2 (env.project_findObject project ObjectType.SUBCATCH (tok 0)).toNat
            i).routeTo
          = (if k = routeToCode RouteTo.TO_PERV then RouteTo.TO_PERV else RouteTo.TO_OUTLET) ∧
        (getSubarea project2 (env.project_findObject project ObjectType.SUBCATCH (tok 0)).toNat
            i).fOutlet
          = (if k = routeToCode RouteTo.TO_PERV then 1 - x6 else 1)) := by
  obtain ⟨x, m, x6, _, hp⟩ := readSubareaParams_routed env project project2 tok ntoks h
  have hF : ((assignAreas (assignStorage env project
      (env.project_findObject project ObjectType.SUBCATCH (tok 0)).toNat x)
      (env.project_findObject project ObjectType.SUBCATCH (tok 0)).toNat x).Subcatch
      (env.project_findObject project ObjectType.SUBCATCH (tok 0)).toNat).fracImperv
      = (project.Subcatch
          (env.project_findObject project ObjectType.SUBCATCH (tok 0)).toNat).fracImperv := by
    rw [(assignAreas_fArea _ _ _).1, assignStorage_fracImperv]
  have hR := assignRouting_result (assignAreas (assignStorage env project
    (env.project_findObject project ObjectType.SUBCATCH (tok 0)).toNat x)
    (env.project_findObject project ObjectType.SUBCATCH (tok 0)).toNat x)
    (env.project_findObject project ObjectType.SUBCATCH (tok 0)).toNat m x6
  rw [hF, ← assignSubareaParams_stages, ← hp] at hR
  refine ⟨_, x6, fun h0 => ?_, hR.1, hR.2.1, hR.2.2⟩
  rw [if_pos h0]

/-- C31: after a successful `subcatch_readSubareaParams` call for subcatchment
`j` it is not the case that an impervious sub-area is routed to pervious and the
pervious sub-area is routed to impervious; so in `subcatch_getRunon(j)` the
impervious-to-pervious block or the pervious-to-impervious block leaves the
project as it finds it. -/
theorem C31_rerouting_exclusive (env : Env) (project project2 : Project) (tok : Nat → String)
    (ntoks : Int)
    (h : subcatch_readSubareaParams env project tok ntoks = Except.ok project2) :
    ¬ (((getSubarea project2 (env.project_findObject project ObjectType.SUBCATCH (tok 0)).toNat
            SubareaType.IMPERV0).routeTo = RouteTo.TO_PERV ∨
          (getSubarea project2 (env.project_findObject project ObjectType.SUBCATCH (tok 0)).toNat
            SubareaType.IMPERV1).routeTo = RouteTo.TO_PERV) ∧
        (getSubarea project2 (env.project_findObject project ObjectType.SUBCATCH (tok 0)).toNat
          SubareaType.PERV).routeTo = RouteTo.TO_IMPERV) ∧
    (∀ env2 : Env,
      runonImpervToPerv
          (runonToOutlet env2 project2
            (env.project_findObject project ObjectType.SUBCATCH (tok 0)).toNat)
          (env.project_findObject project ObjectType.SUBCATCH (tok 0)).toNat
        = runonToOutlet env2 project2
            (env.project_findObject project ObjectType.SUBCATCH (tok 0)).toNat ∨
      runonPervToImperv
          (runonImpervToPerv
            (runonToOutlet env2 project2
              (env.project_findObject project ObjectType.SUBCATCH (tok 0)).toNat)
            (env.project_findObject project ObjectType.SUBCATCH (tok 0)).toNat)
          (env.project_findObject project ObjectType.SUBCATCH (tok 0)).toNat
        = runonImpervToPerv
            (runonToOutlet env2 project2
              (env.project_findObject project ObjectType.SUBCATCH (tok 0)).toNat)
            (env.project_findObject project ObjectType.SUBCATCH (tok 0)).toNat) := by
  obtain ⟨k, x6, _, hP, _, hI⟩ := readSubareaParams_routing env project project2 tok ntoks h
  generalize (env.project_findObject project ObjectType.SUBCATCH (tok 0)).toNat = j at hP hI ⊢
  have hEx : ¬ (((getSubarea project2 j SubareaType.IMPERV0).routeTo = RouteTo.TO_PERV ∨
      (getSubarea project2 j SubareaType.IMPERV1).routeTo = RouteTo.TO_PERV) ∧
      (getSubarea project2 j SubareaType.PERV).routeTo = RouteTo.TO_IMPERV) := by
    rintro ⟨hi, hp⟩
    have hk2 : k = routeToCode RouteTo.TO_PERV := by
      by_contra hne
      rcases hi with hi | hi
      · rw [(hI SubareaType.IMPERV0 (by decide)).1, if_neg hne] at hi
        cases hi
      · rw [(hI SubareaType.IMPERV1 (by decide)).1, if_neg hne] at hi
        cases hi
    have hk1 : k = routeToCode RouteTo.TO_IMPERV := by
      by_contra hne
      rw [hP, if_neg (fun c => hne c.1)] at hp
      cases hp
    rw [hk2] at hk1
    simp [routeToCode] at hk1
  refine ⟨hEx, fun env2 => ?_⟩
  have f1 := routerFrame_runonToOutlet env2 project2 j
  have f2 := routerFrame_trans f1 (routerFrame_runonImpervToPerv _ j)
  by_cases hi : (getSubarea project2 j SubareaType.IMPERV0).routeTo = RouteTo.TO_PERV
  · right
    rw [runonPervToImperv_eq, if_neg]
    rintro ⟨_, hp, _⟩
    rw [((f2.2 j).2.2.2.2.2.2.2.2.2 SubareaType.PERV).1] at hp
    exact hEx ⟨Or.inl hi, hp⟩
  · left
    rw [runonImpervToPerv_eq, if_neg]
    rintro ⟨_, hr⟩
    rw [((f1.2 j).2.2.2.2.2.2.2.2.2 SubareaType.IMPERV0).1] at hr
    exact hi hr

theorem C31_rerouting_exclusive_witness :
    ¬ (((getSubarea
            (assignSubareaParams basicEnv imperviousProject 0
              (Function.update (Function.update (Function.update (Function.update
                (Function.update (fun _ => 0) 0 50) 1 50) 2 50) 3 50) 4 50) 0 1)
            (basicEnv.project_findObject imperviousProject ObjectType.SUBCATCH "").toNat
            SubareaType.IMPERV0).routeTo = RouteTo.TO_PERV ∨
          (getSubarea
            (assignSubareaParams basicEnv imperviousProject 0
              (Function.update (Function.update (Function.update (Function.update
                (Function.update (fun _ => 0) 0 50) 1 50) 2 50) 3 50) 4 50) 0 1)
            (basicEnv.project_findObject imperviousProject ObjectType.SUBCATCH "").toNat
            SubareaType.IMPERV1).routeTo = RouteTo.TO_PERV) ∧
        (getSubarea
          (assignSubareaParams basicEnv imperviousProject 0
            (Function.update (Function.update (Function.update (Function.update
              (Function.update (fun _ => 0) 0 50) 1 50) 2 50) 3 50) 4 50) 0 1)
          (basicEnv.project_findObject imperviousProject ObjectType.SUBCATCH "").toNat
          SubareaType.PERV).routeTo = RouteTo.TO_IMPERV) :=
  (C31_rerouting_exclusive basicEnv imperviousProject
    (assignSubareaParams basicEnv imperviousProject 0
      (Function.update (Function.update (Function.update (Function.update
        (Function.update (fun _ => 0) 0 50) 1 50) 2 50) 3 50) 4 50) 0 1)
    (fun _ => "") 7
    (by
      have h50 : ¬ ((50 : ℚ) < 0) := by norm_num
      simp [subcatch_readSubareaParams, basicEnv, List.range_succ, List.range_zero, h50])).1
/-- C34: after a successful `subcatch_readSubareaParams` call every sub-area of
the subcatchment has `fOutlet` in [0, 1], and when the impervious fraction is
exactly 0 or exactly 1 all three sub-areas are routed to the outlet with
`fOutlet = 1`, whatever the routing keyword and the percent routed; a
percent-routed token read as a number outside [0, 100] makes the call fail, with
the number error for that token once the earlier tokens have been accepted. -/
theorem C34_outlet_fraction_range (env : Env) (project : Project) (tok : Nat → String)
    (ntoks : Int) :
    (∀ project2, subcatch_readSubareaParams env project tok ntoks = Except.ok project2 →
      (∀ i,
        0 ≤ (getSubarea project2
            (env.project_findObject project ObjectType.SUBCATCH (tok 0)).toNat i).fOutlet ∧
        (getSubarea project2
            (env.project_findObject project ObjectType.SUBCATCH (tok 0)).toNat i).fOutlet ≤ 1) ∧
      (((project.Subcatch (env.project_findObject project ObjectType.SUBCATCH
            (tok 0)).toNat).fracImperv = 0 ∨
          (project.Subcatch (env.project_findObject project ObjectType.SUBCATCH
            (tok 0)).toNat).fracImperv = 1) →
        ∀ i,
          (getSubarea project2
              (env.project_findObject project ObjectType.SUBCATCH (tok 0)).toNat i).routeTo
            = RouteTo.TO_OUTLET ∧
          (getSubarea project2
              (env.project_findObject project ObjectType.SUBCATCH (tok 0)).toNat i).fOutlet
            = 1)) ∧
    (∀ v, ntoks ≥ 8 → env.getDouble (tok 7) = some v → (v < 0 ∨ v > 100) →
      (∀ project2, subcatch_readSubareaParams env project tok ntoks ≠ Except.ok project2) ∧
      (∀ x, 0 ≤ env.project_findObject project ObjectType.SUBCATCH (tok 0) →
        readSubareaValues env tok = Except.ok x →
        0 ≤ env.findmatch (tok 6) (RunoffRoutingWords env) →
        subcatch_readSubareaParams env project tok ntoks
          = Except.error ⟨ErrorCode.ERR_NUMBER, tok 7⟩)) := by
  refine ⟨fun project2 h => ⟨fun i => readSubareaParams_fOutlet env project project2 tok ntoks h i,
    fun h0 i => ?_⟩, fun v hn hv hr => readSubareaParams_rejects env project tok ntoks v hn hv hr⟩
  obtain ⟨k, x6, hk, hP1, hP2, hI⟩ := readSubareaParams_routing env project project2 tok ntoks h
  have hk0 := hk h0
  have h1 : ¬ (k = routeToCode RouteTo.TO_IMPERV ∧
      (project.Subcatch (env.project_findObject project ObjectType.SUBCATCH
        (tok 0)).toNat).fracImperv ≠ 0) := by
    rintro ⟨c, _⟩
    rw [hk0] at c
    simp [routeToCode] at c
  have h2 : ¬ (k = routeToCode RouteTo.TO_PERV) := by
    intro c
    rw [hk0] at c
    simp [routeToCode] at c
  by_cases hi : i = SubareaType.PERV
  · rw [hi, hP1, hP2, if_neg h1, if_neg h1]
    exact ⟨rfl, rfl⟩
  · rw [(hI i hi).1, (hI i hi).2, if_neg h2, if_neg h2]
    exact ⟨rfl, rfl⟩

theorem C34_outlet_fraction_range_witness :
    (∀ i,
      (getSubarea
          (assignSubareaParams basicEnv zeroProject 0
            (Function.update (Function.update (Function.update (Function.update
              (Function.update (fun _ => 0) 0 50) 1 50) 2 50) 3 50) 4 50) 0 1)
          (basicEnv.project_findObject zeroProject ObjectType.SUBCATCH "").toNat i).routeTo
        = RouteTo.TO_OUTLET ∧
      (getSubarea
          (assignSubareaParams basicEnv zeroProject 0
            (Function.update (Function.update (Function.update (Function.update
              (Function.update (fun _ => 0) 0 50) 1 50) 2 50) 3 50) 4 50) 0 1)
          (basicEnv.project_findObject zeroProject ObjectType.SUBCATCH "").toNat i).fOutlet
        = 1) ∧
    subcatch_readSubareaParams overflowEnv zeroProject (fun _ => "") 8
      = Except.error ⟨ErrorCode.ERR_NUMBER, ""⟩ :=
  ⟨((C34_outlet_fraction_range basicEnv zeroProject (fun _ => "") 7).1
      (assignSubareaParams basicEnv zeroProject 0
        (Function.update (Function.update (Function.update (Function.update
          (Function.update (fun _ => 0) 0 50) 1 50) 2 50) 3 50) 4 50) 0 1)
      (by
        have h50 : ¬ ((50 : ℚ) < 0) := by norm_num
        simp [subcatch_readSubareaParams, basicEnv, List.range_succ, List.range_zero, h50])).2
      (Or.inl (by simp [zeroProject, zeroSubcatch])),
   ((C34_outlet_fraction_range overflowEnv zeroProject (fun _ => "") 8).2 150 (by norm_num)
      (by simp [overflowEnv]) (Or.inr (by norm_num))).2
      (Function.update (Function.update (Function.update (Function.update
        (Function.update (fun _ => 0) 0 150) 1 150) 2 150) 3 150) 4 150)
      (by simp [overflowEnv, basicEnv])
      (by
        have h150 : ¬ ((150 : ℚ) < 0) := by norm_num
        simp [readSubareaValues, overflowEnv, List.range_succ, List.range_zero, h150])
      (by simp [overflowEnv, basicEnv])⟩

theorem othersFrame_refl (j : Nat) (i : SubareaType) (s : Project) : OthersFrame j i s s :=
  ⟨rfl, rfl, fun _ _ => rfl⟩

theorem othersFrame_trans {j : Nat} {i : SubareaType} {a b c : Project}
    (h1 : OthersFrame j i a b) (h2 : OthersFrame j i b c) : OthersFrame j i a c := by
  unfold OthersFrame at h1 h2 ⊢
  refine ⟨?_, ?_, fun i2 hi => ?_⟩
  · rw [h2.1, h1.1]
  · rw [h2.2.1, h1.2.1]
  · rw [h2.2.2 i2 hi, h1.2.2 i2 hi]

theorem othersFrame_setSubarea (j : Nat) (i : SubareaType) (p : Project) (sa : TSubarea) :
    OthersFrame j i p (setSubarea p j i sa) := by
  refine ⟨?_, ?_, fun i2 hi => ?_⟩
  · simp [setSubarea]
  · simp [setSubarea]
  · rw [getSubarea_setSubarea, if_neg hi]

theorem othersFrame_of_Subcatch (j : Nat) (i : SubareaType) (p t : Project)
    (h : t.Subcatch = p.Subcatch) : OthersFrame j i p t := by
  unfold OthersFrame getSubarea
  rw [h]
  exact ⟨rfl, rfl, fun _ _ => rfl⟩

theorem othersFrame_subareaInit (j : Nat) (i : SubareaType) (p : Project) :
    OthersFrame j i p (subareaInit p j i) :=
  othersFrame_trans (othersFrame_setSubarea j i p _) (othersFrame_of_Subcatch j i _ _ rfl)

theorem shapeFrame_getNetPrecip (env : Env) (j : Nat) (p : Project) (tStep : ℚ) :
    ShapeFrame j p (getNetPrecip env p j tStep).1 := by
  unfold getNetPrecip
  simp only []
  split <;> simp [ShapeFrame, setSubcatch, getSubarea]

theorem runoffLid_no_lid (env : Env) (j : Nat) (tStep : ℚ) (sums : RunoffSums)
    (h : (sums.project.Subcatch j).lidArea = 0) : runoffLid env j tStep sums = sums := by
  unfold runoffLid
  rw [if_neg]
  rw [h]
  exact lt_irrefl 0

theorem shapeFrame_runoffGwater (env : Env) (j : Nat) (tStep : ℚ) (sums : RunoffSums) :
    ShapeFrame j sums.project (runoffGwater env j tStep sums) := by
  unfold runoffGwater
  split <;> simp [ShapeFrame, setSubcatch, getSubarea]

theorem runoffFinish_stores (p : Project) (j : Nat) (tStep : ℚ) (sums : RunoffSums) :
    ((runoffFinish p j tStep sums).1.Subcatch j).newRunoff = sums.outflow ∧
    (runoffFinish p j tStep sums).2 = sums.runoff / (p.Subcatch j).area ∧
    ∀ i, getSubarea (runoffFinish p j tStep sums).1 j i = getSubarea p j i := by
  unfold runoffFinish
  simp [setSubcatch, stats_updateSubcatchStats, massbal_updateRunoffTotals, getSubarea]

/-- A successful `subcatch_readSubareaParams` gives both impervious sub-areas the
same routing and the same outlet fraction, and does not route the pervious
sub-area to impervious when the impervious ones are routed to pervious. -/
theorem readSubareaParams_configured (env : Env) (project project2 : Project)
    (tok : Nat → String) (ntoks : Int)
    (h : subcatch_readSubareaParams env project tok ntoks = Except.ok project2) :
    (getSubarea project2 (env.project_findObject project ObjectType.SUBCATCH (tok 0)).toNat
        SubareaType.IMPERV0).fOutlet
      = (getSubarea project2 (env.project_findObject project ObjectType.SUBCATCH (tok 0)).toNat
          SubareaType.IMPERV1).fOutlet ∧
    (getSubarea project2 (env.project_findObject project ObjectType.SUBCATCH (tok 0)).toNat
        SubareaType.IMPERV0).routeTo
      = (getSubarea project2 (env.project_findObject project ObjectType.SUBCATCH (tok 0)).toNat
          SubareaType.IMPERV1).routeTo ∧
    ((getSubarea project2 (env.project_findObject project ObjectType.SUBCATCH (tok 0)).toNat
        SubareaType.IMPERV0).routeTo = RouteTo.TO_PERV →
      (getSubarea project2 (env.project_findObject project ObjectType.SUBCATCH (tok 0)).toNat
        SubareaType.PERV).routeTo ≠ RouteTo.TO_IMPERV) := by
  obtain ⟨k, x6, _, hP, _, hI⟩ := readSubareaParams_routing env project project2 tok ntoks h
  generalize (env.project_findObject project ObjectType.SUBCATCH (tok 0)).toNat = j at hP hI ⊢
  refine ⟨?_, ?_, fun h0 hp => ?_⟩
  · rw [(hI SubareaType.IMPERV0 (by decide)).2, (hI SubareaType.IMPERV1 (by decide)).2]
  · rw [(hI SubareaType.IMPERV0 (by decide)).1, (hI SubareaType.IMPERV1 (by decide)).1]
  · have hk2 : k = routeToCode RouteTo.TO_PERV := by
      by_contra hne
      rw [(hI SubareaType.IMPERV0 (by decide)).1, if_neg hne] at h0
      exact absurd h0 (by decide)
    have hk1 : k = routeToCode RouteTo.TO_IMPERV := by
      by_contra hne
      rw [hP, if_neg (fun c => hne c.1)] at hp
      exact absurd hp (by decide)
    rw [hk2] at hk1
    simp [routeToCode] at hk1

theorem runoffSubarea_no_area (env : Env) (j : Nat) (tStep : ℚ) (np : SubareaType → ℚ)
    (er : ℚ) (sums : RunoffSums) (i : SubareaType)
    (h : (sums.project.Subcatch j).area - (sums.project.Subcatch j).lidArea = 0) :
    runoffSubarea env j tStep np er sums i = sums := by
  unfold runoffSubarea
  simp only []
  rw [h, zero_mul, if_neg (lt_irrefl 0)]

theorem runoffLoop_no_area (env : Env) (j : Nat) (tStep : ℚ) (np : SubareaType → ℚ)
    (er : ℚ) (S0 : RunoffSums)
    (h : (S0.project.Subcatch j).area - (S0.project.Subcatch j).lidArea = 0) :
    subareaTypes.foldl (runoffSubarea env j tStep np er) S0 = S0 := by
  simp only [subareaTypes, List.foldl_cons, List.foldl_nil]
  rw [runoffSubarea_no_area _ _ _ _ _ _ _ h, runoffSubarea_no_area _ _ _ _ _ _ _ h,
    runoffSubarea_no_area _ _ _ _ _ _ _ h]

/-- For a subcatchment of zero area without LID area `subcatch_getRunoff`
processes no sub-area and stores a new runoff of 0. -/
theorem getRunoff_zero_area (env : Env) (s : Project) (j : Nat) (tStep : ℚ)
    (hA : (s.Subcatch j).area = 0) (hL : (s.Subcatch j).lidArea = 0) :
    ((subcatch_getRunoff env s j tStep).1.Subcatch j).newRunoff = 0 := by
  obtain ⟨a0, l0, _⟩ := shapeFrame_getNetPrecip env j
    { s with Vponded := subcatch_getDepth env s j * (s.Subcatch j).area } tStep
  have a0b : ((getNetPrecip env
      { s with Vponded := subcatch_getDepth env s j * (s.Subcatch j).area } j tStep).1.Subcatch
        j).area = 0 := a0.trans hA
  have l0b : ((getNetPrecip env
      { s with Vponded := subcatch_getDepth env s j * (s.Subcatch j).area } j tStep).1.Subcatch
        j).lidArea = 0 := l0.trans hL
  have hS : runoffSubareas env s j tStep
      = { project := (getNetPrecip env
            { s with Vponded := subcatch_getDepth env s j * (s.Subcatch j).area } j tStep).1,
          runoff := 0, rainVol := 0, outflow := 0, evapVol := 0, infilVol := 0,
          pervEvapVol := 0 } :=
    runoffLoop_no_area env j tStep _ _ _ (sub_eq_zero.mpr (a0b.trans l0b.symm))
  rw [getRunoff_stages, runoffLid_no_lid env j tStep _ (by rw [hS]; exact l0b),
    (runoffFinish_stores _ j tStep _).1, hS]

theorem roundHalfEven_intCast (n : ℤ) : roundHalfEven (n : ℚ) = n := by
  unfold roundHalfEven
  simp

theorem roundHalfEven_bounds (q : ℚ) :
    ⌊q⌋ ≤ roundHalfEven q ∧ roundHalfEven q ≤ ⌊q⌋ + 1 := by
  unfold roundHalfEven
  split_ifs <;> constructor <;> omega

theorem roundHalfEven_mono {x y : ℚ} (h : x ≤ y) : roundHalfEven x ≤ roundHalfEven y := by
  have hf : ⌊x⌋ ≤ ⌊y⌋ := Int.floor_mono h
  rcases lt_or_eq_of_le hf with hlt | heq
  · have h1 := (roundHalfEven_bounds x).2
    have h2 := (roundHalfEven_bounds y).1
    omega
  · unfold roundHalfEven
    rw [heq]
    split_ifs <;> first | omega | (exfalso; linarith)

theorem roundHalfEven_near (q : ℚ) (m : ℤ) (h1 : -(1 / 2) < q - m) (h2 : q - m < 1 / 2) :
    roundHalfEven q = m := by
  rcases le_or_lt (m : ℚ) q with hq | hq
  · have hf : ⌊q⌋ = m := by
      rw [Int.floor_eq_iff]
      constructor
      · exact hq
      · linarith
    unfold roundHalfEven
    rw [hf, if_pos h2]
  · have hf : ⌊q⌋ = m - 1 := by
      rw [Int.floor_eq_iff]
      push_cast
      constructor
      · linarith
      · linarith
    unfold roundHalfEven
    rw [hf]
    push_cast
    rw [if_neg (by linarith), if_pos (by linarith)]
    ring

theorem two_zpow_pos (n : ℤ) : (0 : ℚ) < 2 ^ n := zpow_pos (by norm_num) n

theorem log_bounds (x : ℚ) (hx : 0 < x) :
    (2 : ℚ) ^ Int.log 2 x ≤ x ∧ x < 2 ^ (Int.log 2 x + 1) := by
  have h1 := @Int.zpow_log_le_self ℚ _ _ 2 x (by norm_num) hx
  have h2 := @Int.lt_zpow_succ_log_self ℚ _ _ 2 (by norm_num) x
  simp only [Nat.cast_ofNat] at h1 h2
  exact ⟨h1, h2⟩

theorem log_eq_of_bounds (x : ℚ) (e : ℤ) (h1 : (2 : ℚ) ^ e ≤ x) (h2 : x < 2 ^ (e + 1)) :
    Int.log 2 x = e := by
  have hx : 0 < x := lt_of_lt_of_le (two_zpow_pos e) h1
  have a := (@Int.zpow_le_iff_le_log ℚ _ _ 2 (by norm_num) e x hx).mp
    (by simpa using h1)
  have b := (@Int.lt_zpow_iff_log_lt ℚ _ _ 2 (by norm_num) (e + 1) x hx).mp
    (by simpa using h2)
  omega

theorem scaled_bounds (x : ℚ) (hx : 0 < x) :
    (2 : ℚ) ^ (52 : ℤ) ≤ x * 2 ^ (52 - Int.log 2 x) ∧
    x * 2 ^ (52 - Int.log 2 x) < 2 ^ (53 : ℤ) := by
  obtain ⟨h1, h2⟩ := log_bounds x hx
  have hc := two_zpow_pos (52 - Int.log 2 x)
  have e1 : (2 : ℚ) ^ (52 : ℤ) = 2 ^ Int.log 2 x * 2 ^ (52 - Int.log 2 x) := by
    rw [← zpow_add₀ (by norm_num : (2 : ℚ) ≠ 0)]
    congr 1
    ring
  have e2 : (2 : ℚ) ^ (53 : ℤ) = 2 ^ (Int.log 2 x + 1) * 2 ^ (52 - Int.log 2 x) := by
    rw [← zpow_add₀ (by norm_num : (2 : ℚ) ≠ 0)]
    congr 1
    ring
  rw [e1, e2]
  exact ⟨mul_le_mul_of_nonneg_right h1 (le_of_lt hc), mul_lt_mul_of_pos_right h2 hc⟩

theorem roundHalfEven_scaled (x : ℚ) (hx : 0 < x) :
    (2 : ℤ) ^ 52 ≤ roundHalfEven (x * 2 ^ (52 - Int.log 2 x)) ∧
    roundHalfEven (x * 2 ^ (52 - Int.log 2 x)) ≤ (2 : ℤ) ^ 53 := by
  obtain ⟨h1, h2⟩ := scaled_bounds x hx
  have a := roundHalfEven_mono (x := (((2 : ℤ) ^ 52 : ℤ) : ℚ)) (by push_cast; exact_mod_cast h1)
  have b := roundHalfEven_mono (y := (((2 : ℤ) ^ 53 : ℤ) : ℚ))
    (by push_cast; exact_mod_cast le_of_lt h2)
  rw [roundHalfEven_intCast] at a b
  exact ⟨a, b⟩

theorem roundPos_bounds (x : ℚ) (hx : 0 < x) :
    (2 : ℚ) ^ Int.log 2 x ≤ roundPos x ∧ roundPos x ≤ 2 ^ (Int.log 2 x + 1) := by
  obtain ⟨h1, h2⟩ := roundHalfEven_scaled x hx
  have hc := two_zpow_pos (52 - Int.log 2 x)
  have a : ((2 : ℚ) ^ (52 : ℤ)) ≤ (roundHalfEven (x * 2 ^ (52 - Int.log 2 x)) : ℚ) := by
    exact_mod_cast h1
  have b : (roundHalfEven (x * 2 ^ (52 - Int.log 2 x)) : ℚ) ≤ (2 : ℚ) ^ (53 : ℤ) := by
    exact_mod_cast h2
  have e1 : (2 : ℚ) ^ (52 : ℤ) = 2 ^ Int.log 2 x * 2 ^ (52 - Int.log 2 x) := by
    rw [← zpow_add₀ (by norm_num : (2 : ℚ) ≠ 0)]
    congr 1
    ring
  have e2 : (2 : ℚ) ^ (53 : ℤ) = 2 ^ (Int.log 2 x + 1) * 2 ^ (52 - Int.log 2 x) := by
    rw [← zpow_add₀ (by norm_num : (2 : ℚ) ≠ 0)]
    congr 1
    ring
  unfold roundPos
  constructor
  · rw [le_div_iff₀ hc, ← e1]
    exact a
  · rw [div_le_iff₀ hc, ← e2]
    exact b

theorem roundPos_pos (x : ℚ) (hx : 0 < x) : 0 < roundPos x :=
  lt_of_lt_of_le (two_zpow_pos _) (roundPos_bounds x hx).1

theorem roundPos_mono {x y : ℚ} (hx : 0 < x) (h : x ≤ y) : roundPos x ≤ roundPos y := by
  have hy : 0 < y := lt_of_lt_of_le hx h
  have hl : Int.log 2 x ≤ Int.log 2 y := Int.log_mono_right hx h
  rcases lt_or_eq_of_le hl with hlt | heq
  · calc roundPos x ≤ 2 ^ (Int.log 2 x + 1) := (roundPos_bounds x hx).2
      _ ≤ 2 ^ Int.log 2 y := zpow_le_zpow_right₀ (by norm_num) (by omega)
      _ ≤ roundPos y := (roundPos_bounds y hy).1
  · unfold roundPos
    rw [heq]
    have hc := two_zpow_pos (52 - Int.log 2 y)
    apply div_le_div_of_nonneg_right _ (le_of_lt hc)
    exact_mod_cast roundHalfEven_mono (mul_le_mul_of_nonneg_right h (le_of_lt hc))

theorem roundPos_eq (x : ℚ) (m s : ℤ) (h1 : (2 : ℚ) ^ (52 : ℤ) ≤ x * 2 ^ s)
    (h2 : x * 2 ^ s < 2 ^ (53 : ℤ)) (h3 : -(1 / 2) < x * 2 ^ s - m) (h4 : x * 2 ^ s - m < 1 / 2) :
    roundPos x = m / 2 ^ s := by
  have hc := two_zpow_pos s
  have hl : Int.log 2 x = 52 - s := by
    apply log_eq_of_bounds
    · have e : (2 : ℚ) ^ (52 : ℤ) = 2 ^ (52 - s) * 2 ^ s := by
        rw [← zpow_add₀ (by norm_num : (2 : ℚ) ≠ 0)]
        congr 1
        ring
      rw [e] at h1
      exact le_of_mul_le_mul_right h1 hc
    · have e : (2 : ℚ) ^ (53 : ℤ) = 2 ^ (52 - s + 1) * 2 ^ s := by
        rw [← zpow_add₀ (by norm_num : (2 : ℚ) ≠ 0)]
        congr 1
        ring
      rw [e] at h2
      exact lt_of_mul_lt_mul_right h2 (le_of_lt hc)
  unfold roundPos
  rw [hl]
  have hs : (52 : ℤ) - (52 - s) = s := by ring
  rw [hs, roundHalfEven_near _ m h3 h4]

theorem roundPos_idem (x : ℚ) (hx : 0 < x) : roundPos (roundPos x) = roundPos x := by
  obtain ⟨h1, h2⟩ := roundHalfEven_scaled x hx
  have hc := two_zpow_pos (52 - Int.log 2 x)
  rcases lt_or_eq_of_le h2 with hlt | heq
  · have hr : roundPos x = (roundHalfEven (x * 2 ^ (52 - Int.log 2 x)) : ℚ)
        / 2 ^ (52 - Int.log 2 x) := rfl
    have hm : roundPos x * 2 ^ (52 - Int.log 2 x)
        = (roundHalfEven (x * 2 ^ (52 - Int.log 2 x)) : ℚ) := by
      rw [hr, div_mul_cancel₀ _ (ne_of_gt hc)]
    rw [roundPos_eq (roundPos x) (roundHalfEven (x * 2 ^ (52 - Int.log 2 x)))
      (52 - Int.log 2 x) (by rw [hm]; exact_mod_cast h1) (by rw [hm]; exact_mod_cast hlt)
      (by rw [hm]; norm_num) (by rw [hm]; norm_num)]
    exact hr.symm
  · have hr : roundPos x = 2 ^ (Int.log 2 x + 1) := by
      have e2 : (2 : ℚ) ^ (53 : ℤ) = 2 ^ (Int.log 2 x + 1) * 2 ^ (52 - Int.log 2 x) := by
        rw [← zpow_add₀ (by norm_num : (2 : ℚ) ≠ 0)]
        congr 1
        ring
      unfold roundPos
      rw [heq, div_eq_iff (ne_of_gt hc), ← e2]
      norm_num
    have hm : roundPos x * 2 ^ (52 - (Int.log 2 x + 1)) = 2 ^ (52 : ℤ) := by
      rw [hr, ← zpow_add₀ (by norm_num : (2 : ℚ) ≠ 0)]
      congr 1
      ring
    rw [roundPos_eq (roundPos x) ((2 : ℤ) ^ 52) (52 - (Int.log 2 x + 1))
      (by rw [hm]) (by rw [hm]; norm_num) (by rw [hm]; norm_num) (by rw [hm]; norm_num), hr]
    rw [div_eq_iff (ne_of_gt (two_zpow_pos _)), ← zpow_add₀ (by norm_num : (2 : ℚ) ≠ 0)]
    push_cast
    norm_num

theorem roundDouble_zero : roundDouble 0 = 0 := by
  simp [roundDouble]

theorem roundDouble_of_pos {x : ℚ} (hx : 0 < x) : roundDouble x = roundPos x := by
  unfold roundDouble
  rw [if_pos hx]

theorem roundDouble_of_neg {x : ℚ} (hx : x < 0) : roundDouble x = -roundPos (-x) := by
  unfold roundDouble
  rw [if_neg (not_lt.mpr (le_of_lt hx)), if_pos hx]

theorem roundDouble_mono {x y : ℚ} (h : x ≤ y) : roundDouble x ≤ roundDouble y := by
  rcases lt_trichotomy x 0 with hx | hx | hx
  · rcases lt_trichotomy y 0 with hy | hy | hy
    · rw [roundDouble_of_neg hx, roundDouble_of_neg hy]
      exact neg_le_neg (roundPos_mono (by linarith) (by linarith))
    · rw [roundDouble_of_neg hx, hy, roundDouble_zero]
      exact le_of_lt (neg_lt_zero.mpr (roundPos_pos _ (by linarith)))
    · rw [roundDouble_of_neg hx, roundDouble_of_pos hy]
      exact le_trans (le_of_lt (neg_lt_zero.mpr (roundPos_pos _ (by linarith))))
        (le_of_lt (roundPos_pos _ hy))
  · rcases lt_or_eq_of_le (hx ▸ h : (0 : ℚ) ≤ y) with hy | hy
    · rw [hx, roundDouble_zero, roundDouble_of_pos hy]
      exact le_of_lt (roundPos_pos _ hy)
    · rw [hx, ← hy]
  · rw [roundDouble_of_pos hx, roundDouble_of_pos (lt_of_lt_of_le hx h)]
    exact roundPos_mono hx h

theorem roundDouble_idem (x : ℚ) : roundDouble (roundDouble x) = roundDouble x := by
  rcases lt_trichotomy x 0 with hx | hx | hx
  · have hp := roundPos_pos (-x) (by linarith)
    rw [roundDouble_of_neg hx, roundDouble_of_neg (neg_lt_zero.mpr hp), neg_neg,
      roundPos_idem _ (by linarith)]
  · rw [hx, roundDouble_zero, roundDouble_zero]
  · rw [roundDouble_of_pos hx, roundDouble_of_pos (roundPos_pos x hx), roundPos_idem x hx]

/-- Value of `roundDouble` at a positive number: `m / 2 ^ s` with a 53-bit
`m` within half a unit of `x * 2 ^ s`. -/
theorem roundDouble_eq_pos (x : ℚ) (m s : ℤ) (h1 : (2 : ℚ) ^ (52 : ℤ) ≤ x * 2 ^ s)
    (h2 : x * 2 ^ s < 2 ^ (53 : ℤ)) (h3 : -(1 / 2) < x * 2 ^ s - m) (h4 : x * 2 ^ s - m < 1 / 2) :
    roundDouble x = m / 2 ^ s := by
  have hx : 0 < x := by
    by_contra hn
    have := mul_nonpos_of_nonpos_of_nonneg (not_lt.mp hn) (le_of_lt (two_zpow_pos s))
    have h5 : (0 : ℚ) < 2 ^ (52 : ℤ) := two_zpow_pos 52
    linarith
  rw [roundDouble_of_pos hx, roundPos_eq x m s h1 h2 h3 h4]

theorem roundingLaws_id : RoundingLaws id :=
  ⟨rfl, fun _ _ h => h, fun _ => rfl⟩

/-- Rounding to the nearest `double` keeps 0, is monotone and idempotent. -/
theorem roundingLaws_roundDouble : RoundingLaws roundDouble :=
  ⟨roundDouble_zero, fun _ _ h => roundDouble_mono h, roundDouble_idem⟩

theorem roundHalfEven_tie (m : ℤ) :
    roundHalfEven ((m : ℚ) + 1 / 2) = if m % 2 = 0 then m else m + 1 := by
  have hf : ⌊(m : ℚ) + 1 / 2⌋ = m := by
    rw [Int.floor_eq_iff]
    constructor
    · linarith
    · linarith
  unfold roundHalfEven
  rw [hf]
  have e : (m : ℚ) + 1 / 2 - m = 1 / 2 := by ring
  rw [e, if_neg (lt_irrefl _), if_neg (lt_irrefl _)]

/-- Value of `roundDouble` at a positive number half-way between two
neighbouring 53-bit numbers `m / 2 ^ s` and `(m + 1) / 2 ^ s`: the one with the
even significand. -/
theorem roundDouble_eq_tie (x : ℚ) (m s : ℤ) (h1 : (2 : ℚ) ^ (52 : ℤ) ≤ x * 2 ^ s)
    (h2 : x * 2 ^ s < 2 ^ (53 : ℤ)) (h3 : x * 2 ^ s = m + 1 / 2) :
    roundDouble x = ((if m % 2 = 0 then m else m + 1 : ℤ) : ℚ) / 2 ^ s := by
  have hc := two_zpow_pos s
  have hx : 0 < x := by
    by_contra hn
    have := mul_nonpos_of_nonpos_of_nonneg (not_lt.mp hn) (le_of_lt hc)
    have h5 : (0 : ℚ) < 2 ^ (52 : ℤ) := two_zpow_pos 52
    linarith
  have hl : Int.log 2 x = 52 - s := by
    apply log_eq_of_bounds
    · have e : (2 : ℚ) ^ (52 : ℤ) = 2 ^ (52 - s) * 2 ^ s := by
        rw [← zpow_add₀ (by norm_num : (2 : ℚ) ≠ 0)]
        congr 1
        ring
      rw [e] at h1
      exact le_of_mul_le_mul_right h1 hc
    · have e : (2 : ℚ) ^ (53 : ℤ) = 2 ^ (52 - s + 1) * 2 ^ s := by
        rw [← zpow_add₀ (by norm_num : (2 : ℚ) ≠ 0)]
        congr 1
        ring
      rw [e] at h2
      exact lt_of_mul_lt_mul_right h2 (le_of_lt hc)
  rw [roundDouble_of_pos hx]
  unfold roundPos
  rw [hl]
  have hs : (52 : ℤ) - (52 - s) = s := by ring
  rw [hs, h3, roundHalfEven_tie]

theorem roundDouble_one : roundDouble 1 = 1 := by
  rw [roundDouble_eq_pos 1 4503599627370496 52 (by norm_num) (by norm_num) (by norm_num)
    (by norm_num)]
  norm_num
theorem roundHalfEven_error (q : ℚ) : |(roundHalfEven q : ℚ) - q| ≤ 1 / 2 := by
  have h1 := Int.floor_le q
  have h2 := Int.lt_floor_add_one q
  unfold roundHalfEven
  split_ifs with a b c <;> push_cast <;> rw [abs_le] <;> constructor <;> linarith

theorem roundPos_error (x : ℚ) (hx : 0 < x) : |roundPos x - x| ≤ x / 2 ^ 53 := by
  have hc := two_zpow_pos (52 - Int.log 2 x)
  have hy := (scaled_bounds x hx).1
  have he := roundHalfEven_error (x * 2 ^ (52 - Int.log 2 x))
  have e1 : roundPos x - x
      = ((roundHalfEven (x * 2 ^ (52 - Int.log 2 x)) : ℚ) - x * 2 ^ (52 - Int.log 2 x))
        / 2 ^ (52 - Int.log 2 x) := by
    unfold roundPos
    field_simp
    ring
  rw [e1, abs_div, abs_of_pos hc, div_le_div_iff₀ hc (by norm_num)]
  have h52 : (2 : ℚ) ^ (52 : ℤ) = 2 ^ 52 := by norm_num
  rw [h52] at hy
  calc |(roundHalfEven (x * 2 ^ (52 - Int.log 2 x)) : ℚ) - x * 2 ^ (52 - Int.log 2 x)| * 2 ^ 53
      ≤ 1 / 2 * 2 ^ 53 := mul_le_mul_of_nonneg_right he (by norm_num)
    _ = 2 ^ 52 := by norm_num
    _ ≤ x * 2 ^ (52 - Int.log 2 x) := hy

/-- Rounding to the nearest `double` changes a number by at most `2^-53` of its
size. -/
theorem roundDouble_error (x : ℚ) : |roundDouble x - x| ≤ 1 / 2 ^ 53 * |x| := by
  rcases lt_trichotomy x 0 with hx | hx | hx
  · rw [roundDouble_of_neg hx, abs_of_neg hx]
    have h := roundPos_error (-x) (by linarith)
    have e : -roundPos (-x) - x = -(roundPos (-x) - -x) := by ring
    rw [e, abs_neg]
    calc |roundPos (-x) - -x| ≤ -x / 2 ^ 53 := h
      _ = 1 / 2 ^ 53 * -x := by ring
  · rw [hx, roundDouble_zero]
    simp
  · rw [roundDouble_of_pos hx, abs_of_pos hx]
    calc |roundPos x - x| ≤ x / 2 ^ 53 := roundPos_error x hx
      _ = 1 / 2 ^ 53 * x := by ring


theorem roundingError_roundDouble : RoundingError roundDouble (1 / 2 ^ 53) :=
  roundDouble_error

theorem roundingError_exact (rnd : ℚ → ℚ) (h : ∀ x, rnd x = x) : RoundingError rnd 0 := by
  intro x
  rw [h x, sub_self, abs_zero, zero_mul]

theorem roundingError_nonneg {rnd : ℚ → ℚ} {u : ℚ} (hE : RoundingError rnd u) : 0 ≤ u := by
  have h := hE 1
  rw [abs_one, mul_one] at h
  exact le_trans (abs_nonneg _) h

theorem errFactor_nonneg {u : ℚ} (hu : 0 ≤ u) (n : ℕ) : 0 ≤ (1 + u) ^ n - 1 := by
  have h : (1 : ℚ) ≤ (1 + u) ^ n := one_le_pow₀ (by linarith)
  linarith

theorem errFactor_mono {u : ℚ} (hu : 0 ≤ u) {n m : ℕ} (h : n ≤ m) :
    (1 + u) ^ n - 1 ≤ (1 + u) ^ m - 1 := by
  have h1 : (1 + u) ^ n ≤ (1 + u) ^ m := pow_le_pow_right₀ (by linarith) h
  linarith

/-- A bound `|a - b| ≤ ((1 + u)^n - 1) * M` holds with a larger exponent and a
larger size `M`. -/
theorem relerr_weaken {u : ℚ} (hu : 0 ≤ u) {n m : ℕ} (h : n ≤ m) {a b M M2 : ℚ}
    (hM : M ≤ M2) (hM0 : 0 ≤ M) (hab : |a - b| ≤ ((1 + u) ^ n - 1) * M) :
    |a - b| ≤ ((1 + u) ^ m - 1) * M2 :=
  le_trans hab (mul_le_mul (errFactor_mono hu h) hM hM0 (errFactor_nonneg hu m))

/-- One rounding more: from `|a - b| ≤ ((1 + u)^n - 1) * M` with `|b| ≤ M` to
`|rnd a - b| ≤ ((1 + u)^(n + 1) - 1) * M`. -/
theorem relerr_step {rnd : ℚ → ℚ} {u : ℚ} (hE : RoundingError rnd u) (n : ℕ) {a b M : ℚ}
    (hb : |b| ≤ M) (hab : |a - b| ≤ ((1 + u) ^ n - 1) * M) :
    |rnd a - b| ≤ ((1 + u) ^ (n + 1) - 1) * M := by
  have hu := roundingError_nonneg hE
  have h1 := hE a
  have h2 : |a| ≤ (1 + u) ^ n * M := by
    have e : a = (a - b) + b := by ring
    calc |a| = |(a - b) + b| := by rw [← e]
      _ ≤ |a - b| + |b| := abs_add _ _
      _ ≤ ((1 + u) ^ n - 1) * M + M := add_le_add hab hb
      _ = (1 + u) ^ n * M := by ring
  have e : rnd a - b = (rnd a - a) + (a - b) := by ring
  calc |rnd a - b| = |(rnd a - a) + (a - b)| := by rw [← e]
    _ ≤ |rnd a - a| + |a - b| := abs_add _ _
    _ ≤ u * ((1 + u) ^ n * M) + ((1 + u) ^ n - 1) * M :=
      add_le_add (le_trans h1 (mul_le_mul_of_nonneg_left h2 hu)) hab
    _ = ((1 + u) ^ (n + 1) - 1) * M := by ring

/-- A number rounded once. -/
theorem relerr_round {rnd : ℚ → ℚ} {u : ℚ} (hE : RoundingError rnd u) (x : ℚ) :
    |rnd x - x| ≤ ((1 + u) ^ 1 - 1) * |x| := by
  have h := hE x
  have e : ((1 + u) ^ 1 - 1) * |x| = u * |x| := by ring
  rw [e]
  exact h

theorem relerr_mul_right {a b k M t : ℚ} (ht : 0 ≤ t) (hab : |a - b| ≤ k * M) :
    |a * t - b * t| ≤ k * (M * t) := by
  have e : a * t - b * t = (a - b) * t := by ring
  rw [e, abs_mul, abs_of_nonneg ht, ← mul_assoc]
  exact mul_le_mul_of_nonneg_right hab ht

theorem relerr_div_right {a b k M t : ℚ} (ht : 0 < t) (hab : |a - b| ≤ k * M) :
    |a / t - b / t| ≤ k * (M / t) := by
  have e : a / t - b / t = (a - b) / t := by ring
  rw [e, abs_div, abs_of_pos ht, ← mul_div_assoc]
  exact div_le_div_of_nonneg_right hab (le_of_lt ht)

theorem relerr_add_left {a b k M : ℚ} (c : ℚ) (hab : |a - b| ≤ k * M) :
    |(c + a) - (c + b)| ≤ k * M := by
  have e : (c + a) - (c + b) = a - b := by ring
  rw [e]
  exact hab

/-- The ponded depth `d + x * t` computed as `rnd (d + rnd (rnd x * t))`. -/
theorem relerr_stepped {rnd : ℚ → ℚ} {u : ℚ} (hE : RoundingError rnd u) (d x t : ℚ)
    (hd : 0 ≤ d) (ht : 0 < t) :
    |rnd (d + rnd (rnd x * t)) - (d + x * t)| ≤ ((1 + u) ^ 3 - 1) * (d + |x| * t) := by
  have hu := roundingError_nonneg hE
  have hxt : |x * t| ≤ |x| * t := by rw [abs_mul, abs_of_pos ht]
  have s1 := relerr_round hE x
  have s2 := relerr_mul_right (le_of_lt ht) s1
  have s3 := relerr_step hE 1 hxt s2
  have s4 : |(d + rnd (rnd x * t)) - (d + x * t)| ≤ ((1 + u) ^ 2 - 1) * (d + |x| * t) :=
    relerr_weaken hu (le_refl 2) (by linarith) (mul_nonneg (abs_nonneg x) (le_of_lt ht))
      (relerr_add_left d s3)
  have hb : |d + x * t| ≤ d + |x| * t :=
    le_trans (abs_add _ _) (by rw [abs_of_nonneg hd]; linarith)
  exact relerr_step hE 2 hb s4

/-- The drain rate `d / t + x` computed as `rnd (rnd (d + rnd (rnd x * t)) / t)`. -/
theorem relerr_drain {rnd : ℚ → ℚ} {u : ℚ} (hE : RoundingError rnd u) (d x t : ℚ)
    (hd : 0 ≤ d) (ht : 0 < t) :
    |rnd (rnd (d + rnd (rnd x * t)) / t) - (d / t + x)|
      ≤ ((1 + u) ^ 4 - 1) * (d / t + |x|) := by
  have s5 := relerr_div_right ht (relerr_stepped hE d x t hd ht)
  have e1 : (d + x * t) / t = d / t + x := by
    field_simp
  have e2 : (d + |x| * t) / t = d / t + |x| := by
    field_simp
  rw [e1, e2] at s5
  have hb : |d / t + x| ≤ d / t + |x| :=
    le_trans (abs_add _ _) (by rw [abs_of_nonneg (div_nonneg hd (le_of_lt ht))])
  exact relerr_step hE 3 hb s5

theorem relerr_mul {u : ℚ} (hu : 0 ≤ u) (m n : ℕ) {a1 b1 M1 a2 b2 M2 : ℚ}
    (hb1 : |b1| ≤ M1) (h1 : |a1 - b1| ≤ ((1 + u) ^ m - 1) * M1)
    (hb2 : |b2| ≤ M2) (h2 : |a2 - b2| ≤ ((1 + u) ^ n - 1) * M2) :
    |a1 * a2 - b1 * b2| ≤ ((1 + u) ^ (m + n) - 1) * (M1 * M2) := by
  have hM1 : 0 ≤ M1 := le_trans (abs_nonneg _) hb1
  have hM2 : 0 ≤ M2 := le_trans (abs_nonneg _) hb2
  have hk1 := errFactor_nonneg hu m
  have hk2 := errFactor_nonneg hu n
  have ha2 : |a2| ≤ (1 + u) ^ n * M2 := by
    have e : a2 = (a2 - b2) + b2 := by ring
    calc |a2| = |(a2 - b2) + b2| := by rw [← e]
      _ ≤ |a2 - b2| + |b2| := abs_add _ _
      _ ≤ ((1 + u) ^ n - 1) * M2 + M2 := add_le_add h2 hb2
      _ = (1 + u) ^ n * M2 := by ring
  have e : a1 * a2 - b1 * b2 = (a1 - b1) * a2 + b1 * (a2 - b2) := by ring
  calc |a1 * a2 - b1 * b2| = |(a1 - b1) * a2 + b1 * (a2 - b2)| := by rw [← e]
    _ ≤ |(a1 - b1) * a2| + |b1 * (a2 - b2)| := abs_add _ _
    _ = |a1 - b1| * |a2| + |b1| * |a2 - b2| := by rw [abs_mul, abs_mul]
    _ ≤ ((1 + u) ^ m - 1) * M1 * ((1 + u) ^ n * M2) + M1 * (((1 + u) ^ n - 1) * M2) :=
      add_le_add
        (mul_le_mul h1 ha2 (abs_nonneg _) (mul_nonneg hk1 hM1))
        (mul_le_mul hb1 h2 (abs_nonneg _) hM1)
    _ = ((1 + u) ^ (m + n) - 1) * (M1 * M2) := by ring

theorem relerr_add {k a1 b1 M1 a2 b2 M2 : ℚ}
    (h1 : |a1 - b1| ≤ k * M1) (h2 : |a2 - b2| ≤ k * M2) :
    |(a1 + a2) - (b1 + b2)| ≤ k * (M1 + M2) := by
  have e : (a1 + a2) - (b1 + b2) = (a1 - b1) + (a2 - b2) := by ring
  calc |(a1 + a2) - (b1 + b2)| = |(a1 - b1) + (a2 - b2)| := by rw [← e]
    _ ≤ |a1 - b1| + |a2 - b2| := abs_add _ _
    _ ≤ k * M1 + k * M2 := add_le_add h1 h2
    _ = k * (M1 + M2) := by ring

/-- The sum of three non-negative terms, each known up to `(1 + u)^n - 1` of its
size, as the loop of `subcatch_getRunoff` accumulates it. -/
theorem relerr_accumulate {rnd : ℚ → ℚ} {u : ℚ} (hE : RoundingError rnd u) (n : ℕ)
    (t T : SubareaType → ℚ) (hT : ∀ i, 0 ≤ T i)
    (h : ∀ i, |t i - T i| ≤ ((1 + u) ^ n - 1) * T i) :
    |Rounded.accumulate rnd t
        - (T SubareaType.IMPERV0 + T SubareaType.IMPERV1 + T SubareaType.PERV)|
      ≤ ((1 + u) ^ (n + 3) - 1)
        * (T SubareaType.IMPERV0 + T SubareaType.IMPERV1 + T SubareaType.PERV) := by
  have hu := roundingError_nonneg hE
  unfold Rounded.accumulate
  simp only [subareaTypes, List.foldl_cons, List.foldl_nil]
  have h0 := hT SubareaType.IMPERV0
  have h1 := hT SubareaType.IMPERV1
  have h2 := hT SubareaType.PERV
  have s0 : |(0 + t SubareaType.IMPERV0) - T SubareaType.IMPERV0|
      ≤ ((1 + u) ^ n - 1) * T SubareaType.IMPERV0 := by
    rw [zero_add]
    exact h _
  have s1 := relerr_step hE n (le_of_eq (abs_of_nonneg h0)) s0
  have s2 : |(rnd (0 + t SubareaType.IMPERV0) + t SubareaType.IMPERV1)
      - (T SubareaType.IMPERV0 + T SubareaType.IMPERV1)|
      ≤ ((1 + u) ^ (n + 1) - 1) * (T SubareaType.IMPERV0 + T SubareaType.IMPERV1) :=
    relerr_add s1 (relerr_weaken hu (Nat.le_succ n) (le_refl _) h1 (h _))
  have s3 := relerr_step hE (n + 1)
    (le_of_eq (abs_of_nonneg (add_nonneg h0 h1))) s2
  have s4 : |(rnd (rnd (0 + t SubareaType.IMPERV0) + t SubareaType.IMPERV1)
        + t SubareaType.PERV)
      - (T SubareaType.IMPERV0 + T SubareaType.IMPERV1 + T SubareaType.PERV)|
      ≤ ((1 + u) ^ (n + 1 + 1) - 1)
        * (T SubareaType.IMPERV0 + T SubareaType.IMPERV1 + T SubareaType.PERV) :=
    relerr_add s3 (relerr_weaken hu (by omega) (le_refl _) h2 (h _))
  exact relerr_step hE (n + 1 + 1)
    (le_of_eq (abs_of_nonneg (add_nonneg (add_nonneg h0 h1) h2))) s4

theorem relerr_mul_left {a b k M : ℚ} (c : ℚ) (hab : |a - b| ≤ k * M) :
    |c * a - c * b| ≤ k * (|c| * M) := by
  have e : c * a - c * b = c * (a - b) := by ring
  rw [e, abs_mul]
  calc |c| * |a - b| ≤ |c| * (k * M) := mul_le_mul_of_nonneg_left hab (abs_nonneg c)
    _ = k * (|c| * M) := by ring

/-- The three area fractions as `subcatch_readSubareaParams` computes them from
the impervious fraction `f` and the PctZero value `pz`, against `f * pz / 100`,
`f * (1 - pz / 100)` and `1 - f`. -/
theorem relerr_fractions {rnd : ℚ → ℚ} {u : ℚ} (hE : RoundingError rnd u) (f pz : ℚ)
    (hz : 0 ≤ pz) :
    |rnd (rnd (f * pz) / 100) - f * pz / 100| ≤ ((1 + u) ^ 3 - 1) * (|f| * (pz / 100)) ∧
    |rnd (f * rnd (1 - rnd (pz / 100))) - f * (1 - pz / 100)|
      ≤ ((1 + u) ^ 3 - 1) * (|f| * (1 + pz / 100)) ∧
    |rnd (1 - f) - (1 - f)| ≤ ((1 + u) ^ 3 - 1) * |1 - f| := by
  have hu := roundingError_nonneg hE
  have hq : 0 ≤ pz / 100 := div_nonneg hz (by norm_num)
  have hfq : 0 ≤ |f| * (pz / 100) := mul_nonneg (abs_nonneg f) hq
  refine ⟨?_, ?_, ?_⟩
  · have a1 := relerr_round hE (f * pz)
    have a2 := relerr_div_right (by norm_num : (0 : ℚ) < 100) a1
    have e : |f * pz| / 100 = |f| * (pz / 100) := by
      rw [abs_mul, abs_of_nonneg hz]
      ring
    rw [e] at a2
    have hb : |f * pz / 100| ≤ |f| * (pz / 100) := by
      rw [abs_div, abs_mul, abs_of_nonneg hz, abs_of_pos (by norm_num : (0 : ℚ) < 100)]
      exact le_of_eq (by ring)
    exact relerr_weaken hu (by norm_num) (le_refl _) hfq (relerr_step hE 1 hb a2)
  · have b1 := relerr_round hE (pz / 100)
    rw [abs_of_nonneg hq] at b1
    have b2 : |(1 - rnd (pz / 100)) - (1 - pz / 100)| ≤ ((1 + u) ^ 1 - 1) * (1 + pz / 100) := by
      have e : (1 - rnd (pz / 100)) - (1 - pz / 100) = -(rnd (pz / 100) - pz / 100) := by ring
      rw [e, abs_neg]
      exact relerr_weaken hu (le_refl 1) (by linarith) hq b1
    have hb : |1 - pz / 100| ≤ 1 + pz / 100 := by
      rw [abs_le]
      constructor <;> linarith
    have b3 := relerr_step hE 1 hb b2
    have b4 := relerr_mul_left f b3
    have hb2 : |f * (1 - pz / 100)| ≤ |f| * (1 + pz / 100) := by
      rw [abs_mul]
      exact mul_le_mul_of_nonneg_left hb (abs_nonneg f)
    exact relerr_step hE 2 hb2 b4
  · exact relerr_weaken hu (by norm_num) (le_refl _) (abs_nonneg _) (relerr_round hE (1 - f))

theorem relerr_add_right {a b k M : ℚ} (c : ℚ) (hab : |a - b| ≤ k * M) :
    |(a + c) - (b + c)| ≤ k * M := by
  have e : (a + c) - (b + c) = a - b := by ring
  rw [e]
  exact hab

/-- The available moisture `d / t + I` computed as `rnd (rnd (d / t) + I)`. -/
theorem relerr_moisture {rnd : ℚ → ℚ} {u : ℚ} (hE : RoundingError rnd u) (d I t : ℚ)
    (hd : 0 ≤ d) (ht : 0 < t) :
    |rnd (rnd (d / t) + I) - (d / t + I)| ≤ ((1 + u) ^ 2 - 1) * (d / t + |I|) := by
  have hu := roundingError_nonneg hE
  have hdt : 0 ≤ d / t := div_nonneg hd (le_of_lt ht)
  have a1 := relerr_round hE (d / t)
  rw [abs_of_nonneg hdt] at a1
  have a2 : |(rnd (d / t) + I) - (d / t + I)| ≤ ((1 + u) ^ 1 - 1) * (d / t + |I|) :=
    relerr_weaken hu (le_refl 1) (by linarith [abs_nonneg I]) hdt (relerr_add_right I a1)
  have hb : |d / t + I| ≤ d / t + |I| :=
    le_trans (abs_add _ _) (by rw [abs_of_nonneg hdt])
  exact relerr_step hE 1 hb a2

/-- Balance of the depletion branch: the depth ends at 0 with the losses at the
available moisture as computed. -/
theorem relerr_balance_depleted {rnd : ℚ → ℚ} {u : ℚ} (hE : RoundingError rnd u) (d I t : ℚ)
    (hd : 0 ≤ d) (ht : 0 < t) :
    |0 - (d + (I - rnd (rnd (d / t) + I) - 0) * t)|
      ≤ ((1 + u) ^ 5 - 1) * (d + (|I| + |rnd (rnd (d / t) + I)|) * t) := by
  have hu := roundingError_nonneg hE
  have m1 := relerr_mul_right (le_of_lt ht) (relerr_moisture hE d I t hd ht)
  have e1 : 0 - (d + (I - rnd (rnd (d / t) + I) - 0) * t)
      = rnd (rnd (d / t) + I) * t - (d / t + I) * t := by
    field_simp
    ring
  have e2 : (d / t + |I|) * t = d + |I| * t := by
    field_simp
  rw [e1]
  rw [e2] at m1
  refine relerr_weaken hu (by norm_num) ?_
    (add_nonneg hd (mul_nonneg (abs_nonneg I) (le_of_lt ht))) m1
  have := mul_nonneg (abs_nonneg (rnd (rnd (d / t) + I))) (le_of_lt ht)
  linarith

/-- Balance of a step without runoff that ends at the stepped depth `D`, or at 0
when `D` is negative, the losses being below the available moisture as
computed. -/
theorem relerr_balance_stepped {rnd : ℚ → ℚ} {u : ℚ} (hE : RoundingError rnd u)
    (d I L t : ℚ) (hd : 0 ≤ d) (ht : 0 < t) (hL : L < rnd (rnd (d / t) + I)) :
    |(if rnd (d + rnd (rnd (I - L) * t)) < 0 then 0 else rnd (d + rnd (rnd (I - L) * t)))
        - (d + (I - L - 0) * t)|
      ≤ ((1 + u) ^ 5 - 1) * (d + (|I| + |L|) * t) := by
  have hu := roundingError_nonneg hE
  have hxl : |I - L| ≤ |I| + |L| := abs_sub _ _
  have hM : d + |I - L| * t ≤ d + (|I| + |L|) * t := by
    have := mul_le_mul_of_nonneg_right hxl (le_of_lt ht)
    linarith
  have hM0 : 0 ≤ d + |I - L| * t :=
    add_nonneg hd (mul_nonneg (abs_nonneg _) (le_of_lt ht))
  have s := relerr_stepped hE d (I - L) t hd ht
  have s5 := relerr_weaken hu (by norm_num : 3 ≤ 5) hM hM0 s
  rw [sub_zero]
  by_cases hneg : rnd (d + rnd (rnd (I - L) * t)) < 0
  · rw [if_pos hneg]
    have hup := (abs_le.mp s5).1
    have m1 := relerr_mul_right (le_of_lt ht) (relerr_moisture hE d I t hd ht)
    have e2 : (d / t + |I|) * t = d + |I| * t := by
      field_simp
    have e3 : (d / t + I) * t = d + I * t := by
      field_simp
    rw [e2, e3] at m1
    have hM2 : d + |I| * t ≤ d + (|I| + |L|) * t := by
      have := mul_nonneg (abs_nonneg L) (le_of_lt ht)
      linarith
    have m5 := relerr_weaken hu (by norm_num : 2 ≤ 5) hM2
      (add_nonneg hd (mul_nonneg (abs_nonneg I) (le_of_lt ht))) m1
    have hlow := (abs_le.mp m5).2
    have hLt := mul_lt_mul_of_pos_right hL ht
    rw [abs_le]
    constructor <;> linarith
  · rw [if_neg hneg]
    exact s5

/-- Balance of a step that ends at the depression storage `s` with the excess
of the stepped depth `D` drained over the step. -/
theorem relerr_balance_drained {rnd : ℚ → ℚ} {u : ℚ} (hE : RoundingError rnd u)
    (d I L s t : ℚ) (hd : 0 ≤ d) (hs : 0 ≤ s) (ht : 0 < t)
    (hDs : s < rnd (d + rnd (rnd (I - L) * t))) :
    |s - (d + (I - L - rnd (rnd (rnd (d + rnd (rnd (I - L) * t)) - s) / t)) * t)|
      ≤ ((1 + u) ^ 5 - 1) * (d + (|I| + |L|) * t) := by
  have hu := roundingError_nonneg hE
  have hxl : |I - L| ≤ |I| + |L| := abs_sub _ _
  have hM : d + |I - L| * t ≤ d + (|I| + |L|) * t := by
    have := mul_le_mul_of_nonneg_right hxl (le_of_lt ht)
    linarith
  have hM0 : 0 ≤ d + |I - L| * t :=
    add_nonneg hd (mul_nonneg (abs_nonneg _) (le_of_lt ht))
  have st := relerr_stepped hE d (I - L) t hd ht
  generalize rnd (d + rnd (rnd (I - L) * t)) = D at hDs st ⊢
  have hb : |d + (I - L) * t| ≤ d + |I - L| * t := by
    refine le_trans (abs_add _ _) ?_
    rw [abs_of_nonneg hd, abs_mul, abs_of_pos ht]
  have hDle : D - s ≤ (1 + u) ^ 3 * (d + |I - L| * t) := by
    have h1 := (abs_le.mp st).2
    have h2 := (abs_le.mp hb).2
    calc D - s ≤ D := by linarith
      _ ≤ (d + (I - L) * t) + ((1 + u) ^ 3 - 1) * (d + |I - L| * t) := by linarith
      _ ≤ (d + |I - L| * t) + ((1 + u) ^ 3 - 1) * (d + |I - L| * t) := by linarith
      _ = (1 + u) ^ 3 * (d + |I - L| * t) := by ring
  have hpos : 0 ≤ D - s := by linarith
  have c1 := relerr_round hE (D - s)
  rw [abs_of_nonneg hpos] at c1
  have c2 := relerr_div_right ht c1
  have c3 := relerr_step hE 1
    (le_of_eq (abs_of_nonneg (div_nonneg hpos (le_of_lt ht)))) c2
  have c4 := relerr_mul_right (le_of_lt ht) c3
  rw [div_mul_cancel₀ _ (ne_of_gt ht)] at c4
  have c5 : |rnd (rnd (D - s) / t) * t - (D - s)|
      ≤ ((1 + u) ^ 2 - 1) * ((1 + u) ^ 3 * (d + |I - L| * t)) :=
    le_trans c4 (mul_le_mul_of_nonneg_left hDle (errFactor_nonneg hu 2))
  have e : s - (d + (I - L - rnd (rnd (D - s) / t)) * t)
      = (rnd (rnd (D - s) / t) * t - (D - s)) + (D - (d + (I - L) * t)) := by ring
  have tot : |s - (d + (I - L - rnd (rnd (D - s) / t)) * t)|
      ≤ ((1 + u) ^ 5 - 1) * (d + |I - L| * t) := by
    calc |s - (d + (I - L - rnd (rnd (D - s) / t)) * t)|
        = |(rnd (rnd (D - s) / t) * t - (D - s)) + (D - (d + (I - L) * t))| := by rw [← e]
      _ ≤ |rnd (rnd (D - s) / t) * t - (D - s)| + |D - (d + (I - L) * t)| := abs_add _ _
      _ ≤ ((1 + u) ^ 2 - 1) * ((1 + u) ^ 3 * (d + |I - L| * t))
          + ((1 + u) ^ 3 - 1) * (d + |I - L| * t) := add_le_add c5 st
      _ = ((1 + u) ^ 5 - 1) * (d + |I - L| * t) := by ring
  exact relerr_weaken hu (le_refl 5) hM hM0 tot


/-! ## Sub-area runoff in rounded arithmetic -/

theorem rounded_updatePondedDepth_id (env : Env) (p : Project) (sa : TSubarea) (dt : ℚ) :
    Rounded.updatePondedDepth id env p sa dt = updatePondedDepth env p sa dt := rfl

theorem rounded_findSubareaRunoff_id (env : Env) (sa : TSubarea) (t : ℚ) :
    Rounded.findSubareaRunoff id env sa t = findSubareaRunoff env sa t := rfl

/-- With the identity as rounding the rounded `getSubareaRunoff` is the exact
one. -/
theorem rounded_getSubareaRunoff_id (env : Env) (p : Project) (j : Nat) (i : SubareaType)
    (precip evap tStep : ℚ) :
    Rounded.getSubareaRunoff id env p j i precip evap tStep
      = getSubareaRunoff env p j i precip evap tStep := rfl

theorem rounded_getSubareaRunoff_eq (rnd : ℚ → ℚ) (env : Env) (project : Project) (j : Nat)
    (i : SubareaType) (precip evap tStep : ℚ) :
    Rounded.getSubareaRunoff rnd env project j i precip evap tStep =
      if (getSubarea (subareaInit project j i) j i).fArea = 0 then subareaInit project j i
      else
        if (Rounded.findSubareaRunoff rnd env
              (Rounded.subareaPonded rnd env project j i precip evap tStep).2.1
              (Rounded.subareaPonded rnd env project j i precip evap tStep).2.2).fOutlet > 0 then
          { setSubarea (setSubarea (Rounded.subareaPonded rnd env project j i precip evap tStep).1
                j i (Rounded.subareaPonded rnd env project j i precip evap tStep).2.1) j i
              (Rounded.findSubareaRunoff rnd env
                (Rounded.subareaPonded rnd env project j i precip evap tStep).2.1
                (Rounded.subareaPonded rnd env project j i precip evap tStep).2.2) with
            Voutflow := rnd (rnd (rnd ((1 / 2) * rnd ((getSubarea project j i).runoff +
                (Rounded.findSubareaRunoff rnd env
                  (Rounded.subareaPonded rnd env project j i precip evap tStep).2.1
                  (Rounded.subareaPonded rnd env project j i precip evap tStep).2.2).runoff))
              * (Rounded.subareaPonded rnd env project j i precip evap tStep).2.2)
              * (Rounded.findSubareaRunoff rnd env
                  (Rounded.subareaPonded rnd env project j i precip evap tStep).2.1
                  (Rounded.subareaPonded rnd env project j i precip evap tStep).2.2).fOutlet),
            Outflow := rnd ((Rounded.findSubareaRunoff rnd env
                  (Rounded.subareaPonded rnd env project j i precip evap tStep).2.1
                  (Rounded.subareaPonded rnd env project j i precip evap tStep).2.2).fOutlet *
                (Rounded.findSubareaRunoff rnd env
                  (Rounded.subareaPonded rnd env project j i precip evap tStep).2.1
                  (Rounded.subareaPonded rnd env project j i precip evap tStep).2.2).runoff) }
        else
          setSubarea (setSubarea (Rounded.subareaPonded rnd env project j i precip evap tStep).1
                j i (Rounded.subareaPonded rnd env project j i precip evap tStep).2.1) j i
              (Rounded.findSubareaRunoff rnd env
                (Rounded.subareaPonded rnd env project j i precip evap tStep).2.1
                (Rounded.subareaPonded rnd env project j i precip evap tStep).2.2) := by
  simp only [Rounded.getSubareaRunoff, Rounded.subareaPonded, Rounded.subareaLosses, subareaInit,
    Rounded.subareaEvap, Rounded.subareaInfil, Rounded.subareaMoisture, getSubarea,
    setSubarea_subArea_same]

theorem rounded_subareaLosses_getSubarea (rnd : ℚ → ℚ) (env : Env) (project : Project)
    (j : Nat) (i : SubareaType) (precip evap tStep : ℚ) :
    getSubarea (Rounded.subareaLosses rnd env project j i precip evap tStep) j i
      = Rounded.subareaWetted rnd project j i precip := by
  simp only [Rounded.subareaLosses, subareaInit, Rounded.subareaWetted, getSubarea,
    setSubarea_subArea_same]

theorem rounded_subareaLosses_Losses (rnd : ℚ → ℚ) (env : Env) (project : Project)
    (j : Nat) (i : SubareaType) (precip evap tStep : ℚ) :
    (Rounded.subareaLosses rnd env project j i precip evap tStep).Losses
      = rnd (Rounded.subareaEvap rnd project j i evap tStep
          + Rounded.subareaInfil rnd env project j i precip tStep) := rfl

/-- The sub-area that `getSubareaRunoff` leaves, for a non-zero area fraction:
`findSubareaRunoff` applied to the outcome of the ponding step; and the losses
it leaves. -/
theorem rounded_getSubareaRunoff_result (rnd : ℚ → ℚ) (env : Env) (project : Project)
    (j : Nat) (i : SubareaType) (precip evap tStep : ℚ)
    (hA : (getSubarea project j i).fArea ≠ 0) :
    getSubarea (Rounded.getSubareaRunoff rnd env project j i precip evap tStep) j i
      = Rounded.findSubareaRunoff rnd env
          (Rounded.subareaPonded rnd env project j i precip evap tStep).2.1
          (Rounded.subareaPonded rnd env project j i precip evap tStep).2.2 ∧
    (Rounded.getSubareaRunoff rnd env project j i precip evap tStep).Losses
      = (Rounded.subareaPonded rnd env project j i precip evap tStep).1.Losses := by
  have hA2 : ¬ (getSubarea (subareaInit project j i) j i).fArea = 0 := by
    rw [subareaInit_getSubarea]
    exact hA
  rw [rounded_getSubareaRunoff_eq, if_neg hA2]
  split_ifs
  · refine ⟨?_, rfl⟩
    simp only [getSubarea, setSubarea_subArea_same]
  · refine ⟨?_, rfl⟩
    simp only [getSubarea, setSubarea_subArea_same]

theorem rounded_updatePondedDepth_frame (rnd : ℚ → ℚ) (env : Env) (p : Project)
    (sa : TSubarea) (dt : ℚ) :
    (Rounded.updatePondedDepth rnd env p sa dt).2.1
      = { sa with depth := (Rounded.updatePondedDepth rnd env p sa dt).2.1.depth } ∧
    (Rounded.updatePondedDepth rnd env p sa dt).1.Losses = p.Losses := by
  unfold Rounded.updatePondedDepth
  simp only []
  split_ifs <;> exact ⟨rfl, rfl⟩

theorem rounded_subareaPonded_depleted (rnd : ℚ → ℚ) (env : Env) (project : Project)
    (j : Nat) (i : SubareaType) (precip evap tStep : ℚ)
    (hL : rnd (Rounded.subareaEvap rnd project j i evap tStep
        + Rounded.subareaInfil rnd env project j i precip tStep)
      ≥ Rounded.subareaMoisture rnd project j i precip tStep) :
    (Rounded.subareaPonded rnd env project j i precip evap tStep).1.Losses
      = Rounded.subareaMoisture rnd project j i precip tStep ∧
    (Rounded.subareaPonded rnd env project j i precip evap tStep).2.1
      = { Rounded.subareaWetted rnd project j i precip with depth := 0 } ∧
    (Rounded.subareaPonded rnd env project j i precip evap tStep).2.2 = tStep := by
  have hL2 : (Rounded.subareaLosses rnd env project j i precip evap tStep).Losses
      ≥ Rounded.subareaMoisture rnd project j i precip tStep := hL
  unfold Rounded.subareaPonded
  rw [if_pos hL2, rounded_subareaLosses_getSubarea]
  exact ⟨rfl, rfl, rfl⟩

theorem rounded_subareaPonded_ponding (rnd : ℚ → ℚ) (env : Env) (project : Project)
    (j : Nat) (i : SubareaType) (precip evap tStep : ℚ)
    (hL : ¬ (rnd (Rounded.subareaEvap rnd project j i evap tStep
        + Rounded.subareaInfil rnd env project j i precip tStep)
      ≥ Rounded.subareaMoisture rnd project j i precip tStep)) :
    (Rounded.subareaPonded rnd env project j i precip evap tStep).1.Losses
      = rnd (Rounded.subareaEvap rnd project j i evap tStep
          + Rounded.subareaInfil rnd env project j i precip tStep) ∧
    (Rounded.subareaPonded rnd env project j i precip evap tStep).2
      = (Rounded.updatePondedDepth rnd env
          (Rounded.subareaLosses rnd env project j i precip evap tStep)
          (Rounded.subareaWetted rnd project j i precip) tStep).2 := by
  have hL2 : ¬ ((Rounded.subareaLosses rnd env project j i precip evap tStep).Losses
      ≥ Rounded.subareaMoisture rnd project j i precip tStep) := hL
  unfold Rounded.subareaPonded
  rw [if_neg hL2, rounded_subareaLosses_getSubarea, (rounded_updatePondedDepth_frame _ _ _ _ _).2]
  exact ⟨rfl, rfl⟩
theorem rounded_findSubareaRunoff_dry (rnd : ℚ → ℚ) (env : Env) (sa : TSubarea) (tRunoff : ℚ)
    (h : rnd (sa.depth - sa.dStore) ≤ env.ZERO) :
    (Rounded.findSubareaRunoff rnd env sa tRunoff).depth = sa.depth ∧
    (Rounded.findSubareaRunoff rnd env sa tRunoff).runoff = 0 := by
  unfold Rounded.findSubareaRunoff
  simp only []
  rw [if_neg (not_lt.mpr h)]
  exact ⟨rfl, rfl⟩

theorem rounded_findSubareaRunoff_routed (rnd : ℚ → ℚ) (env : Env) (sa : TSubarea)
    (tRunoff : ℚ) (h : rnd (sa.depth - sa.dStore) > env.ZERO) (hN : sa.N > 0) :
    (Rounded.findSubareaRunoff rnd env sa tRunoff).depth = sa.depth ∧
    (Rounded.findSubareaRunoff rnd env sa tRunoff).runoff
      = rnd (sa.alpha * env.pow (rnd (sa.depth - sa.dStore)) MEXP) := by
  unfold Rounded.findSubareaRunoff
  simp only []
  rw [if_pos h, if_pos hN]
  exact ⟨rfl, rfl⟩

theorem rounded_findSubareaRunoff_drained (rnd : ℚ → ℚ) (env : Env) (sa : TSubarea)
    (tRunoff : ℚ) (h : rnd (sa.depth - sa.dStore) > env.ZERO) (hN : ¬ sa.N > 0) :
    (Rounded.findSubareaRunoff rnd env sa tRunoff).depth = sa.dStore ∧
    (Rounded.findSubareaRunoff rnd env sa tRunoff).runoff
      = rnd (rnd (sa.depth - sa.dStore) / tRunoff) := by
  unfold Rounded.findSubareaRunoff
  simp only []
  rw [if_pos h, if_neg hN]
  exact ⟨rfl, rfl⟩

/-- What `findSubareaRunoff` keeps of the sub-area. -/
theorem rounded_findSubareaRunoff_keeps (rnd : ℚ → ℚ) (env : Env) (sa : TSubarea)
    (tRunoff : ℚ) :
    (Rounded.findSubareaRunoff rnd env sa tRunoff).fArea = sa.fArea ∧
    (Rounded.findSubareaRunoff rnd env sa tRunoff).fOutlet = sa.fOutlet ∧
    (Rounded.findSubareaRunoff rnd env sa tRunoff).inflow = sa.inflow ∧
    (Rounded.findSubareaRunoff rnd env sa tRunoff).dStore = sa.dStore ∧
    (Rounded.findSubareaRunoff rnd env sa tRunoff).N = sa.N ∧
    (Rounded.findSubareaRunoff rnd env sa tRunoff).alpha = sa.alpha := by
  unfold Rounded.findSubareaRunoff
  simp only []
  split_ifs <;> exact ⟨rfl, rfl, rfl, rfl, rfl, rfl⟩

/-- The fast path of `updatePondedDepth`: the stepped depth does not exceed the
depression storage. -/
theorem rounded_updatePondedDepth_fast (rnd : ℚ → ℚ) (env : Env) (p : Project)
    (sa : TSubarea) (dt : ℚ) (h : Rounded.steppedDepth rnd p sa dt ≤ sa.dStore) :
    (Rounded.updatePondedDepth rnd env p sa dt).2.1.depth
      = (if Rounded.steppedDepth rnd p sa dt < 0 then 0 else Rounded.steppedDepth rnd p sa dt) ∧
    (Rounded.updatePondedDepth rnd env p sa dt).2.2 = dt := by
  unfold Rounded.steppedDepth at h ⊢
  unfold Rounded.updatePondedDepth
  simp only []
  rw [if_pos h]
  simp only []
  split_ifs <;> first | exact ⟨rfl, rfl⟩ | exact ⟨rfl, trivial⟩

/-- The path of `updatePondedDepth` above the depression storage without
filling and without the ODE solver (`alpha = 0`): the stepped depth over the
whole step. -/
theorem rounded_updatePondedDepth_linear (rnd : ℚ → ℚ) (env : Env) (p : Project)
    (sa : TSubarea) (dt : ℚ) (h : ¬ (Rounded.steppedDepth rnd p sa dt ≤ sa.dStore))
    (hα : sa.alpha = 0) (hdx : rnd (sa.dStore - sa.depth) ≤ 0) (hd : 0 ≤ sa.dStore)
    (hdt : 0 < dt) :
    (Rounded.updatePondedDepth rnd env p sa dt).2.1.depth = Rounded.steppedDepth rnd p sa dt ∧
    (Rounded.updatePondedDepth rnd env p sa dt).2.2 = dt := by
  have hpos : ¬ (Rounded.steppedDepth rnd p sa dt < 0) := by
    intro h2
    exact h (le_trans (le_of_lt h2) hd)
  unfold Rounded.steppedDepth at h hpos ⊢
  unfold Rounded.updatePondedDepth
  simp only []
  rw [if_neg h]
  have hf : ¬ (rnd (sa.dStore - sa.depth) > 0 ∧ rnd (sa.inflow - p.Losses) > 0) :=
    fun c => absurd c.1 (not_lt.mpr hdx)
  have hα2 : ¬ (sa.alpha > 0 ∧ dt > 0) := by
    intro h2
    rw [hα] at h2
    exact lt_irrefl _ h2.1
  simp only [hf, if_false, hα2, not_lt.mpr (le_of_lt hdt), hpos]
  exact ⟨trivial, trivial⟩

/-- Closed form of the duration that `updatePondedDepth` returns, in rounded
arithmetic. -/
theorem rounded_updatePondedDepth_duration (rnd : ℚ → ℚ) (env : Env) (p : Project)
    (sa : TSubarea) (dt : ℚ) (hdt : 0 < dt) :
    (Rounded.updatePondedDepth rnd env p sa dt).2.2
      = (if rnd (sa.depth + rnd (rnd (sa.inflow - p.Losses) * dt)) ≤ sa.dStore then dt
         else if rnd (sa.dStore - sa.depth) > 0 ∧ rnd (sa.inflow - p.Losses) > 0 then
           (if rnd (dt - rnd (rnd (sa.dStore - sa.depth) / rnd (sa.inflow - p.Losses))) < 0 then 0
            else rnd (dt - rnd (rnd (sa.dStore - sa.depth) / rnd (sa.inflow - p.Losses))))
         else dt) := by
  unfold Rounded.updatePondedDepth
  simp only []
  by_cases h1 : rnd (sa.depth + rnd (rnd (sa.inflow - p.Losses) * dt)) ≤ sa.dStore
  · rw [if_pos h1, if_pos h1]
  · rw [if_neg h1, if_neg h1]
    by_cases h2 : rnd (sa.dStore - sa.depth) > 0 ∧ rnd (sa.inflow - p.Losses) > 0
    · rw [if_pos h2, if_pos h2]
      simp only []
      by_cases h3 : sa.alpha > 0 ∧
          rnd (dt - rnd (rnd (sa.dStore - sa.depth) / rnd (sa.inflow - p.Losses))) > 0
      · rw [if_pos h3]
        simp only []
        rw [if_neg (not_lt.mpr (le_of_lt h3.2))]
      · rw [if_neg h3]
    · rw [if_neg h2, if_neg h2]
      simp only []
      by_cases h3 : sa.alpha > 0 ∧ dt > 0
      · rw [if_pos h3]
      · rw [if_neg h3]
        simp only []
        rw [if_neg (not_lt.mpr (le_of_lt hdt))]

theorem rounded_updatePondedDepth_bounds (rnd : ℚ → ℚ) (env : Env) (p : Project)
    (sa : TSubarea) (dt : ℚ) (hR : RoundingLaws rnd) (hdt : 0 < dt) (hRT : rnd dt = dt) :
    0 ≤ (Rounded.updatePondedDepth rnd env p sa dt).2.2 ∧
    (Rounded.updatePondedDepth rnd env p sa dt).2.2 ≤ dt := by
  obtain ⟨h0, hm, _⟩ := hR
  rw [rounded_updatePondedDepth_duration rnd env p sa dt hdt]
  split_ifs with h1 h2 h3
  · exact ⟨le_of_lt hdt, le_refl _⟩
  · exact ⟨le_refl _, le_of_lt hdt⟩
  · refine ⟨not_lt.mp h3, ?_⟩
    have hq : 0 ≤ rnd (rnd (sa.dStore - sa.depth) / rnd (sa.inflow - p.Losses)) := by
      have := hm 0 _ (le_of_lt (div_pos h2.1 h2.2))
      rw [h0] at this
      exact this
    have := hm (dt - rnd (rnd (sa.dStore - sa.depth) / rnd (sa.inflow - p.Losses))) dt
      (by linarith)
    rw [hRT] at this
    exact this
  · exact ⟨le_of_lt hdt, le_refl _⟩

/-- When `updatePondedDepth` returns the duration 0, the ponded depth it leaves
is the depression storage. -/
theorem rounded_updatePondedDepth_zero (rnd : ℚ → ℚ) (env : Env) (p : Project)
    (sa : TSubarea) (dt : ℚ) (hR : RoundingLaws rnd) (hdt : 0 < dt) (hD : 0 ≤ sa.dStore)
    (hRD : rnd sa.dStore = sa.dStore)
    (h : (Rounded.updatePondedDepth rnd env p sa dt).2.2 = 0) :
    (Rounded.updatePondedDepth rnd env p sa dt).2.1.depth = sa.dStore ∧
    (Rounded.updatePondedDepth rnd env p sa dt).2.1.dStore = sa.dStore := by
  obtain ⟨h0, _, _⟩ := hR
  have hne : dt ≠ 0 := ne_of_gt hdt
  unfold Rounded.updatePondedDepth at h ⊢
  simp only [] at h ⊢
  by_cases h1 : rnd (sa.depth + rnd (rnd (sa.inflow - p.Losses) * dt)) ≤ sa.dStore
  · rw [if_pos h1] at h
    exact absurd h hne
  · rw [if_neg h1] at h ⊢
    by_cases h2 : rnd (sa.dStore - sa.depth) > 0 ∧ rnd (sa.inflow - p.Losses) > 0
    · rw [if_pos h2] at h ⊢
      simp only [] at h ⊢
      by_cases h3 : sa.alpha > 0 ∧
          rnd (dt - rnd (rnd (sa.dStore - sa.depth) / rnd (sa.inflow - p.Losses))) > 0
      · rw [if_pos h3] at h
        simp only [] at h
        exact absurd h (ne_of_gt h3.2)
      · rw [if_neg h3] at h ⊢
        simp only [] at h ⊢
        rw [h, mul_zero, h0, add_zero, hRD, if_neg (not_lt.mpr hD)]
        exact ⟨rfl, rfl⟩
    · rw [if_neg h2] at h
      simp only [] at h
      by_cases h3 : sa.alpha > 0 ∧ dt > 0
      · rw [if_pos h3] at h
        exact absurd h hne
      · rw [if_neg h3] at h
        simp only [] at h
        rw [if_neg (not_lt.mpr (le_of_lt hdt))] at h
        exact absurd h hne
/-- C32 (as stated, refuted): in double arithmetic, with an inflow of 0.7 and no
losses over a step of 300 into an empty depression storage of
209.99999999999997, the quotient `dx / ix` rounds to 300 and `updatePondedDepth`
returns the duration 0. -/
theorem C32_zero_duration_counterexample :
    fillingSubarea.inflow = roundDouble (7 / 10) ∧
    zeroProject.Losses < fillingSubarea.depth / 300 + fillingSubarea.inflow ∧
    (Rounded.updatePondedDepth roundDouble basicEnv zeroProject fillingSubarea 300).2.2 = 0 := by
  have e0 : roundDouble (7 / 10) = 3152519739159347 / 4503599627370496 := by
    rw [roundDouble_eq_pos _ 6305039478318694 53 (by norm_num) (by norm_num) (by norm_num)
      (by norm_num)]
    norm_num
  have e1 : roundDouble (3152519739159347 / 4503599627370496)
      = 3152519739159347 / 4503599627370496 := by
    rw [roundDouble_eq_pos _ 6305039478318694 53 (by norm_num) (by norm_num) (by norm_num)
      (by norm_num)]
    norm_num
  have e2 : roundDouble (3152519739159347 / 4503599627370496 * 300) = 210 := by
    rw [roundDouble_eq_pos _ 7388718138654720 45 (by norm_num) (by norm_num) (by norm_num)
      (by norm_num)]
    norm_num
  have e3 : roundDouble 210 = 210 := by
    rw [roundDouble_eq_pos _ 7388718138654720 45 (by norm_num) (by norm_num) (by norm_num)
      (by norm_num)]
    norm_num
  have e4 : roundDouble (7388718138654719 / 35184372088832)
      = 7388718138654719 / 35184372088832 := by
    rw [roundDouble_eq_pos _ 7388718138654719 45 (by norm_num) (by norm_num) (by norm_num)
      (by norm_num)]
    norm_num
  have e5 : roundDouble (7388718138654719 / 35184372088832
      / (3152519739159347 / 4503599627370496)) = 300 := by
    rw [roundDouble_eq_pos _ 5277655813324800 44 (by norm_num) (by norm_num) (by norm_num)
      (by norm_num)]
    norm_num
  refine ⟨?_, ?_, ?_⟩
  · rw [e0]
    rfl
  · norm_num [fillingSubarea, zeroSubarea, zeroProject]
  · rw [rounded_updatePondedDepth_duration _ _ _ _ _ (by norm_num)]
    simp only [fillingSubarea, zeroSubarea, zeroProject, sub_zero, zero_add, e1, e2, e3, e4, e5,
      sub_self, roundDouble_zero]
    norm_num

/-- C32 (amended): for `tStep > 0` the duration `tx` that `updatePondedDepth`
returns for a sub-area of non-negative depression storage is `tStep`, or the
computed `tStep - dx / ix` clamped at 0 when the depression storage fills during
the step; it satisfies `0 <= tx <= tStep`, and whenever the excess depth
`depth - dStore` left by `updatePondedDepth` is above `ZERO`, `tx` is not 0. In
the integration branch of `getSubareaRunoff` (losses below the available
moisture) that sub-area and that `tx` are what `findSubareaRunoff` receives, so
its division by `tRunoff` is never by zero. In exact arithmetic `tx` is
positive. -/
theorem C32_duration_range (rnd : ℚ → ℚ) (env : Env) (project : Project) (j : Nat)
    (i : SubareaType) (precip evap tStep : ℚ) (hR : RoundingLaws rnd) (hT : 0 < tStep)
    (hRT : rnd tStep = tStep) (hZ : 0 ≤ env.ZERO) :
    (∀ (p : Project) (sa : TSubarea), 0 ≤ sa.dStore → rnd sa.dStore = sa.dStore →
      (Rounded.updatePondedDepth rnd env p sa tStep).2.2
        = (if rnd (sa.depth + rnd (rnd (sa.inflow - p.Losses) * tStep)) ≤ sa.dStore then tStep
           else if rnd (sa.dStore - sa.depth) > 0 ∧ rnd (sa.inflow - p.Losses) > 0 then
             (if rnd (tStep - rnd (rnd (sa.dStore - sa.depth) / rnd (sa.inflow - p.Losses))) < 0
              then 0
              else rnd (tStep - rnd (rnd (sa.dStore - sa.depth) / rnd (sa.inflow - p.Losses))))
           else tStep) ∧
      0 ≤ (Rounded.updatePondedDepth rnd env p sa tStep).2.2 ∧
      (Rounded.updatePondedDepth rnd env p sa tStep).2.2 ≤ tStep ∧
      (rnd ((Rounded.updatePondedDepth rnd env p sa tStep).2.1.depth
          - (Rounded.updatePondedDepth rnd env p sa tStep).2.1.dStore) > env.ZERO →
        (Rounded.updatePondedDepth rnd env p sa tStep).2.2 ≠ 0)) ∧
    (0 ≤ (getSubarea project j i).dStore →
      rnd (getSubarea project j i).dStore = (getSubarea project j i).dStore →
      ¬ (rnd (Rounded.subareaEvap rnd project j i evap tStep
            + Rounded.subareaInfil rnd env project j i precip tStep)
          ≥ Rounded.subareaMoisture rnd project j i precip tStep) →
      (Rounded.subareaPonded rnd env project j i precip evap tStep).2
        = (Rounded.updatePondedDepth rnd env
            (Rounded.subareaLosses rnd env project j i precip evap tStep)
            (Rounded.subareaWetted rnd project j i precip) tStep).2 ∧
      0 ≤ (Rounded.subareaPonded rnd env project j i precip evap tStep).2.2 ∧
      (Rounded.subareaPonded rnd env project j i precip evap tStep).2.2 ≤ tStep ∧
      (rnd ((Rounded.subareaPonded rnd env project j i precip evap tStep).2.1.depth
          - (Rounded.subareaPonded rnd env project j i precip evap tStep).2.1.dStore)
          > env.ZERO →
        (Rounded.subareaPonded rnd env project j i precip evap tStep).2.2 ≠ 0)) ∧
    ((∀ x, rnd x = x) → ∀ (p : Project) (sa : TSubarea),
      0 < (Rounded.updatePondedDepth rnd env p sa tStep).2.2) := by
  have key : ∀ (p : Project) (sa : TSubarea), 0 ≤ sa.dStore → rnd sa.dStore = sa.dStore →
      rnd ((Rounded.updatePondedDepth rnd env p sa tStep).2.1.depth
          - (Rounded.updatePondedDepth rnd env p sa tStep).2.1.dStore) > env.ZERO →
        (Rounded.updatePondedDepth rnd env p sa tStep).2.2 ≠ 0 := by
    intro p sa hD hRD hx h0
    obtain ⟨d1, d2⟩ := rounded_updatePondedDepth_zero rnd env p sa tStep hR hT hD hRD h0
    rw [d1, d2, sub_self, hR.1] at hx
    exact absurd hx (not_lt.mpr hZ)
  refine ⟨fun p sa hD hRD => ⟨rounded_updatePondedDepth_duration rnd env p sa tStep hT,
    (rounded_updatePondedDepth_bounds rnd env p sa tStep hR hT hRT).1,
    (rounded_updatePondedDepth_bounds rnd env p sa tStep hR hT hRT).2, key p sa hD hRD⟩,
    fun hD hRD hInt => ?_, fun hid p sa => ?_⟩
  · have h := (rounded_subareaPonded_ponding rnd env project j i precip evap tStep hInt).2
    rw [h]
    exact ⟨rfl, (rounded_updatePondedDepth_bounds rnd env _ _ tStep hR hT hRT).1,
      (rounded_updatePondedDepth_bounds rnd env _ _ tStep hR hT hRT).2,
      key _ (Rounded.subareaWetted rnd project j i precip) hD hRD⟩
  · have hrnd : rnd = id := funext hid
    rw [hrnd, rounded_updatePondedDepth_id]
    exact (updatePondedDepth_duration_bounds env p sa tStep hT).1

theorem C32_duration_range_witness :
    (0 ≤ (Rounded.updatePondedDepth roundDouble basicEnv zeroProject fillingSubarea 300).2.2 ∧
      (Rounded.updatePondedDepth roundDouble basicEnv zeroProject fillingSubarea 300).2.2
        ≤ 300) ∧
    (roundDouble ((Rounded.updatePondedDepth roundDouble basicEnv zeroProject fillingSubarea
          300).2.1.depth
        - (Rounded.updatePondedDepth roundDouble basicEnv zeroProject fillingSubarea
          300).2.1.dStore) > basicEnv.ZERO →
      (Rounded.updatePondedDepth roundDouble basicEnv zeroProject fillingSubarea 300).2.2 ≠ 0) := by
  have e4 : roundDouble (7388718138654719 / 35184372088832)
      = 7388718138654719 / 35184372088832 := by
    rw [roundDouble_eq_pos _ 7388718138654719 45 (by norm_num) (by norm_num) (by norm_num)
      (by norm_num)]
    norm_num
  have e300 : roundDouble 300 = 300 := by
    rw [roundDouble_eq_pos _ 5277655813324800 44 (by norm_num) (by norm_num) (by norm_num)
      (by norm_num)]
    norm_num
  have h := (C32_duration_range roundDouble basicEnv zeroProject 0 SubareaType.IMPERV0 0 0 300
    roundingLaws_roundDouble (by norm_num) e300 (by norm_num [basicEnv])).1 zeroProject
    fillingSubarea (by norm_num [fillingSubarea, zeroSubarea])
    (by simp only [fillingSubarea, zeroSubarea]; exact e4)
  exact ⟨⟨h.2.1, h.2.2.1⟩, h.2.2.2⟩

theorem rounded_steppedDepth_idem (rnd : ℚ → ℚ) (p : Project) (sa : TSubarea) (dt : ℚ)
    (hR : RoundingLaws rnd) :
    rnd (Rounded.steppedDepth rnd p sa dt) = Rounded.steppedDepth rnd p sa dt := by
  unfold Rounded.steppedDepth
  exact hR.2.2 _

/-- A rounding that keeps 0 and is monotone maps non-positive numbers to
non-positive numbers and non-negative ones to non-negative ones. -/
theorem roundingLaws_sign (rnd : ℚ → ℚ) (hR : RoundingLaws rnd) (x : ℚ) :
    (x ≤ 0 → rnd x ≤ 0) ∧ (0 ≤ x → 0 ≤ rnd x) := by
  obtain ⟨h0, hm, _⟩ := hR
  constructor
  · intro h
    have := hm x 0 h
    rw [h0] at this
    exact this
  · intro h
    have := hm 0 x h
    rw [h0] at this
    exact this

/-- Runoff that `getSubareaRunoff` leaves on a sub-area without Manning
roughness and without depression storage, in rounded arithmetic. -/
theorem rounded_getSubareaRunoff_free_drain (rnd : ℚ → ℚ) (env : Env) (project : Project)
    (j : Nat) (i : SubareaType) (precip evap tStep : ℚ) (hR : RoundingLaws rnd)
    (hZ : 0 ≤ env.ZERO)
    (hN : (getSubarea project j i).N = 0) (hα : (getSubarea project j i).alpha = 0)
    (hD : (getSubarea project j i).dStore = 0)
    (hA : (getSubarea project j i).fArea ≠ 0) (hT : 0 < tStep)
    (hd : 0 ≤ (getSubarea project j i).depth) :
    (rnd (Rounded.subareaEvap rnd project j i evap tStep
          + Rounded.subareaInfil rnd env project j i precip tStep)
        ≥ Rounded.subareaMoisture rnd project j i precip tStep →
      (getSubarea (Rounded.getSubareaRunoff rnd env project j i precip evap tStep) j i).runoff
        = 0) ∧
    (¬ (rnd (Rounded.subareaEvap rnd project j i evap tStep
          + Rounded.subareaInfil rnd env project j i precip tStep)
        ≥ Rounded.subareaMoisture rnd project j i precip tStep) →
      (getSubarea (Rounded.getSubareaRunoff rnd env project j i precip evap tStep) j i).runoff
        = (if Rounded.steppedDepth rnd (Rounded.subareaLosses rnd env project j i precip evap tStep)
              (Rounded.subareaWetted rnd project j i precip) tStep > env.ZERO then
            rnd (Rounded.steppedDepth rnd
                (Rounded.subareaLosses rnd env project j i precip evap tStep)
                (Rounded.subareaWetted rnd project j i precip) tStep / tStep)
          else 0)) := by
  obtain ⟨hS, _⟩ := rounded_getSubareaRunoff_result rnd env project j i precip evap tStep hA
  rw [hS]
  have hWd : (Rounded.subareaWetted rnd project j i precip).dStore = 0 := hD
  have hWN : (Rounded.subareaWetted rnd project j i precip).N = 0 := hN
  have hWα : (Rounded.subareaWetted rnd project j i precip).alpha = 0 := hα
  have hWdepth : (Rounded.subareaWetted rnd project j i precip).depth
      = (getSubarea project j i).depth := rfl
  refine ⟨fun hL => ?_, fun hL => ?_⟩
  · obtain ⟨_, p2, p3⟩ := rounded_subareaPonded_depleted rnd env project j i precip evap tStep hL
    rw [p2, p3]
    refine (rounded_findSubareaRunoff_dry rnd env _ tStep ?_).2
    show rnd ((0 : ℚ) - (getSubarea project j i).dStore) ≤ env.ZERO
    rw [hD, sub_zero, hR.1]
    exact hZ
  · have p2 := (rounded_subareaPonded_ponding rnd env project j i precip evap tStep hL).2
    rw [p2]
    obtain ⟨hF, _⟩ := rounded_updatePondedDepth_frame rnd env
      (Rounded.subareaLosses rnd env project j i precip evap tStep)
      (Rounded.subareaWetted rnd project j i precip) tStep
    generalize hDd : Rounded.steppedDepth rnd
      (Rounded.subareaLosses rnd env project j i precip evap tStep)
      (Rounded.subareaWetted rnd project j i precip) tStep = D
    have hDi : rnd D = D := by
      rw [← hDd]
      exact rounded_steppedDepth_idem rnd _ _ _ hR
    by_cases hfast : D ≤ 0
    · obtain ⟨u1, u2⟩ := rounded_updatePondedDepth_fast rnd env
        (Rounded.subareaLosses rnd env project j i precip evap tStep)
        (Rounded.subareaWetted rnd project j i precip) tStep (by rw [hDd, hWd]; exact hfast)
      rw [hDd] at u1
      rw [if_neg (not_lt.mpr (le_trans hfast hZ))]
      refine (rounded_findSubareaRunoff_dry rnd env _ _ ?_).2
      rw [hF]
      show rnd ((Rounded.updatePondedDepth rnd env
        (Rounded.subareaLosses rnd env project j i precip evap tStep)
        (Rounded.subareaWetted rnd project j i precip) tStep).2.1.depth
        - (Rounded.subareaWetted rnd project j i precip).dStore) ≤ env.ZERO
      rw [u1, hWd, sub_zero]
      refine le_trans ((roundingLaws_sign rnd hR _).1 ?_) hZ
      split_ifs
      · exact le_refl 0
      · exact hfast
    · obtain ⟨u1, u2⟩ := rounded_updatePondedDepth_linear rnd env
        (Rounded.subareaLosses rnd env project j i precip evap tStep)
        (Rounded.subareaWetted rnd project j i precip) tStep
        (by rw [hDd, hWd]; exact hfast) hWα
        (by
          rw [hWd, hWdepth]
          exact (roundingLaws_sign rnd hR _).1 (by linarith))
        (by rw [hWd]) hT
      rw [hDd] at u1
      have hx : rnd ((Rounded.updatePondedDepth rnd env
          (Rounded.subareaLosses rnd env project j i precip evap tStep)
          (Rounded.subareaWetted rnd project j i precip) tStep).2.1.depth
          - (Rounded.updatePondedDepth rnd env
          (Rounded.subareaLosses rnd env project j i precip evap tStep)
          (Rounded.subareaWetted rnd project j i precip) tStep).2.1.dStore) = D := by
        have hd2 : (Rounded.updatePondedDepth rnd env
            (Rounded.subareaLosses rnd env project j i precip evap tStep)
            (Rounded.subareaWetted rnd project j i precip) tStep).2.1.dStore = 0 := by
          rw [hF]
          exact hWd
        rw [u1, hd2, sub_zero, hDi]
      have hN2 : ¬ ((Rounded.updatePondedDepth rnd env
          (Rounded.subareaLosses rnd env project j i precip evap tStep)
          (Rounded.subareaWetted rnd project j i precip) tStep).2.1.N > 0) := by
        rw [hF]
        show ¬ ((Rounded.subareaWetted rnd project j i precip).N > 0)
        rw [hWN]
        exact lt_irrefl 0
      by_cases hx2 : D > env.ZERO
      · rw [if_pos hx2, (rounded_findSubareaRunoff_drained rnd env _ _ (by rw [hx]; exact hx2)
          hN2).2, hx, u2]
      · rw [if_neg hx2]
        exact (rounded_findSubareaRunoff_dry rnd env _ _ (by rw [hx]; exact not_lt.mp hx2)).2
/-- The inflow that `getSubareaRunoff` leaves on the sub-area: the previous
inflow plus the net precipitation of the step. -/
theorem rounded_getSubareaRunoff_inflow (rnd : ℚ → ℚ) (env : Env) (project : Project)
    (j : Nat) (i : SubareaType) (precip evap tStep : ℚ)
    (hA : (getSubarea project j i).fArea ≠ 0) :
    (getSubarea (Rounded.getSubareaRunoff rnd env project j i precip evap tStep) j i).inflow
      = rnd ((getSubarea project j i).inflow + precip) := by
  obtain ⟨hS, _⟩ := rounded_getSubareaRunoff_result rnd env project j i precip evap tStep hA
  rw [hS, (rounded_findSubareaRunoff_keeps rnd env _ _).2.2.1]
  by_cases hL : rnd (Rounded.subareaEvap rnd project j i evap tStep
      + Rounded.subareaInfil rnd env project j i precip tStep)
      ≥ Rounded.subareaMoisture rnd project j i precip tStep
  · rw [(rounded_subareaPonded_depleted rnd env project j i precip evap tStep hL).2.1]
    rfl
  · rw [(rounded_subareaPonded_ponding rnd env project j i precip evap tStep hL).2,
      (rounded_updatePondedDepth_frame rnd env _ _ _).1]
    rfl

/-- The loss rate that `getSubareaRunoff` leaves in `project->Losses`: the
available moisture in the depletion branch, evaporation plus infiltration
otherwise. -/
theorem rounded_getSubareaRunoff_Losses (rnd : ℚ → ℚ) (env : Env) (project : Project)
    (j : Nat) (i : SubareaType) (precip evap tStep : ℚ)
    (hA : (getSubarea project j i).fArea ≠ 0) :
    (Rounded.getSubareaRunoff rnd env project j i precip evap tStep).Losses
      = (if rnd (Rounded.subareaEvap rnd project j i evap tStep
              + Rounded.subareaInfil rnd env project j i precip tStep)
            ≥ Rounded.subareaMoisture rnd project j i precip tStep then
          Rounded.subareaMoisture rnd project j i precip tStep
        else rnd (Rounded.subareaEvap rnd project j i evap tStep
              + Rounded.subareaInfil rnd env project j i precip tStep)) := by
  obtain ⟨_, hLs⟩ := rounded_getSubareaRunoff_result rnd env project j i precip evap tStep hA
  rw [hLs]
  by_cases hL : rnd (Rounded.subareaEvap rnd project j i evap tStep
      + Rounded.subareaInfil rnd env project j i precip tStep)
      ≥ Rounded.subareaMoisture rnd project j i precip tStep
  · rw [if_pos hL, (rounded_subareaPonded_depleted rnd env project j i precip evap tStep hL).1]
  · rw [if_neg hL, (rounded_subareaPonded_ponding rnd env project j i precip evap tStep hL).1]

/-- C2 (amended): in a sub-area with `N = 0`, `alpha = 0`, no depression
storage, non-zero area fraction and non-negative starting depth, with
`tStep > 0`, the runoff `getSubareaRunoff` leaves is 0 when the losses reach the
available moisture; otherwise the losses left in `project->Losses` are
evaporation plus infiltration and the runoff is `D / tStep` when
`D = depth + (inflow - Losses) * tStep`, the ponded depth as the code computes
it, exceeds `ZERO`, and 0 when it does not (inflow with the net precipitation of
the step). For a sub-area that starts dry the runoff is
`((inflow - Losses) * tStep) / tStep` above the threshold and 0 otherwise; this
is `inflow - Losses` when the arithmetic is exact. When every operation is
rounded with a relative error of at most `u` (`2^-53` for `double`), the runoff
above the threshold differs from `depth / tStep + inflow - Losses` by at most
`((1 + u)^4 - 1) * (depth / tStep + |inflow - Losses|)`. -/
theorem C2_free_drain_runoff (rnd : ℚ → ℚ) (env : Env) (project : Project) (j : Nat)
    (i : SubareaType) (precip evap tStep : ℚ) (hR : RoundingLaws rnd) (hZ : 0 ≤ env.ZERO)
    (hN : (getSubarea project j i).N = 0) (hα : (getSubarea project j i).alpha = 0)
    (hD : (getSubarea project j i).dStore = 0)
    (hA : (getSubarea project j i).fArea ≠ 0) (hT : 0 < tStep)
    (hd : 0 ≤ (getSubarea project j i).depth) :
    (rnd (Rounded.subareaEvap rnd project j i evap tStep
          + Rounded.subareaInfil rnd env project j i precip tStep)
        ≥ Rounded.subareaMoisture rnd project j i precip tStep →
      (getSubarea (Rounded.getSubareaRunoff rnd env project j i precip evap tStep) j i).runoff
        = 0) ∧
    (¬ (rnd (Rounded.subareaEvap rnd project j i evap tStep
          + Rounded.subareaInfil rnd env project j i precip tStep)
        ≥ Rounded.subareaMoisture rnd project j i precip tStep) →
      (Rounded.getSubareaRunoff rnd env project j i precip evap tStep).Losses
        = rnd (Rounded.subareaEvap rnd project j i evap tStep
            + Rounded.subareaInfil rnd env project j i precip tStep) ∧
      (getSubarea (Rounded.getSubareaRunoff rnd env project j i precip evap tStep) j i).runoff
        = (if rnd ((getSubarea project j i).depth
              + rnd (rnd ((getSubarea (Rounded.getSubareaRunoff rnd env project j i precip evap
                    tStep) j i).inflow
                  - (Rounded.getSubareaRunoff rnd env project j i precip evap tStep).Losses)
                * tStep)) > env.ZERO then
            rnd (rnd ((getSubarea project j i).depth
              + rnd (rnd ((getSubarea (Rounded.getSubareaRunoff rnd env project j i precip evap
                    tStep) j i).inflow
                  - (Rounded.getSubareaRunoff rnd env project j i precip evap tStep).Losses)
                * tStep)) / tStep)
          else 0)) ∧
    ((getSubarea project j i).depth = 0 →
      (getSubarea (Rounded.getSubareaRunoff rnd env project j i precip evap tStep) j i).runoff
        = (if rnd (rnd ((getSubarea (Rounded.getSubareaRunoff rnd env project j i precip evap
                    tStep) j i).inflow
                  - (Rounded.getSubareaRunoff rnd env project j i precip evap tStep).Losses)
                * tStep) > env.ZERO then
            rnd (rnd (rnd ((getSubarea (Rounded.getSubareaRunoff rnd env project j i precip evap
                    tStep) j i).inflow
                  - (Rounded.getSubareaRunoff rnd env project j i precip evap tStep).Losses)
                * tStep) / tStep)
          else 0)) ∧
    ((∀ x, rnd x = x) → (getSubarea project j i).depth = 0 →
      ((getSubarea (Rounded.getSubareaRunoff rnd env project j i precip evap tStep) j i).inflow
          - (Rounded.getSubareaRunoff rnd env project j i precip evap tStep).Losses)
        * tStep > env.ZERO →
      (getSubarea (Rounded.getSubareaRunoff rnd env project j i precip evap tStep) j i).runoff
        = (getSubarea (Rounded.getSubareaRunoff rnd env project j i precip evap tStep) j i).inflow
          - (Rounded.getSubareaRunoff rnd env project j i precip evap tStep).Losses) ∧
    (∀ u, RoundingError rnd u →
      ¬ (rnd (Rounded.subareaEvap rnd project j i evap tStep
          + Rounded.subareaInfil rnd env project j i precip tStep)
        ≥ Rounded.subareaMoisture rnd project j i precip tStep) →
      rnd ((getSubarea project j i).depth
          + rnd (rnd ((getSubarea (Rounded.getSubareaRunoff rnd env project j i precip evap
                tStep) j i).inflow
              - (Rounded.getSubareaRunoff rnd env project j i precip evap tStep).Losses)
            * tStep)) > env.ZERO →
      |(getSubarea (Rounded.getSubareaRunoff rnd env project j i precip evap tStep) j i).runoff
          - ((getSubarea project j i).depth / tStep
            + ((getSubarea (Rounded.getSubareaRunoff rnd env project j i precip evap tStep) j
                  i).inflow
              - (Rounded.getSubareaRunoff rnd env project j i precip evap tStep).Losses))|
        ≤ ((1 + u) ^ 4 - 1)
          * ((getSubarea project j i).depth / tStep
            + |(getSubarea (Rounded.getSubareaRunoff rnd env project j i precip evap tStep) j
                  i).inflow
              - (Rounded.getSubareaRunoff rnd env project j i precip evap tStep).Losses|)) := by
  obtain ⟨f1, f2⟩ := rounded_getSubareaRunoff_free_drain rnd env project j i precip evap tStep hR
    hZ hN hα hD hA hT hd
  have hI := rounded_getSubareaRunoff_inflow rnd env project j i precip evap tStep hA
  have hLs := rounded_getSubareaRunoff_Losses rnd env project j i precip evap tStep hA
  have hStep : Rounded.steppedDepth rnd
      (Rounded.subareaLosses rnd env project j i precip evap tStep)
      (Rounded.subareaWetted rnd project j i precip) tStep
      = rnd ((getSubarea project j i).depth
          + rnd (rnd (rnd ((getSubarea project j i).inflow + precip)
              - rnd (Rounded.subareaEvap rnd project j i evap tStep
                + Rounded.subareaInfil rnd env project j i precip tStep)) * tStep)) := rfl
  have c2 : ¬ (rnd (Rounded.subareaEvap rnd project j i evap tStep
          + Rounded.subareaInfil rnd env project j i precip tStep)
        ≥ Rounded.subareaMoisture rnd project j i precip tStep) →
      (Rounded.getSubareaRunoff rnd env project j i precip evap tStep).Losses
        = rnd (Rounded.subareaEvap rnd project j i evap tStep
            + Rounded.subareaInfil rnd env project j i precip tStep) ∧
      (getSubarea (Rounded.getSubareaRunoff rnd env project j i precip evap tStep) j i).runoff
        = (if rnd ((getSubarea project j i).depth
              + rnd (rnd ((getSubarea (Rounded.getSubareaRunoff rnd env project j i precip evap
                    tStep) j i).inflow
                  - (Rounded.getSubareaRunoff rnd env project j i precip evap tStep).Losses)
                * tStep)) > env.ZERO then
            rnd (rnd ((getSubarea project j i).depth
              + rnd (rnd ((getSubarea (Rounded.getSubareaRunoff rnd env project j i precip evap
                    tStep) j i).inflow
                  - (Rounded.getSubareaRunoff rnd env project j i precip evap tStep).Losses)
                * tStep)) / tStep)
          else 0) := by
    intro hL
    rw [if_neg hL] at hLs
    refine ⟨hLs, ?_⟩
    rw [f2 hL, hStep, hI, hLs]
  have c3 : (getSubarea project j i).depth = 0 →
      (getSubarea (Rounded.getSubareaRunoff rnd env project j i precip evap tStep) j i).runoff
        = (if rnd (rnd ((getSubarea (Rounded.getSubareaRunoff rnd env project j i precip evap
                    tStep) j i).inflow
                  - (Rounded.getSubareaRunoff rnd env project j i precip evap tStep).Losses)
                * tStep) > env.ZERO then
            rnd (rnd (rnd ((getSubarea (Rounded.getSubareaRunoff rnd env project j i precip evap
                    tStep) j i).inflow
                  - (Rounded.getSubareaRunoff rnd env project j i precip evap tStep).Losses)
                * tStep) / tStep)
          else 0) := by
    intro h0
    by_cases hL : rnd (Rounded.subareaEvap rnd project j i evap tStep
        + Rounded.subareaInfil rnd env project j i precip tStep)
        ≥ Rounded.subareaMoisture rnd project j i precip tStep
    · rw [f1 hL, hI, hLs, if_pos hL]
      have hM : Rounded.subareaMoisture rnd project j i precip tStep
          = rnd ((getSubarea project j i).inflow + precip) := by
        unfold Rounded.subareaMoisture
        rw [h0, zero_div, hR.1, zero_add, hR.2.2]
      rw [hM, sub_self, hR.1, zero_mul, hR.1, if_neg (not_lt.mpr hZ)]
    · rw [(c2 hL).2, h0, zero_add, hR.2.2]
  refine ⟨f1, c2, c3, fun hid h0 hx => ?_, fun u hE hL hx => ?_⟩
  · rw [c3 h0]
    simp only [hid]
    rw [if_pos hx, mul_div_assoc, div_self (ne_of_gt hT), mul_one]
  · have hrun := (c2 hL).2
    rw [if_pos hx] at hrun
    rw [hrun]
    exact relerr_drain hE _ _ tStep hd hT

theorem C2_free_drain_runoff_witness :
    (getSubarea (Rounded.getSubareaRunoff roundDouble basicEnv drainProject 0
        SubareaType.IMPERV0 3 0 2) 0 SubareaType.IMPERV0).runoff
      = (if roundDouble (roundDouble
              ((getSubarea (Rounded.getSubareaRunoff roundDouble basicEnv drainProject 0
                  SubareaType.IMPERV0 3 0 2) 0 SubareaType.IMPERV0).inflow
                - (Rounded.getSubareaRunoff roundDouble basicEnv drainProject 0
                  SubareaType.IMPERV0 3 0 2).Losses) * 2) > basicEnv.ZERO then
          roundDouble (roundDouble (roundDouble
              ((getSubarea (Rounded.getSubareaRunoff roundDouble basicEnv drainProject 0
                  SubareaType.IMPERV0 3 0 2) 0 SubareaType.IMPERV0).inflow
                - (Rounded.getSubareaRunoff roundDouble basicEnv drainProject 0
                  SubareaType.IMPERV0 3 0 2).Losses) * 2) / 2)
        else 0) :=
  (C2_free_drain_runoff roundDouble basicEnv drainProject 0 SubareaType.IMPERV0 3 0 2
    roundingLaws_roundDouble
    (by norm_num [basicEnv])
    (by norm_num [getSubarea, drainProject, zeroSubcatch, zeroSubarea])
    (by norm_num [getSubarea, drainProject, zeroSubcatch, zeroSubarea])
    (by norm_num [getSubarea, drainProject, zeroSubcatch, zeroSubarea])
    (by norm_num [getSubarea, drainProject, zeroSubcatch, zeroSubarea])
    (by norm_num)
    (by norm_num [getSubarea, drainProject, zeroSubcatch, zeroSubarea])).2.2.1
    (by norm_num [getSubarea, drainProject, zeroSubcatch, zeroSubarea])
/-- The depth, the runoff and the losses that the rounded `getSubareaRunoff`
leaves on its paths without the ODE solver: the depletion branch, the fast path,
and the slow path with `alpha = 0` from a start not below the depression
storage; and the balance between them in exact arithmetic. -/
theorem rounded_getSubareaRunoff_paths (rnd : ℚ → ℚ) (env : Env) (project : Project) (j : Nat)
    (i : SubareaType) (precip evap tStep : ℚ) (hR : RoundingLaws rnd) (hZ : 0 ≤ env.ZERO)
    (hA : (getSubarea project j i).fArea ≠ 0) (hT : 0 < tStep)
    (hD : 0 ≤ (getSubarea project j i).dStore) :
    (rnd (Rounded.subareaEvap rnd project j i evap tStep
          + Rounded.subareaInfil rnd env project j i precip tStep)
        ≥ Rounded.subareaMoisture rnd project j i precip tStep →
      (getSubarea (Rounded.getSubareaRunoff rnd env project j i precip evap tStep) j i).depth = 0 ∧
      (getSubarea (Rounded.getSubareaRunoff rnd env project j i precip evap tStep) j i).runoff
        = 0 ∧
      (Rounded.getSubareaRunoff rnd env project j i precip evap tStep).Losses
        = Rounded.subareaMoisture rnd project j i precip tStep) ∧
    (¬ (rnd (Rounded.subareaEvap rnd project j i evap tStep
          + Rounded.subareaInfil rnd env project j i precip tStep)
        ≥ Rounded.subareaMoisture rnd project j i precip tStep) →
      (Rounded.getSubareaRunoff rnd env project j i precip evap tStep).Losses
        = rnd (Rounded.subareaEvap rnd project j i evap tStep
            + Rounded.subareaInfil rnd env project j i precip tStep) ∧
      (rnd ((getSubarea project j i).depth
            + rnd (rnd ((getSubarea (Rounded.getSubareaRunoff rnd env project j i precip evap
                  tStep) j i).inflow
                - (Rounded.getSubareaRunoff rnd env project j i precip evap tStep).Losses)
              * tStep)) ≤ (getSubarea project j i).dStore →
        (getSubarea (Rounded.getSubareaRunoff rnd env project j i precip evap tStep) j i).runoff
          = 0 ∧
        (getSubarea (Rounded.getSubareaRunoff rnd env project j i precip evap tStep) j i).depth
          = (if rnd ((getSubarea project j i).depth
                + rnd (rnd ((getSubarea (Rounded.getSubareaRunoff rnd env project j i precip evap
                      tStep) j i).inflow
                    - (Rounded.getSubareaRunoff rnd env project j i precip evap tStep).Losses)
                  * tStep)) < 0 then 0
             else rnd ((getSubarea project j i).depth
                + rnd (rnd ((getSubarea (Rounded.getSubareaRunoff rnd env project j i precip evap
                      tStep) j i).inflow
                    - (Rounded.getSubareaRunoff rnd env project j i precip evap tStep).Losses)
                  * tStep)))) ∧
      (¬ (rnd ((getSubarea project j i).depth
            + rnd (rnd ((getSubarea (Rounded.getSubareaRunoff rnd env project j i precip evap
                  tStep) j i).inflow
                - (Rounded.getSubareaRunoff rnd env project j i precip evap tStep).Losses)
              * tStep)) ≤ (getSubarea project j i).dStore) →
        (getSubarea project j i).alpha = 0 →
        (getSubarea project j i).dStore ≤ (getSubarea project j i).depth →
        (getSubarea (Rounded.getSubareaRunoff rnd env project j i precip evap tStep) j i).runoff
          = (if rnd (rnd ((getSubarea project j i).depth
                  + rnd (rnd ((getSubarea (Rounded.getSubareaRunoff rnd env project j i precip
                        evap tStep) j i).inflow
                      - (Rounded.getSubareaRunoff rnd env project j i precip evap tStep).Losses)
                    * tStep)) - (getSubarea project j i).dStore) > env.ZERO
                ∧ ¬ (getSubarea project j i).N > 0 then
              rnd (rnd (rnd ((getSubarea project j i).depth
                  + rnd (rnd ((getSubarea (Rounded.getSubareaRunoff rnd env project j i precip
                        evap tStep) j i).inflow
                      - (Rounded.getSubareaRunoff rnd env project j i precip evap tStep).Losses)
                    * tStep)) - (getSubarea project j i).dStore) / tStep)
             else 0) ∧
        (getSubarea (Rounded.getSubareaRunoff rnd env project j i precip evap tStep) j i).depth
          = (if rnd (rnd ((getSubarea project j i).depth
                  + rnd (rnd ((getSubarea (Rounded.getSubareaRunoff rnd env project j i precip
                        evap tStep) j i).inflow
                      - (Rounded.getSubareaRunoff rnd env project j i precip evap tStep).Losses)
                    * tStep)) - (getSubarea project j i).dStore) > env.ZERO
                ∧ ¬ (getSubarea project j i).N > 0 then
              (getSubarea project j i).dStore
             else rnd ((getSubarea project j i).depth
                  + rnd (rnd ((getSubarea (Rounded.getSubareaRunoff rnd env project j i precip
                        evap tStep) j i).inflow
                      - (Rounded.getSubareaRunoff rnd env project j i precip evap tStep).Losses)
                    * tStep))))) ∧
    ((∀ x, rnd x = x) →
      ((Rounded.getSubareaRunoff rnd env project j i precip evap tStep).Vevap / tStep
          + (Rounded.getSubareaRunoff rnd env project j i precip evap tStep).Vinfil / tStep
          ≥ (getSubarea project j i).depth / tStep + ((getSubarea project j i).inflow + precip) ∨
        (getSubarea project j i).depth
            + ((getSubarea project j i).inflow + precip
              - ((Rounded.getSubareaRunoff rnd env project j i precip evap tStep).Vevap / tStep
                + (Rounded.getSubareaRunoff rnd env project j i precip evap tStep).Vinfil
                  / tStep))
              * tStep
          ≤ (getSubarea project j i).dStore ∨
        (getSubarea project j i).alpha = 0) →
      (0 < (getSubarea project j i).N ∨
        (getSubarea project j i).dStore ≤ (getSubarea project j i).depth ∨
        (getSubarea (Rounded.getSubareaRunoff rnd env project j i precip evap tStep) j i).runoff
          = 0) →
      (getSubarea (Rounded.getSubareaRunoff rnd env project j i precip evap tStep) j i).depth
        = (getSubarea project j i).depth
          + ((getSubarea project j i).inflow + precip
            - (Rounded.getSubareaRunoff rnd env project j i precip evap tStep).Losses
            - (getSubarea (Rounded.getSubareaRunoff rnd env project j i precip evap tStep) j
                i).runoff)
            * tStep) := by
  obtain ⟨hS, _⟩ := rounded_getSubareaRunoff_result rnd env project j i precip evap tStep hA
  have hI := rounded_getSubareaRunoff_inflow rnd env project j i precip evap tStep hA
  have hLs := rounded_getSubareaRunoff_Losses rnd env project j i precip evap tStep hA
  have hWd : (Rounded.subareaWetted rnd project j i precip).dStore
      = (getSubarea project j i).dStore := rfl
  have hWN : (Rounded.subareaWetted rnd project j i precip).N = (getSubarea project j i).N := rfl
  have hWα : (Rounded.subareaWetted rnd project j i precip).alpha
      = (getSubarea project j i).alpha := rfl
  have hWdepth : (Rounded.subareaWetted rnd project j i precip).depth
      = (getSubarea project j i).depth := rfl
  have hStep : Rounded.steppedDepth rnd
      (Rounded.subareaLosses rnd env project j i precip evap tStep)
      (Rounded.subareaWetted rnd project j i precip) tStep
      = rnd ((getSubarea project j i).depth
          + rnd (rnd (rnd ((getSubarea project j i).inflow + precip)
              - rnd (Rounded.subareaEvap rnd project j i evap tStep
                + Rounded.subareaInfil rnd env project j i precip tStep)) * tStep)) := rfl
  refine ⟨fun hL => ?_, fun hL => ?_, fun hid hPath hDrain => ?_⟩
  · rw [if_pos hL] at hLs
    obtain ⟨_, p2, p3⟩ := rounded_subareaPonded_depleted rnd env project j i precip evap tStep hL
    rw [hS, p2, p3]
    have hx : rnd (({ Rounded.subareaWetted rnd project j i precip with depth := 0 } :
        TSubarea).depth
        - ({ Rounded.subareaWetted rnd project j i precip with depth := 0 } : TSubarea).dStore)
        ≤ env.ZERO := by
      show rnd ((0 : ℚ) - (getSubarea project j i).dStore) ≤ env.ZERO
      exact le_trans ((roundingLaws_sign rnd hR _).1 (by linarith)) hZ
    obtain ⟨d1, d2⟩ := rounded_findSubareaRunoff_dry rnd env _ tStep hx
    exact ⟨d1, d2, hLs⟩
  · rw [if_neg hL] at hLs
    have p2 := (rounded_subareaPonded_ponding rnd env project j i precip evap tStep hL).2
    obtain ⟨hF, _⟩ := rounded_updatePondedDepth_frame rnd env
      (Rounded.subareaLosses rnd env project j i precip evap tStep)
      (Rounded.subareaWetted rnd project j i precip) tStep
    rw [hI, hLs, ← hStep, hS, p2]
    generalize hDd : Rounded.steppedDepth rnd
      (Rounded.subareaLosses rnd env project j i precip evap tStep)
      (Rounded.subareaWetted rnd project j i precip) tStep = D
    have hd2 : (Rounded.updatePondedDepth rnd env
        (Rounded.subareaLosses rnd env project j i precip evap tStep)
        (Rounded.subareaWetted rnd project j i precip) tStep).2.1.dStore
        = (getSubarea project j i).dStore := by
      rw [hF]
      rfl
    have hN2 : (Rounded.updatePondedDepth rnd env
        (Rounded.subareaLosses rnd env project j i precip evap tStep)
        (Rounded.subareaWetted rnd project j i precip) tStep).2.1.N
        = (getSubarea project j i).N := by
      rw [hF]
      rfl
    have hα2 : (Rounded.updatePondedDepth rnd env
        (Rounded.subareaLosses rnd env project j i precip evap tStep)
        (Rounded.subareaWetted rnd project j i precip) tStep).2.1.alpha
        = (getSubarea project j i).alpha := by
      rw [hF]
      rfl
    refine ⟨rfl, fun hfast => ?_, fun hslow hα hst => ?_⟩
    · obtain ⟨u1, u2⟩ := rounded_updatePondedDepth_fast rnd env
        (Rounded.subareaLosses rnd env project j i precip evap tStep)
        (Rounded.subareaWetted rnd project j i precip) tStep (by rw [hDd, hWd]; exact hfast)
      rw [hDd] at u1
      have hx : rnd ((Rounded.updatePondedDepth rnd env
          (Rounded.subareaLosses rnd env project j i precip evap tStep)
          (Rounded.subareaWetted rnd project j i precip) tStep).2.1.depth
          - (Rounded.updatePondedDepth rnd env
          (Rounded.subareaLosses rnd env project j i precip evap tStep)
          (Rounded.subareaWetted rnd project j i precip) tStep).2.1.dStore) ≤ env.ZERO := by
        rw [u1, hd2]
        refine le_trans ((roundingLaws_sign rnd hR _).1 ?_) hZ
        split_ifs <;> linarith
      obtain ⟨d1, d2⟩ := rounded_findSubareaRunoff_dry rnd env _
        (Rounded.updatePondedDepth rnd env
          (Rounded.subareaLosses rnd env project j i precip evap tStep)
          (Rounded.subareaWetted rnd project j i precip) tStep).2.2 hx
      exact ⟨d2, d1.trans u1⟩
    · obtain ⟨u1, u2⟩ := rounded_updatePondedDepth_linear rnd env
        (Rounded.subareaLosses rnd env project j i precip evap tStep)
        (Rounded.subareaWetted rnd project j i precip) tStep
        (by rw [hDd, hWd]; exact hslow) (hWα.trans hα)
        (by
          rw [hWd, hWdepth]
          exact (roundingLaws_sign rnd hR _).1 (by linarith))
        (by rw [hWd]; exact hD) hT
      rw [hDd] at u1
      have hx : rnd ((Rounded.updatePondedDepth rnd env
          (Rounded.subareaLosses rnd env project j i precip evap tStep)
          (Rounded.subareaWetted rnd project j i precip) tStep).2.1.depth
          - (Rounded.updatePondedDepth rnd env
          (Rounded.subareaLosses rnd env project j i precip evap tStep)
          (Rounded.subareaWetted rnd project j i precip) tStep).2.1.dStore)
          = rnd (D - (getSubarea project j i).dStore) := by
        rw [u1, hd2]
      by_cases hx2 : rnd (D - (getSubarea project j i).dStore) > env.ZERO
      · by_cases hN : (getSubarea project j i).N > 0
        · obtain ⟨d1, d2⟩ := rounded_findSubareaRunoff_routed rnd env _
            (Rounded.updatePondedDepth rnd env
              (Rounded.subareaLosses rnd env project j i precip evap tStep)
              (Rounded.subareaWetted rnd project j i precip) tStep).2.2
            (by rw [hx]; exact hx2) (by rw [hN2]; exact hN)
          rw [if_neg (fun c => c.2 hN), if_neg (fun c => c.2 hN), d2, d1, hα2, hα, zero_mul,
            hR.1]
          exact ⟨rfl, u1⟩
        · obtain ⟨d1, d2⟩ := rounded_findSubareaRunoff_drained rnd env _
            (Rounded.updatePondedDepth rnd env
              (Rounded.subareaLosses rnd env project j i precip evap tStep)
              (Rounded.subareaWetted rnd project j i precip) tStep).2.2
            (by rw [hx]; exact hx2) (by rw [hN2]; exact hN)
          rw [if_pos ⟨hx2, hN⟩, if_pos ⟨hx2, hN⟩, d2, d1, hx, u2, hd2]
          exact ⟨rfl, rfl⟩
      · obtain ⟨d1, d2⟩ := rounded_findSubareaRunoff_dry rnd env _
          (Rounded.updatePondedDepth rnd env
            (Rounded.subareaLosses rnd env project j i precip evap tStep)
            (Rounded.subareaWetted rnd project j i precip) tStep).2.2
          (by rw [hx]; exact not_lt.mp hx2)
        rw [if_neg (fun c => hx2 c.1), if_neg (fun c => hx2 c.1), d2, d1]
        exact ⟨rfl, u1⟩
  · have hrnd : rnd = id := funext hid
    subst hrnd
    simp only [rounded_getSubareaRunoff_id] at hPath hDrain ⊢
    exact (getSubareaRunoff_exact_balance env project j i precip evap tStep hZ hA hT hD hPath
      hDrain).1


/-- The water balance of the rounded `getSubareaRunoff` on the same paths: the
depth it leaves differs from `depth + (inflow - Losses - runoff) * tStep`, taken
of the values it stores, by at most
`((1 + u)^5 - 1) * (depth + (|inflow| + |Losses|) * tStep)` when every operation
is rounded with a relative error of at most `u`. -/
theorem rounded_getSubareaRunoff_tolerance (rnd : ℚ → ℚ) (env : Env) (project : Project) (j : Nat)
    (i : SubareaType) (precip evap tStep : ℚ) (hR : RoundingLaws rnd) (hZ : 0 ≤ env.ZERO)
    (hA : (getSubarea project j i).fArea ≠ 0) (hT : 0 < tStep)
    (hD : 0 ≤ (getSubarea project j i).dStore)
    (u : ℚ) (hE : RoundingError rnd u) (hd : 0 ≤ (getSubarea project j i).depth)
    (hPath : rnd (Rounded.subareaEvap rnd project j i evap tStep
          + Rounded.subareaInfil rnd env project j i precip tStep)
        ≥ Rounded.subareaMoisture rnd project j i precip tStep ∨
        rnd ((getSubarea project j i).depth
          + rnd (rnd ((getSubarea (Rounded.getSubareaRunoff rnd env project j i precip evap tStep) j
              i).inflow
              - (Rounded.getSubareaRunoff rnd env project j i precip evap tStep).Losses)
            * tStep)) ≤ (getSubarea project j i).dStore ∨
        ((getSubarea project j i).alpha = 0 ∧
          (getSubarea project j i).dStore ≤ (getSubarea project j i).depth)) :
    |(getSubarea (Rounded.getSubareaRunoff rnd env project j i precip evap tStep) j
              i).depth
        - ((getSubarea project j i).depth
          + ((getSubarea (Rounded.getSubareaRunoff rnd env project j i precip evap tStep) j
              i).inflow
            - (Rounded.getSubareaRunoff rnd env project j i precip evap tStep).Losses
            - (getSubarea (Rounded.getSubareaRunoff rnd env project j i precip evap tStep) j
              i).runoff)
            * tStep)|
      ≤ ((1 + u) ^ 5 - 1)
        * ((getSubarea project j i).depth
          + (|(getSubarea (Rounded.getSubareaRunoff rnd env project j i precip evap tStep) j
              i).inflow|
            + |(Rounded.getSubareaRunoff rnd env project j i precip evap tStep).Losses|)
            * tStep) := by
  obtain ⟨pA, pB, _⟩ := rounded_getSubareaRunoff_paths rnd env project j i precip evap tStep hR
    hZ hA hT hD
  have hI := rounded_getSubareaRunoff_inflow rnd env project j i precip evap tStep hA
  have hm : Rounded.subareaMoisture rnd project j i precip tStep
      = rnd (rnd ((getSubarea project j i).depth / tStep)
        + (getSubarea (Rounded.getSubareaRunoff rnd env project j i precip evap tStep) j
            i).inflow) := by
    rw [hI]
    rfl
  by_cases hL : rnd (Rounded.subareaEvap rnd project j i evap tStep
      + Rounded.subareaInfil rnd env project j i precip tStep)
      ≥ Rounded.subareaMoisture rnd project j i precip tStep
  · obtain ⟨e1, e2, e3⟩ := pA hL
    rw [e1, e2, e3, hm]
    exact relerr_balance_depleted hE _ _ tStep hd hT
  · obtain ⟨e1, pFast, pSlow⟩ := pB hL
    have hLt : (Rounded.getSubareaRunoff rnd env project j i precip evap tStep).Losses
        < rnd (rnd ((getSubarea project j i).depth / tStep)
          + (getSubarea (Rounded.getSubareaRunoff rnd env project j i precip evap tStep) j
              i).inflow) := by
      rw [← hm, e1]
      exact not_le.mp hL
    by_cases hf : rnd ((getSubarea project j i).depth
        + rnd (rnd ((getSubarea (Rounded.getSubareaRunoff rnd env project j i precip evap
              tStep) j i).inflow
            - (Rounded.getSubareaRunoff rnd env project j i precip evap tStep).Losses)
          * tStep)) ≤ (getSubarea project j i).dStore
    · obtain ⟨r0, dd⟩ := pFast hf
      rw [r0, dd]
      exact relerr_balance_stepped hE _ _ _ tStep hd hT hLt
    · have hαs : (getSubarea project j i).alpha = 0 ∧
          (getSubarea project j i).dStore ≤ (getSubarea project j i).depth := by
        rcases hPath with h | h | h
        · exact absurd h hL
        · exact absurd h hf
        · exact h
      obtain ⟨rr, dd⟩ := pSlow hf hαs.1 hαs.2
      by_cases hc : rnd (rnd ((getSubarea project j i).depth
            + rnd (rnd ((getSubarea (Rounded.getSubareaRunoff rnd env project j i precip
                  evap tStep) j i).inflow
                - (Rounded.getSubareaRunoff rnd env project j i precip evap tStep).Losses)
              * tStep)) - (getSubarea project j i).dStore) > env.ZERO
          ∧ ¬ (getSubarea project j i).N > 0
      · rw [if_pos hc] at rr dd
        rw [rr, dd]
        exact relerr_balance_drained hE _ _ _ _ tStep hd hD hT (not_le.mp hf)
      · rw [if_neg hc] at rr dd
        rw [rr, dd]
        have hst := relerr_balance_stepped hE (getSubarea project j i).depth
          (getSubarea (Rounded.getSubareaRunoff rnd env project j i precip evap tStep) j
            i).inflow
          (Rounded.getSubareaRunoff rnd env project j i precip evap tStep).Losses tStep hd hT
          hLt
        rw [if_neg (not_lt.mpr (le_trans hD (le_of_lt (not_le.mp hf))))] at hst
        exact hst

/-- C3 (amended): for a sub-area of non-zero area fraction and non-negative
depression storage, with `tStep > 0`, on the paths of `getSubareaRunoff` that do
not call the ODE solver. Depletion branch (losses reach the available moisture):
`depth_end = 0`, `runoff = 0` and `Losses` is the available moisture. Fast path
(the stepped depth `D = depth_start + (inflow - Losses) * tStep`, as the code
computes it, does not exceed the depression storage): `runoff = 0` and
`depth_end = D`, or 0 when `D` is negative. With `alpha = 0`, `D` above the
depression storage and a start not below it: when the excess `D - dStore` is
above `ZERO` and `N = 0`, `depth_end = dStore` and
`runoff = (D - dStore) / tStep`, otherwise `depth_end = D` and `runoff = 0`. In
exact arithmetic these are
`depth_end = depth_start + (inflow - Losses - runoff) * tStep`, which then also
holds for a start below the depression storage when `N > 0` or the step ends
without runoff. When every operation is rounded with a relative error of at most
`u` (`2^-53` for `double`) and the starting depth is not negative, then in the
depletion branch, on the fast path, and with `alpha = 0` from a start not below
the depression storage, `depth_end` differs from
`depth_start + (inflow - Losses - runoff) * tStep` by at most
`((1 + u)^5 - 1) * (depth_start + (|inflow| + |Losses|) * tStep)`. -/
theorem C3_water_balance (rnd : ℚ → ℚ) (env : Env) (project : Project) (j : Nat)
    (i : SubareaType) (precip evap tStep : ℚ) (hR : RoundingLaws rnd) (hZ : 0 ≤ env.ZERO)
    (hA : (getSubarea project j i).fArea ≠ 0) (hT : 0 < tStep)
    (hD : 0 ≤ (getSubarea project j i).dStore) :
    (rnd (Rounded.subareaEvap rnd project j i evap tStep
          + Rounded.subareaInfil rnd env project j i precip tStep)
        ≥ Rounded.subareaMoisture rnd project j i precip tStep →
      (getSubarea (Rounded.getSubareaRunoff rnd env project j i precip evap tStep) j i).depth = 0 ∧
      (getSubarea (Rounded.getSubareaRunoff rnd env project j i precip evap tStep) j i).runoff
        = 0 ∧
      (Rounded.getSubareaRunoff rnd env project j i precip evap tStep).Losses
        = Rounded.subareaMoisture rnd project j i precip tStep) ∧
    (¬ (rnd (Rounded.subareaEvap rnd project j i evap tStep
          + Rounded.subareaInfil rnd env project j i precip tStep)
        ≥ Rounded.subareaMoisture rnd project j i precip tStep) →
      (Rounded.getSubareaRunoff rnd env project j i precip evap tStep).Losses
        = rnd (Rounded.subareaEvap rnd project j i evap tStep
            + Rounded.subareaInfil rnd env project j i precip tStep) ∧
      (rnd ((getSubarea project j i).depth
            + rnd (rnd ((getSubarea (Rounded.getSubareaRunoff rnd env project j i precip evap
                  tStep) j i).inflow
                - (Rounded.getSubareaRunoff rnd env project j i precip evap tStep).Losses)
              * tStep)) ≤ (getSubarea project j i).dStore →
        (getSubarea (Rounded.getSubareaRunoff rnd env project j i precip evap tStep) j i).runoff
          = 0 ∧
        (getSubarea (Rounded.getSubareaRunoff rnd env project j i precip evap tStep) j i).depth
          = (if rnd ((getSubarea project j i).depth
                + rnd (rnd ((getSubarea (Rounded.getSubareaRunoff rnd env project j i precip evap
                      tStep) j i).inflow
                    - (Rounded.getSubareaRunoff rnd env project j i precip evap tStep).Losses)
                  * tStep)) < 0 then 0
             else rnd ((getSubarea project j i).depth
                + rnd (rnd ((getSubarea (Rounded.getSubareaRunoff rnd env project j i precip evap
                      tStep) j i).inflow
                    - (Rounded.getSubareaRunoff rnd env project j i precip evap tStep).Losses)
                  * tStep)))) ∧
      (¬ (rnd ((getSubarea project j i).depth
            + rnd (rnd ((getSubarea (Rounded.getSubareaRunoff rnd env project j i precip evap
                  tStep) j i).inflow
                - (Rounded.getSubareaRunoff rnd env project j i precip evap tStep).Losses)
              * tStep)) ≤ (getSubarea project j i).dStore) →
        (getSubarea project j i).alpha = 0 →
        (getSubarea project j i).dStore ≤ (getSubarea project j i).depth →
        (getSubarea (Rounded.getSubareaRunoff rnd env project j i precip evap tStep) j i).runoff
          = (if rnd (rnd ((getSubarea project j i).depth
                  + rnd (rnd ((getSubarea (Rounded.getSubareaRunoff rnd env project j i precip
                        evap tStep) j i).inflow
                      - (Rounded.getSubareaRunoff rnd env project j i precip evap tStep).Losses)
                    * tStep)) - (getSubarea project j i).dStore) > env.ZERO
                ∧ ¬ (getSubarea project j i).N > 0 then
              rnd (rnd (rnd ((getSubarea project j i).depth
                  + rnd (rnd ((getSubarea (Rounded.getSubareaRunoff rnd env project j i precip
                        evap tStep) j i).inflow
                      - (Rounded.getSubareaRunoff rnd env project j i precip evap tStep).Losses)
                    * tStep)) - (getSubarea project j i).dStore) / tStep)
             else 0) ∧
        (getSubarea (Rounded.getSubareaRunoff rnd env project j i precip evap tStep) j i).depth
          = (if rnd (rnd ((getSubarea project j i).depth
                  + rnd (rnd ((getSubarea (Rounded.getSubareaRunoff rnd env project j i precip
                        evap tStep) j i).inflow
                      - (Rounded.getSubareaRunoff rnd env project j i precip evap tStep).Losses)
                    * tStep)) - (getSubarea project j i).dStore) > env.ZERO
                ∧ ¬ (getSubarea project j i).N > 0 then
              (getSubarea project j i).dStore
             else rnd ((getSubarea project j i).depth
                  + rnd (rnd ((getSubarea (Rounded.getSubareaRunoff rnd env project j i precip
                        evap tStep) j i).inflow
                      - (Rounded.getSubareaRunoff rnd env project j i precip evap tStep).Losses)
                    * tStep))))) ∧
    ((∀ x, rnd x = x) →
      ((Rounded.getSubareaRunoff rnd env project j i precip evap tStep).Vevap / tStep
          + (Rounded.getSubareaRunoff rnd env project j i precip evap tStep).Vinfil / tStep
          ≥ (getSubarea project j i).depth / tStep + ((getSubarea project j i).inflow + precip) ∨
        (getSubarea project j i).depth
            + ((getSubarea project j i).inflow + precip
              - ((Rounded.getSubareaRunoff rnd env project j i precip evap tStep).Vevap / tStep
                + (Rounded.getSubareaRunoff rnd env project j i precip evap tStep).Vinfil
                  / tStep))
              * tStep
          ≤ (getSubarea project j i).dStore ∨
        (getSubarea project j i).alpha = 0) →
      (0 < (getSubarea project j i).N ∨
        (getSubarea project j i).dStore ≤ (getSubarea project j i).depth ∨
        (getSubarea (Rounded.getSubareaRunoff rnd env project j i precip evap tStep) j i).runoff
          = 0) →
      (getSubarea (Rounded.getSubareaRunoff rnd env project j i precip evap tStep) j i).depth
        = (getSubarea project j i).depth
          + ((getSubarea project j i).inflow + precip
            - (Rounded.getSubareaRunoff rnd env project j i precip evap tStep).Losses
            - (getSubarea (Rounded.getSubareaRunoff rnd env project j i precip evap tStep) j
                i).runoff)
            * tStep) ∧
    (∀ u, RoundingError rnd u → 0 ≤ (getSubarea project j i).depth →
      (rnd (Rounded.subareaEvap rnd project j i evap tStep
          + Rounded.subareaInfil rnd env project j i precip tStep)
        ≥ Rounded.subareaMoisture rnd project j i precip tStep ∨
        rnd ((getSubarea project j i).depth
          + rnd (rnd ((getSubarea (Rounded.getSubareaRunoff rnd env project j i precip evap tStep) j
              i).inflow
              - (Rounded.getSubareaRunoff rnd env project j i precip evap tStep).Losses)
            * tStep)) ≤ (getSubarea project j i).dStore ∨
        ((getSubarea project j i).alpha = 0 ∧
          (getSubarea project j i).dStore ≤ (getSubarea project j i).depth)) →
      |(getSubarea (Rounded.getSubareaRunoff rnd env project j i precip evap tStep) j
              i).depth
          - ((getSubarea project j i).depth
            + ((getSubarea (Rounded.getSubareaRunoff rnd env project j i precip evap tStep) j
              i).inflow
              - (Rounded.getSubareaRunoff rnd env project j i precip evap tStep).Losses
              - (getSubarea (Rounded.getSubareaRunoff rnd env project j i precip evap tStep) j
              i).runoff)
              * tStep)|
        ≤ ((1 + u) ^ 5 - 1)
          * ((getSubarea project j i).depth
            + (|(getSubarea (Rounded.getSubareaRunoff rnd env project j i precip evap tStep) j
              i).inflow|
              + |(Rounded.getSubareaRunoff rnd env project j i precip evap tStep).Losses|)
              * tStep)) := by
  obtain ⟨pA, pB, pC⟩ := rounded_getSubareaRunoff_paths rnd env project j i precip evap tStep
    hR hZ hA hT hD
  exact ⟨pA, pB, pC, fun u hE hd hPath =>
    rounded_getSubareaRunoff_tolerance rnd env project j i precip evap tStep hR hZ hA hT hD u hE
      hd hPath⟩

theorem C3_water_balance_witness :
    (getSubarea (Rounded.getSubareaRunoff roundDouble basicEnv pondProject 0
        SubareaType.IMPERV0 0 5 1) 0 SubareaType.IMPERV0).depth = 0 ∧
    (getSubarea (Rounded.getSubareaRunoff roundDouble basicEnv pondProject 0
        SubareaType.IMPERV0 0 5 1) 0 SubareaType.IMPERV0).runoff = 0 ∧
    (Rounded.getSubareaRunoff roundDouble basicEnv pondProject 0 SubareaType.IMPERV0 0 5 1).Losses
      = Rounded.subareaMoisture roundDouble pondProject 0 SubareaType.IMPERV0 0 1 :=
  (C3_water_balance roundDouble basicEnv pondProject 0 SubareaType.IMPERV0 0 5 1
    roundingLaws_roundDouble
    (by norm_num [basicEnv])
    (by norm_num [getSubarea, pondProject, zeroSubcatch, zeroSubarea])
    (by norm_num)
    (by norm_num [getSubarea, pondProject, zeroSubcatch, zeroSubarea])).1
    (by
      simp [Rounded.subareaEvap, Rounded.subareaInfil, Rounded.subareaMoisture, getSubarea,
        pondProject, zeroSubcatch, zeroSubarea, MIN, roundDouble_one, roundDouble_zero])

theorem rounded_updatePondedDepth_Subcatch (rnd : ℚ → ℚ) (env : Env) (p : Project)
    (sa : TSubarea) (dt : ℚ) :
    (Rounded.updatePondedDepth rnd env p sa dt).1.Subcatch = p.Subcatch ∧
    (Rounded.updatePondedDepth rnd env p sa dt).1.Outflow = p.Outflow := by
  unfold Rounded.updatePondedDepth
  simp only []
  split_ifs <;> exact ⟨rfl, rfl⟩

theorem rounded_othersFrame_subareaLosses (rnd : ℚ → ℚ) (env : Env) (j : Nat)
    (i : SubareaType) (p : Project) (precip evap tStep : ℚ) :
    OthersFrame j i p (Rounded.subareaLosses rnd env p j i precip evap tStep) :=
  othersFrame_trans (othersFrame_trans (othersFrame_subareaInit j i p)
    (othersFrame_setSubarea j i _ _)) (othersFrame_of_Subcatch j i _ _ rfl)

theorem rounded_othersFrame_subareaPonded (rnd : ℚ → ℚ) (env : Env) (j : Nat)
    (i : SubareaType) (p : Project) (precip evap tStep : ℚ) :
    OthersFrame j i p (Rounded.subareaPonded rnd env p j i precip evap tStep).1 ∧
    (Rounded.subareaPonded rnd env p j i precip evap tStep).1.Outflow = 0 := by
  unfold Rounded.subareaPonded
  split_ifs
  · exact ⟨othersFrame_trans (rounded_othersFrame_subareaLosses rnd env j i p precip evap tStep)
      (othersFrame_of_Subcatch j i _ _ rfl), rfl⟩
  · refine ⟨othersFrame_trans (rounded_othersFrame_subareaLosses rnd env j i p precip evap tStep)
      (othersFrame_of_Subcatch j i _ _ (rounded_updatePondedDepth_Subcatch _ _ _ _ _).1), ?_⟩
    rw [(rounded_updatePondedDepth_Subcatch _ _ _ _ _).2]
    rfl

/-- The rounded `getSubareaRunoff` for sub-area `i` of subcatchment `j` leaves
the area, the LID area and the other sub-areas of `j` alone. -/
theorem rounded_othersFrame_getSubareaRunoff (rnd : ℚ → ℚ) (env : Env) (j : Nat)
    (i : SubareaType) (p : Project) (precip evap tStep : ℚ) :
    OthersFrame j i p (Rounded.getSubareaRunoff rnd env p j i precip evap tStep) := by
  have hP := (rounded_othersFrame_subareaPonded rnd env j i p precip evap tStep).1
  rw [rounded_getSubareaRunoff_eq]
  generalize Rounded.subareaPonded rnd env p j i precip evap tStep = P at hP ⊢
  split_ifs
  · exact othersFrame_subareaInit j i p
  · exact othersFrame_trans (othersFrame_trans (othersFrame_trans hP
      (othersFrame_setSubarea j i _ _)) (othersFrame_setSubarea j i _ _))
      (othersFrame_of_Subcatch j i _ _ rfl)
  · exact othersFrame_trans (othersFrame_trans hP
      (othersFrame_setSubarea j i _ _)) (othersFrame_setSubarea j i _ _)

theorem rounded_subareaPonded_shape (rnd : ℚ → ℚ) (env : Env) (project : Project) (j : Nat)
    (i : SubareaType) (precip evap tStep : ℚ) :
    (Rounded.subareaPonded rnd env project j i precip evap tStep).2.1.fArea
      = (getSubarea project j i).fArea ∧
    (Rounded.subareaPonded rnd env project j i precip evap tStep).2.1.fOutlet
      = (getSubarea project j i).fOutlet := by
  unfold Rounded.subareaPonded
  split_ifs
  · rw [rounded_subareaLosses_getSubarea]
    exact ⟨rfl, rfl⟩
  · rw [(rounded_updatePondedDepth_frame _ _ _ _ _).1, rounded_subareaLosses_getSubarea]
    exact ⟨rfl, rfl⟩

/-- The runoff that the rounded `findSubareaRunoff` stores is a value of `rnd`. -/
theorem rounded_findSubareaRunoff_fixed (rnd : ℚ → ℚ) (env : Env) (sa : TSubarea)
    (tRunoff : ℚ) (hR : RoundingLaws rnd) :
    rnd (Rounded.findSubareaRunoff rnd env sa tRunoff).runoff
      = (Rounded.findSubareaRunoff rnd env sa tRunoff).runoff := by
  unfold Rounded.findSubareaRunoff
  simp only []
  split_ifs
  · exact hR.2.2 _
  · exact hR.2.2 _
  · exact hR.1

/-- What the rounded `getSubareaRunoff` leaves for a sub-area of non-zero area
fraction: the area and outlet fractions it had, a runoff that is a value of
`rnd`, and the outflow rate `fOutlet * runoff` when `fOutlet > 0`, else 0. -/
theorem rounded_getSubareaRunoff_shape (rnd : ℚ → ℚ) (env : Env) (project : Project)
    (j : Nat) (i : SubareaType) (precip evap tStep : ℚ) (hR : RoundingLaws rnd)
    (hA : (getSubarea project j i).fArea ≠ 0) :
    (getSubarea (Rounded.getSubareaRunoff rnd env project j i precip evap tStep) j i).fArea
      = (getSubarea project j i).fArea ∧
    (getSubarea (Rounded.getSubareaRunoff rnd env project j i precip evap tStep) j i).fOutlet
      = (getSubarea project j i).fOutlet ∧
    rnd (getSubarea (Rounded.getSubareaRunoff rnd env project j i precip evap tStep) j i).runoff
      = (getSubarea (Rounded.getSubareaRunoff rnd env project j i precip evap tStep) j i).runoff ∧
    (Rounded.getSubareaRunoff rnd env project j i precip evap tStep).Outflow
      = (if (getSubarea project j i).fOutlet > 0 then
          rnd ((getSubarea project j i).fOutlet
            * (getSubarea (Rounded.getSubareaRunoff rnd env project j i precip evap tStep) j
                i).runoff)
        else 0) := by
  obtain ⟨hS, _⟩ := rounded_getSubareaRunoff_result rnd env project j i precip evap tStep hA
  have hF : (Rounded.findSubareaRunoff rnd env
      (Rounded.subareaPonded rnd env project j i precip evap tStep).2.1
      (Rounded.subareaPonded rnd env project j i precip evap tStep).2.2).fOutlet
      = (getSubarea project j i).fOutlet := by
    rw [(rounded_findSubareaRunoff_keeps rnd env _ _).2.1,
      (rounded_subareaPonded_shape rnd env project j i precip evap tStep).2]
  refine ⟨?_, ?_, ?_, ?_⟩
  · rw [hS, (rounded_findSubareaRunoff_keeps rnd env _ _).1,
      (rounded_subareaPonded_shape rnd env project j i precip evap tStep).1]
  · rw [hS, hF]
  · rw [hS]
    exact rounded_findSubareaRunoff_fixed rnd env _ _ hR
  · rw [hS]
    have hA2 : ¬ (getSubarea (subareaInit project j i) j i).fArea = 0 := by
      rw [subareaInit_getSubarea]
      exact hA
    rw [rounded_getSubareaRunoff_eq, if_neg hA2, hF]
    by_cases hO : (getSubarea project j i).fOutlet > 0
    · rw [if_pos hO, if_pos hO]
    · rw [if_neg hO, if_neg hO]
      show (Rounded.subareaPonded rnd env project j i precip evap tStep).1.Outflow = 0
      exact (rounded_othersFrame_subareaPonded rnd env j i project precip evap tStep).2
/-- One pass of the loop of the rounded `subcatch_getRunoff` over sub-area `i`:
what it adds to the outflow and to the runoff, and what it leaves alone. -/
theorem rounded_runoffSubarea_step (rnd : ℚ → ℚ) (env : Env) (j : Nat) (tStep : ℚ)
    (np : SubareaType → ℚ) (er : ℚ) (sums : RunoffSums) (i : SubareaType)
    (hR : RoundingLaws rnd)
    (hAr : 0 ≤ rnd ((sums.project.Subcatch j).area - (sums.project.Subcatch j).lidArea))
    (hF : 0 ≤ (getSubarea sums.project j i).fArea)
    (hO : 0 ≤ (getSubarea sums.project j i).fOutlet)
    (hRo : rnd sums.outflow = sums.outflow) (hRr : rnd sums.runoff = sums.runoff) :
    (Rounded.runoffSubarea rnd env j tStep np er sums i).outflow
      = rnd (sums.outflow
          + rnd (rnd ((getSubarea sums.project j i).fOutlet
              * (getSubarea (Rounded.runoffSubarea rnd env j tStep np er sums i).project j
                  i).runoff)
            * Rounded.subareaArea rnd sums.project j i)) ∧
    (Rounded.runoffSubarea rnd env j tStep np er sums i).runoff
      = rnd (sums.runoff
          + rnd ((getSubarea (Rounded.runoffSubarea rnd env j tStep np er sums i).project j
                  i).runoff
            * Rounded.subareaArea rnd sums.project j i)) ∧
    OthersFrame j i sums.project (Rounded.runoffSubarea rnd env j tStep np er sums i).project ∧
    (getSubarea (Rounded.runoffSubarea rnd env j tStep np er sums i).project j i).fArea
      = (getSubarea sums.project j i).fArea ∧
    (getSubarea (Rounded.runoffSubarea rnd env j tStep np er sums i).project j i).fOutlet
      = (getSubarea sums.project j i).fOutlet ∧
    0 ≤ Rounded.subareaArea rnd sums.project j i ∧
    (Rounded.subareaArea rnd sums.project j i > 0 →
      rnd (getSubarea (Rounded.runoffSubarea rnd env j tStep np er sums i).project j i).runoff
        = (getSubarea (Rounded.runoffSubarea rnd env j tStep np er sums i).project j
            i).runoff) := by
  have ha0 : 0 ≤ Rounded.subareaArea rnd sums.project j i := by
    unfold Rounded.subareaArea
    exact (roundingLaws_sign rnd hR _).2 (mul_nonneg hAr hF)
  unfold Rounded.runoffSubarea
  simp only []
  by_cases h : rnd (rnd ((sums.project.Subcatch j).area - (sums.project.Subcatch j).lidArea) *
      (getSubarea sums.project j i).fArea) > 0
  · rw [if_pos h]
    simp only []
    have hne : (getSubarea sums.project j i).fArea ≠ 0 := by
      intro h0
      rw [h0, mul_zero, hR.1] at h
      exact lt_irrefl 0 h
    obtain ⟨s1, s2, s3, s4⟩ := rounded_getSubareaRunoff_shape rnd env sums.project j i (np i) er
      tStep hR hne
    have hOut2 : (Rounded.getSubareaRunoff rnd env sums.project j i (np i) er tStep).Outflow
        = rnd ((getSubarea sums.project j i).fOutlet
          * (getSubarea (Rounded.getSubareaRunoff rnd env sums.project j i (np i) er tStep) j
              i).runoff) := by
      rw [s4]
      by_cases hpos : (getSubarea sums.project j i).fOutlet > 0
      · rw [if_pos hpos]
      · rw [if_neg hpos, le_antisymm (not_lt.mp hpos) hO, zero_mul, hR.1]
    refine ⟨?_, rfl, rounded_othersFrame_getSubareaRunoff rnd env j i _ _ _ _, s1, s2, ha0,
      fun _ => s3⟩
    rw [hOut2]
    rfl
  · rw [if_neg h]
    have h0 : Rounded.subareaArea rnd sums.project j i = 0 :=
      le_antisymm (not_lt.mp h) ha0
    refine ⟨?_, ?_, othersFrame_refl j i _, rfl, rfl, ha0, fun c => absurd c h⟩
    · rw [h0, mul_zero, hR.1, add_zero, hRo]
    · rw [h0, mul_zero, hR.1, add_zero, hRr]
theorem rounded_subareaArea_congr (rnd : ℚ → ℚ) (s t : Project) (j : Nat) (i : SubareaType)
    (h1 : (t.Subcatch j).area = (s.Subcatch j).area)
    (h2 : (t.Subcatch j).lidArea = (s.Subcatch j).lidArea)
    (h3 : (getSubarea t j i).fArea = (getSubarea s j i).fArea) :
    Rounded.subareaArea rnd t j i = Rounded.subareaArea rnd s j i := by
  unfold Rounded.subareaArea
  rw [h1, h2, h3]

/-- The loop of the rounded `subcatch_getRunoff` over the three sub-areas, from
sums that start at 0: the outflow and the runoff it accumulates, in terms of the
runoffs it leaves on the sub-areas. -/
theorem rounded_runoffLoop_sums (rnd : ℚ → ℚ) (env : Env) (j : Nat) (tStep : ℚ)
    (np : SubareaType → ℚ) (er : ℚ) (S0 : RunoffSums) (hR : RoundingLaws rnd)
    (hAr : 0 ≤ rnd ((S0.project.Subcatch j).area - (S0.project.Subcatch j).lidArea))
    (hF : ∀ i, 0 ≤ (getSubarea S0.project j i).fArea)
    (hO : ∀ i, 0 ≤ (getSubarea S0.project j i).fOutlet)
    (h0o : S0.outflow = 0) (h0r : S0.runoff = 0) :
    (subareaTypes.foldl (Rounded.runoffSubarea rnd env j tStep np er) S0).outflow
      = Rounded.accumulate rnd (fun i =>
          rnd (rnd ((getSubarea S0.project j i).fOutlet
              * (getSubarea (subareaTypes.foldl (Rounded.runoffSubarea rnd env j tStep np er)
                  S0).project j i).runoff)
            * Rounded.subareaArea rnd S0.project j i)) ∧
    (subareaTypes.foldl (Rounded.runoffSubarea rnd env j tStep np er) S0).runoff
      = Rounded.accumulate rnd (fun i =>
          rnd ((getSubarea (subareaTypes.foldl (Rounded.runoffSubarea rnd env j tStep np er)
                  S0).project j i).runoff
            * Rounded.subareaArea rnd S0.project j i)) ∧
    ((subareaTypes.foldl (Rounded.runoffSubarea rnd env j tStep np er) S0).project.Subcatch
        j).area = (S0.project.Subcatch j).area ∧
    ((subareaTypes.foldl (Rounded.runoffSubarea rnd env j tStep np er) S0).project.Subcatch
        j).lidArea = (S0.project.Subcatch j).lidArea ∧
    (∀ i, 0 ≤ Rounded.subareaArea rnd S0.project j i) ∧
    (∀ i, Rounded.subareaArea rnd S0.project j i > 0 →
      rnd (getSubarea (subareaTypes.foldl (Rounded.runoffSubarea rnd env j tStep np er)
          S0).project j i).runoff
        = (getSubarea (subareaTypes.foldl (Rounded.runoffSubarea rnd env j tStep np er)
          S0).project j i).runoff) := by
  simp only [subareaTypes, List.foldl_cons, List.foldl_nil, Rounded.accumulate]
  obtain ⟨o1, r1, f1, _, _, a1, x1⟩ := rounded_runoffSubarea_step rnd env j tStep np er S0
    SubareaType.IMPERV0 hR hAr (hF _) (hO _) (by rw [h0o]; exact hR.1) (by rw [h0r]; exact hR.1)
  generalize Rounded.runoffSubarea rnd env j tStep np er S0 SubareaType.IMPERV0 = S1
    at o1 r1 f1 x1 ⊢
  have g1 : getSubarea S1.project j SubareaType.IMPERV1
      = getSubarea S0.project j SubareaType.IMPERV1 := f1.2.2 _ (by decide)
  have g1P : getSubarea S1.project j SubareaType.PERV
      = getSubarea S0.project j SubareaType.PERV := f1.2.2 _ (by decide)
  obtain ⟨o2, r2, f2, _, _, a2, x2⟩ := rounded_runoffSubarea_step rnd env j tStep np er S1
    SubareaType.IMPERV1 hR (by rw [f1.1, f1.2.1]; exact hAr) (by rw [g1]; exact hF _)
    (by rw [g1]; exact hO _) (by rw [o1]; exact hR.2.2 _) (by rw [r1]; exact hR.2.2 _)
  rw [rounded_subareaArea_congr rnd S0.project S1.project j SubareaType.IMPERV1 f1.1 f1.2.1
    (by rw [g1])] at o2 r2 a2 x2
  generalize Rounded.runoffSubarea rnd env j tStep np er S1 SubareaType.IMPERV1 = S2
    at o2 r2 f2 x2 ⊢
  have g2 : getSubarea S2.project j SubareaType.IMPERV0
      = getSubarea S1.project j SubareaType.IMPERV0 := f2.2.2 _ (by decide)
  have g2P : getSubarea S2.project j SubareaType.PERV
      = getSubarea S0.project j SubareaType.PERV := by
    rw [f2.2.2 _ (by decide), g1P]
  obtain ⟨o3, r3, f3, _, _, a3, x3⟩ := rounded_runoffSubarea_step rnd env j tStep np er S2
    SubareaType.PERV hR (by rw [f2.1, f2.2.1, f1.1, f1.2.1]; exact hAr)
    (by rw [g2P]; exact hF _) (by rw [g2P]; exact hO _) (by rw [o2]; exact hR.2.2 _)
    (by rw [r2]; exact hR.2.2 _)
  rw [rounded_subareaArea_congr rnd S0.project S2.project j SubareaType.PERV
    (by rw [f2.1, f1.1]) (by rw [f2.2.1, f1.2.1]) (by rw [g2P])] at o3 r3 a3 x3
  generalize Rounded.runoffSubarea rnd env j tStep np er S2 SubareaType.PERV = S3
    at o3 r3 f3 x3 ⊢
  have g3 : getSubarea S3.project j SubareaType.IMPERV0
      = getSubarea S1.project j SubareaType.IMPERV0 := by
    rw [f3.2.2 _ (by decide), g2]
  have g3b : getSubarea S3.project j SubareaType.IMPERV1
      = getSubarea S2.project j SubareaType.IMPERV1 := f3.2.2 _ (by decide)
  refine ⟨?_, ?_, ?_, ?_, ?_, ?_⟩
  · rw [o3, o2, o1, g3, g3b, g2P, g1, h0o]
  · rw [r3, r2, r1, g3, g3b, h0r]
  · rw [f3.1, f2.1, f1.1]
  · rw [f3.2.1, f2.2.1, f1.2.1]
  · intro i
    cases i
    · exact a1
    · exact a2
    · exact a3
  · intro i hi
    cases i
    · rw [g3]
      exact x1 hi
    · rw [g3b]
      exact x2 hi
    · exact x3 hi
theorem rounded_shapeFrame_getNetPrecip (rnd : ℚ → ℚ) (env : Env) (j : Nat) (p : Project)
    (tStep : ℚ) : ShapeFrame j p (Rounded.getNetPrecip rnd env p j tStep).1 := by
  unfold Rounded.getNetPrecip
  simp only []
  split <;> simp [ShapeFrame, setSubcatch, getSubarea]

theorem rounded_runoffLid_no_lid (rnd : ℚ → ℚ) (env : Env) (j : Nat) (tStep : ℚ)
    (sums : RunoffSums) (h : (sums.project.Subcatch j).lidArea = 0) :
    Rounded.runoffLid rnd env j tStep sums = sums := by
  unfold Rounded.runoffLid
  rw [if_neg]
  rw [h]
  exact lt_irrefl 0

theorem rounded_runoffFinish_stores (rnd : ℚ → ℚ) (p : Project) (j : Nat) (tStep : ℚ)
    (sums : RunoffSums) :
    ((Rounded.runoffFinish rnd p j tStep sums).1.Subcatch j).newRunoff = sums.outflow ∧
    (Rounded.runoffFinish rnd p j tStep sums).2 = rnd (sums.runoff / (p.Subcatch j).area) ∧
    ∀ i, getSubarea (Rounded.runoffFinish rnd p j tStep sums).1 j i = getSubarea p j i := by
  unfold Rounded.runoffFinish
  simp [setSubcatch, stats_updateSubcatchStats, massbal_updateRunoffTotals, getSubarea]

/-- The outflow that the rounded `subcatch_getRunoff` stores and the runoff it
returns, for a subcatchment of positive area without LID area, as the sums over
the sub-areas that its loop accumulates. -/
theorem rounded_getRunoff_sums (rnd : ℚ → ℚ) (env : Env) (s : Project) (j : Nat) (tStep : ℚ)
    (hR : RoundingLaws rnd)
    (hA : 0 < (s.Subcatch j).area) (hL : (s.Subcatch j).lidArea = 0)
    (hF : ∀ i, 0 ≤ (getSubarea s j i).fArea) (hO : ∀ i, 0 ≤ (getSubarea s j i).fOutlet) :
    ((Rounded.subcatch_getRunoff rnd env s j tStep).1.Subcatch j).newRunoff
      = Rounded.accumulate rnd (fun i =>
          rnd (rnd ((getSubarea s j i).fOutlet
              * (getSubarea (Rounded.subcatch_getRunoff rnd env s j tStep).1 j i).runoff)
            * Rounded.subareaArea rnd s j i)) ∧
    (Rounded.subcatch_getRunoff rnd env s j tStep).2
      = rnd (Rounded.accumulate rnd (fun i =>
          rnd ((getSubarea (Rounded.subcatch_getRunoff rnd env s j tStep).1 j i).runoff
            * Rounded.subareaArea rnd s j i)) / (s.Subcatch j).area) ∧
    (∀ i, 0 ≤ Rounded.subareaArea rnd s j i) ∧
    (∀ i, Rounded.subareaArea rnd s j i > 0 →
      rnd (getSubarea (Rounded.subcatch_getRunoff rnd env s j tStep).1 j i).runoff
        = (getSubarea (Rounded.subcatch_getRunoff rnd env s j tStep).1 j i).runoff) := by
  obtain ⟨a0, l0, g0⟩ := rounded_shapeFrame_getNetPrecip rnd env j
    { s with
      Vponded := rnd (Rounded.subcatch_getDepth rnd env s j * (s.Subcatch j).area) } tStep
  have a0b : ((Rounded.getNetPrecip rnd env
      { s with
        Vponded := rnd (Rounded.subcatch_getDepth rnd env s j * (s.Subcatch j).area) }
      j tStep).1.Subcatch j).area = (s.Subcatch j).area := a0
  have l0b : ((Rounded.getNetPrecip rnd env
      { s with
        Vponded := rnd (Rounded.subcatch_getDepth rnd env s j * (s.Subcatch j).area) }
      j tStep).1.Subcatch j).lidArea = (s.Subcatch j).lidArea := l0
  have g0b : ∀ i, getSubarea (Rounded.getNetPrecip rnd env
      { s with
        Vponded := rnd (Rounded.subcatch_getDepth rnd env s j * (s.Subcatch j).area) }
      j tStep).1 j i = getSubarea s j i := g0
  have hAr : 0 ≤ rnd ((s.Subcatch j).area - (s.Subcatch j).lidArea) := by
    rw [hL, sub_zero]
    exact (roundingLaws_sign rnd hR _).2 (le_of_lt hA)
  have hLoop := rounded_runoffLoop_sums rnd env j tStep
    (Rounded.getNetPrecip rnd env
      { s with
        Vponded := rnd (Rounded.subcatch_getDepth rnd env s j * (s.Subcatch j).area) }
      j tStep).2
    (if (Rounded.getNetPrecip rnd env
          { s with
            Vponded := rnd (Rounded.subcatch_getDepth rnd env s j * (s.Subcatch j).area) }
          j tStep).1.Evap.dryOnly = true ∧
        ((Rounded.getNetPrecip rnd env
          { s with
            Vponded := rnd (Rounded.subcatch_getDepth rnd env s j * (s.Subcatch j).area) }
          j tStep).1.Subcatch j).rainfall > 0 then 0
      else (Rounded.getNetPrecip rnd env
          { s with
            Vponded := rnd (Rounded.subcatch_getDepth rnd env s j * (s.Subcatch j).area) }
          j tStep).1.Evap.rate)
    { project := (Rounded.getNetPrecip rnd env
        { s with
          Vponded := rnd (Rounded.subcatch_getDepth rnd env s j * (s.Subcatch j).area) }
        j tStep).1,
      runoff := 0, rainVol := 0, outflow := 0, evapVol := 0, infilVol := 0, pervEvapVol := 0 }
    hR (by rw [a0b, l0b]; exact hAr) (fun i => by rw [g0b i]; exact hF i)
    (fun i => by rw [g0b i]; exact hO i) rfl rfl
  have hS : Rounded.runoffSubareas rnd env s j tStep
      = subareaTypes.foldl
          (Rounded.runoffSubarea rnd env j tStep
            (Rounded.getNetPrecip rnd env
              { s with
                Vponded := rnd (Rounded.subcatch_getDepth rnd env s j * (s.Subcatch j).area) }
              j tStep).2
            (if (Rounded.getNetPrecip rnd env
                  { s with
                    Vponded :=
                      rnd (Rounded.subcatch_getDepth rnd env s j * (s.Subcatch j).area) }
                  j tStep).1.Evap.dryOnly = true ∧
                ((Rounded.getNetPrecip rnd env
                  { s with
                    Vponded :=
                      rnd (Rounded.subcatch_getDepth rnd env s j * (s.Subcatch j).area) }
                  j tStep).1.Subcatch j).rainfall > 0 then 0
              else (Rounded.getNetPrecip rnd env
                  { s with
                    Vponded :=
                      rnd (Rounded.subcatch_getDepth rnd env s j * (s.Subcatch j).area) }
                  j tStep).1.Evap.rate))
          { project := (Rounded.getNetPrecip rnd env
              { s with
                Vponded := rnd (Rounded.subcatch_getDepth rnd env s j * (s.Subcatch j).area) }
              j tStep).1,
            runoff := 0, rainVol := 0, outflow := 0, evapVol := 0, infilVol := 0,
            pervEvapVol := 0 } := rfl
  rw [← hS] at hLoop
  have hAreaEq : ∀ i, Rounded.subareaArea rnd (Rounded.getNetPrecip rnd env
      { s with
        Vponded := rnd (Rounded.subcatch_getDepth rnd env s j * (s.Subcatch j).area) }
      j tStep).1 j i = Rounded.subareaArea rnd s j i :=
    fun i => rounded_subareaArea_congr rnd s _ j i a0b l0b (by rw [g0b i])
  simp only [g0b, hAreaEq, a0b, l0b] at hLoop
  obtain ⟨o, r, a3, l3, an, xr⟩ := hLoop
  have hGet : Rounded.subcatch_getRunoff rnd env s j tStep
      = Rounded.runoffFinish rnd
          (runoffGwater env j tStep
            (Rounded.runoffLid rnd env j tStep (Rounded.runoffSubareas rnd env s j tStep)))
          j tStep
          (Rounded.runoffLid rnd env j tStep (Rounded.runoffSubareas rnd env s j tStep)) := rfl
  rw [hGet, rounded_runoffLid_no_lid rnd env j tStep _ (by rw [l3]; exact hL)]
  obtain ⟨n1, n2, n3⟩ := rounded_runoffFinish_stores rnd
    (runoffGwater env j tStep (Rounded.runoffSubareas rnd env s j tStep)) j tStep
    (Rounded.runoffSubareas rnd env s j tStep)
  obtain ⟨ga, _, gs⟩ := shapeFrame_runoffGwater env j tStep
    (Rounded.runoffSubareas rnd env s j tStep)
  refine ⟨?_, ?_, an, fun i hi => ?_⟩
  · rw [n1, o]
    simp only [n3, gs]
  · rw [n2, ga, a3, r]
    simp only [n3, gs]
  · rw [n3, gs]
    exact xr i hi
theorem rounded_runoffSubarea_project (rnd : ℚ → ℚ) (env : Env) (j : Nat) (tStep : ℚ)
    (np : SubareaType → ℚ) (er : ℚ) (sums : RunoffSums) (i : SubareaType) :
    (Rounded.runoffSubarea rnd env j tStep np er sums i).project
      = (if Rounded.subareaArea rnd sums.project j i > 0 then
          Rounded.getSubareaRunoff rnd env sums.project j i (np i) er tStep
        else sums.project) := by
  unfold Rounded.runoffSubarea Rounded.subareaArea
  simp only []
  split_ifs <;> rfl

/-- The sub-area `i` that the loop of the rounded `subcatch_getRunoff` leaves:
untouched when its area is not positive, else what `getSubareaRunoff` leaves
when called on a project that holds sub-area `i` as the loop found it. -/
theorem rounded_runoffLoop_subarea (rnd : ℚ → ℚ) (env : Env) (j : Nat) (tStep : ℚ)
    (np : SubareaType → ℚ) (er : ℚ) (S0 : RunoffSums) (hR : RoundingLaws rnd)
    (hAr : 0 ≤ rnd ((S0.project.Subcatch j).area - (S0.project.Subcatch j).lidArea))
    (hF : ∀ i, 0 ≤ (getSubarea S0.project j i).fArea)
    (hO : ∀ i, 0 ≤ (getSubarea S0.project j i).fOutlet)
    (h0o : S0.outflow = 0) (h0r : S0.runoff = 0) (i : SubareaType) :
    (Rounded.subareaArea rnd S0.project j i > 0 →
      ∃ P : Project, getSubarea P j i = getSubarea S0.project j i ∧
        getSubarea (subareaTypes.foldl (Rounded.runoffSubarea rnd env j tStep np er)
            S0).project j i
          = getSubarea (Rounded.getSubareaRunoff rnd env P j i (np i) er tStep) j i) ∧
    (¬ Rounded.subareaArea rnd S0.project j i > 0 →
      getSubarea (subareaTypes.foldl (Rounded.runoffSubarea rnd env j tStep np er)
          S0).project j i = getSubarea S0.project j i) := by
  simp only [subareaTypes, List.foldl_cons, List.foldl_nil]
  obtain ⟨o1, r1, f1, _, _, _, _⟩ := rounded_runoffSubarea_step rnd env j tStep np er S0
    SubareaType.IMPERV0 hR hAr (hF _) (hO _) (by rw [h0o]; exact hR.1) (by rw [h0r]; exact hR.1)
  have p1 := rounded_runoffSubarea_project rnd env j tStep np er S0 SubareaType.IMPERV0
  generalize Rounded.runoffSubarea rnd env j tStep np er S0 SubareaType.IMPERV0 = S1
    at o1 r1 f1 p1 ⊢
  have g1 : getSubarea S1.project j SubareaType.IMPERV1
      = getSubarea S0.project j SubareaType.IMPERV1 := f1.2.2 _ (by decide)
  have g1P : getSubarea S1.project j SubareaType.PERV
      = getSubarea S0.project j SubareaType.PERV := f1.2.2 _ (by decide)
  obtain ⟨o2, r2, f2, _, _, _, _⟩ := rounded_runoffSubarea_step rnd env j tStep np er S1
    SubareaType.IMPERV1 hR (by rw [f1.1, f1.2.1]; exact hAr) (by rw [g1]; exact hF _)
    (by rw [g1]; exact hO _) (by rw [o1]; exact hR.2.2 _) (by rw [r1]; exact hR.2.2 _)
  have p2 := rounded_runoffSubarea_project rnd env j tStep np er S1 SubareaType.IMPERV1
  rw [rounded_subareaArea_congr rnd S0.project S1.project j SubareaType.IMPERV1 f1.1 f1.2.1
    (by rw [g1])] at p2
  generalize Rounded.runoffSubarea rnd env j tStep np er S1 SubareaType.IMPERV1 = S2
    at o2 r2 f2 p2 ⊢
  have g2 : getSubarea S2.project j SubareaType.IMPERV0
      = getSubarea S1.project j SubareaType.IMPERV0 := f2.2.2 _ (by decide)
  have g2P : getSubarea S2.project j SubareaType.PERV
      = getSubarea S0.project j SubareaType.PERV := by
    rw [f2.2.2 _ (by decide), g1P]
  obtain ⟨_, _, f3, _, _, _, _⟩ := rounded_runoffSubarea_step rnd env j tStep np er S2
    SubareaType.PERV hR (by rw [f2.1, f2.2.1, f1.1, f1.2.1]; exact hAr)
    (by rw [g2P]; exact hF _) (by rw [g2P]; exact hO _) (by rw [o2]; exact hR.2.2 _)
    (by rw [r2]; exact hR.2.2 _)
  have p3 := rounded_runoffSubarea_project rnd env j tStep np er S2 SubareaType.PERV
  rw [rounded_subareaArea_congr rnd S0.project S2.project j SubareaType.PERV
    (by rw [f2.1, f1.1]) (by rw [f2.2.1, f1.2.1]) (by rw [g2P])] at p3
  generalize Rounded.runoffSubarea rnd env j tStep np er S2 SubareaType.PERV = S3
    at f3 p3 ⊢
  have g3 : getSubarea S3.project j SubareaType.IMPERV0
      = getSubarea S1.project j SubareaType.IMPERV0 := by
    rw [f3.2.2 _ (by decide), g2]
  have g3b : getSubarea S3.project j SubareaType.IMPERV1
      = getSubarea S2.project j SubareaType.IMPERV1 := f3.2.2 _ (by decide)
  cases i
  · rw [g3, p1]
    exact ⟨fun h => ⟨S0.project, rfl, by rw [if_pos h]⟩, fun h => by rw [if_neg h]⟩
  · rw [g3b, p2]
    exact ⟨fun h => ⟨S1.project, g1, by rw [if_pos h]⟩, fun h => by rw [if_neg h, g1]⟩
  · rw [p3]
    exact ⟨fun h => ⟨S2.project, g2P, by rw [if_pos h]⟩, fun h => by rw [if_neg h, g2P]⟩
/-- The sub-area `i` that the rounded `subcatch_getRunoff` leaves in a
subcatchment without LID area: untouched when its area is not positive, else
what `getSubareaRunoff` leaves, for the net precipitation and the evaporation
rate of the step, on a project that holds sub-area `i` as it was. -/
theorem rounded_getRunoff_subarea (rnd : ℚ → ℚ) (env : Env) (s : Project) (j : Nat) (tStep : ℚ)
    (hR : RoundingLaws rnd)
    (hA : 0 < (s.Subcatch j).area) (hL : (s.Subcatch j).lidArea = 0)
    (hF : ∀ i, 0 ≤ (getSubarea s j i).fArea) (hO : ∀ i, 0 ≤ (getSubarea s j i).fOutlet)
    (i : SubareaType) :
    (Rounded.subareaArea rnd s j i > 0 →
      ∃ P : Project, getSubarea P j i = getSubarea s j i ∧
        getSubarea (Rounded.subcatch_getRunoff rnd env s j tStep).1 j i
          = getSubarea (Rounded.getSubareaRunoff rnd env P j i
              ((Rounded.getNetPrecip rnd env
                { s with
                  Vponded :=
                    rnd (Rounded.subcatch_getDepth rnd env s j * (s.Subcatch j).area) }
                j tStep).2 i)
              (if (Rounded.getNetPrecip rnd env
                    { s with
                      Vponded :=
                        rnd (Rounded.subcatch_getDepth rnd env s j * (s.Subcatch j).area) }
                    j tStep).1.Evap.dryOnly = true ∧
                  ((Rounded.getNetPrecip rnd env
                    { s with
                      Vponded :=
                        rnd (Rounded.subcatch_getDepth rnd env s j * (s.Subcatch j).area) }
                    j tStep).1.Subcatch j).rainfall > 0 then 0
                else (Rounded.getNetPrecip rnd env
                    { s with
                      Vponded :=
                        rnd (Rounded.subcatch_getDepth rnd env s j * (s.Subcatch j).area) }
                    j tStep).1.Evap.rate)
              tStep) j i) ∧
    (¬ Rounded.subareaArea rnd s j i > 0 →
      getSubarea (Rounded.subcatch_getRunoff rnd env s j tStep).1 j i = getSubarea s j i) := by
  obtain ⟨a0, l0, g0⟩ := rounded_shapeFrame_getNetPrecip rnd env j
    { s with
      Vponded := rnd (Rounded.subcatch_getDepth rnd env s j * (s.Subcatch j).area) } tStep
  have a0b : ((Rounded.getNetPrecip rnd env
      { s with
        Vponded := rnd (Rounded.subcatch_getDepth rnd env s j * (s.Subcatch j).area) }
      j tStep).1.Subcatch j).area = (s.Subcatch j).area := a0
  have l0b : ((Rounded.getNetPrecip rnd env
      { s with
        Vponded := rnd (Rounded.subcatch_getDepth rnd env s j * (s.Subcatch j).area) }
      j tStep).1.Subcatch j).lidArea = (s.Subcatch j).lidArea := l0
  have g0b : ∀ i, getSubarea (Rounded.getNetPrecip rnd env
      { s with
        Vponded := rnd (Rounded.subcatch_getDepth rnd env s j * (s.Subcatch j).area) }
      j tStep).1 j i = getSubarea s j i := g0
  have hAr : 0 ≤ rnd ((s.Subcatch j).area - (s.Subcatch j).lidArea) := by
    rw [hL, sub_zero]
    exact (roundingLaws_sign rnd hR _).2 (le_of_lt hA)
  have hS : Rounded.runoffSubareas rnd env s j tStep
      = subareaTypes.foldl
          (Rounded.runoffSubarea rnd env j tStep
            (Rounded.getNetPrecip rnd env
              { s with
                Vponded := rnd (Rounded.subcatch_getDepth rnd env s j * (s.Subcatch j).area) }
              j tStep).2
            (if (Rounded.getNetPrecip rnd env
                  { s with
                    Vponded :=
                      rnd (Rounded.subcatch_getDepth rnd env s j * (s.Subcatch j).area) }
                  j tStep).1.Evap.dryOnly = true ∧
                ((Rounded.getNetPrecip rnd env
                  { s with
                    Vponded :=
                      rnd (Rounded.subcatch_getDepth rnd env s j * (s.Subcatch j).area) }
                  j tStep).1.Subcatch j).rainfall > 0 then 0
              else (Rounded.getNetPrecip rnd env
                  { s with
                    Vponded :=
                      rnd (Rounded.subcatch_getDepth rnd env s j * (s.Subcatch j).area) }
                  j tStep).1.Evap.rate))
          { project := (Rounded.getNetPrecip rnd env
              { s with
                Vponded := rnd (Rounded.subcatch_getDepth rnd env s j * (s.Subcatch j).area) }
              j tStep).1,
            runoff := 0, rainVol := 0, outflow := 0, evapVol := 0, infilVol := 0,
            pervEvapVol := 0 } := rfl
  have hGet : Rounded.subcatch_getRunoff rnd env s j tStep
      = Rounded.runoffFinish rnd
          (runoffGwater env j tStep
            (Rounded.runoffLid rnd env j tStep (Rounded.runoffSubareas rnd env s j tStep)))
          j tStep
          (Rounded.runoffLid rnd env j tStep (Rounded.runoffSubareas rnd env s j tStep)) := rfl
  have hLid : ((Rounded.runoffSubareas rnd env s j tStep).project.Subcatch j).lidArea = 0 := by
    rw [hS, (rounded_runoffLoop_sums rnd env j tStep _ _ _ hR (by rw [a0b, l0b]; exact hAr)
      (fun i => by rw [g0b i]; exact hF i) (fun i => by rw [g0b i]; exact hO i) rfl rfl).2.2.2.1]
    exact l0b.trans hL
  rw [hGet, rounded_runoffLid_no_lid rnd env j tStep _ hLid,
    (rounded_runoffFinish_stores rnd _ j tStep _).2.2,
    (shapeFrame_runoffGwater env j tStep _).2.2, hS]
  have hLoop := rounded_runoffLoop_subarea rnd env j tStep
    (Rounded.getNetPrecip rnd env
      { s with
        Vponded := rnd (Rounded.subcatch_getDepth rnd env s j * (s.Subcatch j).area) }
      j tStep).2
    (if (Rounded.getNetPrecip rnd env
          { s with
            Vponded := rnd (Rounded.subcatch_getDepth rnd env s j * (s.Subcatch j).area) }
          j tStep).1.Evap.dryOnly = true ∧
        ((Rounded.getNetPrecip rnd env
          { s with
            Vponded := rnd (Rounded.subcatch_getDepth rnd env s j * (s.Subcatch j).area) }
          j tStep).1.Subcatch j).rainfall > 0 then 0
      else (Rounded.getNetPrecip rnd env
          { s with
            Vponded := rnd (Rounded.subcatch_getDepth rnd env s j * (s.Subcatch j).area) }
          j tStep).1.Evap.rate)
    { project := (Rounded.getNetPrecip rnd env
        { s with
          Vponded := rnd (Rounded.subcatch_getDepth rnd env s j * (s.Subcatch j).area) }
        j tStep).1,
      runoff := 0, rainVol := 0, outflow := 0, evapVol := 0, infilVol := 0, pervEvapVol := 0 }
    hR (by rw [a0b, l0b]; exact hAr) (fun i => by rw [g0b i]; exact hF i)
    (fun i => by rw [g0b i]; exact hO i) rfl rfl i
  have hAreaEq : Rounded.subareaArea rnd (Rounded.getNetPrecip rnd env
      { s with
        Vponded := rnd (Rounded.subcatch_getDepth rnd env s j * (s.Subcatch j).area) }
      j tStep).1 j i = Rounded.subareaArea rnd s j i :=
    rounded_subareaArea_congr rnd s _ j i a0b l0b (by rw [g0b i])
  simp only [g0b, hAreaEq] at hLoop
  exact hLoop
theorem roundDouble_two_fifths :
    roundDouble (2 / 5) = 3602879701896397 / 9007199254740992 := by
  rw [roundDouble_eq_pos _ 7205759403792794 54 (by norm_num) (by norm_num) (by norm_num)
    (by norm_num)]
  norm_num

theorem rainedCatchment_netPrecip (v : ℚ) :
    (∀ i, (Rounded.getNetPrecip roundDouble rainEnv { rainedCatchment with Vponded := v }
      0 5).2 i = 3602879701896397 / 9007199254740992) ∧
    (if (Rounded.getNetPrecip roundDouble rainEnv { rainedCatchment with Vponded := v }
          0 5).1.Evap.dryOnly = true ∧
        ((Rounded.getNetPrecip roundDouble rainEnv { rainedCatchment with Vponded := v }
          0 5).1.Subcatch 0).rainfall > 0 then 0
      else (Rounded.getNetPrecip roundDouble rainEnv { rainedCatchment with Vponded := v }
          0 5).1.Evap.rate) = (0 : ℚ) := by
  have er : roundDouble (3602879701896397 / 9007199254740992)
      = 3602879701896397 / 9007199254740992 := by
    rw [roundDouble_eq_pos _ 7205759403792794 54 (by norm_num) (by norm_num) (by norm_num)
      (by norm_num)]
    norm_num
  simp [Rounded.getNetPrecip, rainEnv, basicEnv, rainedCatchment, zeroProject, zeroSubcatch,
    setSubcatch, er]

theorem rainedCatchment_areas :
    Rounded.subareaArea roundDouble rainedCatchment 0 SubareaType.IMPERV0 = 9 / 4 ∧
    Rounded.subareaArea roundDouble rainedCatchment 0 SubareaType.IMPERV1 = 3 / 4 ∧
    Rounded.subareaArea roundDouble rainedCatchment 0 SubareaType.PERV = 0 := by
  have e3 : roundDouble 3 = 3 := by
    rw [roundDouble_eq_pos _ 6755399441055744 51 (by norm_num) (by norm_num) (by norm_num)
      (by norm_num)]
    norm_num
  have e94 : roundDouble (9 / 4) = 9 / 4 := by
    rw [roundDouble_eq_pos _ 5066549580791808 51 (by norm_num) (by norm_num) (by norm_num)
      (by norm_num)]
    norm_num
  have e34 : roundDouble (3 / 4) = 3 / 4 := by
    rw [roundDouble_eq_pos _ 6755399441055744 53 (by norm_num) (by norm_num) (by norm_num)
      (by norm_num)]
    norm_num
  refine ⟨?_, ?_, ?_⟩ <;>
    norm_num [Rounded.subareaArea, rainedCatchment, zeroSubcatch, zeroSubarea, getSubarea, e3,
      e94, e34, roundDouble_zero]

/-- The runoffs that the rounded `subcatch_getRunoff` leaves on the sub-areas of
`rainedCatchment` after a step of 5 s of rain in double arithmetic: the sub-area
without depression storage drains at the double nearest to 0.4, the one with
depression storage keeps its water, the pervious one has no area. -/
theorem rainedCatchment_runoffs :
    (getSubarea (Rounded.subcatch_getRunoff roundDouble rainEnv rainedCatchment 0 5).1 0
        SubareaType.IMPERV0).runoff = 3602879701896397 / 9007199254740992 ∧
    (getSubarea (Rounded.subcatch_getRunoff roundDouble rainEnv rainedCatchment 0 5).1 0
        SubareaType.IMPERV1).runoff = 0 ∧
    (getSubarea (Rounded.subcatch_getRunoff roundDouble rainEnv rainedCatchment 0 5).1 0
        SubareaType.PERV).runoff = 0 := by
  have e2 : roundDouble 2 = 2 := by
    rw [roundDouble_eq_pos _ 4503599627370496 51 (by norm_num) (by norm_num) (by norm_num)
      (by norm_num)]
    norm_num
  have er : roundDouble (3602879701896397 / 9007199254740992)
      = 3602879701896397 / 9007199254740992 := by
    rw [roundDouble_eq_pos _ 7205759403792794 54 (by norm_num) (by norm_num) (by norm_num)
      (by norm_num)]
    norm_num
  have e5 : roundDouble (18014398509481985 / 9007199254740992) = 2 := by
    rw [roundDouble_eq_pos _ 4503599627370496 51 (by norm_num) (by norm_num) (by norm_num)
      (by norm_num)]
    norm_num
  obtain ⟨a0, a1, a2⟩ := rainedCatchment_areas
  obtain ⟨hnp, her⟩ := rainedCatchment_netPrecip
    (roundDouble (Rounded.subcatch_getDepth roundDouble rainEnv rainedCatchment 0
      * (rainedCatchment.Subcatch 0).area))
  have hZ : 0 ≤ rainEnv.ZERO := by norm_num [rainEnv, basicEnv]
  have hF : ∀ i, 0 ≤ (getSubarea rainedCatchment 0 i).fArea := by
    intro i
    cases i <;> norm_num [getSubarea, rainedCatchment, zeroSubarea]
  have hO : ∀ i, 0 ≤ (getSubarea rainedCatchment 0 i).fOutlet := by
    intro i
    cases i <;> norm_num [getSubarea, rainedCatchment, zeroSubarea]
  have hSub := rounded_getRunoff_subarea roundDouble rainEnv rainedCatchment 0 5
    roundingLaws_roundDouble (by norm_num [rainedCatchment])
    (by norm_num [rainedCatchment, zeroSubcatch]) hF hO
  refine ⟨?_, ?_, ?_⟩
  · obtain ⟨P, hP, hEq⟩ := (hSub SubareaType.IMPERV0).1 (by rw [a0]; norm_num)
    rw [hEq, hnp, her]
    have hfd := (rounded_getSubareaRunoff_free_drain roundDouble rainEnv P 0
      SubareaType.IMPERV0 (3602879701896397 / 9007199254740992) 0 5 roundingLaws_roundDouble hZ
      (by rw [hP]; rfl) (by rw [hP]; rfl) (by rw [hP]; rfl)
      (by rw [hP]; norm_num [getSubarea, rainedCatchment]) (by norm_num)
      (by rw [hP]; norm_num [getSubarea, rainedCatchment, zeroSubarea])).2
    have hEv : Rounded.subareaEvap roundDouble P 0 SubareaType.IMPERV0 0 5 = 0 := by
      unfold Rounded.subareaEvap
      rw [hP]
      norm_num [getSubarea, rainedCatchment, zeroSubarea, MIN, roundDouble_zero]
    have hIn : Rounded.subareaInfil roundDouble rainEnv P 0 SubareaType.IMPERV0
        (3602879701896397 / 9007199254740992) 5 = 0 := by
      unfold Rounded.subareaInfil
      simp
    have hMo : Rounded.subareaMoisture roundDouble P 0 SubareaType.IMPERV0
        (3602879701896397 / 9007199254740992) 5 = 3602879701896397 / 9007199254740992 := by
      unfold Rounded.subareaMoisture
      rw [hP]
      norm_num [getSubarea, rainedCatchment, zeroSubarea, roundDouble_zero, er]
    have hSt : Rounded.steppedDepth roundDouble
        (Rounded.subareaLosses roundDouble rainEnv P 0 SubareaType.IMPERV0
          (3602879701896397 / 9007199254740992) 0 5)
        (Rounded.subareaWetted roundDouble P 0 SubareaType.IMPERV0
          (3602879701896397 / 9007199254740992)) 5 = 2 := by
      unfold Rounded.steppedDepth
      rw [rounded_subareaLosses_Losses, hEv, hIn]
      unfold Rounded.subareaWetted
      rw [hP]
      norm_num [getSubarea, rainedCatchment, zeroSubarea, roundDouble_zero, er, e5, e2]
    rw [hfd (by rw [hEv, hIn, hMo]; norm_num [roundDouble_zero]), hSt]
    norm_num [rainEnv, basicEnv, roundDouble_two_fifths]
  · obtain ⟨P, hP, hEq⟩ := (hSub SubareaType.IMPERV1).1 (by rw [a1]; norm_num)
    rw [hEq, hnp, her]
    have hA1 : (getSubarea P 0 SubareaType.IMPERV1).fArea ≠ 0 := by
      rw [hP]
      norm_num [getSubarea, rainedCatchment]
    have hEv : Rounded.subareaEvap roundDouble P 0 SubareaType.IMPERV1 0 5 = 0 := by
      unfold Rounded.subareaEvap
      rw [hP]
      norm_num [getSubarea, rainedCatchment, zeroSubarea, MIN, roundDouble_zero]
    have hIn : Rounded.subareaInfil roundDouble rainEnv P 0 SubareaType.IMPERV1
        (3602879701896397 / 9007199254740992) 5 = 0 := by
      unfold Rounded.subareaInfil
      simp
    have hMo : Rounded.subareaMoisture roundDouble P 0 SubareaType.IMPERV1
        (3602879701896397 / 9007199254740992) 5 = 3602879701896397 / 9007199254740992 := by
      unfold Rounded.subareaMoisture
      rw [hP]
      norm_num [getSubarea, rainedCatchment, zeroSubarea, roundDouble_zero, er]
    have hL : ¬ (roundDouble (Rounded.subareaEvap roundDouble P 0 SubareaType.IMPERV1 0 5
          + Rounded.subareaInfil roundDouble rainEnv P 0 SubareaType.IMPERV1
            (3602879701896397 / 9007199254740992) 5)
        ≥ Rounded.subareaMoisture roundDouble P 0 SubareaType.IMPERV1
          (3602879701896397 / 9007199254740992) 5) := by
      rw [hEv, hIn, hMo]
      norm_num [roundDouble_zero]
    obtain ⟨e1, pFast, _⟩ := (rounded_getSubareaRunoff_paths roundDouble rainEnv P 0
      SubareaType.IMPERV1 (3602879701896397 / 9007199254740992) 0 5 roundingLaws_roundDouble hZ
      hA1 (by norm_num) (by rw [hP]; norm_num [getSubarea, rainedCatchment])).2.1 hL
    have hI := rounded_getSubareaRunoff_inflow roundDouble rainEnv P 0 SubareaType.IMPERV1
      (3602879701896397 / 9007199254740992) 0 5 hA1
    refine (pFast ?_).1
    rw [hI, e1, hEv, hIn, hP]
    norm_num [getSubarea, rainedCatchment, zeroSubarea, roundDouble_zero, er, e5, e2]
  · rw [(hSub SubareaType.PERV).2 (by rw [a2]; exact lt_irrefl 0)]
    rfl

theorem rounded_accumulate_mono (rnd : ℚ → ℚ) (hR : RoundingLaws rnd) (t u : SubareaType → ℚ)
    (h : ∀ i, t i ≤ u i) : Rounded.accumulate rnd t ≤ Rounded.accumulate rnd u := by
  unfold Rounded.accumulate
  simp only [subareaTypes, List.foldl_cons, List.foldl_nil]
  exact hR.2.1 _ _ (add_le_add (hR.2.1 _ _ (add_le_add (hR.2.1 _ _
    (add_le_add (le_refl 0) (h _))) (h _))) (h _))

theorem rounded_accumulate_nonneg (rnd : ℚ → ℚ) (hR : RoundingLaws rnd) (t : SubareaType → ℚ)
    (h : ∀ i, 0 ≤ t i) : 0 ≤ Rounded.accumulate rnd t := by
  have h0 : Rounded.accumulate rnd (fun _ => 0) = 0 := by
    unfold Rounded.accumulate
    simp only [subareaTypes, List.foldl_cons, List.foldl_nil, add_zero, hR.1]
  rw [← h0]
  exact rounded_accumulate_mono rnd hR _ _ h

theorem rounded_accumulate_exact (rnd : ℚ → ℚ) (hId : ∀ x, rnd x = x) (t : SubareaType → ℚ) :
    Rounded.accumulate rnd t
      = t SubareaType.IMPERV0 + t SubareaType.IMPERV1 + t SubareaType.PERV := by
  unfold Rounded.accumulate
  simp only [subareaTypes, List.foldl_cons, List.foldl_nil, hId, zero_add]

/-- C33 (amended): for a subcatchment with positive area, no LID area, a
positive time step, every outlet fraction in [0, 1], no negative area fraction
and no negative sub-area runoff after the call, the `newRunoff` stored by
`subcatch_getRunoff` is the sum that its loop accumulates over the three
sub-areas of `(fOutlet * runoff) * (area * fArea)`, and the value the function
returns is the sum it accumulates of `runoff * (area * fArea)`, divided by the
area, each operation rounded as the code computes it. The stored `newRunoff` is
at most that accumulated runoff sum and equals it when every outlet fraction is
1. In exact arithmetic the accumulated runoff sum is the area times the returned
value, so that `newRunoff` is the sum of `fOutlet * runoff * fArea * area`, at
most the area times the returned runoff, with equality when every outlet
fraction is 1. When every operation is rounded with a relative error of at most
`u` (`2^-53` for `double`), `newRunoff` differs from the sum of
`fOutlet * runoff * fArea * area` by at most `(1 + u)^7 - 1` of that sum,
`(1 - u) * newRunoff` is at most the area times the returned runoff, and when
every outlet fraction is 1 the two differ by at most `u * newRunoff`. -/
theorem C33_outflow_within_runoff (rnd : ℚ → ℚ) (env : Env) (s : Project) (j : Nat)
    (tStep : ℚ) (hRnd : RoundingLaws rnd)
    (hA : 0 < (s.Subcatch j).area) (hL : (s.Subcatch j).lidArea = 0) (_hT : 0 < tStep)
    (hO : ∀ i, 0 ≤ (getSubarea s j i).fOutlet ∧ (getSubarea s j i).fOutlet ≤ 1)
    (hF : ∀ i, 0 ≤ (getSubarea s j i).fArea)
    (hR : ∀ i, 0 ≤ (getSubarea (Rounded.subcatch_getRunoff rnd env s j tStep).1 j i).runoff) :
    ((Rounded.subcatch_getRunoff rnd env s j tStep).1.Subcatch j).newRunoff
      = Rounded.accumulate rnd (fun i =>
          rnd (rnd ((getSubarea s j i).fOutlet
              * (getSubarea (Rounded.subcatch_getRunoff rnd env s j tStep).1 j i).runoff)
            * Rounded.subareaArea rnd s j i)) ∧
    (Rounded.subcatch_getRunoff rnd env s j tStep).2
      = rnd (Rounded.accumulate rnd (fun i =>
          rnd ((getSubarea (Rounded.subcatch_getRunoff rnd env s j tStep).1 j i).runoff
            * Rounded.subareaArea rnd s j i)) / (s.Subcatch j).area) ∧
    ((Rounded.subcatch_getRunoff rnd env s j tStep).1.Subcatch j).newRunoff
      ≤ Rounded.accumulate rnd (fun i =>
          rnd ((getSubarea (Rounded.subcatch_getRunoff rnd env s j tStep).1 j i).runoff
            * Rounded.subareaArea rnd s j i)) ∧
    ((∀ i, (getSubarea s j i).fOutlet = 1) →
      ((Rounded.subcatch_getRunoff rnd env s j tStep).1.Subcatch j).newRunoff
        = Rounded.accumulate rnd (fun i =>
            rnd ((getSubarea (Rounded.subcatch_getRunoff rnd env s j tStep).1 j i).runoff
              * Rounded.subareaArea rnd s j i))) ∧
    ((∀ x, rnd x = x) →
      ((Rounded.subcatch_getRunoff rnd env s j tStep).1.Subcatch j).newRunoff
        = (subareaTypes.map (fun i =>
            (getSubarea s j i).fOutlet
              * (getSubarea (Rounded.subcatch_getRunoff rnd env s j tStep).1 j i).runoff
              * (getSubarea s j i).fArea * (s.Subcatch j).area)).sum ∧
      ((Rounded.subcatch_getRunoff rnd env s j tStep).1.Subcatch j).newRunoff
        ≤ (s.Subcatch j).area * (Rounded.subcatch_getRunoff rnd env s j tStep).2 ∧
      ((∀ i, (getSubarea s j i).fOutlet = 1) →
        ((Rounded.subcatch_getRunoff rnd env s j tStep).1.Subcatch j).newRunoff
          = (s.Subcatch j).area * (Rounded.subcatch_getRunoff rnd env s j tStep).2)) ∧
    (∀ u, RoundingError rnd u →
      |((Rounded.subcatch_getRunoff rnd env s j tStep).1.Subcatch j).newRunoff
          - (subareaTypes.map (fun i =>
              (getSubarea s j i).fOutlet
                * (getSubarea (Rounded.subcatch_getRunoff rnd env s j tStep).1 j i).runoff
                * (getSubarea s j i).fArea * (s.Subcatch j).area)).sum|
        ≤ ((1 + u) ^ 7 - 1)
          * (subareaTypes.map (fun i =>
              (getSubarea s j i).fOutlet
                * (getSubarea (Rounded.subcatch_getRunoff rnd env s j tStep).1 j i).runoff
                * (getSubarea s j i).fArea * (s.Subcatch j).area)).sum ∧
      (u ≤ 1 →
        (1 - u) * ((Rounded.subcatch_getRunoff rnd env s j tStep).1.Subcatch j).newRunoff
          ≤ (s.Subcatch j).area * (Rounded.subcatch_getRunoff rnd env s j tStep).2) ∧
      ((∀ i, (getSubarea s j i).fOutlet = 1) →
        |(s.Subcatch j).area * (Rounded.subcatch_getRunoff rnd env s j tStep).2
            - ((Rounded.subcatch_getRunoff rnd env s j tStep).1.Subcatch j).newRunoff|
          ≤ u * ((Rounded.subcatch_getRunoff rnd env s j tStep).1.Subcatch j).newRunoff)) := by
  obtain ⟨hOut, hRet, hAn, hFix⟩ := rounded_getRunoff_sums rnd env s j tStep hRnd hA hL hF
    (fun i => (hO i).1)
  have term : ∀ i, rnd (rnd ((getSubarea s j i).fOutlet
        * (getSubarea (Rounded.subcatch_getRunoff rnd env s j tStep).1 j i).runoff)
        * Rounded.subareaArea rnd s j i)
      ≤ rnd ((getSubarea (Rounded.subcatch_getRunoff rnd env s j tStep).1 j i).runoff
        * Rounded.subareaArea rnd s j i) := by
    intro i
    by_cases hp : Rounded.subareaArea rnd s j i > 0
    · have h1 : rnd ((getSubarea s j i).fOutlet
            * (getSubarea (Rounded.subcatch_getRunoff rnd env s j tStep).1 j i).runoff)
          ≤ (getSubarea (Rounded.subcatch_getRunoff rnd env s j tStep).1 j i).runoff := by
        rw [← hFix i hp]
        refine hRnd.2.1 _ _ ?_
        rw [hFix i hp]
        exact mul_le_of_le_one_left (hR i) (hO i).2
      exact hRnd.2.1 _ _ (mul_le_mul_of_nonneg_right h1 (hAn i))
    · rw [le_antisymm (not_lt.mp hp) (hAn i), mul_zero, mul_zero]
  have same : (∀ i, (getSubarea s j i).fOutlet = 1) →
      (fun i => rnd (rnd ((getSubarea s j i).fOutlet
        * (getSubarea (Rounded.subcatch_getRunoff rnd env s j tStep).1 j i).runoff)
        * Rounded.subareaArea rnd s j i))
      = (fun i => rnd ((getSubarea (Rounded.subcatch_getRunoff rnd env s j tStep).1 j i).runoff
        * Rounded.subareaArea rnd s j i)) := by
    intro h1
    funext i
    by_cases hp : Rounded.subareaArea rnd s j i > 0
    · rw [h1 i, one_mul, hFix i hp]
    · rw [le_antisymm (not_lt.mp hp) (hAn i), mul_zero, mul_zero]
  have hle := rounded_accumulate_mono rnd hRnd _ _ term
  refine ⟨hOut, hRet, ?_, ?_, ?_, fun u hE => ?_⟩
  · rw [hOut]
    exact hle
  · intro h1
    rw [hOut, same h1]
  rotate_left
  · have hu := roundingError_nonneg hE
    have hne : (s.Subcatch j).area ≠ 0 := ne_of_gt hA
    have hS0 : 0 ≤ Rounded.accumulate rnd (fun i =>
        rnd ((getSubarea (Rounded.subcatch_getRunoff rnd env s j tStep).1 j i).runoff
          * Rounded.subareaArea rnd s j i)) :=
      rounded_accumulate_nonneg rnd hRnd _
        (fun i => (roundingLaws_sign rnd hRnd _).2 (mul_nonneg (hR i) (hAn i)))
    have hN0 : 0 ≤ ((Rounded.subcatch_getRunoff rnd env s j tStep).1.Subcatch j).newRunoff := by
      rw [hOut]
      exact rounded_accumulate_nonneg rnd hRnd _
        (fun i => (roundingLaws_sign rnd hRnd _).2
          (mul_nonneg ((roundingLaws_sign rnd hRnd _).2 (mul_nonneg (hO i).1 (hR i)))
            (hAn i)))
    have hq := hE (Rounded.accumulate rnd (fun i =>
        rnd ((getSubarea (Rounded.subcatch_getRunoff rnd env s j tStep).1 j i).runoff
          * Rounded.subareaArea rnd s j i)) / (s.Subcatch j).area)
    rw [← hRet, abs_of_nonneg (div_nonneg hS0 (le_of_lt hA))] at hq
    have hq2 : |(s.Subcatch j).area * (Rounded.subcatch_getRunoff rnd env s j tStep).2
        - Rounded.accumulate rnd (fun i =>
          rnd ((getSubarea (Rounded.subcatch_getRunoff rnd env s j tStep).1 j i).runoff
            * Rounded.subareaArea rnd s j i))|
        ≤ u * Rounded.accumulate rnd (fun i =>
          rnd ((getSubarea (Rounded.subcatch_getRunoff rnd env s j tStep).1 j i).runoff
            * Rounded.subareaArea rnd s j i)) := by
      have h3 := relerr_mul_right (le_of_lt hA) hq
      rw [div_mul_cancel₀ _ hne, mul_comm _ (s.Subcatch j).area] at h3
      exact h3
    refine ⟨?_, fun hu1 => ?_, fun h1 => ?_⟩
    · have hterm : ∀ i, |rnd (rnd ((getSubarea s j i).fOutlet
            * (getSubarea (Rounded.subcatch_getRunoff rnd env s j tStep).1 j i).runoff)
            * Rounded.subareaArea rnd s j i)
          - (getSubarea s j i).fOutlet
            * (getSubarea (Rounded.subcatch_getRunoff rnd env s j tStep).1 j i).runoff
            * (getSubarea s j i).fArea * (s.Subcatch j).area|
          ≤ ((1 + u) ^ 4 - 1)
            * ((getSubarea s j i).fOutlet
              * (getSubarea (Rounded.subcatch_getRunoff rnd env s j tStep).1 j i).runoff
              * (getSubarea s j i).fArea * (s.Subcatch j).area) := by
        intro i
        have hfr : 0 ≤ (getSubarea s j i).fOutlet
            * (getSubarea (Rounded.subcatch_getRunoff rnd env s j tStep).1 j i).runoff :=
          mul_nonneg (hO i).1 (hR i)
        have haf : 0 ≤ (s.Subcatch j).area * (getSubarea s j i).fArea :=
          mul_nonneg (le_of_lt hA) (hF i)
        have a1 := relerr_round hE (s.Subcatch j).area
        rw [abs_of_pos hA] at a1
        have a2 := relerr_mul_right (hF i) a1
        have a3 := relerr_step hE 1 (le_of_eq (abs_of_nonneg haf)) a2
        have b1 := relerr_round hE ((getSubarea s j i).fOutlet
            * (getSubarea (Rounded.subcatch_getRunoff rnd env s j tStep).1 j i).runoff)
        have c1 := relerr_mul hu 1 2 (le_refl _) b1 (le_of_eq (abs_of_nonneg haf)) a3
        have c2 := relerr_step hE 3
          (le_of_eq (abs_of_nonneg (mul_nonneg hfr haf)))
          (by rw [abs_of_nonneg hfr] at c1; exact c1)
        have e1 : Rounded.subareaArea rnd s j i
            = rnd (rnd (s.Subcatch j).area * (getSubarea s j i).fArea) := by
          unfold Rounded.subareaArea
          rw [hL, sub_zero]
        have e2 : (getSubarea s j i).fOutlet
            * (getSubarea (Rounded.subcatch_getRunoff rnd env s j tStep).1 j i).runoff
            * (getSubarea s j i).fArea * (s.Subcatch j).area
            = (getSubarea s j i).fOutlet
              * (getSubarea (Rounded.subcatch_getRunoff rnd env s j tStep).1 j i).runoff
              * ((s.Subcatch j).area * (getSubarea s j i).fArea) := by ring
        rw [e1, e2]
        exact c2
      have hacc := relerr_accumulate hE 4 _ _
        (fun i => mul_nonneg (mul_nonneg (mul_nonneg (hO i).1 (hR i)) (hF i)) (le_of_lt hA))
        hterm
      rw [hOut]
      simp only [subareaTypes, List.map_cons, List.map_nil, List.sum_cons, List.sum_nil,
        add_zero, ← add_assoc]
      exact hacc
    · have hlow := (abs_le.mp hq2).1
      have h1u : 0 ≤ 1 - u := by linarith
      have hle2 := mul_le_mul_of_nonneg_left
        (show ((Rounded.subcatch_getRunoff rnd env s j tStep).1.Subcatch j).newRunoff
          ≤ Rounded.accumulate rnd (fun i =>
            rnd ((getSubarea (Rounded.subcatch_getRunoff rnd env s j tStep).1 j i).runoff
              * Rounded.subareaArea rnd s j i)) by rw [hOut]; exact hle) h1u
      linarith
    · have hEq : ((Rounded.subcatch_getRunoff rnd env s j tStep).1.Subcatch j).newRunoff
          = Rounded.accumulate rnd (fun i =>
            rnd ((getSubarea (Rounded.subcatch_getRunoff rnd env s j tStep).1 j i).runoff
              * Rounded.subareaArea rnd s j i)) := by
        rw [hOut, same h1]
      rw [hEq]
      exact hq2
  · intro hId
    have hne : (s.Subcatch j).area ≠ 0 := ne_of_gt hA
    have hAcc : (s.Subcatch j).area * (Rounded.subcatch_getRunoff rnd env s j tStep).2
        = Rounded.accumulate rnd (fun i =>
          rnd ((getSubarea (Rounded.subcatch_getRunoff rnd env s j tStep).1 j i).runoff
            * Rounded.subareaArea rnd s j i)) := by
      rw [hRet, hId, mul_div_cancel₀ _ hne]
    refine ⟨?_, ?_, ?_⟩
    · rw [hOut, rounded_accumulate_exact rnd hId]
      simp only [subareaTypes, List.map_cons, List.map_nil, List.sum_cons, List.sum_nil,
        Rounded.subareaArea, hId, hL]
      ring
    · rw [hAcc, hOut]
      exact hle
    · intro h1
      rw [hAcc, hOut, same h1]

/-- The sums of `subcatch_getRunoff` on `rainedCatchment` after a step of 5 s of
rain in double arithmetic: the stored outflow is the double nearest to 0.9 and
the returned runoff the double nearest to 0.3. -/
theorem rainedCatchment_getRunoff :
    ((Rounded.subcatch_getRunoff roundDouble rainEnv rainedCatchment 0 5).1.Subcatch
        0).newRunoff = 8106479329266893 / 9007199254740992 ∧
    (Rounded.subcatch_getRunoff roundDouble rainEnv rainedCatchment 0 5).2
      = 5404319552844595 / 18014398509481984 := by
  have er : roundDouble (3602879701896397 / 9007199254740992)
      = 3602879701896397 / 9007199254740992 := by
    rw [roundDouble_eq_pos _ 7205759403792794 54 (by norm_num) (by norm_num) (by norm_num)
      (by norm_num)]
    norm_num
  have ep : roundDouble (32425917317067573 / 36028797018963968)
      = 8106479329266893 / 9007199254740992 := by
    rw [roundDouble_eq_pos _ 8106479329266893 53 (by norm_num) (by norm_num) (by norm_num)
      (by norm_num)]
    norm_num
  have e9 : roundDouble (8106479329266893 / 9007199254740992)
      = 8106479329266893 / 9007199254740992 := by
    rw [roundDouble_eq_pos _ 8106479329266893 53 (by norm_num) (by norm_num) (by norm_num)
      (by norm_num)]
    norm_num
  have eq : roundDouble (8106479329266893 / 27021597764222976)
      = 5404319552844595 / 18014398509481984 := by
    rw [roundDouble_eq_pos _ 5404319552844595 54 (by norm_num) (by norm_num) (by norm_num)
      (by norm_num)]
    norm_num
  obtain ⟨a0, a1, a2⟩ := rainedCatchment_areas
  obtain ⟨r0, r1, r2⟩ := rainedCatchment_runoffs
  have hF : ∀ i, 0 ≤ (getSubarea rainedCatchment 0 i).fArea := by
    intro i
    cases i <;> norm_num [getSubarea, rainedCatchment, zeroSubarea]
  have hO : ∀ i, 0 ≤ (getSubarea rainedCatchment 0 i).fOutlet := by
    intro i
    cases i <;> norm_num [getSubarea, rainedCatchment, zeroSubarea]
  obtain ⟨hOut, hRet, _, _⟩ := rounded_getRunoff_sums roundDouble rainEnv rainedCatchment 0 5
    roundingLaws_roundDouble (by norm_num [rainedCatchment])
    (by norm_num [rainedCatchment, zeroSubcatch]) hF hO
  constructor
  · rw [hOut]
    simp only [Rounded.accumulate, subareaTypes, List.foldl_cons, List.foldl_nil, r0, r1, r2,
      a0, a1, a2]
    norm_num [getSubarea, rainedCatchment, zeroSubarea, roundDouble_zero, er, ep, e9]
  · rw [hRet]
    simp only [Rounded.accumulate, subareaTypes, List.foldl_cons, List.foldl_nil, r0, r1, r2,
      a0, a1, a2]
    norm_num [rainedCatchment, roundDouble_zero, ep, e9, eq]

theorem C33_rounded_quotient_counterexample :
    0 < (rainedCatchment.Subcatch 0).area ∧ (rainedCatchment.Subcatch 0).lidArea = 0 ∧
    (∀ i, (getSubarea rainedCatchment 0 i).fOutlet = 1) ∧
    (∀ i, 0 ≤ (getSubarea rainedCatchment 0 i).fArea) ∧
    (∀ i, 0 ≤ (getSubarea (Rounded.subcatch_getRunoff roundDouble rainEnv rainedCatchment 0
        5).1 0 i).runoff) ∧
    ((Rounded.subcatch_getRunoff roundDouble rainEnv rainedCatchment 0 5).1.Subcatch
        0).newRunoff = 8106479329266893 / 9007199254740992 ∧
    (Rounded.subcatch_getRunoff roundDouble rainEnv rainedCatchment 0 5).2
      = 5404319552844595 / 18014398509481984 ∧
    (rainedCatchment.Subcatch 0).area
        * (Rounded.subcatch_getRunoff roundDouble rainEnv rainedCatchment 0 5).2
      < ((Rounded.subcatch_getRunoff roundDouble rainEnv rainedCatchment 0 5).1.Subcatch
        0).newRunoff ∧
    roundDouble ((rainedCatchment.Subcatch 0).area
        * (Rounded.subcatch_getRunoff roundDouble rainEnv rainedCatchment 0 5).2)
      < ((Rounded.subcatch_getRunoff roundDouble rainEnv rainedCatchment 0 5).1.Subcatch
        0).newRunoff := by
  obtain ⟨hN, hV⟩ := rainedCatchment_getRunoff
  obtain ⟨r0, r1, r2⟩ := rainedCatchment_runoffs
  have hA : (rainedCatchment.Subcatch 0).area = 3 := rfl
  have eb : roundDouble (16212958658533785 / 18014398509481984)
      = 2026619832316723 / 2251799813685248 := by
    rw [roundDouble_eq_tie _ 8106479329266892 53 (by norm_num) (by norm_num) (by norm_num)]
    norm_num
  refine ⟨by rw [hA]; norm_num, rfl, ?_, ?_, ?_, hN, hV, ?_, ?_⟩
  · intro i
    cases i <;> rfl
  · intro i
    cases i <;> norm_num [getSubarea, rainedCatchment, zeroSubarea]
  · intro i
    cases i
    · rw [r0]
      norm_num
    · rw [r1]
    · rw [r2]
  · rw [hN, hV, hA]
    norm_num
  · rw [hN, hV, hA]
    norm_num [eb]

theorem C33_outflow_within_runoff_witness :
    (1 - 1 / 2 ^ 53)
        * ((Rounded.subcatch_getRunoff roundDouble rainEnv rainedCatchment 0 5).1.Subcatch
          0).newRunoff
      ≤ (rainedCatchment.Subcatch 0).area
        * (Rounded.subcatch_getRunoff roundDouble rainEnv rainedCatchment 0 5).2 :=
  ((C33_outflow_within_runoff roundDouble rainEnv rainedCatchment 0 5
    roundingLaws_roundDouble
    (by norm_num [rainedCatchment]) (by norm_num [rainedCatchment, zeroSubcatch])
    (by norm_num)
    (fun i => by cases i <;> norm_num [getSubarea, rainedCatchment, zeroSubarea])
    (fun i => by cases i <;> norm_num [getSubarea, rainedCatchment, zeroSubarea])
    (fun i => by
      cases i
      · rw [rainedCatchment_runoffs.1]
        norm_num
      · rw [rainedCatchment_runoffs.2.1]
      · rw [rainedCatchment_runoffs.2.2])).2.2.2.2.2 (1 / 2 ^ 53)
    roundingError_roundDouble).2.1 (by norm_num)

/-! ### Agreement of the rounded functions with the exact ones -/

/-- With exact arithmetic the rounded `subcatch_readSubareaParams` is
`subcatch_readSubareaParams`. -/
theorem rounded_readSubareaParams_id (env : Env) (project : Project) (tok : Nat → String)
    (ntoks : Int) :
    Rounded.subcatch_readSubareaParams id env project tok ntoks
      = subcatch_readSubareaParams env project tok ntoks := rfl

theorem rounded_getNetPrecip_id (env : Env) (project : Project) (j : Nat) (tStep : ℚ) :
    Rounded.getNetPrecip id env project j tStep = getNetPrecip env project j tStep := rfl

theorem rounded_getDepth_id (env : Env) (project : Project) (j : Nat) :
    Rounded.subcatch_getDepth id env project j = subcatch_getDepth env project j := rfl

theorem rounded_runoffSubarea_id (env : Env) (j : Nat) (tStep : ℚ) (np : SubareaType → ℚ)
    (er : ℚ) (sums : RunoffSums) (i : SubareaType) :
    Rounded.runoffSubarea id env j tStep np er sums i = runoffSubarea env j tStep np er sums i := by
  unfold Rounded.runoffSubarea runoffSubarea
  simp only [rounded_getSubareaRunoff_id, id]

theorem rounded_runoffLid_id (env : Env) (j : Nat) (tStep : ℚ) (sums : RunoffSums) :
    Rounded.runoffLid id env j tStep sums = runoffLid env j tStep sums := rfl

theorem rounded_runoffFinish_id (p : Project) (j : Nat) (tStep : ℚ) (sums : RunoffSums) :
    Rounded.runoffFinish id p j tStep sums = runoffFinish p j tStep sums := rfl

/-- With exact arithmetic the rounded `subcatch_getRunoff` is `subcatch_getRunoff`. -/
theorem rounded_getRunoff_id (env : Env) (s : Project) (j : Nat) (tStep : ℚ) :
    Rounded.subcatch_getRunoff id env s j tStep = subcatch_getRunoff env s j tStep := by
  have hS : Rounded.runoffSubareas id env s j tStep = runoffSubareas env s j tStep := by
    unfold Rounded.runoffSubareas runoffSubareas
    simp only [rounded_getNetPrecip_id, rounded_getDepth_id, id]
    congr 1
  rw [getRunoff_stages]
  unfold Rounded.subcatch_getRunoff
  simp only [hS, rounded_runoffLid_id, rounded_runoffFinish_id]

theorem readSubareaValues_pctZero (env : Env) (tok : Nat → String) (x : Nat → ℚ)
    (h : readSubareaValues env tok = Except.ok x) :
    env.getDouble (tok 5) = some (x 4) ∧ 0 ≤ x 4 := by
  unfold readSubareaValues at h
  rw [List.range_succ, List.foldl_append] at h
  generalize List.foldl _ _ (List.range 4) = r at h
  simp only [List.foldl_cons, List.foldl_nil] at h
  cases r with
  | error e => cases h
  | ok y =>
    simp only [] at h
    cases hv : env.getDouble (tok (4 + 1)) with
    | none =>
      rw [hv] at h
      cases h
    | some v =>
      rw [hv] at h
      simp only [] at h
      by_cases hneg : v < 0
      · rw [if_pos hneg] at h
        cases h
      · rw [if_neg hneg] at h
        injection h with h
        rw [← h, Function.update_same]
        exact ⟨rfl, not_lt.mp hneg⟩

theorem rounded_assignRouting_eq (rnd : ℚ → ℚ) (project : Project) (j : Nat) (m : Int)
    (x6 : ℚ) :
    Rounded.assignRouting rnd project j m x6
      = assignRouting project j m (1 - rnd (1 - x6)) := by
  rw [assignRouting_eq]
  unfold Rounded.assignRouting
  simp only [sub_sub_cancel]

theorem rounded_assignStorage_fracImperv (rnd : ℚ → ℚ) (env : Env) (project : Project)
    (j : Nat) (x : Nat → ℚ) :
    ((Rounded.assignStorage rnd env project j x).Subcatch j).fracImperv
      = (project.Subcatch j).fracImperv := by
  unfold Rounded.assignStorage
  simp only [setSubarea_fracImperv]

theorem rounded_assignAreas_fArea (rnd : ℚ → ℚ) (p : Project) (j : Nat) (x : Nat → ℚ) :
    ((Rounded.assignAreas rnd p j x).Subcatch j).fracImperv = (p.Subcatch j).fracImperv ∧
    (getSubarea (Rounded.assignAreas rnd p j x) j SubareaType.IMPERV0).fArea
      = rnd (rnd ((p.Subcatch j).fracImperv * x 4) / 100) ∧
    (getSubarea (Rounded.assignAreas rnd p j x) j SubareaType.IMPERV1).fArea
      = rnd ((p.Subcatch j).fracImperv * rnd (1 - rnd (x 4 / 100))) ∧
    (getSubarea (Rounded.assignAreas rnd p j x) j SubareaType.PERV).fArea
      = rnd (1 - (p.Subcatch j).fracImperv) := by
  unfold Rounded.assignAreas
  simp [getSubarea_setSubarea, setSubarea_fracImperv]

/-- A successful rounded `subcatch_readSubareaParams` found the subcatchment, read
the five values and left the project as its assignments make it. -/
theorem rounded_readSubareaParams_ok (rnd : ℚ → ℚ) (env : Env) (project project2 : Project)
    (tok : Nat → String) (ntoks : Int)
    (h : Rounded.subcatch_readSubareaParams rnd env project tok ntoks = Except.ok project2) :
    0 ≤ env.project_findObject project ObjectType.SUBCATCH (tok 0) ∧
    ∃ x m x6, readSubareaValues env tok = Except.ok x ∧
      project2 = Rounded.assignRouting rnd
        (Rounded.assignAreas rnd
          (Rounded.assignStorage rnd env project
            (env.project_findObject project ObjectType.SUBCATCH (tok 0)).toNat x)
          (env.project_findObject project ObjectType.SUBCATCH (tok 0)).toNat x)
        (env.project_findObject project ObjectType.SUBCATCH (tok 0)).toNat m x6 := by
  unfold Rounded.subcatch_readSubareaParams at h
  simp only [] at h
  by_cases h1 : ntoks < 7
  · rw [if_pos h1] at h
    cases h
  rw [if_neg h1] at h
  by_cases h2 : env.project_findObject project ObjectType.SUBCATCH (tok 0) < 0
  · rw [if_pos h2] at h
    cases h
  rw [if_neg h2] at h
  refine ⟨not_lt.mp h2, ?_⟩
  cases hread : readSubareaValues env tok with
  | error e =>
    rw [hread] at h
    cases h
  | ok x =>
    rw [hread] at h
    simp only [] at h
    by_cases h3 : env.findmatch (tok 6) (RunoffRoutingWords env) < 0
    · rw [if_pos h3] at h
      cases h
    rw [if_neg h3] at h
    generalize (if ntoks ≥ 8 then _ else _ : Except InpError ℚ) = routed at h
    cases routed with
    | error e => cases h
    | ok x6 =>
      simp only [] at h
      injection h with h
      exact ⟨x, _, x6, rfl, h.symm⟩

/-- The impervious fraction and the area fractions that a successful rounded
`subcatch_readSubareaParams` leaves, in terms of the PctZero value read from
token 5. -/
theorem rounded_readSubareaParams_fArea (rnd : ℚ → ℚ) (env : Env)
    (project project2 : Project) (tok : Nat → String) (ntoks : Int)
    (h : Rounded.subcatch_readSubareaParams rnd env project tok ntoks = Except.ok project2) :
    ∃ pz, env.getDouble (tok 5) = some pz ∧ 0 ≤ pz ∧
      (project2.Subcatch
          (env.project_findObject project ObjectType.SUBCATCH (tok 0)).toNat).fracImperv
        = (project.Subcatch
          (env.project_findObject project ObjectType.SUBCATCH (tok 0)).toNat).fracImperv ∧
      (getSubarea project2 (env.project_findObject project ObjectType.SUBCATCH (tok 0)).toNat
          SubareaType.IMPERV0).fArea
        = rnd (rnd ((project.Subcatch
            (env.project_findObject project ObjectType.SUBCATCH (tok 0)).toNat).fracImperv
            * pz) / 100) ∧
      (getSubarea project2 (env.project_findObject project ObjectType.SUBCATCH (tok 0)).toNat
          SubareaType.IMPERV1).fArea
        = rnd ((project.Subcatch
            (env.project_findObject project ObjectType.SUBCATCH (tok 0)).toNat).fracImperv
            * rnd (1 - rnd (pz / 100))) ∧
      (getSubarea project2 (env.project_findObject project ObjectType.SUBCATCH (tok 0)).toNat
          SubareaType.PERV).fArea
        = rnd (1 - (project.Subcatch
            (env.project_findObject project ObjectType.SUBCATCH (tok 0)).toNat).fracImperv) := by
  obtain ⟨_, x, m, x6, hx, hp⟩ := rounded_readSubareaParams_ok rnd env project project2 tok
    ntoks h
  obtain ⟨hz, hz0⟩ := readSubareaValues_pctZero env tok x hx
  obtain ⟨r1, r2⟩ := areaFrame_assignRouting
    (Rounded.assignAreas rnd (Rounded.assignStorage rnd env project
      (env.project_findObject project ObjectType.SUBCATCH (tok 0)).toNat x)
      (env.project_findObject project ObjectType.SUBCATCH (tok 0)).toNat x)
    (env.project_findObject project ObjectType.SUBCATCH (tok 0)).toNat m (1 - rnd (1 - x6))
  obtain ⟨a1, a2, a3, a4⟩ := rounded_assignAreas_fArea rnd
    (Rounded.assignStorage rnd env project
      (env.project_findObject project ObjectType.SUBCATCH (tok 0)).toNat x)
    (env.project_findObject project ObjectType.SUBCATCH (tok 0)).toNat x
  refine ⟨x 4, hz, hz0, ?_⟩
  rw [hp, rounded_assignRouting_eq, r1, r2, r2, r2, a1, a2, a3, a4,
    rounded_assignStorage_fracImperv]
  exact ⟨rfl, rfl, rfl, rfl⟩

/-- C17 (amended): after a successful `subcatch_readSubareaParams` call for the
subcatchment `j` named by the first token, with PctZero the accepted value of
token 5, the call leaves `fracImperv` as it was and the area fractions are the
values the code computes: `fArea(IMPERV0) = (fracImperv * PctZero) / 100`,
`fArea(IMPERV1) = fracImperv * (1 - PctZero / 100)` and
`fArea(PERV) = 1 - fracImperv`, each operation rounded. In exact arithmetic
these satisfy `fArea(IMPERV0) + fArea(IMPERV1) + fArea(PERV) = 1`,
`fArea(IMPERV0) + fArea(IMPERV1) = fracImperv` and
`fArea(PERV) = 1 - fracImperv`. When every operation is rounded with a relative
error of at most `u` (`2^-53` for `double`), the three fractions sum to 1 up to
`((1 + u)^3 - 1) * (|fracImperv| * (1 + 2 * PctZero / 100) + |1 - fracImperv|)`,
the impervious two sum to `fracImperv` up to
`((1 + u)^3 - 1) * |fracImperv| * (1 + 2 * PctZero / 100)`, and `fArea(PERV)`
differs from `1 - fracImperv` by at most `u * |1 - fracImperv|`. -/
theorem C17_fractions_as_computed (rnd : ℚ → ℚ) (env : Env) (project project2 : Project)
    (tok : Nat → String) (ntoks : Int)
    (h : Rounded.subcatch_readSubareaParams rnd env project tok ntoks = Except.ok project2) :
    ∃ pz, env.getDouble (tok 5) = some pz ∧ 0 ≤ pz ∧
      (project2.Subcatch
          (env.project_findObject project ObjectType.SUBCATCH (tok 0)).toNat).fracImperv
        = (project.Subcatch
          (env.project_findObject project ObjectType.SUBCATCH (tok 0)).toNat).fracImperv ∧
      (getSubarea project2 (env.project_findObject project ObjectType.SUBCATCH (tok 0)).toNat
          SubareaType.IMPERV0).fArea
        = rnd (rnd ((project2.Subcatch
            (env.project_findObject project ObjectType.SUBCATCH (tok 0)).toNat).fracImperv
            * pz) / 100) ∧
      (getSubarea project2 (env.project_findObject project ObjectType.SUBCATCH (tok 0)).toNat
          SubareaType.IMPERV1).fArea
        = rnd ((project2.Subcatch
            (env.project_findObject project ObjectType.SUBCATCH (tok 0)).toNat).fracImperv
            * rnd (1 - rnd (pz / 100))) ∧
      (getSubarea project2 (env.project_findObject project ObjectType.SUBCATCH (tok 0)).toNat
          SubareaType.PERV).fArea
        = rnd (1 - (project2.Subcatch
            (env.project_findObject project ObjectType.SUBCATCH (tok 0)).toNat).fracImperv) ∧
      ((∀ x, rnd x = x) →
        (getSubarea project2
            (env.project_findObject project ObjectType.SUBCATCH (tok 0)).toNat
            SubareaType.IMPERV0).fArea
          + (getSubarea project2
            (env.project_findObject project ObjectType.SUBCATCH (tok 0)).toNat
            SubareaType.IMPERV1).fArea
          + (getSubarea project2
            (env.project_findObject project ObjectType.SUBCATCH (tok 0)).toNat
            SubareaType.PERV).fArea = 1 ∧
        (getSubarea project2
            (env.project_findObject project ObjectType.SUBCATCH (tok 0)).toNat
            SubareaType.IMPERV0).fArea
          + (getSubarea project2
            (env.project_findObject project ObjectType.SUBCATCH (tok 0)).toNat
            SubareaType.IMPERV1).fArea
          = (project2.Subcatch
            (env.project_findObject project ObjectType.SUBCATCH (tok 0)).toNat).fracImperv ∧
        (getSubarea project2
            (env.project_findObject project ObjectType.SUBCATCH (tok 0)).toNat
            SubareaType.PERV).fArea
          = 1 - (project2.Subcatch
            (env.project_findObject project ObjectType.SUBCATCH (tok 0)).toNat).fracImperv) ∧
      (∀ u, RoundingError rnd u →
        |(getSubarea project2
            (env.project_findObject project ObjectType.SUBCATCH (tok 0)).toNat
            SubareaType.IMPERV0).fArea
          + (getSubarea project2
            (env.project_findObject project ObjectType.SUBCATCH (tok 0)).toNat
            SubareaType.IMPERV1).fArea
          + (getSubarea project2
            (env.project_findObject project ObjectType.SUBCATCH (tok 0)).toNat
            SubareaType.PERV).fArea - 1|
          ≤ ((1 + u) ^ 3 - 1)
            * (|(project2.Subcatch
              (env.project_findObject project ObjectType.SUBCATCH (tok 0)).toNat).fracImperv| * (1 + 2 * (pz / 100))
              + |1 - (project2.Subcatch
              (env.project_findObject project ObjectType.SUBCATCH (tok 0)).toNat).fracImperv|) ∧
        |(getSubarea project2
            (env.project_findObject project ObjectType.SUBCATCH (tok 0)).toNat
            SubareaType.IMPERV0).fArea
          + (getSubarea project2
            (env.project_findObject project ObjectType.SUBCATCH (tok 0)).toNat
            SubareaType.IMPERV1).fArea
          - (project2.Subcatch
              (env.project_findObject project ObjectType.SUBCATCH (tok 0)).toNat).fracImperv|
          ≤ ((1 + u) ^ 3 - 1)
            * (|(project2.Subcatch
              (env.project_findObject project ObjectType.SUBCATCH (tok 0)).toNat).fracImperv| * (1 + 2 * (pz / 100))) ∧
        |(getSubarea project2
            (env.project_findObject project ObjectType.SUBCATCH (tok 0)).toNat
            SubareaType.PERV).fArea
          - (1 - (project2.Subcatch
              (env.project_findObject project ObjectType.SUBCATCH (tok 0)).toNat).fracImperv)|
          ≤ u * |1 - (project2.Subcatch
              (env.project_findObject project ObjectType.SUBCATCH (tok 0)).toNat).fracImperv|) := by
  obtain ⟨pz, hz, hz0, hf, a0, a1, a2⟩ := rounded_readSubareaParams_fArea rnd env project
    project2 tok ntoks h
  rw [← hf] at a0 a1 a2
  refine ⟨pz, hz, hz0, hf, a0, a1, a2, fun hId => ?_, fun u hE => ?_⟩
  · rw [a0, a1, a2]
    rw [hId, hId, hId, hId, hId, hId]
    refine ⟨?_, ?_, rfl⟩ <;> ring
  · obtain ⟨r0, r1, r2⟩ := relerr_fractions hE
      (project2.Subcatch
        (env.project_findObject project ObjectType.SUBCATCH (tok 0)).toNat).fracImperv pz hz0
    rw [a0, a1, a2]
    have s2 := relerr_add r0 r1
    have s3 := relerr_add s2 r2
    have e1 : (project2.Subcatch
          (env.project_findObject project ObjectType.SUBCATCH (tok 0)).toNat).fracImperv
          * pz / 100
        + (project2.Subcatch
          (env.project_findObject project ObjectType.SUBCATCH (tok 0)).toNat).fracImperv
          * (1 - pz / 100)
        = (project2.Subcatch
          (env.project_findObject project ObjectType.SUBCATCH (tok 0)).toNat).fracImperv := by
      ring
    have e2 : |(project2.Subcatch
          (env.project_findObject project ObjectType.SUBCATCH (tok 0)).toNat).fracImperv|
          * (pz / 100)
        + |(project2.Subcatch
          (env.project_findObject project ObjectType.SUBCATCH (tok 0)).toNat).fracImperv|
          * (1 + pz / 100)
        = |(project2.Subcatch
          (env.project_findObject project ObjectType.SUBCATCH (tok 0)).toNat).fracImperv|
          * (1 + 2 * (pz / 100)) := by
      ring
    have e3 : (project2.Subcatch
          (env.project_findObject project ObjectType.SUBCATCH (tok 0)).toNat).fracImperv
        + (1 - (project2.Subcatch
          (env.project_findObject project ObjectType.SUBCATCH (tok 0)).toNat).fracImperv)
        = 1 := by
      ring
    rw [e1, e2] at s2 s3
    rw [e3] at s3
    exact ⟨s3, s2, hE _⟩

theorem C17_rounded_sum_counterexample :
    (sixPercentProject.Subcatch 0).fracImperv = roundDouble (6 / 100) ∧
    ∃ p2, Rounded.subcatch_readSubareaParams roundDouble sixPercentEnv sixPercentProject
        (fun _ => "") 7 = Except.ok p2 ∧
      (p2.Subcatch 0).fracImperv = 1080863910568919 / 18014398509481984 ∧
      (getSubarea p2 0 SubareaType.IMPERV0).fArea = 4150517416584649 / 1152921504606846976 ∧
      (getSubarea p2 0 SubareaType.IMPERV1).fArea = 4064048303739135 / 72057594037927936 ∧
      (getSubarea p2 0 SubareaType.PERV).fArea = 2116691824864133 / 2251799813685248 ∧
      (getSubarea p2 0 SubareaType.IMPERV0).fArea + (getSubarea p2 0 SubareaType.IMPERV1).fArea
        + (getSubarea p2 0 SubareaType.PERV).fArea < 1 ∧
      (getSubarea p2 0 SubareaType.IMPERV0).fArea + (getSubarea p2 0 SubareaType.IMPERV1).fArea
        < (p2.Subcatch 0).fracImperv ∧
      roundDouble (roundDouble ((getSubarea p2 0 SubareaType.IMPERV0).fArea
          + (getSubarea p2 0 SubareaType.IMPERV1).fArea)
        + (getSubarea p2 0 SubareaType.PERV).fArea) < 1 ∧
      roundDouble ((getSubarea p2 0 SubareaType.IMPERV0).fArea
          + (getSubarea p2 0 SubareaType.IMPERV1).fArea) < (p2.Subcatch 0).fracImperv := by
  have e0 : roundDouble (6 / 100) = 1080863910568919 / 18014398509481984 := by
    rw [roundDouble_eq_pos _ 8646911284551352 57 (by norm_num) (by norm_num) (by norm_num)
      (by norm_num)]
    norm_num
  have e1 : roundDouble (1080863910568919 / 18014398509481984 * 6)
      = 3242591731706757 / 9007199254740992 := by
    rw [roundDouble_eq_pos _ 6485183463413514 54 (by norm_num) (by norm_num) (by norm_num)
      (by norm_num)]
    norm_num
  have e2 : roundDouble (3242591731706757 / 9007199254740992 / 100)
      = 4150517416584649 / 1152921504606846976 := by
    rw [roundDouble_eq_pos _ 8301034833169298 61 (by norm_num) (by norm_num) (by norm_num)
      (by norm_num)]
    norm_num
  have e4 : roundDouble (1 - 1080863910568919 / 18014398509481984)
      = 2116691824864133 / 2251799813685248 := by
    rw [roundDouble_eq_tie _ 8466767299456532 53 (by norm_num) (by norm_num) (by norm_num)]
    norm_num
  have e5 : roundDouble (1080863910568919 / 18014398509481984
      * (2116691824864133 / 2251799813685248)) = 4064048303739135 / 72057594037927936 := by
    rw [roundDouble_eq_pos _ 8128096607478270 57 (by norm_num) (by norm_num) (by norm_num)
      (by norm_num)]
    norm_num
  have e6 : roundDouble (4150517416584649 / 1152921504606846976
      + 4064048303739135 / 72057594037927936) = 8646911284551351 / 144115188075855872 := by
    rw [roundDouble_eq_pos _ 8646911284551351 57 (by norm_num) (by norm_num) (by norm_num)
      (by norm_num)]
    norm_num
  have e7 : roundDouble (8646911284551351 / 144115188075855872
      + 2116691824864133 / 2251799813685248) = 9007199254740991 / 9007199254740992 := by
    rw [roundDouble_eq_pos _ 9007199254740991 53 (by norm_num) (by norm_num) (by norm_num)
      (by norm_num)]
    norm_num
  refine ⟨e0.symm, ?_⟩
  have h6 : ¬ ((6 : ℚ) < 0) := by norm_num
  cases hres : Rounded.subcatch_readSubareaParams roundDouble sixPercentEnv sixPercentProject
      (fun _ => "") 7 with
  | error e =>
    simp [Rounded.subcatch_readSubareaParams, readSubareaValues, sixPercentEnv, basicEnv,
      List.range_succ, List.range_zero, h6] at hres
  | ok p2 =>
    obtain ⟨pz, hz, _, hf, a0, a1, a2⟩ := rounded_readSubareaParams_fArea roundDouble
      sixPercentEnv sixPercentProject p2 (fun _ => "") 7 hres
    have hpz : pz = 6 := by
      have h2 : some (6 : ℚ) = some pz := hz
      injection h2 with h2
      exact h2.symm
    have hf0 : (p2.Subcatch 0).fracImperv = 1080863910568919 / 18014398509481984 := hf
    have b0 : (getSubarea p2 0 SubareaType.IMPERV0).fArea
        = 4150517416584649 / 1152921504606846976 := by
      refine a0.trans ?_
      rw [hpz]
      show roundDouble (roundDouble (1080863910568919 / 18014398509481984 * 6) / 100) = _
      rw [e1, e2]
    have b1 : (getSubarea p2 0 SubareaType.IMPERV1).fArea
        = 4064048303739135 / 72057594037927936 := by
      refine a1.trans ?_
      rw [hpz, e0]
      show roundDouble (1080863910568919 / 18014398509481984
        * roundDouble (1 - 1080863910568919 / 18014398509481984)) = _
      rw [e4, e5]
    have b2 : (getSubarea p2 0 SubareaType.PERV).fArea
        = 2116691824864133 / 2251799813685248 := by
      refine a2.trans ?_
      show roundDouble (1 - 1080863910568919 / 18014398509481984) = _
      rw [e4]
    refine ⟨p2, rfl, hf0, b0, b1, b2, ?_, ?_, ?_, ?_⟩
    · rw [b0, b1, b2]
      norm_num
    · rw [b0, b1, hf0]
      norm_num
    · rw [b0, b1, b2, e6, e7]
      norm_num
    · rw [b0, b1, hf0, e6]
      norm_num

theorem C17_fractions_as_computed_witness :
    ∃ pz, sixPercentEnv.getDouble "" = some pz ∧
      (getSubarea
          (Rounded.assignRouting roundDouble
            (Rounded.assignAreas roundDouble
              (Rounded.assignStorage roundDouble sixPercentEnv sixPercentProject 0
                (Function.update (Function.update (Function.update (Function.update
                  (Function.update (fun _ => 0) 0 6) 1 6) 2 6) 3 6) 4 6))
              0
              (Function.update (Function.update (Function.update (Function.update
                (Function.update (fun _ => 0) 0 6) 1 6) 2 6) 3 6) 4 6))
            0 0 1)
          0 SubareaType.PERV).fArea
        = roundDouble (1 - (sixPercentProject.Subcatch 0).fracImperv) :=
  let ⟨pz, hz, _, hf, _, _, a2, _⟩ :=
    C17_fractions_as_computed roundDouble sixPercentEnv sixPercentProject
      (Rounded.assignRouting roundDouble
        (Rounded.assignAreas roundDouble
          (Rounded.assignStorage roundDouble sixPercentEnv sixPercentProject 0
            (Function.update (Function.update (Function.update (Function.update
              (Function.update (fun _ => 0) 0 6) 1 6) 2 6) 3 6) 4 6))
          0
          (Function.update (Function.update (Function.update (Function.update
            (Function.update (fun _ => 0) 0 6) 1 6) 2 6) 3 6) 4 6))
        0 0 1)
      (fun _ => "") 7
      (by
        have h6 : ¬ ((6 : ℚ) < 0) := by norm_num
        simp [Rounded.subcatch_readSubareaParams, readSubareaValues, sixPercentEnv, basicEnv,
          List.range_succ, List.range_zero, h6])
  ⟨pz, hz, a2.trans (congrArg (fun v => roundDouble (1 - v)) hf)⟩



end Subcatch
